import Mathlib

/-!
# P25 trunking control channel: grants, registries, RF and network dispatch

A shallow embedding of `TrunkPacket` (file `p25/TrunkPacket.cpp`). The grant
scheduler: the free voice-channel list, the grant table, the per-grant timers,
the grant writer `writeRF_TSDU_Grant`, the release helper `releaseDstIdGrant`,
the periodic `clock` and the frame shaper entry points `writeRF_TSDU_SBF` and
`writeRF_TSDU_MBF` they write through. The registries: the unit registration
table, the group affiliation table and the status command, with the response
writers that maintain them. The dispatch of inbound RF TSDUs: `process`, its
pre-condition macros and one function per case of its switch. The network
inbound path `processNetwork` with the adjacent site tables, and the control
broadcasts of `queueRF_TSBK_Ctrl_MBF`. A second, small embedding follows the
first: the raw frame queue of the network layer (`network::RawFrameQueue`).

Conventions of the embedding.

* Map members are association lists `List (Nat × β)`, kept in the order in
  which the keys were first assigned; `tblAt` is `at` (with `none` for the
  thrown exception), `tblSet` is assignment through `operator[]`. The
  containers are declared in `TrunkPacket.h`, which is not part of the
  sources, so the order in which `begin() .. end()` visits them is not known:
  the statements on maps are on lookup and membership, and where the order
  shows in what is sent (the adjacent site broadcast) it is the parameter
  `AdjSiteWalk`.
  A real map never holds a key twice; theorems that depend on it assume that
  the key list has no repetition, which every operation preserves
  (`nodup_keys_run`).
* C++ member names lose their `m_` prefix.
* Effects on collaborators (codec, network, modem queue) are appended to the
  `events` trace of the state, in program order.
* Named constants of `P25Defines.h` and `Defines.h` (opcodes, reasons, RF and
  network states) are kept symbolic as enumeration constructors.
* The access control lists and the NID and TSBK decoders are not part of the
  sources: the ACL is a parameter (`AccessControl`) and an inbound frame
  carries what the decoders make of it (`RFFrame`, `NetFrame`).
* An early `return` out of the switch of `process` is the `some` of an
  `Option Bool` next to the state; `none` is a `break`.
-/

namespace p25

/-! ## Constants of `TrunkPacket.cpp` -/

/-- Adjacent site timer timeout, in seconds. -/
def ADJ_SITE_TIMER_TIMEOUT : Nat := 30

/-- Number of broadcast ticks an adjacent site survives without an update. -/
def ADJ_SITE_UPDATE_CNT : Nat := 5

/-- Number of TSBKs in a multi-block frame. -/
def TSBK_MBF_CNT : Nat := 3

/-- Grant timer timeout, in seconds. -/
def GRANT_TIMER_TIMEOUT : Nat := 15

/-- Modelled from the spec: the all-call talkgroup `P25_TGID_ALL` of
`P25Defines.h`, which the spec gives as `TGID_ALL` (0xFFFF). -/
def P25_TGID_ALL : Nat := 0xFFFF

/-- Modelled from the spec: the system unit ID `P25_WUID_SYS` of
`P25Defines.h`, which the spec gives as `WUID_SYS` (0xFFFFFC). -/
def P25_WUID_SYS : Nat := 0xFFFFFC

/-! ## Symbolic constants -/

/-- TSBK link control opcodes named by `TrunkPacket.cpp`. -/
inductive LCO where
  | TSBK_IOSP_GRP_VCH
  | TSBK_IOSP_UU_VCH
  | TSBK_IOSP_UU_ANS
  | TSBK_IOSP_TELE_INT_ANS
  | TSBK_IOSP_STS_UPDT
  | TSBK_IOSP_MSG_UPDT
  | TSBK_IOSP_CALL_ALRT
  | TSBK_IOSP_ACK_RSP
  | TSBK_IOSP_EXT_FNCT
  | TSBK_IOSP_GRP_AFF
  | TSBK_IOSP_U_REG
  | TSBK_ISP_CAN_SRV_REQ
  | TSBK_ISP_GRP_AFF_Q_RSP
  | TSBK_ISP_U_DEREG_REQ
  | TSBK_ISP_U_REG_REQ
  | TSBK_ISP_LOC_REG_REQ
  | TSBK_OSP_GRP_AFF_Q
  | TSBK_OSP_U_REG_CMD
  | TSBK_OSP_U_DEREG_ACK
  | TSBK_OSP_DENY_RSP
  | TSBK_OSP_QUE_RSP
  | TSBK_OSP_IDEN_UP
  | TSBK_OSP_IDEN_UP_VU
  | TSBK_OSP_NET_STS_BCAST
  | TSBK_OSP_RFSS_STS_BCAST
  | TSBK_OSP_ADJ_STS_BCAST
  | TSBK_OSP_SNDCP_CH_ANN
  | TSBK_OSP_MOT_GRG_ADD
  | TSBK_OSP_MOT_PSH_CCH
  | TSBK_OSP_MOT_CC_BSI
  deriving DecidableEq, Repr

/-- Values stored in the response field of a TSBK (`setResponse`): response
codes, deny reasons and queue reasons named by `TrunkPacket.cpp`. -/
inductive Response where
  | P25_RSP_ACCEPT
  | P25_RSP_DENY
  | P25_RSP_REFUSED
  | P25_ANS_RSP_PROCEED
  | P25_ANS_RSP_DENY
  | P25_ANS_RSP_WAIT
  | P25_DENY_RSN_PTT_COLLIDE
  | P25_DENY_RSN_REQ_UNIT_NOT_AUTH
  | P25_DENY_RSN_REQ_UNIT_NOT_VALID
  | P25_DENY_RSN_SYS_UNSUPPORTED_SVC
  | P25_DENY_RSN_TGT_GROUP_NOT_VALID
  | P25_DENY_RSN_TGT_UNIT_NOT_VALID
  | P25_DENY_RSN_TGT_UNIT_REFUSED
  | P25_QUE_RSN_CHN_RESOURCE_NOT_AVAIL
  | P25_QUE_RSN_TGT_UNIT_QUEUED
  deriving DecidableEq, Repr

/-- RF states of the repeater (`RPT_RF_STATE`); the grant writer tests
`RS_RF_LISTENING` and `RS_RF_DATA`. -/
inductive RPT_RF_STATE where
  | RS_RF_LISTENING
  | RS_RF_LATE_ENTRY
  | RS_RF_AUDIO
  | RS_RF_DATA
  | RS_RF_REJECTED
  | RS_RF_INVALID
  deriving DecidableEq, Repr

/-- Network states of the repeater (`RPT_NET_STATE`); the grant writer tests
`RS_NET_IDLE`. -/
inductive RPT_NET_STATE where
  | RS_NET_IDLE
  | RS_NET_AUDIO
  | RS_NET_DATA
  deriving DecidableEq, Repr

/-! ## Timer -/

/-- Modelled from the spec: the `Timer` class (`Timer.h` is not part of the
sources). The spec describes it as a monotonic countdown over integer ticks
with the states stopped, running and expired; `timeout` is the full period in
ticks, `remaining` the ticks left, `running` is false for a stopped timer. -/
structure Timer where
  ticksPerSec : Nat := 1000
  timeout : Nat := 0
  remaining : Nat := 0
  running : Bool := false
  deriving DecidableEq, Repr

namespace Timer

/-- Modelled from the spec: `Timer(ticksPerSec, secs)`, a stopped timer whose
period is `secs` seconds. -/
def create (ticksPerSec secs : Nat) : Timer :=
  { ticksPerSec := ticksPerSec, timeout := secs * ticksPerSec, remaining := 0, running := false }

/-- Modelled from the spec: `Timer::setTimeout(secs)`. -/
def setTimeout (t : Timer) (secs : Nat) : Timer :=
  { t with timeout := secs * t.ticksPerSec }

/-- Modelled from the spec: `Timer::start()` resets the countdown to the full
timeout and runs it. -/
def start (t : Timer) : Timer :=
  { t with remaining := t.timeout, running := true }

/-- Modelled from the spec: `Timer::stop()`. -/
def stop (t : Timer) : Timer :=
  { t with remaining := 0, running := false }

/-- Modelled from the spec: `Timer::clock(ticks)` decrements a running timer,
stopping at zero. -/
def clock (t : Timer) (ticks : Nat) : Timer :=
  if t.running then { t with remaining := t.remaining - ticks } else t

/-- Modelled from the spec: `Timer::isRunning()`. -/
def isRunning (t : Timer) : Bool := t.running

/-- Modelled from the spec: `Timer::hasExpired()`, a running timer whose
countdown reached zero. -/
def hasExpired (t : Timer) : Bool := t.running && t.remaining == 0

end Timer

/-- Manufacturer IDs named by `TrunkPacket.cpp`; `other` stands for any
further value a decoded TSBK may carry. -/
inductive MFId where
  | P25_MFG_STANDARD
  | P25_MFG_MOT
  | other (id : Nat)
  deriving DecidableEq, Repr

/-- Extended function opcodes named by `TrunkPacket.cpp`; `other` stands for
any further value a decoded TSBK may carry. -/
inductive ExtFunc where
  | P25_EXT_FNCT_CHECK
  | P25_EXT_FNCT_UNINHIBIT
  | P25_EXT_FNCT_INHIBIT
  | P25_EXT_FNCT_CHECK_ACK
  | P25_EXT_FNCT_UNINHIBIT_ACK
  | P25_EXT_FNCT_INHIBIT_ACK
  | other (func : Nat)
  deriving DecidableEq, Repr

/-- Data unit IDs of the network identifier; `process` acts on a TSDU only. -/
inductive DUID where
  | P25_DUID_TSDU
  | other (duid : Nat)
  deriving DecidableEq, Repr

/-- The CFVA bit field of an adjacent site broadcast. The masks
`P25_CFVA_CONV`, `P25_CFVA_FAILURE`, `P25_CFVA_VALID` and `P25_CFVA_NETWORK`
of `P25Defines.h` are kept symbolic, as independent bits: one flag per mask,
and `cfva |= mask` sets the flag of the mask. -/
structure CFVA where
  conv : Bool := false
  failure : Bool := false
  valid : Bool := false
  network : Bool := false
  deriving DecidableEq, Repr

/-- An entry of the channel identity table (`lookups::IdenTable`, whose code
is not part of the sources): the fields `TrunkPacket.cpp` reads. -/
structure IdenTable where
  channelId : Nat := 0
  baseFrequency : Nat := 0
  deriving DecidableEq, Repr

/-- Modem tags of `Defines.h` that prefix an outgoing frame. -/
inductive ModemTag where
  | TAG_DATA
  | TAG_EOT
  deriving DecidableEq, Repr

/-- Frame lengths of `P25Defines.h`, in bytes, named by the frame shaper. -/
inductive FrameLength where
  | P25_TSDU_FRAME_LENGTH_BYTES
  | P25_TSDU_TRIPLE_FRAME_LENGTH_BYTES
  deriving DecidableEq, Repr

/-! ## Maps -/

/-- Lookup `m.at(key)`; `none` stands for the `std::out_of_range` exception. -/
def tblAt {β : Type} : List (Nat × β) → Nat → Option β
  | [], _ => none
  | (k, v) :: m, key => if k = key then some v else tblAt m key

/-- Assignment `m[key] = v`: overwrite the entry of `key`, or add one. -/
def tblSet {β : Type} : List (Nat × β) → Nat → β → List (Nat × β)
  | [], key, v => [(key, v)]
  | (k, w) :: m, key, v => if k = key then (k, v) :: m else (k, w) :: tblSet m key v

/-- Keys of a map in iteration order. -/
def tblKeys {β : Type} (m : List (Nat × β)) : List Nat := m.map Prod.fst

/-- Read access `m[key]` on the timer map; an absent key reads as a
default-constructed (stopped) timer. -/
def timerAt (m : List (Nat × Timer)) (key : Nat) : Timer :=
  (tblAt m key).getD {}

/-- Removal `m.erase(key)` of the entry of `key`, if any. -/
def tblErase {β : Type} (m : List (Nat × β)) (key : Nat) : List (Nat × β) :=
  m.filter (fun e => decide (e.1 ≠ key))

/-! ## Data model -/

/-- Fields of `lc::TSBK` read or written by the grant path. -/
structure TSBK where
  lco : LCO := LCO.TSBK_IOSP_GRP_VCH
  lastBlock : Bool := false
  srcId : Nat := 0
  dstId : Nat := 0
  grpVchNo : Nat := 0
  service : LCO := LCO.TSBK_IOSP_GRP_VCH
  response : Response := Response.P25_RSP_ACCEPT
  siteChCnt : Nat := 0
  mfId : MFId := MFId.P25_MFG_STANDARD
  aiv : Bool := false
  group : Bool := true
  status : Nat := 0
  extendedFunction : ExtFunc := ExtFunc.P25_EXT_FNCT_CHECK
  sysId : Nat := 0
  vendorSkip : Bool := false
  patchSuperGroupId : Nat := 0
  adjSiteCFVA : CFVA := {}
  adjSiteSysId : Nat := 0
  adjSiteRFSSId : Nat := 0
  adjSiteId : Nat := 0
  adjSiteChnId : Nat := 0
  adjSiteChnNo : Nat := 0
  siteIdenEntry : IdenTable := {}
  deriving DecidableEq, Repr

/-- Site identity record `SiteData`. -/
structure SiteData where
  netId : Nat := 0
  sysId : Nat := 0
  rfssId : Nat := 0
  siteId : Nat := 0
  lra : Nat := 0
  channelId : Nat := 0
  channelNo : Nat := 0
  deriving DecidableEq, Repr

/-- Frames handed to the modem transmit queue. -/
inductive Frame where
  -- a single-block TSDU carrying one TSBK
  | sbf (tsbk : TSBK)
  -- a triple TSDU carrying the staged blocks of the multi-block buffer
  | mbf (blocks : List (Option TSBK))
  deriving DecidableEq, Repr

/-- Effects of the engine on its collaborators, in program order. -/
inductive Event where
  -- writeRF_TSDU_SBF(noNetwork, clearBeforeWrite) built a single-block TSDU
  -- from the RF TSBK
  | tsdu (tsbk : TSBK) (noNetwork clearBeforeWrite : Bool)
  -- m_network->writeP25TSDU(m_rfTSBK, data)
  | writeP25TSDU (tsbk : TSBK)
  -- m_p25->m_modem->clearP25Data(); m_p25->m_queue.clear()
  | clearP25Data
  -- m_p25->writeRF_Preamble()
  | writeRF_Preamble
  -- m_p25->writeQueueRF(data, length)
  | writeQueueRF (frame : Frame)
  -- m_p25->m_queue.clear()
  | clearQueue
  -- m_p25->writeRF_Nulls()
  | writeRF_Nulls
  -- m_p25->writeQueueNet(buffer, length)
  | writeQueueNet (frame : Frame)
  -- m_network->resetP25()
  | resetP25
  deriving DecidableEq, Repr

/-- What the trunk engine observes of its owning `Control` (`m_p25`). -/
structure Control where
  control : Bool := true
  duplex : Bool := true
  continuousControl : Bool := false
  ccRunning : Bool := false
  rfState : RPT_RF_STATE := RPT_RF_STATE.RS_RF_LISTENING
  netState : RPT_NET_STATE := RPT_NET_STATE.RS_NET_IDLE
  rfLastDstId : Nat := 0
  netLastDstId : Nat := 0
  networkTGHang : Timer := {}
  rfTimeout : Timer := {}
  inhibitIllegal : Bool := false
  idenTable : List IdenTable := []
  deriving DecidableEq, Repr

/-- Modelled from the spec: `Control::checkAndReject()` (`p25/Control.cpp` is
not part of the sources). The spec says a denial "resets engine reject state":
a rejected RF state returns to listening and nothing else changes. -/
def Control.checkAndReject (c : Control) : Control :=
  if c.rfState = RPT_RF_STATE.RS_RF_REJECTED then
    { c with rfState := RPT_RF_STATE.RS_RF_LISTENING }
  else c

/-- State of the trunk engine `TrunkPacket`. The counters `voiceChCnt` and
`voiceGrantChCnt` are declared in `TrunkPacket.h`, which is not part of the
sources; they are unbounded naturals here, and the one place where the source
fixes a width, the `uint8_t` parameter of `setSiteChCnt`, truncates. -/
structure TrunkPacket where
  p25 : Control := {}
  network : Bool := false
  rfTSBK : TSBK := {}
  netTSBK : TSBK := {}
  rfMBF : List (Nat × TSBK) := []
  mbfCnt : Nat := 0
  voiceChTable : List Nat := []
  adjSiteTable : List (Nat × SiteData) := []
  adjSiteUpdateCnt : List (Nat × Nat) := []
  grantChTable : List (Nat × Nat) := []
  grantTimers : List (Nat × Timer) := []
  voiceChCnt : Nat := 1
  voiceGrantChCnt : Nat := 0
  adjSiteUpdateTimer : Timer := {}
  adjSiteUpdateInterval : Nat := ADJ_SITE_TIMER_TIMEOUT
  skipSBFPreamble : Bool := false
  events : List Event := []
  patchSuperGroup : Nat := 0xFFFF
  verifyAff : Bool := false
  verifyReg : Bool := false
  unitRegTable : List Nat := []
  grpAffTable : List (Nat × Nat) := []
  noStatusAck : Bool := false
  noMessageAck : Bool := true
  statusCmdEnable : Bool := false
  statusRadioCheck : Nat := 0
  statusRadioInhibit : Nat := 0
  statusRadioUninhibit : Nat := 0
  statusRadioForceReg : Nat := 0
  statusRadioForceDereg : Nat := 0
  statusSrcId : Nat := 0
  statusValue : Nat := 0
  siteData : SiteData := {}
  mbfIdenCnt : Nat := 0
  mbfAdjSSCnt : Nat := 0
  deriving DecidableEq, Repr

/-- The access control lists `acl::AccessControl`, whose code is not part of
the sources: the two validations the engine calls, as arbitrary predicates. -/
structure AccessControl where
  validateSrcId : Nat → Bool
  validateTGId : Nat → Bool

/-- An inbound RF frame as `process` sees it through the NID and TSBK decoders,
whose code is not part of the sources: whether the NID decoded, its DUID,
whether `m_rfTSBK.decode` succeeded, the content of `m_rfTSBK` after `reset()`
and `decode()`, and the content of `m_netTSBK` after `reset()`. -/
structure RFFrame where
  nidValid : Bool := true
  duid : DUID := DUID.P25_DUID_TSDU
  decoded : Bool := true
  tsbk : TSBK := {}
  netTSBK : TSBK := {}
  deriving DecidableEq, Repr

/-- The voice-channel pool of the engine: free list, grant table, grant
timers and the two channel counters. -/
structure GrantPool where
  voiceChTable : List Nat
  grantChTable : List (Nat × Nat)
  grantTimers : List (Nat × Timer)
  voiceChCnt : Nat
  voiceGrantChCnt : Nat
  deriving DecidableEq, Repr

/-- Operations that reach the voice-channel pool. -/
inductive Op where
  -- an inbound request decoded into m_rfTSBK, then writeRF_TSDU_Grant(grp, skip)
  | grant (tsbk : TSBK) (grp skip : Bool)
  -- releaseDstIdGrant(dstId, releaseAll)
  | release (dstId : Nat) (releaseAll : Bool)
  -- clock(ms)
  | clock (ms : Nat)
  -- the owning Control moves to another RF / network state
  | peer (p25 : Control)
  deriving DecidableEq, Repr

namespace TrunkPacket

/-- The pool part of an engine state. -/
def pool (s : TrunkPacket) : GrantPool :=
  { voiceChTable := s.voiceChTable, grantChTable := s.grantChTable,
    grantTimers := s.grantTimers, voiceChCnt := s.voiceChCnt,
    voiceGrantChCnt := s.voiceGrantChCnt }

/-- Append one effect to the trace. -/
def emit (s : TrunkPacket) (e : Event) : TrunkPacket :=
  { s with events := s.events ++ [e] }

/-- The TSBK of a frame-shaper event. -/
def eventTSBK : Event → Option TSBK
  | Event.tsdu t _ _ => some t
  | _ => none

/-- TSBKs written through the frame shaper so far, oldest first. -/
def emitted (s : TrunkPacket) : List TSBK := s.events.filterMap eventTSBK

/-- Sets the total number of channels at the site (`uint8_t chCnt`). -/
def setSiteChCnt (s : TrunkPacket) (chCnt : Nat) : TrunkPacket :=
  { s with
    rfTSBK := { s.rfTSBK with siteChCnt := chCnt % 256 },
    netTSBK := { s.netTSBK with siteChCnt := chCnt % 256 } }

/-- Helper to determine if the channel number is busy. -/
def isChBusy (s : TrunkPacket) (chNo : Nat) : Bool :=
  if chNo = 0 then false
  else s.grantChTable.any (fun it => it.2 == chNo)

/-- Helper to determine if the destination ID is already granted. -/
def hasDstIdGranted (s : TrunkPacket) (dstId : Nat) : Bool :=
  if dstId = 0 then false
  else
    match tblAt s.grantChTable dstId with
    | some chNo => if chNo ≠ 0 then true else false
    | none => false

/-- Helper to start the destination ID grant timer. -/
def touchDstIdGrant (s : TrunkPacket) (dstId : Nat) : TrunkPacket :=
  if dstId = 0 then s
  else if s.hasDstIdGranted dstId then
    { s with grantTimers := tblSet s.grantTimers dstId (timerAt s.grantTimers dstId).start }
  else s

/-- The last block of `releaseDstIdGrant`: release the grant of `dstId` if it
is granted. -/
def releaseGranted (s : TrunkPacket) (dstId : Nat) : TrunkPacket :=
  if s.hasDstIdGranted dstId then
    let chNo := (tblAt s.grantChTable dstId).getD 0
    let s := { s with
      grantChTable := tblSet s.grantChTable dstId 0,
      voiceChTable := s.voiceChTable ++ [chNo] }
    let s :=
      if s.voiceGrantChCnt > 0 then
        setSiteChCnt { s with voiceGrantChCnt := s.voiceGrantChCnt - 1 }
          (s.voiceChCnt + (s.voiceGrantChCnt - 1))
      else
        setSiteChCnt { s with voiceGrantChCnt := 0 } s.voiceChCnt
    { s with grantTimers := tblSet s.grantTimers dstId (timerAt s.grantTimers dstId).stop }
  else s

/-- The call `releaseDstIdGrant(dstId, false)`, as made by the release-all
loop and by `clock`. -/
def releaseGrant (s : TrunkPacket) (dstId : Nat) : TrunkPacket :=
  if dstId = 0 then s else s.releaseGranted dstId

/-- Helper to release the channel grant for the destination ID. -/
def releaseDstIdGrant (s : TrunkPacket) (dstId : Nat) (releaseAll : Bool) : TrunkPacket :=
  if dstId = 0 ∧ releaseAll = false then s
  else if dstId = 0 ∧ releaseAll = true then
    let gntsToRel := tblKeys s.grantChTable
    gntsToRel.foldl releaseGrant s
  else s.releaseGranted dstId

/-- The first loop of `clock`: clock the timer of every key of the grant
table, in order, and collect the keys whose timer is running and expired. -/
def clockGrantTimers (ms : Nat) :
    List Nat → List (Nat × Timer) → List Nat → List (Nat × Timer) × List Nat
  | [], timers, gntsToRel => (timers, gntsToRel)
  | dstId :: rest, timers, gntsToRel =>
    let t := (timerAt timers dstId).clock ms
    let timers := tblSet timers dstId t
    if t.isRunning && t.hasExpired then
      clockGrantTimers ms rest timers (gntsToRel ++ [dstId])
    else
      clockGrantTimers ms rest timers gntsToRel

/-- Assignment to `m_adjSiteTable` and `m_adjSiteUpdateCnt`. -/
def setAdjSites (s : TrunkPacket) (table : List (Nat × SiteData)) (cnt : List (Nat × Nat)) :
    TrunkPacket :=
  { s with adjSiteTable := table, adjSiteUpdateCnt := cnt }

/-- The adjacent-site loop of `clock`: decrement every update counter
(`uint8_t`, stopping at zero); reading `m_adjSiteTable[siteId]` for a site
that reached zero creates its entry if it is absent. -/
def clockAdjSites : List (Nat × Nat) → TrunkPacket → TrunkPacket
  | [], s => s
  | (key, cnt) :: rest, s =>
    let siteId := key % 256
    let updateCnt := cnt % 256
    let updateCnt := if updateCnt > 0 then updateCnt - 1 else updateCnt
    let table :=
      if updateCnt = 0 then
        match tblAt s.adjSiteTable siteId with
        | some _ => s.adjSiteTable
        | none => tblSet s.adjSiteTable siteId {}
      else s.adjSiteTable
    clockAdjSites rest (s.setAdjSites table (tblSet s.adjSiteUpdateCnt siteId updateCnt))

/-- Assignment to `m_grantTimers`. -/
def setGrantTimers (s : TrunkPacket) (timers : List (Nat × Timer)) : TrunkPacket :=
  { s with grantTimers := timers }

/-- Assignment to `m_adjSiteUpdateTimer`. -/
def setAdjSiteUpdateTimer (s : TrunkPacket) (t : Timer) : TrunkPacket :=
  { s with adjSiteUpdateTimer := t }

/-- The end of `clock`: clock the adjacent site update timer and, when it has
expired, age the adjacent sites and restart it. -/
def clockAdjSiteUpdateTimer (s : TrunkPacket) (ms : Nat) : TrunkPacket :=
  let s := s.setAdjSiteUpdateTimer (s.adjSiteUpdateTimer.clock ms)
  if s.adjSiteUpdateTimer.isRunning && s.adjSiteUpdateTimer.hasExpired then
    let s := clockAdjSites s.adjSiteUpdateCnt s
    s.setAdjSiteUpdateTimer (s.adjSiteUpdateTimer.setTimeout s.adjSiteUpdateInterval).start
  else s

/-- Updates the processor by the passed number of milliseconds. -/
def clock (s : TrunkPacket) (ms : Nat) : TrunkPacket :=
  if s.p25.control then
    let r := clockGrantTimers ms (tblKeys s.grantChTable) s.grantTimers []
    let s := s.setGrantTimers r.1
    let s := r.2.foldl releaseGrant s
    s.clockAdjSiteUpdateTimer ms
  else s

/-- Write data processed from RF to the network. -/
def writeNetworkRF (s : TrunkPacket) (data : TSBK) (autoReset : Bool) : TrunkPacket :=
  if s.network = false then s
  else if s.p25.rfTimeout.isRunning && s.p25.rfTimeout.hasExpired then s
  else
    let s := s.emit (Event.writeP25TSDU data)
    if autoReset then s.emit Event.resetP25 else s

/-- Blocks `0 .. n-1` of the multi-block buffer; a block never written reads
as `none` (all zero). -/
def mbfBlocks (buf : List (Nat × TSBK)) (n : Nat) : List (Option TSBK) :=
  (List.range n).map (fun i => tblAt buf i)

/-- Assignment to `m_rfTSBK`. -/
def setRfTSBK (s : TrunkPacket) (t : TSBK) : TrunkPacket :=
  { s with rfTSBK := t }

/-- Assignment to `m_netTSBK`. -/
def setNetTSBK (s : TrunkPacket) (t : TSBK) : TrunkPacket :=
  { s with netTSBK := t }

/-- Assignment `m_rfTSBK.setLastBlock(b)`. -/
def setLastBlock (s : TrunkPacket) (b : Bool) : TrunkPacket :=
  s.setRfTSBK { s.rfTSBK with lastBlock := b }

/-- Assignment to the multi-block buffer `m_rfMBF` and its cursor `m_mbfCnt`. -/
def setMBF (s : TrunkPacket) (buf : List (Nat × TSBK)) (cnt : Nat) : TrunkPacket :=
  { s with rfMBF := buf, mbfCnt := cnt }

/-- Assignment to `m_skipSBFPreamble`. -/
def setSkipSBFPreamble (s : TrunkPacket) (b : Bool) : TrunkPacket :=
  { s with skipSBFPreamble := b }

/-- Helper to write a multi-block P25 TSDU packet. -/
def writeRF_TSDU_MBF (s : TrunkPacket) (clearBeforeWrite : Bool) : TrunkPacket :=
  if s.p25.duplex = false then s.setMBF [] 0
  else
    let s :=
      if s.mbfCnt = 0 then
        s.setMBF (s.rfMBF.filter (fun e => decide (TSBK_MBF_CNT ≤ e.1))) s.mbfCnt
      else s
    if s.mbfCnt + 1 = TSBK_MBF_CNT then
      let s := s.setLastBlock true
      let s := s.setMBF (tblSet s.rfMBF s.mbfCnt s.rfTSBK) s.mbfCnt
      let tsdu := mbfBlocks s.rfMBF (s.mbfCnt + 1)
      let s := if clearBeforeWrite then s.emit Event.clearP25Data else s
      let s := s.emit (Event.writeQueueRF (Frame.mbf tsdu))
      s.setMBF [] 0
    else
      let s := s.setLastBlock false
      s.setMBF (tblSet s.rfMBF s.mbfCnt s.rfTSBK) (s.mbfCnt + 1)

/-- The direct path of `writeRF_TSDU_SBF`, taken when no control channel is
running: clear the queue if asked, send a preamble unless it is skipped, and
queue the frame in duplex mode. -/
def queueSBF (s : TrunkPacket) (data : TSBK) (clearBeforeWrite : Bool) : TrunkPacket :=
  let s := if clearBeforeWrite then s.emit Event.clearP25Data else s
  let s := if s.skipSBFPreamble = false then s.emit Event.writeRF_Preamble else s
  let s := s.setSkipSBFPreamble false
  if s.p25.duplex then s.emit (Event.writeQueueRF (Frame.sbf data)) else s

/-- Helper to write a single-block P25 TSDU packet. -/
def writeRF_TSDU_SBF (s : TrunkPacket) (noNetwork clearBeforeWrite : Bool) : TrunkPacket :=
  let s := s.setLastBlock true
  let data := s.rfTSBK
  let s := s.emit (Event.tsdu data noNetwork clearBeforeWrite)
  let s := if noNetwork = false then s.writeNetworkRF data true else s
  if s.p25.continuousControl then s.writeRF_TSDU_MBF clearBeforeWrite
  else if s.p25.ccRunning then s.writeRF_TSDU_MBF clearBeforeWrite
  else s.queueSBF data clearBeforeWrite

/-- Assignment `m_rfTSBK.setLCO(lco)`. -/
def setLCO (s : TrunkPacket) (lco : LCO) : TrunkPacket :=
  s.setRfTSBK { s.rfTSBK with lco := lco }

/-- Helper to write a deny packet. -/
def writeRF_TSDU_Deny (s : TrunkPacket) (reason : Response) (service : LCO) : TrunkPacket :=
  let lco := s.rfTSBK.lco
  let s := s.setRfTSBK { s.rfTSBK with
    lco := LCO.TSBK_OSP_DENY_RSP, service := service, response := reason }
  let s := s.writeRF_TSDU_SBF false false
  s.setLCO lco

/-- Helper to write a queue packet. -/
def writeRF_TSDU_Queue (s : TrunkPacket) (reason : Response) (service : LCO) : TrunkPacket :=
  let lco := s.rfTSBK.lco
  let s := s.setRfTSBK { s.rfTSBK with
    lco := LCO.TSBK_OSP_QUE_RSP, service := service, response := reason }
  let s := s.writeRF_TSDU_SBF false false
  s.setLCO lco

/-- Call of `m_p25->checkAndReject()`. -/
def checkAndReject (s : TrunkPacket) : TrunkPacket :=
  { s with p25 := s.p25.checkAndReject }

/-- The end of `writeRF_TSDU_Grant`: transmit the group or private grant and
restore the opcode saved on entry. -/
def transmitGrant (s : TrunkPacket) (grp : Bool) (lco : LCO) : Bool × TrunkPacket :=
  if grp then
    let s := s.setLCO LCO.TSBK_IOSP_GRP_VCH
    let s := s.writeRF_TSDU_SBF true true
    (true, s.setLCO lco)
  else
    let s := s.setLCO LCO.TSBK_IOSP_UU_VCH
    let s := s.writeRF_TSDU_SBF true true
    (true, s.setLCO lco)

/-- Helper to write a grant packet. -/
def writeRF_TSDU_Grant (s : TrunkPacket) (grp skip : Bool) : Bool × TrunkPacket :=
  let lco := s.rfTSBK.lco
  if s.rfTSBK.dstId = P25_TGID_ALL then (true, s)
  else if skip = false then
    if s.p25.rfState ≠ RPT_RF_STATE.RS_RF_LISTENING ∧ s.p25.rfState ≠ RPT_RF_STATE.RS_RF_DATA then
      let s := s.writeRF_TSDU_Deny Response.P25_DENY_RSN_PTT_COLLIDE
        (if grp then LCO.TSBK_IOSP_GRP_VCH else LCO.TSBK_IOSP_UU_VCH)
      let s := s.checkAndReject
      (false, s.setLCO lco)
    else if s.p25.netState ≠ RPT_NET_STATE.RS_NET_IDLE ∧ s.rfTSBK.dstId = s.p25.netLastDstId then
      let s := s.writeRF_TSDU_Deny Response.P25_DENY_RSN_PTT_COLLIDE
        (if grp then LCO.TSBK_IOSP_GRP_VCH else LCO.TSBK_IOSP_UU_VCH)
      let s := s.checkAndReject
      (false, s.setLCO lco)
    else if s.p25.rfLastDstId ≠ 0 ∧ (s.p25.rfLastDstId ≠ s.rfTSBK.dstId ∧
        (s.p25.networkTGHang.isRunning = true ∧ s.p25.networkTGHang.hasExpired = false)) then
      (false, s.setLCO lco)
    else if s.hasDstIdGranted s.rfTSBK.dstId = false then
      match s.voiceChTable with
      | [] =>
        if grp then
          let s := s.writeRF_TSDU_Queue Response.P25_QUE_RSN_CHN_RESOURCE_NOT_AVAIL
            LCO.TSBK_IOSP_GRP_VCH
          let s := s.checkAndReject
          (false, s.setLCO lco)
        else
          let s := s.writeRF_TSDU_Queue Response.P25_QUE_RSN_CHN_RESOURCE_NOT_AVAIL
            LCO.TSBK_IOSP_UU_VCH
          let s := s.checkAndReject
          (false, s.setLCO lco)
      | chNo :: _ =>
        let s := { s with
          voiceChTable := s.voiceChTable.erase chNo,
          grantChTable := tblSet s.grantChTable s.rfTSBK.dstId chNo,
          rfTSBK := { s.rfTSBK with grpVchNo := chNo } }
        let timer := (Timer.create 1000 GRANT_TIMER_TIMEOUT).start
        let s := { s with
          grantTimers := tblSet s.grantTimers s.rfTSBK.dstId timer,
          voiceGrantChCnt := s.voiceGrantChCnt + 1 }
        let s := s.setSiteChCnt (s.voiceChCnt + s.voiceGrantChCnt)
        s.transmitGrant grp lco
    else
      let chNo := (tblAt s.grantChTable s.rfTSBK.dstId).getD 0
      let s := { s with rfTSBK := { s.rfTSBK with grpVchNo := chNo } }
      let timer := (timerAt s.grantTimers s.rfTSBK.dstId).start
      let s := { s with grantTimers := tblSet s.grantTimers s.rfTSBK.dstId timer }
      s.transmitGrant grp lco
  else s.transmitGrant grp lco

/-- One operation on the engine. -/
def step (s : TrunkPacket) : Op → TrunkPacket
  | Op.grant tsbk grp skip => ((s.setRfTSBK tsbk).writeRF_TSDU_Grant grp skip).2
  | Op.release dstId releaseAll => s.releaseDstIdGrant dstId releaseAll
  | Op.clock ms => s.clock ms
  | Op.peer p25 => { s with p25 := p25 }

/-- A sequence of operations, first to last. -/
def run (s : TrunkPacket) (ops : List Op) : TrunkPacket := ops.foldl step s

/-- Channel numbers held by the grant table: the non-zero values. -/
def grantedChannels (s : TrunkPacket) : List Nat :=
  (s.grantChTable.map Prod.snd).filter (fun c => decide (c ≠ 0))

/-- A grant request names a destination other than zero; any other
operation passes. -/
def nonzeroDst : Op → Bool
  | Op.grant tsbk _ _ => decide (tsbk.dstId ≠ 0)
  | _ => true

/-- The grant table and the free list only hold channels of `chs`, and a key
of the grant table that maps to zero has a stopped timer. -/
def GrantInv (chs : List Nat) (s : TrunkPacket) : Prop :=
  (∀ c ∈ s.voiceChTable, c ∈ chs) ∧
  (∀ k v, tblAt s.grantChTable k = some v → v ≠ 0 → v ∈ chs) ∧
  (∀ k, tblAt s.grantChTable k = some 0 → (timerAt s.grantTimers k).isRunning = false)

/-- Destinations of the grant table that are granted, in iteration order. -/
def grantedDsts (s : TrunkPacket) : List Nat :=
  (tblKeys s.grantChTable).filter (fun d => s.hasDstIdGranted d)

/-- Every place a channel number can be: the free list, then the grants. -/
def channels (s : TrunkPacket) : List Nat := s.voiceChTable ++ s.grantedChannels

/-! ## Registries, status command and response writers -/

/-- Assignment to `m_p25->m_rfState`. -/
def setRfState (s : TrunkPacket) (st : RPT_RF_STATE) : TrunkPacket :=
  { s with p25 := { s.p25 with rfState := st } }

/-- Assignment to the unit registration table `m_unitRegTable`. -/
def setUnitRegTable (s : TrunkPacket) (t : List Nat) : TrunkPacket :=
  { s with unitRegTable := t }

/-- Assignment to the group affiliation table `m_grpAffTable`. -/
def setGrpAffTable (s : TrunkPacket) (t : List (Nat × Nat)) : TrunkPacket :=
  { s with grpAffTable := t }

/-- Assignment to the status command pair `m_statusSrcId`, `m_statusValue`. -/
def setStatus (s : TrunkPacket) (srcId value : Nat) : TrunkPacket :=
  { s with statusSrcId := srcId, statusValue := value }

/-- Helper to determine if the source ID has affiliated to the group
destination ID. -/
def hasSrcIdGrpAff (s : TrunkPacket) (srcId dstId : Nat) : Bool :=
  match tblAt s.grpAffTable srcId with
  | some tblDstId => if tblDstId = dstId then true else false
  | none => false

/-- Helper to determine if the source ID has unit registered. -/
def hasSrcIdUnitReg (s : TrunkPacket) (srcId : Nat) : Bool :=
  if srcId ∈ s.unitRegTable then true else false

/-- Resets the state of the status commands. -/
def resetStatusCommand (s : TrunkPacket) : TrunkPacket :=
  if s.statusCmdEnable then s.setStatus 0 0 else s

/-- Overload `resetStatusCommand(const lc::TSBK& tsbk)`: the opcode tested is
that of `m_rfTSBK`; the argument is not read. -/
def resetStatusCommandTSBK (s : TrunkPacket) (_tsbk : TSBK) : TrunkPacket :=
  if s.statusCmdEnable = true ∧ (s.rfTSBK.lco ≠ LCO.TSBK_IOSP_CALL_ALRT ∧
      s.rfTSBK.lco ≠ LCO.TSBK_IOSP_EXT_FNCT) then
    s.resetStatusCommand
  else s

/-- Helper to setup and preprocess the status command data. -/
def preprocessStatusCommand (s : TrunkPacket) : TrunkPacket :=
  if s.statusCmdEnable then
    let s := s.setStatus s.rfTSBK.srcId s.rfTSBK.status
    if s.statusValue ≠ 0 then
      if s.statusValue = s.statusRadioCheck ∨ s.statusValue = s.statusRadioInhibit ∨
          s.statusValue = s.statusRadioUninhibit ∨ s.statusValue = s.statusRadioForceReg ∨
          s.statusValue = s.statusRadioForceDereg then
        s
      else s.resetStatusCommand
    else s
  else s

/-- Helper to write a call alert packet. -/
def writeRF_TSDU_Call_Alrt (s : TrunkPacket) (srcId dstId : Nat) : TrunkPacket :=
  let s := s.setRfTSBK { s.rfTSBK with
    lco := LCO.TSBK_IOSP_CALL_ALRT, srcId := srcId, dstId := dstId }
  s.writeRF_TSDU_SBF false false

/-- Helper to write a extended function packet. -/
def writeRF_TSDU_Ext_Func (s : TrunkPacket) (func : ExtFunc) (arg dstId : Nat) : TrunkPacket :=
  let lco := s.rfTSBK.lco
  let mfId := s.rfTSBK.mfId
  let s := s.setRfTSBK { s.rfTSBK with
    mfId := MFId.P25_MFG_STANDARD, lco := LCO.TSBK_IOSP_EXT_FNCT, extendedFunction := func,
    srcId := arg, dstId := dstId }
  let s := s.writeRF_TSDU_SBF false false
  s.setRfTSBK { s.rfTSBK with lco := lco, mfId := mfId }

/-- Helper to write a group affiliation query packet. -/
def writeRF_TSDU_Grp_Aff_Q (s : TrunkPacket) (dstId : Nat) : TrunkPacket :=
  let s := s.setRfTSBK { s.rfTSBK with
    lco := LCO.TSBK_OSP_GRP_AFF_Q, srcId := P25_WUID_SYS, dstId := dstId }
  s.writeRF_TSDU_SBF true false

/-- Helper to write a unit registration command packet. -/
def writeRF_TSDU_U_Reg_Cmd (s : TrunkPacket) (dstId : Nat) : TrunkPacket :=
  let s := s.setRfTSBK { s.rfTSBK with
    lco := LCO.TSBK_OSP_U_REG_CMD, srcId := P25_WUID_SYS, dstId := dstId }
  s.writeRF_TSDU_SBF true false

/-- Helper to write a unit to unit answer request packet. -/
def writeRF_TSDU_UU_Ans_Req (s : TrunkPacket) (srcId dstId : Nat) : TrunkPacket :=
  let lco := s.rfTSBK.lco
  let s := s.setRfTSBK { s.rfTSBK with
    lco := LCO.TSBK_IOSP_UU_ANS, srcId := srcId, dstId := dstId, vendorSkip := true }
  let s := s.writeRF_TSDU_SBF false false
  s.setRfTSBK { s.rfTSBK with lco := lco, vendorSkip := false }

/-- Helper to write a acknowledge packet. The `srcId` argument is only
logged. -/
def writeRF_TSDU_ACK_FNE (s : TrunkPacket) (_srcId : Nat) (service : LCO) (noNetwork : Bool) :
    TrunkPacket :=
  let lco := s.rfTSBK.lco
  let mfId := s.rfTSBK.mfId
  let s := s.setRfTSBK { s.rfTSBK with
    lco := LCO.TSBK_IOSP_ACK_RSP, mfId := MFId.P25_MFG_STANDARD, service := service }
  let s := s.writeRF_TSDU_SBF noNetwork false
  s.setRfTSBK { s.rfTSBK with lco := lco, mfId := mfId }

/-- Assignment `m_rfTSBK.setResponse(response)`. -/
def setResponse (s : TrunkPacket) (response : Response) : TrunkPacket :=
  s.setRfTSBK { s.rfTSBK with response := response }

/-- Helper to write a group affiliation response packet. -/
def writeRF_TSDU_Grp_Aff_Rsp (acl : AccessControl) (s : TrunkPacket) (srcId dstId : Nat) :
    Bool × TrunkPacket :=
  let s := s.setLCO LCO.TSBK_IOSP_GRP_AFF
  let s := s.setResponse Response.P25_RSP_ACCEPT
  let s := s.setRfTSBK { s.rfTSBK with patchSuperGroupId := s.patchSuperGroup }
  let s := if acl.validateSrcId srcId = false then s.setResponse Response.P25_RSP_DENY else s
  let s :=
    if s.hasSrcIdUnitReg srcId = false ∧ s.verifyReg = true then
      s.setResponse Response.P25_RSP_DENY
    else s
  let s :=
    if s.rfTSBK.group then
      if acl.validateTGId dstId = false then s.setResponse Response.P25_RSP_REFUSED else s
    else s
  if s.rfTSBK.response = Response.P25_RSP_ACCEPT then
    let s := s.setGrpAffTable (tblSet s.grpAffTable srcId dstId)
    (true, s.writeRF_TSDU_SBF false false)
  else (false, s.writeRF_TSDU_SBF false false)

/-- Helper to automatically inhibit a source ID on a denial. -/
def denialInhibit (acl : AccessControl) (s : TrunkPacket) (srcId : Nat) : TrunkPacket :=
  if s.p25.inhibitIllegal = false then s
  else if acl.validateSrcId srcId = false then
    s.writeRF_TSDU_Ext_Func ExtFunc.P25_EXT_FNCT_INHIBIT P25_WUID_SYS srcId
  else s

/-- Helper to write a unit registration response packet. -/
def writeRF_TSDU_U_Reg_Rsp (acl : AccessControl) (s : TrunkPacket) (srcId : Nat) : TrunkPacket :=
  let s := s.setLCO LCO.TSBK_IOSP_U_REG
  let s := s.setResponse Response.P25_RSP_ACCEPT
  let s := if s.rfTSBK.sysId ≠ s.siteData.sysId then s.setResponse Response.P25_RSP_DENY else s
  let s := if acl.validateSrcId srcId = false then s.setResponse Response.P25_RSP_DENY else s
  let s :=
    if s.rfTSBK.response = Response.P25_RSP_ACCEPT then
      if s.hasSrcIdUnitReg srcId = false then s.setUnitRegTable (s.unitRegTable ++ [srcId])
      else s
    else s
  let s := s.setRfTSBK { s.rfTSBK with srcId := srcId, dstId := srcId }
  let s := s.writeRF_TSDU_SBF true false
  if acl.validateSrcId srcId = false then denialInhibit acl s srcId else s

/-- Helper to write a unit de-registration acknowledge packet. -/
def writeRF_TSDU_U_Dereg_Ack (s : TrunkPacket) (srcId : Nat) : TrunkPacket :=
  let s := s.setLCO LCO.TSBK_OSP_U_DEREG_ACK
  let s :=
    if srcId ∈ s.unitRegTable then s.setUnitRegTable (s.unitRegTable.erase srcId) else s
  let s :=
    match tblAt s.grpAffTable srcId with
    | some _ => s.setGrpAffTable (tblErase s.grpAffTable srcId)
    | none => s
  let s := s.setRfTSBK { s.rfTSBK with srcId := P25_WUID_SYS, dstId := srcId }
  s.writeRF_TSDU_SBF false false

/-- Helper to release group affiliations. -/
def clearGrpAff (s : TrunkPacket) (dstId : Nat) (releaseAll : Bool) : TrunkPacket :=
  if dstId = 0 ∧ releaseAll = false then s
  else
    let srcToRel :=
      if dstId = 0 ∧ releaseAll = true then tblKeys s.grpAffTable
      else tblKeys (s.grpAffTable.filter (fun it => decide (it.2 = dstId)))
    srcToRel.foldl writeRF_TSDU_U_Dereg_Ack s

/-- Helper to process the status command data on a call alert. -/
def processStatusCommand (acl : AccessControl) (s : TrunkPacket) (srcId dstId : Nat) :
    Bool × TrunkPacket :=
  if s.statusCmdEnable = true ∧ s.statusValue ≠ 0 then
    if s.statusSrcId = srcId then
      let s :=
        if s.statusRadioCheck ≠ 0 ∧ s.statusValue = s.statusRadioCheck then
          s.writeRF_TSDU_Ext_Func ExtFunc.P25_EXT_FNCT_CHECK srcId dstId
        else if s.statusRadioInhibit ≠ 0 ∧ s.statusValue = s.statusRadioInhibit then
          s.writeRF_TSDU_Ext_Func ExtFunc.P25_EXT_FNCT_INHIBIT P25_WUID_SYS dstId
        else if s.statusRadioUninhibit ≠ 0 ∧ s.statusValue = s.statusRadioUninhibit then
          s.writeRF_TSDU_Ext_Func ExtFunc.P25_EXT_FNCT_UNINHIBIT P25_WUID_SYS dstId
        else if s.statusRadioForceReg ≠ 0 ∧ s.statusValue = s.statusRadioForceReg then
          let s :=
            if s.hasSrcIdUnitReg srcId = false then s.setUnitRegTable (s.unitRegTable ++ [srcId])
            else s
          (writeRF_TSDU_Grp_Aff_Rsp acl s srcId dstId).2
        else if s.statusRadioForceDereg ≠ 0 ∧ s.statusValue = s.statusRadioForceDereg then
          s.writeRF_TSDU_U_Dereg_Ack srcId
        else s.resetStatusCommand
      (true, s.writeRF_TSDU_ACK_FNE srcId LCO.TSBK_IOSP_CALL_ALRT false)
    else (false, s.resetStatusCommand)
  else (false, s.resetStatusCommand)

/-! ## Pre-conditions of the RF opcodes

Each macro either lets the case go on (`none`) or writes its denial and makes
`process` return `false` (`some` of the state after the denial). -/

/-- Make sure control data is supported. -/
def IS_SUPPORT_CONTROL_CHECK (s : TrunkPacket) (pckt : LCO) : Option TrunkPacket :=
  if s.p25.control = false then
    let s := s.writeRF_TSDU_Deny Response.P25_DENY_RSN_SYS_UNSUPPORTED_SVC pckt
    some s.checkAndReject
  else none

/-- Validate the source RID. -/
def VALID_SRCID (acl : AccessControl) (s : TrunkPacket) (pckt : LCO) (srcId : Nat) :
    Option TrunkPacket :=
  if acl.validateSrcId srcId = false then
    let s := s.writeRF_TSDU_Deny Response.P25_DENY_RSN_REQ_UNIT_NOT_VALID pckt
    let s := denialInhibit acl s srcId
    some s.checkAndReject
  else none

/-- Validate the target RID. -/
def VALID_DSTID (acl : AccessControl) (s : TrunkPacket) (pckt : LCO) (dstId : Nat) :
    Option TrunkPacket :=
  if acl.validateSrcId dstId = false then
    let s := s.writeRF_TSDU_Deny Response.P25_DENY_RSN_TGT_UNIT_NOT_VALID pckt
    some s.checkAndReject
  else none

/-- Validate the talkgroup ID. -/
def VALID_TGID (acl : AccessControl) (s : TrunkPacket) (pckt : LCO) (dstId : Nat) :
    Option TrunkPacket :=
  if acl.validateTGId dstId = false then
    let s := s.writeRF_TSDU_Deny Response.P25_DENY_RSN_TGT_GROUP_NOT_VALID pckt
    some s.checkAndReject
  else none

/-- Verify the source RID is registered. -/
def VERIFY_SRCID_REG (s : TrunkPacket) (pckt : LCO) (srcId : Nat) : Option TrunkPacket :=
  if s.hasSrcIdUnitReg srcId = false ∧ s.verifyReg = true then
    let s := s.writeRF_TSDU_Deny Response.P25_DENY_RSN_REQ_UNIT_NOT_AUTH pckt
    let s := s.writeRF_TSDU_U_Reg_Cmd srcId
    some s.checkAndReject
  else none

/-- Verify the source RID is affiliated. -/
def VERIFY_SRCID_AFF (s : TrunkPacket) (pckt : LCO) (srcId dstId : Nat) : Option TrunkPacket :=
  if s.hasSrcIdGrpAff srcId dstId = false ∧ s.verifyAff = true then
    let s := s.writeRF_TSDU_Deny Response.P25_DENY_RSN_REQ_UNIT_NOT_AUTH pckt
    let s := s.writeRF_TSDU_U_Reg_Cmd srcId
    some s.checkAndReject
  else none

/-- Write the RF TSBK to the network, if there is one. -/
def RF_TO_WRITE_NET (s : TrunkPacket) : TrunkPacket :=
  if s.network then
    let s := s.setLastBlock true
    s.writeNetworkRF s.rfTSBK true
  else s

/-! ## Processing of an inbound RF TSDU

A case of the switch in `process` yields `some ret` where the source returns
`ret` from inside the case, and `none` where it leaves the switch by `break`. -/

/-- Case `TSBK_IOSP_GRP_VCH`. -/
def process_GRP_VCH (acl : AccessControl) (s : TrunkPacket) (srcId dstId : Nat) :
    Option Bool × TrunkPacket :=
  match s.IS_SUPPORT_CONTROL_CHECK LCO.TSBK_IOSP_GRP_VCH with
  | some s => (some false, s)
  | none =>
    match VALID_SRCID acl s LCO.TSBK_IOSP_GRP_VCH srcId with
    | some s => (some false, s)
    | none =>
      match VALID_TGID acl s LCO.TSBK_IOSP_GRP_VCH dstId with
      | some s => (some false, s)
      | none =>
        match s.VERIFY_SRCID_AFF LCO.TSBK_IOSP_GRP_VCH srcId dstId with
        | some s => (some false, s)
        | none => (none, (s.writeRF_TSDU_Grant true false).2)

/-- Case `TSBK_IOSP_UU_VCH`. -/
def process_UU_VCH (acl : AccessControl) (s : TrunkPacket) (srcId dstId : Nat) :
    Option Bool × TrunkPacket :=
  match s.IS_SUPPORT_CONTROL_CHECK LCO.TSBK_IOSP_UU_VCH with
  | some s => (some false, s)
  | none =>
    match VALID_SRCID acl s LCO.TSBK_IOSP_UU_VCH srcId with
    | some s => (some false, s)
    | none =>
      match VALID_DSTID acl s LCO.TSBK_IOSP_UU_VCH dstId with
      | some s => (some false, s)
      | none =>
        match s.VERIFY_SRCID_REG LCO.TSBK_IOSP_UU_VCH srcId with
        | some s => (some false, s)
        | none => (none, s.writeRF_TSDU_UU_Ans_Req srcId dstId)

/-- Case `TSBK_IOSP_UU_ANS`. -/
def process_UU_ANS (acl : AccessControl) (s : TrunkPacket) (srcId dstId : Nat) :
    Option Bool × TrunkPacket :=
  match s.IS_SUPPORT_CONTROL_CHECK LCO.TSBK_IOSP_UU_ANS with
  | some s => (some false, s)
  | none =>
    match VALID_SRCID acl s LCO.TSBK_IOSP_UU_ANS srcId with
    | some s => (some false, s)
    | none =>
      match VALID_DSTID acl s LCO.TSBK_IOSP_UU_ANS dstId with
      | some s => (some false, s)
      | none =>
        let s := s.writeRF_TSDU_ACK_FNE srcId LCO.TSBK_IOSP_UU_ANS true
        if s.rfTSBK.response = Response.P25_ANS_RSP_PROCEED then
          (none, (s.writeRF_TSDU_Grant false false).2)
        else if s.rfTSBK.response = Response.P25_ANS_RSP_DENY then
          (none, s.writeRF_TSDU_Deny Response.P25_DENY_RSN_TGT_UNIT_REFUSED LCO.TSBK_IOSP_UU_ANS)
        else if s.rfTSBK.response = Response.P25_ANS_RSP_WAIT then
          (none, s.writeRF_TSDU_Queue Response.P25_QUE_RSN_TGT_UNIT_QUEUED LCO.TSBK_IOSP_UU_ANS)
        else (none, s)

/-- Case `TSBK_IOSP_TELE_INT_ANS`. -/
def process_TELE_INT_ANS (acl : AccessControl) (s : TrunkPacket) (srcId : Nat) :
    Option Bool × TrunkPacket :=
  match s.IS_SUPPORT_CONTROL_CHECK LCO.TSBK_IOSP_TELE_INT_ANS with
  | some s => (some false, s)
  | none =>
    match VALID_SRCID acl s LCO.TSBK_IOSP_TELE_INT_ANS srcId with
    | some s => (some false, s)
    | none =>
      let s := s.writeRF_TSDU_ACK_FNE srcId LCO.TSBK_IOSP_TELE_INT_ANS true
      if s.rfTSBK.response = Response.P25_ANS_RSP_PROCEED then
        (none, s.writeRF_TSDU_Deny Response.P25_DENY_RSN_SYS_UNSUPPORTED_SVC
          LCO.TSBK_IOSP_TELE_INT_ANS)
      else if s.rfTSBK.response = Response.P25_ANS_RSP_DENY then
        (none, s.writeRF_TSDU_ACK_FNE srcId LCO.TSBK_IOSP_TELE_INT_ANS true)
      else if s.rfTSBK.response = Response.P25_ANS_RSP_WAIT then
        (none, s.writeRF_TSDU_Queue Response.P25_QUE_RSN_TGT_UNIT_QUEUED
          LCO.TSBK_IOSP_TELE_INT_ANS)
      else (none, s)

/-- Case `TSBK_IOSP_STS_UPDT`. -/
def process_STS_UPDT (acl : AccessControl) (s : TrunkPacket) (srcId : Nat) :
    Option Bool × TrunkPacket :=
  match VALID_SRCID acl s LCO.TSBK_IOSP_STS_UPDT srcId with
  | some s => (some false, s)
  | none =>
    let s := if s.statusSrcId = 0 ∧ s.statusValue = 0 then s.RF_TO_WRITE_NET else s
    let s :=
      if s.noStatusAck = false then s.writeRF_TSDU_ACK_FNE srcId LCO.TSBK_IOSP_STS_UPDT false
      else s
    let s := if s.statusCmdEnable then s.preprocessStatusCommand else s
    (none, s)

/-- Case `TSBK_IOSP_MSG_UPDT`. -/
def process_MSG_UPDT (acl : AccessControl) (s : TrunkPacket) (srcId : Nat) :
    Option Bool × TrunkPacket :=
  match VALID_SRCID acl s LCO.TSBK_IOSP_MSG_UPDT srcId with
  | some s => (some false, s)
  | none =>
    let s := s.RF_TO_WRITE_NET
    let s :=
      if s.noMessageAck = false then s.writeRF_TSDU_ACK_FNE srcId LCO.TSBK_IOSP_MSG_UPDT false
      else s
    (none, s)

/-- The end of case `TSBK_IOSP_CALL_ALRT`: validate the target RID and write
the call alert. -/
def callAlert (acl : AccessControl) (s : TrunkPacket) (srcId dstId : Nat) :
    Option Bool × TrunkPacket :=
  match VALID_DSTID acl s LCO.TSBK_IOSP_CALL_ALRT dstId with
  | some s => (some false, s)
  | none => (none, s.writeRF_TSDU_Call_Alrt srcId dstId)

/-- Case `TSBK_IOSP_CALL_ALRT`. -/
def process_CALL_ALRT (acl : AccessControl) (s : TrunkPacket) (srcId dstId : Nat)
    (prevRfState : RPT_RF_STATE) : Option Bool × TrunkPacket :=
  match VALID_SRCID acl s LCO.TSBK_IOSP_CALL_ALRT srcId with
  | some s => (some false, s)
  | none =>
    if s.statusCmdEnable then
      match processStatusCommand acl s srcId dstId with
      | (true, s) => (some true, s.setRfState prevRfState)
      | (false, s) => callAlert acl s.resetStatusCommand srcId dstId
    else callAlert acl s srcId dstId

/-- Case `TSBK_IOSP_ACK_RSP`. -/
def process_ACK_RSP (acl : AccessControl) (s : TrunkPacket) (srcId dstId : Nat) :
    Option Bool × TrunkPacket :=
  match VALID_SRCID acl s LCO.TSBK_IOSP_ACK_RSP srcId with
  | some s => (some false, s)
  | none =>
    match VALID_DSTID acl s LCO.TSBK_IOSP_ACK_RSP dstId with
    | some s => (some false, s)
    | none =>
      let s :=
        if s.rfTSBK.aiv = false ∧ dstId ≠ 0 then
          s.setRfTSBK { s.rfTSBK with aiv := true, srcId := dstId, dstId := srcId }
        else s
      (none, s.writeRF_TSDU_SBF false false)

/-- Case `TSBK_IOSP_EXT_FNCT`. -/
def process_EXT_FNCT (s : TrunkPacket) : Option Bool × TrunkPacket :=
  let s :=
    if s.statusCmdEnable = true ∧ s.statusValue ≠ 0 then
      s.setRfTSBK { s.rfTSBK with
        lco := LCO.TSBK_IOSP_ACK_RSP, aiv := true, service := LCO.TSBK_IOSP_CALL_ALRT }
    else s
  let s := s.writeRF_TSDU_SBF true false
  (none, s.resetStatusCommand)

/-- Case `TSBK_IOSP_GRP_AFF`. -/
def process_GRP_AFF (acl : AccessControl) (s : TrunkPacket) (srcId dstId : Nat) :
    Option Bool × TrunkPacket :=
  match s.IS_SUPPORT_CONTROL_CHECK LCO.TSBK_IOSP_GRP_AFF with
  | some s => (some false, s)
  | none =>
    let s := s.writeRF_TSDU_ACK_FNE srcId LCO.TSBK_IOSP_GRP_AFF true
    (none, (writeRF_TSDU_Grp_Aff_Rsp acl s srcId dstId).2)

/-- Case `TSBK_ISP_GRP_AFF_Q_RSP`. -/
def process_GRP_AFF_Q_RSP (s : TrunkPacket) : Option Bool × TrunkPacket :=
  match s.IS_SUPPORT_CONTROL_CHECK LCO.TSBK_ISP_GRP_AFF_Q_RSP with
  | some s => (some false, s)
  | none => (none, s)

/-- Case `TSBK_ISP_U_DEREG_REQ`. The local `dstId`, set to `P25_WUID_SYS`
when zero, is only logged. -/
def process_U_DEREG_REQ (acl : AccessControl) (s : TrunkPacket) (srcId : Nat) :
    Option Bool × TrunkPacket :=
  match s.IS_SUPPORT_CONTROL_CHECK LCO.TSBK_ISP_U_DEREG_REQ with
  | some s => (some false, s)
  | none =>
    match VALID_SRCID acl s LCO.TSBK_ISP_U_DEREG_REQ srcId with
    | some s => (some false, s)
    | none =>
      let s := s.writeRF_TSDU_ACK_FNE srcId LCO.TSBK_ISP_U_DEREG_REQ true
      (none, s.writeRF_TSDU_U_Dereg_Ack srcId)

/-- Case `TSBK_IOSP_U_REG`. -/
def process_U_REG (acl : AccessControl) (s : TrunkPacket) (srcId : Nat) :
    Option Bool × TrunkPacket :=
  match s.IS_SUPPORT_CONTROL_CHECK LCO.TSBK_IOSP_U_REG with
  | some s => (some false, s)
  | none =>
    let s := s.writeRF_TSDU_ACK_FNE srcId LCO.TSBK_IOSP_U_REG true
    (none, writeRF_TSDU_U_Reg_Rsp acl s srcId)

/-- Case `TSBK_ISP_LOC_REG_REQ`. -/
def process_LOC_REG_REQ (s : TrunkPacket) (srcId : Nat) : Option Bool × TrunkPacket :=
  match s.IS_SUPPORT_CONTROL_CHECK LCO.TSBK_ISP_LOC_REG_REQ with
  | some s => (some false, s)
  | none => (none, s.writeRF_TSDU_U_Reg_Cmd srcId)

/-- The switch of `process` on the opcode of the decoded RF TSBK. -/
def processLCO (acl : AccessControl) (s : TrunkPacket) (srcId dstId : Nat)
    (prevRfState : RPT_RF_STATE) : Option Bool × TrunkPacket :=
  match s.rfTSBK.lco with
  | LCO.TSBK_IOSP_GRP_VCH => process_GRP_VCH acl s srcId dstId
  | LCO.TSBK_IOSP_UU_VCH => process_UU_VCH acl s srcId dstId
  | LCO.TSBK_IOSP_UU_ANS => process_UU_ANS acl s srcId dstId
  | LCO.TSBK_IOSP_TELE_INT_ANS => process_TELE_INT_ANS acl s srcId
  | LCO.TSBK_IOSP_STS_UPDT => process_STS_UPDT acl s srcId
  | LCO.TSBK_IOSP_MSG_UPDT => process_MSG_UPDT acl s srcId
  | LCO.TSBK_IOSP_CALL_ALRT => process_CALL_ALRT acl s srcId dstId prevRfState
  | LCO.TSBK_IOSP_ACK_RSP => process_ACK_RSP acl s srcId dstId
  | LCO.TSBK_ISP_CAN_SRV_REQ =>
    (none, s.writeRF_TSDU_ACK_FNE srcId LCO.TSBK_ISP_CAN_SRV_REQ true)
  | LCO.TSBK_IOSP_EXT_FNCT => s.process_EXT_FNCT
  | LCO.TSBK_IOSP_GRP_AFF => process_GRP_AFF acl s srcId dstId
  | LCO.TSBK_ISP_GRP_AFF_Q_RSP => s.process_GRP_AFF_Q_RSP
  | LCO.TSBK_ISP_U_DEREG_REQ => process_U_DEREG_REQ acl s srcId
  | LCO.TSBK_IOSP_U_REG => process_U_REG acl s srcId
  | LCO.TSBK_ISP_LOC_REG_REQ => s.process_LOC_REG_REQ srcId
  | _ => (none, s)

/-- Process a data frame from the RF interface. -/
def process (acl : AccessControl) (s : TrunkPacket) (frame : RFFrame) : Bool × TrunkPacket :=
  if s.p25.rfState = RPT_RF_STATE.RS_RF_LISTENING ∧ frame.nidValid = false then (false, s)
  else
    let prevRfState := s.p25.rfState
    if frame.duid = DUID.P25_DUID_TSDU then
      let s := if s.p25.rfState ≠ RPT_RF_STATE.RS_RF_DATA then
        s.setRfState RPT_RF_STATE.RS_RF_DATA else s
      let s := s.emit Event.clearQueue
      let s := s.setRfTSBK frame.tsbk
      let s := s.setNetTSBK frame.netTSBK
      if frame.decoded = false then (false, s.setRfState prevRfState)
      else
        let srcId := s.rfTSBK.srcId
        let dstId := s.rfTSBK.dstId
        let s := s.resetStatusCommandTSBK s.rfTSBK
        let s := s.emit Event.writeRF_Preamble
        match processLCO acl s srcId dstId prevRfState with
        | (some ret, s) => (ret, s)
        | (none, s) =>
          let s := if s.p25.ccRunning = false then s.emit Event.writeRF_Nulls else s
          (true, s.setRfState prevRfState)
    else (false, s)

/-- Process RF frames one after the other. -/
def processAll (acl : AccessControl) (s : TrunkPacket) (frames : List RFFrame) : TrunkPacket :=
  frames.foldl (fun s frame => (process acl s frame).2) s

end TrunkPacket

/-! ## Scenario data -/

/-- The voice pool of the spec's end-to-end scenarios: channels 2, 3 and 4
free, no grant, RF listening, network idle, duplex, no control channel running. -/
def scenarioPool : TrunkPacket :=
  { voiceChTable := [2, 3, 4], voiceChCnt := 3 }

/-- A network call on talkgroup 2 is in progress (network state audio, last
network destination 2, talkgroup hang timer running) after RF traffic on
talkgroup 1, and an RF request for talkgroup 2 has been decoded. -/
def scenarioHangCollision : TrunkPacket :=
  { scenarioPool with
    p25 := { rfState := RPT_RF_STATE.RS_RF_DATA, netState := RPT_NET_STATE.RS_NET_AUDIO,
             rfLastDstId := 1, netLastDstId := 2,
             networkTGHang := (Timer.create 1000 5).start },
    rfTSBK := { lco := LCO.TSBK_IOSP_GRP_VCH, srcId := 1001, dstId := 2 } }

/-- The network is idle and its talkgroup hang timer is still running after RF
traffic on talkgroup 1; an RF request for talkgroup 2 has been decoded. -/
def scenarioHang : TrunkPacket :=
  { scenarioPool with
    p25 := { rfState := RPT_RF_STATE.RS_RF_DATA, rfLastDstId := 1,
             networkTGHang := (Timer.create 1000 5).start },
    rfTSBK := { lco := LCO.TSBK_IOSP_GRP_VCH, srcId := 1001, dstId := 2 } }

/-- The DENY_RSP (PTT_COLLIDE) that answers a group voice request `src dst`
as a single-block TSDU. -/
def scenarioDeny (srcId dstId : Nat) : TSBK :=
  { lco := LCO.TSBK_OSP_DENY_RSP, lastBlock := true, srcId := srcId, dstId := dstId,
    service := LCO.TSBK_IOSP_GRP_VCH, response := Response.P25_DENY_RSN_PTT_COLLIDE }

/-- An inbound group voice channel request `GRP_VCH src dst`. -/
def grpVchRequest (srcId dstId : Nat) : TSBK :=
  { lco := LCO.TSBK_IOSP_GRP_VCH, srcId := srcId, dstId := dstId }

/-- The registries, the status command and the configuration of the engine:
the part of the state that the frame shaper never writes. -/
structure Registry where
  unitRegTable : List Nat
  grpAffTable : List (Nat × Nat)
  statusSrcId : Nat
  statusValue : Nat
  verifyAff : Bool
  verifyReg : Bool
  noStatusAck : Bool
  noMessageAck : Bool
  statusCmdEnable : Bool
  statusRadioCheck : Nat
  statusRadioInhibit : Nat
  statusRadioUninhibit : Nat
  statusRadioForceReg : Nat
  statusRadioForceDereg : Nat
  siteData : SiteData
  patchSuperGroup : Nat
  network : Bool
  deriving DecidableEq, Repr

namespace TrunkPacket

/-- The registry part of an engine state. -/
def reg (s : TrunkPacket) : Registry :=
  { unitRegTable := s.unitRegTable, grpAffTable := s.grpAffTable,
    statusSrcId := s.statusSrcId, statusValue := s.statusValue,
    verifyAff := s.verifyAff, verifyReg := s.verifyReg,
    noStatusAck := s.noStatusAck, noMessageAck := s.noMessageAck,
    statusCmdEnable := s.statusCmdEnable, statusRadioCheck := s.statusRadioCheck,
    statusRadioInhibit := s.statusRadioInhibit, statusRadioUninhibit := s.statusRadioUninhibit,
    statusRadioForceReg := s.statusRadioForceReg,
    statusRadioForceDereg := s.statusRadioForceDereg,
    siteData := s.siteData, patchSuperGroup := s.patchSuperGroup, network := s.network }

/-- The state on which the switch of `process` runs for a decoded TSDU: RF
state data, queue cleared, TSBKs reset and decoded, status command reset
unless the opcode keeps it, preamble written. -/
def switchEntry (s : TrunkPacket) (frame : RFFrame) : TrunkPacket :=
  let s := if s.p25.rfState ≠ RPT_RF_STATE.RS_RF_DATA then
    s.setRfState RPT_RF_STATE.RS_RF_DATA else s
  let s := s.emit Event.clearQueue
  let s := s.setRfTSBK frame.tsbk
  let s := s.setNetTSBK frame.netTSBK
  let s := s.resetStatusCommandTSBK s.rfTSBK
  s.emit Event.writeRF_Preamble

/-- The end of `process` after a case that left the switch by `break`: nulls
unless a control channel is running, and the RF state of entry restored. -/
def switchExit (s : TrunkPacket) (prevRfState : RPT_RF_STATE) : TrunkPacket :=
  let s := if s.p25.ccRunning = false then s.emit Event.writeRF_Nulls else s
  s.setRfState prevRfState

/-- A frame that `process` takes to the switch from state `s`: the NID decoded
or the RF state is not listening, the DUID is TSDU and the TSBK decoded. -/
def Dispatched (s : TrunkPacket) (frame : RFFrame) : Prop :=
  ¬ (s.p25.rfState = RPT_RF_STATE.RS_RF_LISTENING ∧ frame.nidValid = false) ∧
    frame.duid = DUID.P25_DUID_TSDU ∧ frame.decoded = true

end TrunkPacket

/-- A voice call is on the air (RF state audio) while a unit-to-unit request
from 1001 to 1002 has been decoded; channels 2, 3 and 4 are free. -/
def scenarioAudio : TrunkPacket :=
  { scenarioPool with
    p25 := { rfState := RPT_RF_STATE.RS_RF_AUDIO },
    rfTSBK := { lco := LCO.TSBK_IOSP_UU_VCH, srcId := 1001, dstId := 1002 } }

/-- An access control list that accepts every radio ID and every talkgroup. -/
def aclAcceptAll : AccessControl :=
  { validateSrcId := fun _ => true, validateTGId := fun _ => true }

/-- An access control list that accepts the listed radio IDs and talkgroups
and no other. -/
def aclOnly (rids tgs : List Nat) : AccessControl :=
  { validateSrcId := fun id => decide (id ∈ rids), validateTGId := fun id => decide (id ∈ tgs) }

/-- Subscriber 1001 is unit-registered and affiliated to talkgroup 5000, as
after `add_unit_reg(1001)` and `set_aff(1001, 5000)` in the spec's scenario S5. -/
def scenarioRegistered : TrunkPacket :=
  { unitRegTable := [1001], grpAffTable := [(1001, 5000)] }

/-- An engine with empty registries on a site whose system ID is 1. -/
def scenarioSite : TrunkPacket :=
  { siteData := { sysId := 1 } }

/-- An inbound unit registration request `U_REG` of `srcId` that carries the
system ID `sysId`. -/
def uRegRequest (srcId sysId : Nat) : TSBK :=
  { lco := LCO.TSBK_IOSP_U_REG, srcId := srcId, sysId := sysId }

/-- An inbound RF TSDU that decodes to the TSBK `t`. -/
def rfTSDU (t : TSBK) : RFFrame := { tsbk := t }

/-- The inbound `U_DEREG_REQ src=1001 dst=0` of the spec's scenario S5. -/
def uDeregRequest : RFFrame :=
  rfTSDU { lco := LCO.TSBK_ISP_U_DEREG_REQ, srcId := 1001, dstId := 0 }

/-- Subscribers 1001 and 1002 are unit-registered; 1001 is affiliated to
talkgroup 5000 and 1002 to talkgroup 5001. -/
def scenarioTwoGroups : TrunkPacket :=
  { unitRegTable := [1001, 1002], grpAffTable := [(1001, 5000), (1002, 5001)] }

/-- Operations that reach the unit registration table. -/
inductive RegOp where
  -- process(data, len) on an inbound RF frame, under the given ACL
  | rf (acl : AccessControl) (frame : RFFrame)
  -- writeRF_TSDU_U_Reg_Rsp(srcId), under the given ACL
  | regRsp (acl : AccessControl) (srcId : Nat)
  -- processStatusCommand(srcId, dstId), under the given ACL
  | statusCmd (acl : AccessControl) (srcId dstId : Nat)
  -- writeRF_TSDU_U_Dereg_Ack(srcId)
  | deregAck (srcId : Nat)
  -- clearGrpAff(dstId, releaseAll)
  | clearGrpAff (dstId : Nat) (releaseAll : Bool)

namespace TrunkPacket

/-- One operation on the registries. -/
def regStep (s : TrunkPacket) : RegOp → TrunkPacket
  | RegOp.rf acl frame => (process acl s frame).2
  | RegOp.regRsp acl srcId => writeRF_TSDU_U_Reg_Rsp acl s srcId
  | RegOp.statusCmd acl srcId dstId => (processStatusCommand acl s srcId dstId).2
  | RegOp.deregAck srcId => s.writeRF_TSDU_U_Dereg_Ack srcId
  | RegOp.clearGrpAff dstId releaseAll => s.clearGrpAff dstId releaseAll

/-- A sequence of operations on the registries, oldest first. -/
def regRun (s : TrunkPacket) (ops : List RegOp) : TrunkPacket := ops.foldl regStep s

end TrunkPacket

namespace TrunkPacket

/-- Following the spec's words for an inbound GRP_VCH request: the deny reason
of the first pre-condition that fails, in the order control supported, source
RID valid, talkgroup valid, affiliation required; `none` when all four pass. -/
def grpVchFirstFailure (acl : AccessControl) (s : TrunkPacket) (srcId dstId : Nat) :
    Option Response :=
  if s.p25.control = false then some Response.P25_DENY_RSN_SYS_UNSUPPORTED_SVC
  else if acl.validateSrcId srcId = false then some Response.P25_DENY_RSN_REQ_UNIT_NOT_VALID
  else if acl.validateTGId dstId = false then some Response.P25_DENY_RSN_TGT_GROUP_NOT_VALID
  else if s.verifyAff = true ∧ s.hasSrcIdGrpAff srcId dstId = false then
    some Response.P25_DENY_RSN_REQ_UNIT_NOT_AUTH
  else none

end TrunkPacket

/-- The opcodes whose case in `process` begins with `IS_SUPPORT_CONTROL_CHECK`. -/
def controlCheckedLCOs : List LCO :=
  [LCO.TSBK_IOSP_GRP_VCH, LCO.TSBK_IOSP_UU_VCH, LCO.TSBK_IOSP_UU_ANS,
   LCO.TSBK_IOSP_TELE_INT_ANS, LCO.TSBK_IOSP_GRP_AFF, LCO.TSBK_ISP_GRP_AFF_Q_RSP,
   LCO.TSBK_ISP_U_DEREG_REQ, LCO.TSBK_IOSP_U_REG, LCO.TSBK_ISP_LOC_REG_REQ]

/-- A dedicated (non-trunked) site: control data is not supported; the
registries are empty and no status command is configured. -/
def scenarioNoControl : TrunkPacket :=
  { p25 := { control := false } }

/-- An inbound status update `STS_UPDT` of `srcId` with the given status. -/
def stsUpdtRequest (srcId status : Nat) : TSBK :=
  { lco := LCO.TSBK_IOSP_STS_UPDT, srcId := srcId, status := status }

/-- The engine of the spec's scenario S6: status commands enabled, radio
check code 0x42, status acknowledgements on. -/
def scenarioStatusCmd : TrunkPacket :=
  { statusCmdEnable := true, statusRadioCheck := 0x42 }

/-- An inbound call alert `CALL_ALRT` from `srcId` to `dstId`. -/
def callAlrtRequest (srcId dstId : Nat) : TSBK :=
  { lco := LCO.TSBK_IOSP_CALL_ALRT, srcId := srcId, dstId := dstId }

namespace TrunkPacket

/-- The status command and the configuration of the engine: the registry
view without its two tables. -/
def config (s : TrunkPacket) : Registry :=
  { s.reg with unitRegTable := [], grpAffTable := [] }

end TrunkPacket

/-- An engine with status commands enabled and all five status codes
configured, none of them zero. -/
def scenarioStatusCodes : TrunkPacket :=
  { statusCmdEnable := true, statusRadioCheck := 0x42, statusRadioInhibit := 0x43,
    statusRadioUninhibit := 0x44, statusRadioForceReg := 0x45, statusRadioForceDereg := 0x46 }

/-! ## Network inbound path, control broadcasts and frame shapes -/

/-- Modelled from the spec: `SiteData::setAdjSite` (`SiteData.h` is not part
of the sources). The adjacent site entry of the spec carries the identity of
the broadcast: the system ID, the RFSS ID, the site ID, the channel ID and
the channel number are set to the arguments and nothing else changes. -/
def SiteData.setAdjSite (site : SiteData) (sysId rfssId siteId channelId channelNo : Nat) :
    SiteData :=
  { site with
    sysId := sysId, rfssId := rfssId, siteId := siteId, channelId := channelId,
    channelNo := channelNo }

/-- What `writeQueueRF` and `writeQueueNet` receive with a frame besides its
blocks: the bytes written to `data[0]` and `data[1]`, and the length passed,
a frame length constant plus the bytes of the tag. -/
structure FrameShape where
  tag : ModemTag
  pad : Nat
  length : FrameLength
  extra : Nat
  deriving DecidableEq, Repr

/-- The shape of a frame: a single-block TSDU is built in a buffer of
`P25_TSDU_FRAME_LENGTH_BYTES + 2U` bytes and a triple TSDU in one of
`P25_TSDU_TRIPLE_FRAME_LENGTH_BYTES + 2U` bytes, both with `data[0U] =
TAG_DATA` and `data[1U] = 0x00U`. -/
def Frame.shape : Frame → FrameShape
  | Frame.sbf _ =>
    { tag := ModemTag.TAG_DATA, pad := 0, length := FrameLength.P25_TSDU_FRAME_LENGTH_BYTES,
      extra := 2 }
  | Frame.mbf _ =>
    { tag := ModemTag.TAG_DATA, pad := 0,
      length := FrameLength.P25_TSDU_TRIPLE_FRAME_LENGTH_BYTES, extra := 2 }

/-- An inbound network frame as `processNetwork` sees it: its DUID, whether
`m_netTSBK.decode` succeeded, the content of `m_netTSBK` after `reset()` and
`decode()`, and the content of `m_rfTSBK` after `reset()` (the TSBK codec is
not part of the sources). -/
structure NetFrame where
  duid : DUID := DUID.P25_DUID_TSDU
  decoded : Bool := true
  tsbk : TSBK := {}
  rfTSBK : TSBK := {}
  deriving DecidableEq, Repr

namespace TrunkPacket

/-- Assignment to `m_mbfIdenCnt`. -/
def setMbfIdenCnt (s : TrunkPacket) (cnt : Nat) : TrunkPacket :=
  { s with mbfIdenCnt := cnt }

/-- Assignment to `m_mbfAdjSSCnt`. -/
def setMbfAdjSSCnt (s : TrunkPacket) (cnt : Nat) : TrunkPacket :=
  { s with mbfAdjSSCnt := cnt }

/-- Assignment to `m_p25` (the owning `Control` changes between two calls
into the engine). -/
def setControl (s : TrunkPacket) (c : Control) : TrunkPacket :=
  { s with p25 := c }

/-- Helper to write a network single-block P25 TSDU packet. -/
def writeNet_TSDU (s : TrunkPacket) : TrunkPacket :=
  let s := s.setNetTSBK { s.netTSBK with lastBlock := true }
  let s := s.emit (Event.writeQueueNet (Frame.sbf s.netTSBK))
  if s.network then s.emit Event.resetP25 else s

/-- Validate the source RID (network): `some` is the `return false`. -/
def VALID_SRCID_NET (acl : AccessControl) (s : TrunkPacket) (srcId : Nat) :
    Option TrunkPacket :=
  if acl.validateSrcId srcId = false then some s else none

/-- Validate the target RID (network): `some` is the `return false`. -/
def VALID_DSTID_NET (acl : AccessControl) (s : TrunkPacket) (dstId : Nat) :
    Option TrunkPacket :=
  if acl.validateSrcId dstId = false then some s else none

/-- Network cases `TSBK_IOSP_STS_UPDT` and `TSBK_IOSP_MSG_UPDT`. -/
def processNetwork_UPDT (acl : AccessControl) (s : TrunkPacket) (srcId : Nat) :
    Option Bool × TrunkPacket :=
  match VALID_SRCID_NET acl s srcId with
  | some s => (some false, s)
  | none => (none, s)

/-- Network case `TSBK_IOSP_CALL_ALRT`. -/
def processNetwork_CALL_ALRT (acl : AccessControl) (s : TrunkPacket) (srcId dstId : Nat) :
    Option Bool × TrunkPacket :=
  match VALID_SRCID_NET acl s srcId with
  | some s => (some false, s)
  | none =>
    match VALID_DSTID_NET acl s dstId with
    | some s => (some false, s)
    | none => if acl.validateSrcId srcId = false then (some false, s) else (none, s)

/-- Network case `TSBK_IOSP_ACK_RSP`. -/
def processNetwork_ACK_RSP (acl : AccessControl) (s : TrunkPacket) (srcId dstId : Nat) :
    Option Bool × TrunkPacket :=
  match VALID_SRCID_NET acl s srcId with
  | some s => (some false, s)
  | none =>
    match VALID_DSTID_NET acl s dstId with
    | some s => (some false, s)
    | none => (none, s)

/-- Network case `TSBK_IOSP_EXT_FNCT`. -/
def processNetwork_EXT_FNCT (acl : AccessControl) (s : TrunkPacket) (dstId : Nat) :
    Option Bool × TrunkPacket :=
  match VALID_DSTID_NET acl s dstId with
  | some s => (some false, s)
  | none => (none, s.resetStatusCommand)

/-- The switch of `processNetwork` on the opcode of the decoded network
TSBK. The cases `TSBK_IOSP_GRP_AFF` and `TSBK_OSP_U_DEREG_ACK` hold a comment
("ignore a network ... command") and a `break`. -/
def processNetworkLCO (acl : AccessControl) (s : TrunkPacket) (srcId dstId : Nat) :
    Option Bool × TrunkPacket :=
  match s.netTSBK.lco with
  | LCO.TSBK_IOSP_UU_ANS => (none, s)
  | LCO.TSBK_IOSP_STS_UPDT => processNetwork_UPDT acl s srcId
  | LCO.TSBK_IOSP_MSG_UPDT => processNetwork_UPDT acl s srcId
  | LCO.TSBK_IOSP_CALL_ALRT => processNetwork_CALL_ALRT acl s srcId dstId
  | LCO.TSBK_IOSP_ACK_RSP => processNetwork_ACK_RSP acl s srcId dstId
  | LCO.TSBK_IOSP_EXT_FNCT => processNetwork_EXT_FNCT acl s dstId
  | LCO.TSBK_IOSP_GRP_AFF => (none, s)
  | LCO.TSBK_OSP_U_DEREG_ACK => (none, s)
  | LCO.TSBK_OSP_DENY_RSP => (none, s)
  | LCO.TSBK_OSP_QUE_RSP => (none, s)
  | _ => (some false, s)

/-- The adjacent site update of `processNetwork`: a broadcast about another
site than this one overwrites the entry of its site, or adds one, and sets
the update counter of the site to `ADJ_SITE_UPDATE_CNT`. -/
def updateAdjSite (s : TrunkPacket) : TrunkPacket :=
  if s.netTSBK.adjSiteId ≠ s.siteData.siteId then
    let site : SiteData := (tblAt s.adjSiteTable s.netTSBK.adjSiteId).getD {}
    let site := site.setAdjSite s.netTSBK.adjSiteSysId s.netTSBK.adjSiteRFSSId
      s.netTSBK.adjSiteId s.netTSBK.adjSiteChnId s.netTSBK.adjSiteChnNo
    s.setAdjSites (tblSet s.adjSiteTable site.siteId site)
      (tblSet s.adjSiteUpdateCnt site.siteId ADJ_SITE_UPDATE_CNT)
  else s

/-- Process a data frame from the network. -/
def processNetwork (acl : AccessControl) (s : TrunkPacket) (frame : NetFrame) :
    Bool × TrunkPacket :=
  if s.p25.rfState ≠ RPT_RF_STATE.RS_RF_LISTENING ∧ s.p25.netState = RPT_NET_STATE.RS_NET_IDLE
  then (false, s)
  else if frame.duid = DUID.P25_DUID_TSDU then
    if s.p25.netState = RPT_NET_STATE.RS_NET_IDLE then
      let s := s.setRfTSBK frame.rfTSBK
      let s := s.setNetTSBK frame.tsbk
      if frame.decoded = false then (false, s)
      else if s.netTSBK.lco = LCO.TSBK_OSP_ADJ_STS_BCAST then
        if s.p25.control = false then (false, s)
        else (true, s.updateAdjSite)
      else
        let srcId := s.netTSBK.srcId
        let dstId := s.netTSBK.dstId
        let s := s.resetStatusCommandTSBK s.netTSBK
        match processNetworkLCO acl s srcId dstId with
        | (some ret, s) => (ret, s)
        | (none, s) => (true, s.writeNet_TSDU)
    else (true, s)
  else (false, s)

end TrunkPacket

/-- The order in which `m_adjSiteTable.begin() .. end()` visits the entries of
the adjacent site table, given its entries in the order they were added. The
container is declared in `TrunkPacket.h`, which is not part of the sources,
so the order of its iteration is a parameter of the embedding. -/
abbrev AdjSiteWalk := List (Nat × SiteData) → List (Nat × SiteData)

/-- A walk visits every entry of the table, each once. -/
def AdjSiteWalk.Lawful (walk : AdjSiteWalk) : Prop := ∀ t, (walk t).Perm t

/-- The walk of a container that links a new key in front of the older ones,
as a hash table with one entry per bucket does. -/
def newestFirst : AdjSiteWalk := List.reverse

/-- The walk of a container ordered by key. -/
def keyOrder : AdjSiteWalk := List.insertionSort (fun a b => a.1 ≤ b.1)

namespace TrunkPacket

/-- The switch of `queueRF_TSBK_Ctrl_MBF` on the requested opcode; `false`
next to the state is the `return` taken when the adjacent site table is
empty. The cursors `m_mbfIdenCnt` and `m_mbfAdjSSCnt` are declared in
`TrunkPacket.h`, which is not part of the sources; they are taken as
`uint8_t`, the type of the loop index they are compared with. Reading
`m_adjSiteUpdateCnt[siteId]` creates a zero counter for an absent site. -/
def ctrlTSBK (walk : AdjSiteWalk) (s : TrunkPacket) (lco : LCO) : Bool × TrunkPacket :=
  match lco with
  | LCO.TSBK_OSP_IDEN_UP =>
    let entries := s.p25.idenTable
    let s := if s.mbfIdenCnt ≥ entries.length then s.setMbfIdenCnt 0 else s
    match entries.get? s.mbfIdenCnt with
    | some entry =>
      let s := s.setRfTSBK { s.rfTSBK with siteIdenEntry := entry }
      let s :=
        if entry.baseFrequency ≥ 762000000 then s.setLCO LCO.TSBK_OSP_IDEN_UP
        else s.setLCO LCO.TSBK_OSP_IDEN_UP_VU
      (true, s.setMbfIdenCnt ((s.mbfIdenCnt + 1) % 256))
    | none => (true, s)
  | LCO.TSBK_OSP_NET_STS_BCAST => (true, s.setLCO LCO.TSBK_OSP_NET_STS_BCAST)
  | LCO.TSBK_OSP_RFSS_STS_BCAST => (true, s.setLCO LCO.TSBK_OSP_RFSS_STS_BCAST)
  | LCO.TSBK_OSP_ADJ_STS_BCAST =>
    if s.adjSiteTable.length > 0 then
      let s := if s.mbfAdjSSCnt ≥ s.adjSiteTable.length then s.setMbfAdjSSCnt 0 else s
      match (walk s.adjSiteTable).get? s.mbfAdjSSCnt with
      | some (_, site) =>
        let cfva : CFVA := { conv := true, network := true }
        let updateCnt := (tblAt s.adjSiteUpdateCnt site.siteId).getD 0
        let s :=
          match tblAt s.adjSiteUpdateCnt site.siteId with
          | some _ => s
          | none => s.setAdjSites s.adjSiteTable (tblSet s.adjSiteUpdateCnt site.siteId 0)
        let cfva :=
          if updateCnt = 0 then { cfva with failure := true } else { cfva with valid := true }
        let s := s.setLCO LCO.TSBK_OSP_ADJ_STS_BCAST
        let s := s.setRfTSBK { s.rfTSBK with
          adjSiteCFVA := cfva, adjSiteSysId := site.sysId, adjSiteRFSSId := site.rfssId,
          adjSiteId := site.siteId, adjSiteChnId := site.channelId,
          adjSiteChnNo := site.channelNo }
        (true, s.setMbfAdjSSCnt ((s.mbfAdjSSCnt + 1) % 256))
      | none => (true, s)
    else (false, s)
  | LCO.TSBK_OSP_SNDCP_CH_ANN => (true, s.setLCO LCO.TSBK_OSP_SNDCP_CH_ANN)
  | LCO.TSBK_OSP_MOT_PSH_CCH =>
    let s := s.setLCO LCO.TSBK_OSP_MOT_PSH_CCH
    (true, s.setRfTSBK { s.rfTSBK with mfId := MFId.P25_MFG_MOT })
  | LCO.TSBK_OSP_MOT_CC_BSI =>
    let s := s.setLCO LCO.TSBK_OSP_MOT_CC_BSI
    (true, s.setRfTSBK { s.rfTSBK with mfId := MFId.P25_MFG_MOT })
  | _ => (true, s)

/-- Helper to queue the given control TSBK into the MBF queue. The content
of a TSBK after `reset()` is the parameter `reset` (the TSBK codec is not
part of the sources); `writeRF_TSDU_MBF()` is called with its default
argument, declared in `TrunkPacket.h` and taken as `false`. -/
def queueRF_TSBK_Ctrl_MBF (reset : TSBK → TSBK) (walk : AdjSiteWalk) (s : TrunkPacket)
    (lco : LCO) : TrunkPacket :=
  let s := s.setRfTSBK (reset s.rfTSBK)
  match s.ctrlTSBK walk lco with
  | (false, s) => s
  | (true, s) => (s.setLastBlock true).writeRF_TSDU_MBF false

end TrunkPacket

/-- A network TSDU whose TSBK decoded to `t`. -/
def netTSDU (t : TSBK) : NetFrame := { tsbk := t }

/-- The adjacent site broadcast of the spec's scenario S4, as decoded from
the network: site 2 of system 0x294, RFSS 1, channel ID 1, channel 10. -/
def adjStsBcast : TSBK :=
  { lco := LCO.TSBK_OSP_ADJ_STS_BCAST, adjSiteId := 2, adjSiteSysId := 0x294,
    adjSiteRFSSId := 1, adjSiteChnId := 1, adjSiteChnNo := 10 }

/-- Calls into the frame shaper, through which the engine writes every TSBK,
and changes of the owning `Control` between two calls. -/
inductive MbfOp where
  -- a TSBK is set up in m_rfTSBK and written by writeRF_TSDU_MBF
  | mbf (tsbk : TSBK) (clearBeforeWrite : Bool)
  -- a TSBK is set up in m_rfTSBK and written by writeRF_TSDU_SBF
  | sbf (tsbk : TSBK) (noNetwork clearBeforeWrite : Bool)
  -- queueRF_TSBK_Ctrl_MBF(lco), with the content of a TSBK after reset()
  | ctrl (reset : TSBK → TSBK) (walk : AdjSiteWalk) (lco : LCO)
  -- the owning Control changes
  | peer (p25 : Control)

namespace TrunkPacket

/-- One call into the frame shaper. -/
def mbfStep (s : TrunkPacket) : MbfOp → TrunkPacket
  | MbfOp.mbf tsbk clearBeforeWrite => (s.setRfTSBK tsbk).writeRF_TSDU_MBF clearBeforeWrite
  | MbfOp.sbf tsbk noNetwork clearBeforeWrite =>
    (s.setRfTSBK tsbk).writeRF_TSDU_SBF noNetwork clearBeforeWrite
  | MbfOp.ctrl reset walk lco => queueRF_TSBK_Ctrl_MBF reset walk s lco
  | MbfOp.peer p25 => s.setControl p25

/-- A sequence of calls into the frame shaper, first to last. -/
def mbfRun (s : TrunkPacket) (ops : List MbfOp) : TrunkPacket := ops.foldl mbfStep s

end TrunkPacket

/-- The adjacent site part of the engine: the site table, the update
counters and the update timer. -/
structure AdjSites where
  adjSiteTable : List (Nat × SiteData)
  adjSiteUpdateCnt : List (Nat × Nat)
  adjSiteUpdateTimer : Timer
  adjSiteUpdateInterval : Nat
  deriving DecidableEq, Repr

/-- Calls that move the adjacent site tables: the periodic clock and a frame
from the network. -/
inductive AdjOp where
  | clock (ms : Nat)
  | net (frame : NetFrame)
  deriving DecidableEq, Repr

/-- Whether a call is a network adjacent site broadcast about `siteId`. -/
def AdjOp.isBcastOf (siteId : Nat) : AdjOp → Bool
  | AdjOp.clock _ => false
  | AdjOp.net frame =>
    decide (frame.tsbk.lco = LCO.TSBK_OSP_ADJ_STS_BCAST ∧ frame.tsbk.adjSiteId = siteId)

/-- Whether the site ID of a network frame fits its field, a `uint8_t`. -/
def AdjOp.siteIdFits : AdjOp → Bool
  | AdjOp.clock _ => true
  | AdjOp.net frame => decide (frame.tsbk.adjSiteId < 256)

namespace TrunkPacket

/-- The adjacent site part of an engine state. -/
def adj (s : TrunkPacket) : AdjSites :=
  { adjSiteTable := s.adjSiteTable, adjSiteUpdateCnt := s.adjSiteUpdateCnt,
    adjSiteUpdateTimer := s.adjSiteUpdateTimer,
    adjSiteUpdateInterval := s.adjSiteUpdateInterval }

/-- Well-formedness of the counter map `m_adjSiteUpdateCnt`, a map from
`uint8_t` to `uint8_t`: no site twice, sites and counters below 256. -/
def AdjInv (s : TrunkPacket) : Prop :=
  (tblKeys s.adjSiteUpdateCnt).Nodup ∧ ∀ e ∈ s.adjSiteUpdateCnt, e.1 < 256 ∧ e.2 < 256

/-- Whether `clock(ms)` finds the adjacent site update timer expired: control
is enabled and the timer, clocked by `ms`, is running and has expired. -/
def adjSiteTimerExpires (s : TrunkPacket) (ms : Nat) : Bool :=
  s.p25.control && ((s.adjSiteUpdateTimer.clock ms).isRunning &&
    (s.adjSiteUpdateTimer.clock ms).hasExpired)

/-- One call that moves the adjacent site tables. -/
def adjStep (acl : AccessControl) (s : TrunkPacket) : AdjOp → TrunkPacket
  | AdjOp.clock ms => s.clock ms
  | AdjOp.net frame => (processNetwork acl s frame).2

/-- A sequence of such calls, first to last. -/
def adjRun (acl : AccessControl) (s : TrunkPacket) (ops : List AdjOp) : TrunkPacket :=
  ops.foldl (adjStep acl) s

/-- The number of calls of `clock` in a sequence that find the adjacent site
update timer expired. -/
def adjExpiries (acl : AccessControl) : TrunkPacket → List AdjOp → Nat
  | _, [] => 0
  | s, AdjOp.clock ms :: ops =>
    (if s.adjSiteTimerExpires ms then 1 else 0) + adjExpiries acl (s.clock ms) ops
  | s, AdjOp.net frame :: ops => adjExpiries acl (processNetwork acl s frame).2 ops

end TrunkPacket

/-- The engine of the spec's scenario S4: a trunked site, local site ID 1, with
the adjacent site update timer started on its interval of
`ADJ_SITE_TIMER_TIMEOUT` seconds. -/
def scenarioAdjSites : TrunkPacket :=
  { siteData := { siteId := 1 },
    adjSiteUpdateTimer := (Timer.create 1000 ADJ_SITE_TIMER_TIMEOUT).start }

/-- The spec's scenario S4 after the broadcast about site 2 has come in from
the network. -/
def scenarioAdjUpserted : TrunkPacket :=
  (TrunkPacket.processNetwork aclAcceptAll scenarioAdjSites (netTSDU adjStsBcast)).2

/-- Five ticks of `clock(30000)`. -/
def fiveTicks : List AdjOp :=
  [AdjOp.clock 30000, AdjOp.clock 30000, AdjOp.clock 30000, AdjOp.clock 30000,
   AdjOp.clock 30000]

/-- A group affiliation command from the network: unit 1001 to group 5000. -/
def netGrpAff : TSBK :=
  { lco := LCO.TSBK_IOSP_GRP_AFF, srcId := 1001, dstId := 5000 }

/-- A unit deregistration acknowledgement from the network, for unit 1001. -/
def netUDeregAck : TSBK :=
  { lco := LCO.TSBK_OSP_U_DEREG_ACK, srcId := P25_WUID_SYS, dstId := 1001 }

/-- A simplex repeater: duplex is disabled. -/
def scenarioSimplex : TrunkPacket :=
  { p25 := { duplex := false } }

/-- The engine of `scenarioStatusCodes` with a status command armed by unit
1001 with status value `code`. -/
def scenarioArmed (code : Nat) : TrunkPacket :=
  { scenarioStatusCodes with statusSrcId := 1001, statusValue := code }

/-- An inbound telephone interconnect answer from 1001 with response `r`. -/
def teleIntAns (r : Response) : TSBK :=
  { lco := LCO.TSBK_IOSP_TELE_INT_ANS, srcId := 1001, dstId := 1002, response := r }

/-- A control channel site in duplex mode, no control channel running. -/
def scenarioControl : TrunkPacket :=
  { p25 := { control := true, duplex := true } }

namespace TrunkPacket

/-- Call `m_rfTSBK.reset()`, with the content of a TSBK after `reset()` as a
parameter (`TSBK.cpp` is not part of the sources). -/
def resetRfTSBK (reset : TSBK → TSBK) (s : TrunkPacket) : TrunkPacket :=
  s.setRfTSBK (reset s.rfTSBK)

/-- The body of the `do ... while (i <= seqCnt)` loop of
`writeRF_ControlData`, run `iterations` times: the RF TSBK is reset, the
sequence number `n` selects the broadcast to queue, and `n` (a `uint8_t`) is
incremented when `seqCnt > 0`. -/
def controlDataLoop (reset : TSBK → TSBK) (walk : AdjSiteWalk) (adjSS : Bool) (seqCnt : Nat) :
    Nat → TrunkPacket → Nat → TrunkPacket
  | 0, s, _ => s
  | iterations + 1, s, n =>
    let s := s.resetRfTSBK reset
    let s :=
      match n with
      | 0 => queueRF_TSBK_Ctrl_MBF reset walk s LCO.TSBK_OSP_IDEN_UP
      | 1 => queueRF_TSBK_Ctrl_MBF reset walk s LCO.TSBK_OSP_RFSS_STS_BCAST
      | 2 => queueRF_TSBK_Ctrl_MBF reset walk s LCO.TSBK_OSP_NET_STS_BCAST
      | 3 => queueRF_TSBK_Ctrl_MBF reset walk s LCO.TSBK_OSP_SNDCP_CH_ANN
      | 4 => if adjSS then queueRF_TSBK_Ctrl_MBF reset walk s LCO.TSBK_OSP_ADJ_STS_BCAST else s
      | _ => s
    let n := if seqCnt > 0 then (n + 1) % 256 else n
    controlDataLoop reset walk adjSS seqCnt iterations s n

/-- The padding at the end of `writeRF_ControlData` ("add padding after the
4th sequence"): with one TSBK pending two broadcasts are queued, with two
pending one, and the cursor of the multi-block buffer is reset. -/
def controlDataPad (reset : TSBK → TSBK) (walk : AdjSiteWalk) (s : TrunkPacket) :
    TrunkPacket :=
  let s :=
    if s.mbfCnt = 1 then
      let s := queueRF_TSBK_Ctrl_MBF reset walk s LCO.TSBK_OSP_RFSS_STS_BCAST
      queueRF_TSBK_Ctrl_MBF reset walk s LCO.TSBK_OSP_NET_STS_BCAST
    else s
  let s :=
    if s.mbfCnt = 2 then
      if s.p25.idenTable.length > 1 then queueRF_TSBK_Ctrl_MBF reset walk s LCO.TSBK_OSP_IDEN_UP
      else queueRF_TSBK_Ctrl_MBF reset walk s LCO.TSBK_OSP_RFSS_STS_BCAST
    else s
  s.setMBF s.rfMBF 0

/-- Helper to write control channel packet data. The loop runs for
`i = 0, ..., seqCnt`. -/
def writeRF_ControlData (reset : TSBK → TSBK) (walk : AdjSiteWalk) (s : TrunkPacket)
    (frameCnt n : Nat)
    (adjSS : Bool) : TrunkPacket :=
  if s.p25.control = false then s
  else
    let seqCnt := if frameCnt = 255 then 6 else 0
    let s := controlDataLoop reset walk adjSS seqCnt (seqCnt + 1) s n
    let bsi := decide (frameCnt % 64 = 0)
    let s :=
      if bsi = true ∨ frameCnt = 255 then queueRF_TSBK_Ctrl_MBF reset walk s LCO.TSBK_OSP_MOT_CC_BSI
      else s
    if seqCnt > 4 then controlDataPad reset walk s else s

/-- The position in a table of `length` entries on which a broadcast cursor
(`m_mbfIdenCnt`, `m_mbfAdjSSCnt`) stands when the broadcast is built: a
cursor at or past the end is first set back to zero. -/
def cursorEntry (length cursor : Nat) : Nat := if cursor ≥ length then 0 else cursor

end TrunkPacket

/-- A control channel site in duplex mode with a single channel identity
(base frequency 851 MHz) and the adjacent sites 2 and 3. -/
def scenarioBroadcast : TrunkPacket :=
  { p25 := { control := true, duplex := true,
             idenTable := [{ channelId := 1, baseFrequency := 851000000 }] },
    adjSiteTable := [(2, { siteId := 2, sysId := 0x294 }), (3, { siteId := 3, sysId := 0x294 })] }

namespace TrunkPacket

/-- The frame shaper in the course of a run from the state `s0`: the owning
control and the adjacent site table are those of `s0`, the triple frames of
`done` have been queued since, in this order and nothing else, and the
TSBKs of `pending` (fewer than three) are staged in the multi-block buffer,
with the cursor behind them. -/
def Staged (s0 r : TrunkPacket) (done : List (List TSBK)) (pending : List TSBK) : Prop :=
  r.p25 = s0.p25 ∧ r.adjSiteTable = s0.adjSiteTable ∧
  r.events = s0.events ++ done.map (fun b => Event.writeQueueRF (Frame.mbf (b.map some))) ∧
  r.mbfCnt = pending.length ∧ pending.length < TSBK_MBF_CNT ∧
  mbfBlocks r.rfMBF pending.length = pending.map some

end TrunkPacket

/-- The identity of an adjacent site as an ADJ_STS_BCAST carries it: system
ID, RFSS ID, site ID, channel ID and channel number. -/
def TSBK.adjSite (t : TSBK) : Nat × Nat × Nat × Nat × Nat :=
  (t.adjSiteSysId, t.adjSiteRFSSId, t.adjSiteId, t.adjSiteChnId, t.adjSiteChnNo)

/-- The identity of an entry of the adjacent site table. -/
def SiteData.adjSite (e : SiteData) : Nat × Nat × Nat × Nat × Nat :=
  (e.sysId, e.rfssId, e.siteId, e.channelId, e.channelNo)

/-- Two channel identities, below and above 762 MHz. -/
def scenarioIdentities : TrunkPacket :=
  { p25 := { idenTable := [{ channelId := 0, baseFrequency := 450000000 },
                            { channelId := 1, baseFrequency := 851000000 }] } }

/-- The TSBK of a single-block frame. -/
def Frame.single : Frame → Option TSBK
  | Frame.sbf t => some t
  | Frame.mbf _ => none

namespace TrunkPacket

/-- The frame of a call of `m_p25->writeQueueRF`. -/
def eventFrame : Event → Option Frame
  | Event.writeQueueRF f => some f
  | _ => none

/-- Frames handed to the modem transmit queue by `writeQueueRF` so far,
oldest first. -/
def queued (s : TrunkPacket) : List Frame := s.events.filterMap eventFrame

/-- From `s` to `s'` the shaper is configured the same way (duplex,
continuous control, control channel running), the TSBKs of some list were
handed to `writeRF_TSDU_SBF`, and in duplex mode without a control channel
running each of them was placed on the modem queue as a single-block frame,
in the same order, and no other frame was. -/
def Sends (s s' : TrunkPacket) : Prop :=
  s'.p25.duplex = s.p25.duplex ∧ s'.p25.continuousControl = s.p25.continuousControl ∧
  s'.p25.ccRunning = s.p25.ccRunning ∧
  ∃ l : List TSBK, s'.emitted = s.emitted ++ l ∧
    (s.p25.duplex = true → s.p25.continuousControl = false → s.p25.ccRunning = false →
      s'.queued = s.queued ++ l.map Frame.sbf)

/-- Assignment to `m_p25->m_control`. -/
def setControlFlag (s : TrunkPacket) (b : Bool) : TrunkPacket :=
  { s with p25 := { s.p25 with control := b } }

/-- From `r` to `r'` the RF TSBK of `r'` went into the multi-block buffer:
as the last block of the triple frame that is queued when two blocks were
staged, and else staged at the cursor, which moves on by one. -/
def Placed (r r' : TrunkPacket) : Prop :=
  (r.mbfCnt + 1 = TSBK_MBF_CNT →
    r'.mbfCnt = 0 ∧
    r'.events = r.events ++
      [Event.writeQueueRF (Frame.mbf (mbfBlocks r.rfMBF r.mbfCnt ++ [some r'.rfTSBK]))]) ∧
  (r.mbfCnt + 1 ≠ TSBK_MBF_CNT →
    r'.mbfCnt = r.mbfCnt + 1 ∧ r'.events = r.events ∧
    tblAt r'.rfMBF r.mbfCnt = some r'.rfTSBK)

end TrunkPacket

end p25

/-! ## The raw frame queue of the network layer

A shallow embedding of `network::RawFrameQueue` (file
`common/network/RawFrameQueue.cpp`). The socket is a parameter: whether a
write of a batch succeeds; the batches handed to it are recorded in the
`writes` trace of the queue. Calls are sequential: the flush mutex is not
modelled. -/

namespace network

/-- A datagram queued for the socket (`udp::UDPDatagram`): the copied bytes,
their length, and the destination address with its length, the address kept
opaque as a number. -/
structure UDPDatagram where
  buffer : List Nat
  length : Nat
  address : Nat
  addrLen : Nat
  deriving DecidableEq, Repr

/-- A message passed to `enqueueMessage`: the bytes at `message`, the
`length` to copy, and the destination address with its length. -/
structure Message where
  message : List Nat
  length : Nat
  addr : Nat
  addrLen : Nat
  deriving DecidableEq, Repr

/-- State of a `RawFrameQueue`: the queued datagrams `m_buffers`, oldest
first, and the batches handed to `m_socket->write` so far, in program
order. -/
structure RawFrameQueue where
  buffers : List UDPDatagram := []
  writes : List (List UDPDatagram) := []
  deriving DecidableEq, Repr

namespace RawFrameQueue

/-- Cache message to frame queue. The assertion `length > 0U` fails as
`none`. The new buffer of `length` bytes is zeroed and then receives the
first `length` bytes of the message; the datagram goes to the back of
`m_buffers`. -/
def enqueueMessage (q : RawFrameQueue) (message : List Nat) (length : Nat) (addr addrLen : Nat) :
    Option RawFrameQueue :=
  if length = 0 then none
  else
    let buffer := message.take length ++ List.replicate (length - message.length) 0
    let dgram : UDPDatagram :=
      { buffer := buffer, length := length, address := addr, addrLen := addrLen }
    some { q with buffers := q.buffers ++ [dgram] }

/-- Helper to ensure buffers are deleted. -/
def deleteBuffers (q : RawFrameQueue) : RawFrameQueue :=
  { q with buffers := [] }

/-- Flush the message queue: `socketWrite` tells whether `m_socket->write`
succeeds on the batch it is handed. -/
def flushQueue (socketWrite : List UDPDatagram → Bool) (q : RawFrameQueue) :
    Bool × RawFrameQueue :=
  let ret := true
  if q.buffers.isEmpty then (false, q)
  else if q.buffers.length = 0 then (false, q)
  else
    let ret := if socketWrite q.buffers = false then false else ret
    let q := { q with writes := q.writes ++ [q.buffers] }
    (ret, q.deleteBuffers)

/-- Calls of `enqueueMessage`, one per message, first to last. -/
def enqueueAll (q : RawFrameQueue) : List Message → Option RawFrameQueue
  | [] => some q
  | m :: ms =>
    match q.enqueueMessage m.message m.length m.addr m.addrLen with
    | some q => enqueueAll q ms
    | none => none

end RawFrameQueue

end network

/-! ## Bit macros, idle bits and the NXDN slow associated control channel -/

/-- The macros `READ_BIT` and `WRITE_BIT` of `Defines.h`, which is not part
of the sources, as a parameter. A buffer (`uint8_t*`) is given by the byte at
each index; `READ_BIT p i` reads bit `i` of the buffer `p` and
`WRITE_BIT p i b` is the buffer after bit `i` has been written. -/
structure BitMacros where
  READ_BIT : (Nat → Nat) → Nat → Bool
  WRITE_BIT : (Nat → Nat) → Nat → Bool → Nat → Nat

/-- What the code expects of the bit macros: a bit written is the bit read,
writing a bit leaves the other bits alone, writing the value a bit has
leaves the buffer as it is, and writing bit `i` touches the byte `i / 8`
only. -/
def BitMacros.Lawful (m : BitMacros) : Prop :=
  (∀ p i b, m.READ_BIT (m.WRITE_BIT p i b) i = b) ∧
  (∀ p i j b, j ≠ i → m.READ_BIT (m.WRITE_BIT p i b) j = m.READ_BIT p j) ∧
  (∀ p i, m.WRITE_BIT p i (m.READ_BIT p i) = p) ∧
  (∀ p i b k, k ≠ i / 8 → m.WRITE_BIT p i b k = p k)

/-- Bit masks within a byte, most significant bit first. -/
def msbMaskTable : List Nat := [0x80, 0x40, 0x20, 0x10, 0x08, 0x04, 0x02, 0x01]

/-- The mask of bit `i` within its byte. -/
def msbMask (i : Nat) : Nat := msbMaskTable.getD (i &&& 7) 0

/-- Bit macros that number the bits of each byte from the most significant
one: bit `i` is the bit `msbMask i` of the byte `i >> 3`; a write sets the
bit with `|` or clears it. -/
def msbFirst : BitMacros :=
  { READ_BIT := fun p i => decide (p (i >>> 3) &&& msbMask i ≠ 0),
    WRITE_BIT := fun p i b => Function.update p (i >>> 3)
      (if b then p (i >>> 3) ||| msbMask i
       else p (i >>> 3) ^^^ (p (i >>> 3) &&& msbMask i)) }

namespace p25
namespace TrunkPacket

/-- The loop of `addIdleBits`, on `uint32_t` positions. `fuel` bounds the
number of passes; `none` stands for a loop that has not ended within them. -/
def addIdleBitsLoop (m : BitMacros) (step length : Nat) (b1 b2 : Bool) :
    Nat → Nat → (Nat → Nat) → Option (Nat → Nat)
  | 0, _, _ => none
  | fuel + 1, ss0Pos, data =>
    if ss0Pos < length then
      let ss1Pos := (ss0Pos + 1) % 2 ^ 32
      let data := m.WRITE_BIT data ss0Pos b1
      let data := m.WRITE_BIT data ss1Pos b2
      addIdleBitsLoop m step length b1 b2 fuel ((ss0Pos + step) % 2 ^ 32) data
    else some data

/-- Helper to add the idle status bits on P25 frame data. The constants
`P25_SS0_START` and `P25_SS_INCREMENT` of `P25Defines.h`, which is not part
of the sources, are parameters. The loop is given `length + 1` passes. -/
def addIdleBits (m : BitMacros) (P25_SS0_START P25_SS_INCREMENT : Nat) (data : Nat → Nat)
    (length : Nat) (b1 b2 : Bool) : Option (Nat → Nat) :=
  addIdleBitsLoop m ((P25_SS_INCREMENT * 5) % 2 ^ 32) length b1 b2 (length + 1)
    P25_SS0_START data

/-- The positions `start + k * step` below `length`, k = 0, 1, 2, ... -/
def isSS0Pos (start step length j : Nat) : Bool :=
  decide (start ≤ j ∧ j < length ∧ (j - start) % step = 0)

end TrunkPacket
end p25

namespace nxdn

/-- The constants of `NXDNDefines.h` that `SACCH.cpp` uses. The header is
not part of the sources: the constants are parameters (`uint32_t` values). -/
structure NXDNDefines where
  NXDN_FSW_LENGTH_BITS : Nat
  NXDN_LICH_LENGTH_BITS : Nat
  NXDN_SACCH_LENGTH_BITS : Nat
  NXDN_SACCH_CRC_LENGTH_BITS : Nat
  NXDN_SACCH_FEC_LENGTH_BITS : Nat
  NXDN_SACCH_FEC_CONV_LENGTH_BITS : Nat

/-- The classes `edac::Convolution` and `edac::CRC`, whose code is not part
of the sources, as parameters: the convolutional encoder, the Viterbi
decoder run over the symbol pairs with the chainback into `m_data` (`none`
when a decoding step fails), and the CRC-6 of the first bits of a buffer. -/
structure Edac where
  convEncode : (Nat → Nat) → Nat → Nat → Nat
  convDecode : List (Nat × Nat) → (Nat → Nat) → Nat → Option (Nat → Nat)
  addCRC6 : (Nat → Nat) → Nat → Nat → Nat
  checkCRC6 : (Nat → Nat) → Nat → Bool

namespace channel

def INTERLEAVE_TABLE : List Nat := [
  0, 5, 10, 15, 20, 25, 30, 35, 40, 45, 50, 55,
  1, 6, 11, 16, 21, 26, 31, 36, 41, 46, 51, 56,
  2, 7, 12, 17, 22, 27, 32, 37, 42, 47, 52, 57,
  3, 8, 13, 18, 23, 28, 33, 38, 43, 48, 53, 58,
  4, 9, 14, 19, 24, 29, 34, 39, 44, 49, 54, 59]

def PUNCTURE_LIST : List Nat := [5, 11, 17, 23, 29, 35, 41, 47, 53, 59, 65, 71]

/-- A buffer after `memset(p, 0x00, n)`. -/
def zeroed : Nat → Nat := fun _ => 0

/-- State of a `SACCH`: the RAN, the channel structure and the bytes of
`m_data`. -/
structure SACCH where
  m_ran : Nat := 0
  m_structure : Nat := 0
  m_data : Nat → Nat := zeroed

namespace SACCH

/-- The assignments `m_ran = m_data[0U] & 0x3FU` and
`m_structure = (m_data[0U] >> 6) & 0x03U` that end `decode`, `copy` and
`operator=`. -/
def loadHeader (s : SACCH) : SACCH :=
  { s with m_ran := s.m_data 0 &&& 0x3F, m_structure := (s.m_data 0 >>> 6) &&& 0x03 }

/-- Internal helper to copy the class: `memcpy` of `m_data`, then the
header fields. -/
def copy (data : SACCH) : SACCH :=
  SACCH.loadHeader { m_data := data.m_data }

/-- Equals operator, for `&data != this`. -/
def assign (s data : SACCH) : SACCH :=
  SACCH.loadHeader { s with m_data := data.m_data }

/-- The four assignments to `m_data[0U]` that open `encode`, on `uint8_t`
values. -/
def storeHeader (s : SACCH) : SACCH :=
  let b := s.m_data 0 &&& 0xC0
  let b := (b ||| s.m_ran) % 256
  let b := b &&& 0x3F
  let b := (b ||| ((s.m_structure <<< 6) &&& 0xC0)) % 256
  { s with m_data := Function.update s.m_data 0 b }

/-- The frame bit of the bit `i` of the punctured block:
`INTERLEAVE_TABLE[i] + NXDN_FSW_LENGTH_BITS + NXDN_LICH_LENGTH_BITS`, a
`uint32_t`; `none` past the end of the table. -/
def frameBit (d : NXDNDefines) (i : Nat) : Option Nat :=
  match INTERLEAVE_TABLE.get? i with
  | some t => some ((t + d.NXDN_FSW_LENGTH_BITS + d.NXDN_LICH_LENGTH_BITS) % 2 ^ 32)
  | none => none

/-- The loop "deinterleave" of `decode`, into a zeroed buffer. -/
def deinterleave (m : BitMacros) (d : NXDNDefines) (data : Nat → Nat) : Option (Nat → Nat) :=
  (List.range d.NXDN_SACCH_FEC_LENGTH_BITS).foldlM (fun buffer i =>
    match frameBit d i with
    | some n => some (m.WRITE_BIT buffer i (m.READ_BIT data n))
    | none => none) zeroed

/-- One pass of the loop "depuncture" of `decode` on the cursor `n`, the
index into `PUNCTURE_LIST` and the symbol buffer `puncture[90]`; `none` is
an access past the end of the list or of the buffer. -/
def depunctureStep (m : BitMacros) (buffer : Nat → Nat) (st : Nat × Nat × List Nat)
    (i : Nat) : Option (Nat × Nat × List Nat) :=
  match PUNCTURE_LIST.get? st.2.1 with
  | none => none
  | some p =>
    let st1 : Option (Nat × Nat × List Nat) :=
      if st.1 = p then
        if st.1 < st.2.2.length then some (st.1 + 1, st.2.1 + 1, st.2.2.set st.1 1) else none
      else some st
    match st1 with
    | none => none
    | some (n, index, puncture) =>
      let b := m.READ_BIT buffer i
      if n < puncture.length then some (n + 1, index, puncture.set n (if b then 2 else 0))
      else none

/-- One pass of the loop that appends the eight flush symbols. -/
def flushStep (st : Nat × List Nat) (_i : Nat) : Option (Nat × List Nat) :=
  if st.1 < st.2.length then some (st.1 + 1, st.2.set st.1 0) else none

/-- The part "depuncture" of `decode`: the symbol buffer of 90 entries
handed to the Viterbi decoder. -/
def depuncture (m : BitMacros) (d : NXDNDefines) (buffer : Nat → Nat) : Option (List Nat) :=
  match (List.range d.NXDN_SACCH_FEC_LENGTH_BITS).foldlM (depunctureStep m buffer)
      (0, 0, List.replicate 90 0) with
  | none => none
  | some (n, _, puncture) =>
    match (List.range 8).foldlM flushStep (n, puncture) with
    | none => none
    | some (_, puncture) => some puncture

/-- The symbol buffer of 90 entries whose first `n` positions are filled
the way the loop "depuncture" fills them: the erasure 1 at the positions
5, 11, 17, ..., the symbol of a received bit (2 for one, 0 for zero) at the
others, where position p holds the received bit p - p / 6; zero from
position `n` on. -/
def depunctured (m : BitMacros) (buffer : Nat → Nat) (n : Nat) : List Nat :=
  (List.range 90).map (fun p =>
    if p < n then
      if p % 6 = 5 then 1 else if m.READ_BIT buffer (p - p / 6) then 2 else 0
    else 0)

/-- The symbol pairs `puncture[n++]`, `puncture[n++]` that `decode` hands to
the Viterbi decoder, `count` of them; `none` past the end of the buffer. -/
def symbolPairs (puncture : List Nat) (count : Nat) : Option (List (Nat × Nat)) :=
  (List.range count).mapM (fun i =>
    match puncture.get? (2 * i), puncture.get? (2 * i + 1) with
    | some s0, some s1 => some (s0, s1)
    | _, _ => none)

/-- Decode a slow associated control channel. `none` is an access out of
bounds; `some (false, _)` is the `return false`. -/
def decode (m : BitMacros) (d : NXDNDefines) (lib : Edac) (s : SACCH) (data : Nat → Nat) :
    Option (Bool × SACCH) :=
  match deinterleave m d data with
  | none => none
  | some buffer =>
    match depuncture m d buffer with
    | none => none
    | some puncture =>
      match symbolPairs puncture (d.NXDN_SACCH_CRC_LENGTH_BITS + 4) with
      | none => none
      | some pairs =>
        match lib.convDecode pairs s.m_data d.NXDN_SACCH_CRC_LENGTH_BITS with
        | none => some (false, s)
        | some decoded =>
          let s := { s with m_data := decoded }
          if lib.checkCRC6 s.m_data d.NXDN_SACCH_LENGTH_BITS = false then some (false, s)
          else some (true, s.loadHeader)

/-- One pass of the loop "puncture" of `encode` on the cursor `n`, the index
into `PUNCTURE_LIST` and the punctured block; `none` is an access past the
end of the list. -/
def punctureStep (m : BitMacros) (convolution : Nat → Nat) (st : Nat × Nat × (Nat → Nat))
    (i : Nat) : Option (Nat × Nat × (Nat → Nat)) :=
  match PUNCTURE_LIST.get? st.2.1 with
  | none => none
  | some p =>
    if i ≠ p then
      some (st.1 + 1, st.2.1, m.WRITE_BIT st.2.2 st.1 (m.READ_BIT convolution i))
    else some (st.1, st.2.1 + 1, st.2.2)

/-- The part "puncture" of `encode`, into a zeroed buffer. -/
def puncture (m : BitMacros) (d : NXDNDefines) (convolution : Nat → Nat) :
    Option (Nat → Nat) :=
  match (List.range d.NXDN_SACCH_FEC_CONV_LENGTH_BITS).foldlM (punctureStep m convolution)
      (0, 0, zeroed) with
  | none => none
  | some (_, _, puncture) => some puncture

/-- The loop "interleave" of `encode`, into the frame `data`. -/
def interleave (m : BitMacros) (d : NXDNDefines) (puncture data : Nat → Nat) :
    Option (Nat → Nat) :=
  (List.range d.NXDN_SACCH_FEC_LENGTH_BITS).foldlM (fun data i =>
    match frameBit d i with
    | some n => some (m.WRITE_BIT data n (m.READ_BIT puncture i))
    | none => none) data

/-- Encode a slow associated control channel: the object after the call
(`m_data[0]` is written) and the frame. `none` is an access out of bounds. -/
def encode (m : BitMacros) (d : NXDNDefines) (lib : Edac) (s : SACCH) (data : Nat → Nat) :
    Option (SACCH × (Nat → Nat)) :=
  let s := s.storeHeader
  let buffer := (List.range d.NXDN_SACCH_LENGTH_BITS).foldl
    (fun buffer i => m.WRITE_BIT buffer i (m.READ_BIT s.m_data i)) zeroed
  let buffer := lib.addCRC6 buffer d.NXDN_SACCH_LENGTH_BITS
  let convolution := lib.convEncode buffer d.NXDN_SACCH_CRC_LENGTH_BITS
  match puncture m d convolution with
  | none => none
  | some puncture =>
    match interleave m d puncture data with
    | none => none
    | some data => some (s, data)

/-- The number of passes of the loops of `getData` and `setData`:
`NXDN_SACCH_LENGTH_BITS - 8` in `uint32_t`. -/
def payloadBits (d : NXDNDefines) : Nat :=
  (d.NXDN_SACCH_LENGTH_BITS + 2 ^ 32 - 8) % 2 ^ 32

/-- Gets the raw SACCH data: the buffer `data` after the call. -/
def getData (m : BitMacros) (d : NXDNDefines) (s : SACCH) (data : Nat → Nat) : Nat → Nat :=
  (List.range (payloadBits d)).foldl
    (fun data i => m.WRITE_BIT data i (m.READ_BIT s.m_data ((8 + i) % 2 ^ 32))) data

/-- Sets the raw SACCH data. -/
def setData (m : BitMacros) (d : NXDNDefines) (s : SACCH) (data : Nat → Nat) : SACCH :=
  let m_data := (List.range (payloadBits d)).foldl
    (fun m_data i => m.WRITE_BIT m_data ((8 + i) % 2 ^ 32) (m.READ_BIT data i)) s.m_data
  { s with m_data := m_data }

end SACCH

end channel

/-- Values for the constants of `NXDNDefines.h`: frame sync word 20 bits,
LICH 16 bits, SACCH 26 bits, 36 bits with CRC-6 and tail, 60 bits after
puncturing and 72 bits after the convolution. -/
def scenarioDefines : NXDNDefines :=
  { NXDN_FSW_LENGTH_BITS := 20, NXDN_LICH_LENGTH_BITS := 16, NXDN_SACCH_LENGTH_BITS := 26,
    NXDN_SACCH_CRC_LENGTH_BITS := 36, NXDN_SACCH_FEC_LENGTH_BITS := 60,
    NXDN_SACCH_FEC_CONV_LENGTH_BITS := 72 }

end nxdn

/-! ## Lemmas on maps and on the frame shaper -/

namespace p25

theorem newestFirst_lawful : AdjSiteWalk.Lawful newestFirst :=
  fun t => List.reverse_perm t

theorem keyOrder_lawful : AdjSiteWalk.Lawful keyOrder :=
  fun t => List.perm_insertionSort _ t

theorem tblAt_tblSet_self {β : Type} (m : List (Nat × β)) (k : Nat) (v : β) :
    tblAt (tblSet m k v) k = some v := by
  induction m with
  | nil => simp [tblSet, tblAt]
  | cons e m ih =>
    obtain ⟨a, b⟩ := e
    by_cases h : a = k
    · simp [tblSet, tblAt, h]
    · simp [tblSet, tblAt, h, ih]

theorem tblAt_tblSet_ne {β : Type} (m : List (Nat × β)) (k k' : Nat) (v : β) (hne : k ≠ k') :
    tblAt (tblSet m k v) k' = tblAt m k' := by
  induction m with
  | nil => simp [tblSet, tblAt, hne]
  | cons e m ih =>
    obtain ⟨a, b⟩ := e
    by_cases h : a = k
    · subst h; simp [tblSet, tblAt, hne]
    · by_cases h' : a = k'
      · subst h'; simp [tblSet, tblAt, h]
      · simp [tblSet, tblAt, h, h', ih]

namespace TrunkPacket

@[simp] theorem pool_emit (s : TrunkPacket) (e : Event) : (s.emit e).pool = s.pool := rfl
@[simp] theorem p25_emit (s : TrunkPacket) (e : Event) : (s.emit e).p25 = s.p25 := rfl
@[simp] theorem rfTSBK_emit (s : TrunkPacket) (e : Event) : (s.emit e).rfTSBK = s.rfTSBK := rfl
@[simp] theorem skip_emit (s : TrunkPacket) (e : Event) :
    (s.emit e).skipSBFPreamble = s.skipSBFPreamble := rfl
@[simp] theorem events_emit (s : TrunkPacket) (e : Event) : (s.emit e).events = s.events ++ [e] := rfl
@[simp] theorem emitted_emit (s : TrunkPacket) (e : Event) :
    (s.emit e).emitted = s.emitted ++ (eventTSBK e).toList := by
  cases h : eventTSBK e <;> simp [emit, emitted, List.filterMap_append, h]

@[simp] theorem pool_setRfTSBK (s : TrunkPacket) (t : TSBK) : (s.setRfTSBK t).pool = s.pool := rfl
@[simp] theorem p25_setRfTSBK (s : TrunkPacket) (t : TSBK) : (s.setRfTSBK t).p25 = s.p25 := rfl
@[simp] theorem rfTSBK_setRfTSBK (s : TrunkPacket) (t : TSBK) : (s.setRfTSBK t).rfTSBK = t := rfl
@[simp] theorem emitted_setRfTSBK (s : TrunkPacket) (t : TSBK) : (s.setRfTSBK t).emitted = s.emitted := rfl
@[simp] theorem events_setRfTSBK (s : TrunkPacket) (t : TSBK) : (s.setRfTSBK t).events = s.events := rfl

@[simp] theorem pool_setMBF (s : TrunkPacket) (b : List (Nat × TSBK)) (c : Nat) :
    (s.setMBF b c).pool = s.pool := rfl
@[simp] theorem p25_setMBF (s : TrunkPacket) (b : List (Nat × TSBK)) (c : Nat) :
    (s.setMBF b c).p25 = s.p25 := rfl
@[simp] theorem rfTSBK_setMBF (s : TrunkPacket) (b : List (Nat × TSBK)) (c : Nat) :
    (s.setMBF b c).rfTSBK = s.rfTSBK := rfl
@[simp] theorem emitted_setMBF (s : TrunkPacket) (b : List (Nat × TSBK)) (c : Nat) :
    (s.setMBF b c).emitted = s.emitted := rfl

@[simp] theorem pool_setSkipSBFPreamble (s : TrunkPacket) (b : Bool) :
    (s.setSkipSBFPreamble b).pool = s.pool := rfl
@[simp] theorem p25_setSkipSBFPreamble (s : TrunkPacket) (b : Bool) :
    (s.setSkipSBFPreamble b).p25 = s.p25 := rfl
@[simp] theorem emitted_setSkipSBFPreamble (s : TrunkPacket) (b : Bool) :
    (s.setSkipSBFPreamble b).emitted = s.emitted := rfl
@[simp] theorem events_setSkipSBFPreamble (s : TrunkPacket) (b : Bool) :
    (s.setSkipSBFPreamble b).events = s.events := rfl

@[simp] theorem pool_setLastBlock (s : TrunkPacket) (b : Bool) : (s.setLastBlock b).pool = s.pool := rfl
@[simp] theorem p25_setLastBlock (s : TrunkPacket) (b : Bool) : (s.setLastBlock b).p25 = s.p25 := rfl
@[simp] theorem emitted_setLastBlock (s : TrunkPacket) (b : Bool) :
    (s.setLastBlock b).emitted = s.emitted := rfl

@[simp] theorem pool_writeNetworkRF (s : TrunkPacket) (d : TSBK) (r : Bool) : (s.writeNetworkRF d r).pool = s.pool := by
  unfold writeNetworkRF; split_ifs <;> rfl
@[simp] theorem p25_writeNetworkRF (s : TrunkPacket) (d : TSBK) (r : Bool) : (s.writeNetworkRF d r).p25 = s.p25 := by
  unfold writeNetworkRF; split_ifs <;> rfl
@[simp] theorem rfTSBK_writeNetworkRF (s : TrunkPacket) (d : TSBK) (r : Bool) : (s.writeNetworkRF d r).rfTSBK = s.rfTSBK := by
  unfold writeNetworkRF; split_ifs <;> rfl
@[simp] theorem emitted_writeNetworkRF (s : TrunkPacket) (d : TSBK) (r : Bool) : (s.writeNetworkRF d r).emitted = s.emitted := by
  unfold writeNetworkRF; split_ifs <;> simp [eventTSBK]

@[simp] theorem pool_writeRF_TSDU_MBF (s : TrunkPacket) (c : Bool) : (s.writeRF_TSDU_MBF c).pool = s.pool := by
  unfold writeRF_TSDU_MBF; simp only []; split_ifs <;> simp
@[simp] theorem p25_writeRF_TSDU_MBF (s : TrunkPacket) (c : Bool) : (s.writeRF_TSDU_MBF c).p25 = s.p25 := by
  unfold writeRF_TSDU_MBF; simp only []; split_ifs <;> simp
@[simp] theorem emitted_writeRF_TSDU_MBF (s : TrunkPacket) (c : Bool) : (s.writeRF_TSDU_MBF c).emitted = s.emitted := by
  unfold writeRF_TSDU_MBF; simp only []; split_ifs <;> simp [eventTSBK]

@[simp] theorem pool_queueSBF (s : TrunkPacket) (d : TSBK) (c : Bool) : (s.queueSBF d c).pool = s.pool := by
  unfold queueSBF; simp only []; split_ifs <;> simp
@[simp] theorem p25_queueSBF (s : TrunkPacket) (d : TSBK) (c : Bool) : (s.queueSBF d c).p25 = s.p25 := by
  unfold queueSBF; simp only []; split_ifs <;> simp
@[simp] theorem emitted_queueSBF (s : TrunkPacket) (d : TSBK) (c : Bool) : (s.queueSBF d c).emitted = s.emitted := by
  unfold queueSBF; simp only []; split_ifs <;> simp [eventTSBK]

@[simp] theorem pool_writeRF_TSDU_SBF (s : TrunkPacket) (n c : Bool) :
    (s.writeRF_TSDU_SBF n c).pool = s.pool := by
  unfold writeRF_TSDU_SBF; simp only []; split_ifs <;> simp

@[simp] theorem p25_writeRF_TSDU_SBF (s : TrunkPacket) (n c : Bool) :
    (s.writeRF_TSDU_SBF n c).p25 = s.p25 := by
  unfold writeRF_TSDU_SBF; simp only []; split_ifs <;> simp

theorem emitted_writeRF_TSDU_SBF (s : TrunkPacket) (n c : Bool) :
    (s.writeRF_TSDU_SBF n c).emitted = s.emitted ++ [{ s.rfTSBK with lastBlock := true }] := by
  unfold writeRF_TSDU_SBF; simp only []; split_ifs <;> simp [eventTSBK] <;> rfl

end TrunkPacket

namespace TrunkPacket

@[simp] theorem pool_setLCO (s : TrunkPacket) (l : LCO) : (s.setLCO l).pool = s.pool := rfl
@[simp] theorem p25_setLCO (s : TrunkPacket) (l : LCO) : (s.setLCO l).p25 = s.p25 := rfl
@[simp] theorem emitted_setLCO (s : TrunkPacket) (l : LCO) : (s.setLCO l).emitted = s.emitted := rfl
@[simp] theorem events_setLCO (s : TrunkPacket) (l : LCO) : (s.setLCO l).events = s.events := rfl

theorem setLCO_self (s : TrunkPacket) : s.setLCO s.rfTSBK.lco = s := rfl

@[simp] theorem pool_checkAndReject (s : TrunkPacket) : s.checkAndReject.pool = s.pool := rfl
@[simp] theorem emitted_checkAndReject (s : TrunkPacket) : s.checkAndReject.emitted = s.emitted := rfl
@[simp] theorem events_checkAndReject (s : TrunkPacket) : s.checkAndReject.events = s.events := rfl

theorem pool_setSiteChCnt (s : TrunkPacket) (n : Nat) : (s.setSiteChCnt n).pool = s.pool := rfl

@[simp] theorem pool_writeRF_TSDU_Deny (s : TrunkPacket) (r : Response) (v : LCO) :
    (s.writeRF_TSDU_Deny r v).pool = s.pool := by
  simp [writeRF_TSDU_Deny]

@[simp] theorem pool_writeRF_TSDU_Queue (s : TrunkPacket) (r : Response) (v : LCO) :
    (s.writeRF_TSDU_Queue r v).pool = s.pool := by
  simp [writeRF_TSDU_Queue]

theorem emitted_writeRF_TSDU_Deny (s : TrunkPacket) (r : Response) (v : LCO) :
    (s.writeRF_TSDU_Deny r v).emitted = s.emitted ++ [{ s.rfTSBK with
      lco := LCO.TSBK_OSP_DENY_RSP, service := v, response := r, lastBlock := true }] := by
  simp [writeRF_TSDU_Deny, emitted_writeRF_TSDU_SBF]

theorem emitted_writeRF_TSDU_Queue (s : TrunkPacket) (r : Response) (v : LCO) :
    (s.writeRF_TSDU_Queue r v).emitted = s.emitted ++ [{ s.rfTSBK with
      lco := LCO.TSBK_OSP_QUE_RSP, service := v, response := r, lastBlock := true }] := by
  simp [writeRF_TSDU_Queue, emitted_writeRF_TSDU_SBF]

theorem transmitGrant_fst (s : TrunkPacket) (grp : Bool) (l : LCO) :
    (s.transmitGrant grp l).1 = true := by
  cases grp <;> rfl

theorem pool_transmitGrant (s : TrunkPacket) (grp : Bool) (l : LCO) :
    (s.transmitGrant grp l).2.pool = s.pool := by
  cases grp <;> simp [transmitGrant]

theorem emitted_transmitGrant (s : TrunkPacket) (grp : Bool) (l : LCO) :
    (s.transmitGrant grp l).2.emitted = s.emitted ++ [{ s.rfTSBK with
      lco := (if grp then LCO.TSBK_IOSP_GRP_VCH else LCO.TSBK_IOSP_UU_VCH),
      lastBlock := true }] := by
  cases grp <;> simp [transmitGrant, emitted_writeRF_TSDU_SBF, setLCO]

/-- On the allocation branch `writeRF_TSDU_Grant` transmits from a state that
differs from the entry state in the pool and in the channel number of the RF
TSBK only. -/
theorem writeRF_TSDU_Grant_alloc_eq (s : TrunkPacket) (grp : Bool) (c : Nat) (rest : List Nat)
    (hall : s.rfTSBK.dstId ≠ P25_TGID_ALL)
    (hrf : s.p25.rfState = RPT_RF_STATE.RS_RF_LISTENING ∨
      s.p25.rfState = RPT_RF_STATE.RS_RF_DATA)
    (hnet : s.p25.netState = RPT_NET_STATE.RS_NET_IDLE ∨ s.p25.netLastDstId ≠ s.rfTSBK.dstId)
    (hhang : ¬ (s.p25.rfLastDstId ≠ 0 ∧ s.p25.rfLastDstId ≠ s.rfTSBK.dstId ∧
      s.p25.networkTGHang.isRunning = true ∧ s.p25.networkTGHang.hasExpired = false))
    (hng : s.hasDstIdGranted s.rfTSBK.dstId = false)
    (hfree : s.voiceChTable = c :: rest) :
    ∃ s1 : TrunkPacket,
      s.writeRF_TSDU_Grant grp false = s1.transmitGrant grp s.rfTSBK.lco ∧
      s1.pool = { voiceChTable := rest,
                  grantChTable := tblSet s.grantChTable s.rfTSBK.dstId c,
                  grantTimers := tblSet s.grantTimers s.rfTSBK.dstId
                    (Timer.create 1000 GRANT_TIMER_TIMEOUT).start,
                  voiceChCnt := s.voiceChCnt,
                  voiceGrantChCnt := s.voiceGrantChCnt + 1 } ∧
      s1.rfTSBK.grpVchNo = c ∧ s1.rfTSBK.srcId = s.rfTSBK.srcId ∧
      s1.rfTSBK.dstId = s.rfTSBK.dstId ∧
      s1.p25 = s.p25 ∧ s1.events = s.events := by
  have h1 : ¬ (s.p25.rfState ≠ RPT_RF_STATE.RS_RF_LISTENING ∧
      s.p25.rfState ≠ RPT_RF_STATE.RS_RF_DATA) := by
    rcases hrf with h | h <;> simp [h]
  have h2 : ¬ (s.p25.netState ≠ RPT_NET_STATE.RS_NET_IDLE ∧
      s.rfTSBK.dstId = s.p25.netLastDstId) := by
    rcases hnet with h | h
    · simp [h]
    · intro hh; exact h hh.2.symm
  refine ⟨setSiteChCnt { s with
      voiceChTable := rest,
      grantChTable := tblSet s.grantChTable s.rfTSBK.dstId c,
      rfTSBK := { s.rfTSBK with grpVchNo := c },
      grantTimers := tblSet s.grantTimers s.rfTSBK.dstId
        (Timer.create 1000 GRANT_TIMER_TIMEOUT).start,
      voiceGrantChCnt := s.voiceGrantChCnt + 1 }
    (s.voiceChCnt + (s.voiceGrantChCnt + 1)), ?_, rfl, rfl, rfl, rfl, rfl, rfl⟩
  unfold writeRF_TSDU_Grant
  simp only []
  rw [if_neg hall, if_pos trivial, if_neg h1, if_neg h2, if_neg hhang, if_pos hng]
  rw [hfree]
  simp [setSiteChCnt]

theorem events_eq_emitted {s s1 : TrunkPacket} (h : s1.events = s.events) :
    s1.emitted = s.emitted := by
  simp [emitted, h]

end TrunkPacket
end p25

namespace p25
namespace TrunkPacket

theorem events_queueSBF_duplex (s : TrunkPacket) (d : TSBK) (c : Bool)
    (h : s.p25.duplex = true) :
    (s.queueSBF d c).events.getLast? = some (Event.writeQueueRF (Frame.sbf d)) := by
  unfold queueSBF; simp only []
  split_ifs <;> simp_all

theorem events_writeRF_TSDU_SBF_duplex (s : TrunkPacket) (n c : Bool)
    (hd : s.p25.duplex = true) (hcc : s.p25.continuousControl = false)
    (hrun : s.p25.ccRunning = false) :
    (s.writeRF_TSDU_SBF n c).events.getLast? =
      some (Event.writeQueueRF (Frame.sbf { s.rfTSBK with lastBlock := true })) := by
  unfold writeRF_TSDU_SBF; simp only []
  split_ifs <;> simp_all [events_queueSBF_duplex] <;> rfl

theorem events_transmitGrant_duplex (s : TrunkPacket) (grp : Bool) (l : LCO)
    (hd : s.p25.duplex = true) (hcc : s.p25.continuousControl = false)
    (hrun : s.p25.ccRunning = false) :
    (s.transmitGrant grp l).2.events.getLast? =
      some (Event.writeQueueRF (Frame.sbf { s.rfTSBK with
        lco := (if grp then LCO.TSBK_IOSP_GRP_VCH else LCO.TSBK_IOSP_UU_VCH),
        lastBlock := true })) := by
  cases grp <;> simp [transmitGrant] <;>
    rw [events_writeRF_TSDU_SBF_duplex _ _ _ (by simpa using hd) (by simpa using hcc)
      (by simpa using hrun)] <;> rfl

theorem timerAt_tblSet_self (m : List (Nat × Timer)) (k : Nat) (t : Timer) :
    timerAt (tblSet m k t) k = t := by
  simp [timerAt, tblAt_tblSet_self]

theorem timerAt_tblSet_ne (m : List (Nat × Timer)) (k k' : Nat) (t : Timer) (h : k ≠ k') :
    timerAt (tblSet m k t) k' = timerAt m k' := by
  simp [timerAt, tblAt_tblSet_ne _ _ _ _ h]

/-- Claim C1: a grant request (skip = false) for a destination d other than
the all-call group, with the RF state listening or data, no network
collision, no hang-time block, d not granted and free list c :: rest, returns
true, leaves rest as the free list, maps d to c in the grant table, adds one
to voiceGrantChCnt, starts a fresh 15 s timer for d, and hands exactly one TSBK
to the frame shaper: GRP_VCH (if grp) or UU_VCH carrying channel c and the
request's source and destination; in duplex mode without a running control
channel that TSBK is the frame placed last on the modem queue. -/
theorem writeRF_TSDU_Grant_allocates (s : TrunkPacket) (grp : Bool) (c : Nat) (rest : List Nat)
    (hall : s.rfTSBK.dstId ≠ P25_TGID_ALL)
    (hrf : s.p25.rfState = RPT_RF_STATE.RS_RF_LISTENING ∨
      s.p25.rfState = RPT_RF_STATE.RS_RF_DATA)
    (hnet : s.p25.netState = RPT_NET_STATE.RS_NET_IDLE ∨ s.p25.netLastDstId ≠ s.rfTSBK.dstId)
    (hhang : ¬ (s.p25.rfLastDstId ≠ 0 ∧ s.p25.rfLastDstId ≠ s.rfTSBK.dstId ∧
      s.p25.networkTGHang.isRunning = true ∧ s.p25.networkTGHang.hasExpired = false))
    (hng : s.hasDstIdGranted s.rfTSBK.dstId = false)
    (hfree : s.voiceChTable = c :: rest) :
    (s.writeRF_TSDU_Grant grp false).1 = true ∧
    (s.writeRF_TSDU_Grant grp false).2.voiceChTable = rest ∧
    tblAt (s.writeRF_TSDU_Grant grp false).2.grantChTable s.rfTSBK.dstId = some c ∧
    (s.writeRF_TSDU_Grant grp false).2.voiceGrantChCnt = s.voiceGrantChCnt + 1 ∧
    timerAt (s.writeRF_TSDU_Grant grp false).2.grantTimers s.rfTSBK.dstId =
      (Timer.create 1000 GRANT_TIMER_TIMEOUT).start ∧
    (timerAt (s.writeRF_TSDU_Grant grp false).2.grantTimers s.rfTSBK.dstId).isRunning = true ∧
    (timerAt (s.writeRF_TSDU_Grant grp false).2.grantTimers s.rfTSBK.dstId).hasExpired = false ∧
    ∃ t : TSBK,
      (s.writeRF_TSDU_Grant grp false).2.emitted = s.emitted ++ [t] ∧
      t.lco = (if grp then LCO.TSBK_IOSP_GRP_VCH else LCO.TSBK_IOSP_UU_VCH) ∧
      t.grpVchNo = c ∧ t.srcId = s.rfTSBK.srcId ∧ t.dstId = s.rfTSBK.dstId ∧
      (s.p25.duplex = true → s.p25.continuousControl = false → s.p25.ccRunning = false →
        (s.writeRF_TSDU_Grant grp false).2.events.getLast? =
          some (Event.writeQueueRF (Frame.sbf t))) := by
  obtain ⟨s1, heq, hpool, hch, hsrc, hdst, hp25, hev⟩ :=
    writeRF_TSDU_Grant_alloc_eq s grp c rest hall hrf hnet hhang hng hfree
  rw [heq]
  have hp := (pool_transmitGrant s1 grp s.rfTSBK.lco).trans hpool
  have hfreeEq : (s1.transmitGrant grp s.rfTSBK.lco).2.voiceChTable = rest :=
    congrArg GrantPool.voiceChTable hp
  have hgrants : (s1.transmitGrant grp s.rfTSBK.lco).2.grantChTable =
      tblSet s.grantChTable s.rfTSBK.dstId c := congrArg GrantPool.grantChTable hp
  have htimers : (s1.transmitGrant grp s.rfTSBK.lco).2.grantTimers =
      tblSet s.grantTimers s.rfTSBK.dstId (Timer.create 1000 GRANT_TIMER_TIMEOUT).start :=
    congrArg GrantPool.grantTimers hp
  have hcnt : (s1.transmitGrant grp s.rfTSBK.lco).2.voiceGrantChCnt = s.voiceGrantChCnt + 1 :=
    congrArg GrantPool.voiceGrantChCnt hp
  rw [htimers, hgrants, timerAt_tblSet_self, tblAt_tblSet_self]
  refine ⟨transmitGrant_fst _ _ _, hfreeEq, rfl, hcnt, rfl, by decide, by decide, ?_⟩
  refine ⟨{ s1.rfTSBK with
      lco := (if grp then LCO.TSBK_IOSP_GRP_VCH else LCO.TSBK_IOSP_UU_VCH),
      lastBlock := true }, ?_, rfl, hch, hsrc, hdst, ?_⟩
  · rw [emitted_transmitGrant, events_eq_emitted hev]
  · intro hd hcc hrun
    exact events_transmitGrant_duplex _ _ _ (hp25 ▸ hd) (hp25 ▸ hcc) (hp25 ▸ hrun)

/-- Scenario S1 of the spec as an instance of claim C1: with pool [2,3,4] the
request GRP_VCH src=1001 dst=5000 is granted channel 2, the free list becomes
[3,4] and the grant table maps 5000 to 2. -/
theorem writeRF_TSDU_Grant_allocates_witness :
    ((scenarioPool.setRfTSBK (grpVchRequest 1001 5000)).writeRF_TSDU_Grant true false).1 = true ∧
    ((scenarioPool.setRfTSBK (grpVchRequest 1001 5000)).writeRF_TSDU_Grant true false).2.voiceChTable
      = [3, 4] ∧
    tblAt ((scenarioPool.setRfTSBK (grpVchRequest 1001 5000)).writeRF_TSDU_Grant true
      false).2.grantChTable 5000 = some 2 ∧
    ((scenarioPool.setRfTSBK (grpVchRequest 1001 5000)).writeRF_TSDU_Grant true
      false).2.grantChTable = [(5000, 2)] ∧
    ((scenarioPool.setRfTSBK (grpVchRequest 1001 5000)).writeRF_TSDU_Grant true
      false).2.emitted.map (fun t => (t.lco, t.grpVchNo, t.srcId, t.dstId)) =
      [(LCO.TSBK_IOSP_GRP_VCH, 2, 1001, 5000)] :=
  have h := writeRF_TSDU_Grant_allocates (scenarioPool.setRfTSBK (grpVchRequest 1001 5000))
    true 2 [3, 4] (by decide) (by decide) (by decide) (by decide) (by decide) (by decide)
  ⟨h.1, h.2.1, h.2.2.1, by decide, by decide⟩

end TrunkPacket
end p25

namespace p25
namespace TrunkPacket

theorem events_writeRF_TSDU_Queue_duplex (s : TrunkPacket) (r : Response) (v : LCO)
    (hd : s.p25.duplex = true) (hcc : s.p25.continuousControl = false)
    (hrun : s.p25.ccRunning = false) :
    (s.writeRF_TSDU_Queue r v).events.getLast? =
      some (Event.writeQueueRF (Frame.sbf { s.rfTSBK with
        lco := LCO.TSBK_OSP_QUE_RSP, service := v, response := r, lastBlock := true })) := by
  simp only [writeRF_TSDU_Queue, events_setLCO]
  rw [events_writeRF_TSDU_SBF_duplex _ _ _ (by simpa using hd) (by simpa using hcc)
    (by simpa using hrun)]
  rfl

/-- With a free list that is empty the grant writer queues the request. -/
theorem writeRF_TSDU_Grant_queue_eq (s : TrunkPacket) (grp : Bool)
    (hall : s.rfTSBK.dstId ≠ P25_TGID_ALL)
    (hrf : s.p25.rfState = RPT_RF_STATE.RS_RF_LISTENING ∨
      s.p25.rfState = RPT_RF_STATE.RS_RF_DATA)
    (hnet : s.p25.netState = RPT_NET_STATE.RS_NET_IDLE ∨ s.p25.netLastDstId ≠ s.rfTSBK.dstId)
    (hhang : ¬ (s.p25.rfLastDstId ≠ 0 ∧ s.p25.rfLastDstId ≠ s.rfTSBK.dstId ∧
      s.p25.networkTGHang.isRunning = true ∧ s.p25.networkTGHang.hasExpired = false))
    (hng : s.hasDstIdGranted s.rfTSBK.dstId = false)
    (hfree : s.voiceChTable = []) :
    s.writeRF_TSDU_Grant grp false =
      (false, ((s.writeRF_TSDU_Queue Response.P25_QUE_RSN_CHN_RESOURCE_NOT_AVAIL
        (if grp then LCO.TSBK_IOSP_GRP_VCH else LCO.TSBK_IOSP_UU_VCH)).checkAndReject).setLCO
          s.rfTSBK.lco) := by
  have h1 : ¬ (s.p25.rfState ≠ RPT_RF_STATE.RS_RF_LISTENING ∧
      s.p25.rfState ≠ RPT_RF_STATE.RS_RF_DATA) := by
    rcases hrf with h | h <;> simp [h]
  have h2 : ¬ (s.p25.netState ≠ RPT_NET_STATE.RS_NET_IDLE ∧
      s.rfTSBK.dstId = s.p25.netLastDstId) := by
    rcases hnet with h | h
    · simp [h]
    · intro hh; exact h hh.2.symm
  unfold writeRF_TSDU_Grant
  simp only []
  rw [if_neg hall, if_pos trivial, if_neg h1, if_neg h2, if_neg hhang, if_pos hng]
  rw [hfree]
  cases grp <;> simp

/-- For a destination that is granted the grant writer transmits from a state
that differs from the entry state in the restarted timer and in the channel
number of the RF TSBK only. -/
theorem writeRF_TSDU_Grant_reuse_eq (s : TrunkPacket) (grp : Bool)
    (hall : s.rfTSBK.dstId ≠ P25_TGID_ALL)
    (hrf : s.p25.rfState = RPT_RF_STATE.RS_RF_LISTENING ∨
      s.p25.rfState = RPT_RF_STATE.RS_RF_DATA)
    (hnet : s.p25.netState = RPT_NET_STATE.RS_NET_IDLE ∨ s.p25.netLastDstId ≠ s.rfTSBK.dstId)
    (hhang : ¬ (s.p25.rfLastDstId ≠ 0 ∧ s.p25.rfLastDstId ≠ s.rfTSBK.dstId ∧
      s.p25.networkTGHang.isRunning = true ∧ s.p25.networkTGHang.hasExpired = false))
    (hg : s.hasDstIdGranted s.rfTSBK.dstId = true) :
    ∃ s1 : TrunkPacket,
      s.writeRF_TSDU_Grant grp false = s1.transmitGrant grp s.rfTSBK.lco ∧
      s1.pool = { s.pool with
        grantTimers := tblSet s.grantTimers s.rfTSBK.dstId
          (timerAt s.grantTimers s.rfTSBK.dstId).start } ∧
      s1.rfTSBK.grpVchNo = (tblAt s.grantChTable s.rfTSBK.dstId).getD 0 ∧
      s1.rfTSBK.srcId = s.rfTSBK.srcId ∧ s1.rfTSBK.dstId = s.rfTSBK.dstId ∧
      s1.p25 = s.p25 ∧ s1.events = s.events := by
  have h1 : ¬ (s.p25.rfState ≠ RPT_RF_STATE.RS_RF_LISTENING ∧
      s.p25.rfState ≠ RPT_RF_STATE.RS_RF_DATA) := by
    rcases hrf with h | h <;> simp [h]
  have h2 : ¬ (s.p25.netState ≠ RPT_NET_STATE.RS_NET_IDLE ∧
      s.rfTSBK.dstId = s.p25.netLastDstId) := by
    rcases hnet with h | h
    · simp [h]
    · intro hh; exact h hh.2.symm
  have h3 : ¬ (s.hasDstIdGranted s.rfTSBK.dstId = false) := by simp [hg]
  refine ⟨{ s with
      rfTSBK := { s.rfTSBK with grpVchNo := (tblAt s.grantChTable s.rfTSBK.dstId).getD 0 },
      grantTimers := tblSet s.grantTimers s.rfTSBK.dstId
        (timerAt s.grantTimers s.rfTSBK.dstId).start }, ?_, rfl, rfl, rfl, rfl, rfl, rfl⟩
  unfold writeRF_TSDU_Grant
  simp only []
  rw [if_neg hall, if_pos trivial, if_neg h1, if_neg h2, if_neg hhang, if_neg h3]

/-- Claim C5: a grant request (skip = false) that passes the collision and
hang-time checks for a destination d already granted on channel c returns
true, hands exactly one grant TSBK carrying channel c to the frame shaper,
restarts the timer of d, and leaves the free list, the grant table and
voiceGrantChCnt unchanged; in duplex mode without a running control channel
that TSBK is the frame placed last on the modem queue. -/
theorem writeRF_TSDU_Grant_reuses (s : TrunkPacket) (grp : Bool) (c : Nat)
    (hall : s.rfTSBK.dstId ≠ P25_TGID_ALL)
    (hrf : s.p25.rfState = RPT_RF_STATE.RS_RF_LISTENING ∨
      s.p25.rfState = RPT_RF_STATE.RS_RF_DATA)
    (hnet : s.p25.netState = RPT_NET_STATE.RS_NET_IDLE ∨ s.p25.netLastDstId ≠ s.rfTSBK.dstId)
    (hhang : ¬ (s.p25.rfLastDstId ≠ 0 ∧ s.p25.rfLastDstId ≠ s.rfTSBK.dstId ∧
      s.p25.networkTGHang.isRunning = true ∧ s.p25.networkTGHang.hasExpired = false))
    (hg : s.hasDstIdGranted s.rfTSBK.dstId = true)
    (hc : tblAt s.grantChTable s.rfTSBK.dstId = some c) :
    (s.writeRF_TSDU_Grant grp false).1 = true ∧
    (s.writeRF_TSDU_Grant grp false).2.voiceChTable = s.voiceChTable ∧
    (s.writeRF_TSDU_Grant grp false).2.grantChTable = s.grantChTable ∧
    (s.writeRF_TSDU_Grant grp false).2.voiceGrantChCnt = s.voiceGrantChCnt ∧
    timerAt (s.writeRF_TSDU_Grant grp false).2.grantTimers s.rfTSBK.dstId =
      (timerAt s.grantTimers s.rfTSBK.dstId).start ∧
    (timerAt (s.writeRF_TSDU_Grant grp false).2.grantTimers s.rfTSBK.dstId).isRunning = true ∧
    (∀ k, k ≠ s.rfTSBK.dstId →
      timerAt (s.writeRF_TSDU_Grant grp false).2.grantTimers k = timerAt s.grantTimers k) ∧
    ∃ t : TSBK,
      (s.writeRF_TSDU_Grant grp false).2.emitted = s.emitted ++ [t] ∧
      t.lco = (if grp then LCO.TSBK_IOSP_GRP_VCH else LCO.TSBK_IOSP_UU_VCH) ∧
      t.grpVchNo = c ∧ t.srcId = s.rfTSBK.srcId ∧ t.dstId = s.rfTSBK.dstId ∧
      (s.p25.duplex = true → s.p25.continuousControl = false → s.p25.ccRunning = false →
        (s.writeRF_TSDU_Grant grp false).2.events.getLast? =
          some (Event.writeQueueRF (Frame.sbf t))) := by
  obtain ⟨s1, heq, hpool, hch, hsrc, hdst, hp25, hev⟩ :=
    writeRF_TSDU_Grant_reuse_eq s grp hall hrf hnet hhang hg
  rw [heq]
  have hp := (pool_transmitGrant s1 grp s.rfTSBK.lco).trans hpool
  have htimers : (s1.transmitGrant grp s.rfTSBK.lco).2.grantTimers =
      tblSet s.grantTimers s.rfTSBK.dstId (timerAt s.grantTimers s.rfTSBK.dstId).start :=
    congrArg GrantPool.grantTimers hp
  rw [htimers, timerAt_tblSet_self]
  refine ⟨transmitGrant_fst _ _ _, congrArg GrantPool.voiceChTable hp,
    congrArg GrantPool.grantChTable hp, congrArg GrantPool.voiceGrantChCnt hp, rfl, rfl,
    fun k hk => timerAt_tblSet_ne _ _ _ _ (Ne.symm hk), ?_⟩
  refine ⟨{ s1.rfTSBK with
      lco := (if grp then LCO.TSBK_IOSP_GRP_VCH else LCO.TSBK_IOSP_UU_VCH),
      lastBlock := true }, ?_, rfl, ?_, hsrc, hdst, ?_⟩
  · rw [emitted_transmitGrant, events_eq_emitted hev]
  · show s1.rfTSBK.grpVchNo = c
    rw [hch, hc]; rfl
  · intro hd hcc hrun
    exact events_transmitGrant_duplex _ _ _ (hp25 ▸ hd) (hp25 ▸ hcc) (hp25 ▸ hrun)

/-- Scenario S2 of the spec as an instance of claim C5: after S1 a second
GRP_VCH src=1001 dst=5000 is answered with channel 2 and the pool stays
free = [3,4], grants = [5000 -> 2]. -/
theorem writeRF_TSDU_Grant_reuses_witness :
    (((scenarioPool.run [Op.grant (grpVchRequest 1001 5000) true false]).setRfTSBK
      (grpVchRequest 1001 5000)).writeRF_TSDU_Grant true false).1 = true ∧
    (((scenarioPool.run [Op.grant (grpVchRequest 1001 5000) true false]).setRfTSBK
      (grpVchRequest 1001 5000)).writeRF_TSDU_Grant true false).2.voiceChTable = [3, 4] ∧
    (((scenarioPool.run [Op.grant (grpVchRequest 1001 5000) true false]).setRfTSBK
      (grpVchRequest 1001 5000)).writeRF_TSDU_Grant true false).2.grantChTable = [(5000, 2)] :=
  have h := writeRF_TSDU_Grant_reuses
    ((scenarioPool.run [Op.grant (grpVchRequest 1001 5000) true false]).setRfTSBK
      (grpVchRequest 1001 5000)) true 2
    (by decide) (by decide) (by decide) (by decide) (by decide) (by decide)
  ⟨h.1, h.2.1.trans (by decide), h.2.2.1.trans (by decide)⟩

end TrunkPacket
end p25

namespace p25
namespace TrunkPacket

/-- Claim C10, as stated, fails: with rfLastDstId = 1, the network talkgroup
hang timer running and not expired, and a request for talkgroup 2, the grant
writer answers the network collision first and puts a DENY_RSP (PTT_COLLIDE)
frame on the modem queue. -/
theorem writeRF_TSDU_Grant_hang_counterexample :
    scenarioHangCollision.p25.rfLastDstId = 1 ∧
    scenarioHangCollision.p25.networkTGHang.isRunning = true ∧
    scenarioHangCollision.p25.networkTGHang.hasExpired = false ∧
    scenarioHangCollision.rfTSBK.dstId = 2 ∧
    (scenarioHangCollision.writeRF_TSDU_Grant true false).2.events =
      [Event.tsdu (scenarioDeny 1001 2) false false,
       Event.writeRF_Preamble,
       Event.writeQueueRF (Frame.sbf (scenarioDeny 1001 2))] := by
  decide

/-- Claim C10, amended: when rfLastDstId = A is not zero, the network
talkgroup hang timer is running and not expired, and the request (skip =
false) is for a destination B other than A and other than the all-call group,
with the RF state listening or data and no network collision, the grant writer
returns false and leaves the whole engine state as it was: no frame, no
channel allocated. -/
theorem writeRF_TSDU_Grant_hang_blocks (s : TrunkPacket) (grp : Bool)
    (hA : s.p25.rfLastDstId ≠ 0)
    (hB : s.rfTSBK.dstId ≠ s.p25.rfLastDstId)
    (hrun : s.p25.networkTGHang.isRunning = true)
    (hexp : s.p25.networkTGHang.hasExpired = false)
    (hall : s.rfTSBK.dstId ≠ P25_TGID_ALL)
    (hrf : s.p25.rfState = RPT_RF_STATE.RS_RF_LISTENING ∨
      s.p25.rfState = RPT_RF_STATE.RS_RF_DATA)
    (hnet : s.p25.netState = RPT_NET_STATE.RS_NET_IDLE ∨ s.p25.netLastDstId ≠ s.rfTSBK.dstId) :
    s.writeRF_TSDU_Grant grp false = (false, s) := by
  have h1 : ¬ (s.p25.rfState ≠ RPT_RF_STATE.RS_RF_LISTENING ∧
      s.p25.rfState ≠ RPT_RF_STATE.RS_RF_DATA) := by
    rcases hrf with h | h <;> simp [h]
  have h2 : ¬ (s.p25.netState ≠ RPT_NET_STATE.RS_NET_IDLE ∧
      s.rfTSBK.dstId = s.p25.netLastDstId) := by
    rcases hnet with h | h
    · simp [h]
    · intro hh; exact h hh.2.symm
  have h3 : s.p25.rfLastDstId ≠ 0 ∧ (s.p25.rfLastDstId ≠ s.rfTSBK.dstId ∧
      (s.p25.networkTGHang.isRunning = true ∧ s.p25.networkTGHang.hasExpired = false)) :=
    ⟨hA, Ne.symm hB, hrun, hexp⟩
  unfold writeRF_TSDU_Grant
  simp only []
  rw [if_neg hall, if_pos trivial, if_neg h1, if_neg h2, if_pos h3]
  rfl

/-- The amended claim C10 at a concrete state: RF traffic was on talkgroup 1,
the hang timer runs, the network is idle, and a request for talkgroup 2 is
dropped without a frame. -/
theorem writeRF_TSDU_Grant_hang_blocks_witness :
    scenarioHang.writeRF_TSDU_Grant true false = (false, scenarioHang) :=
  writeRF_TSDU_Grant_hang_blocks scenarioHang true (by decide) (by decide) (by decide)
    (by decide) (by decide) (by decide) (by decide)

end TrunkPacket
end p25

/-! ## Release -/

namespace p25

theorem tblSet_zero_no_value (m : List (Nat × Nat)) (d c : Nat) (hc : c ≠ 0)
    (hat : tblAt m d = some c) (hcount : (m.map Prod.snd).count c ≤ 1) :
    ∀ e ∈ tblSet m d 0, e.2 ≠ c := by
  induction m with
  | nil => simp [tblAt] at hat
  | cons x m ih =>
    obtain ⟨a, b⟩ := x
    by_cases h : a = d
    · subst h
      simp only [tblAt, if_true, Option.some.injEq] at hat
      subst hat
      simp only [List.map_cons, List.count_cons_self] at hcount
      have h0 : (m.map Prod.snd).count b = 0 := by omega
      intro e he
      simp only [tblSet, if_true, List.mem_cons] at he
      rcases he with he | he
      · subst he; exact fun h => hc h.symm
      · intro hb
        have : b ∈ m.map Prod.snd := hb ▸ List.mem_map_of_mem Prod.snd he
        exact (List.count_eq_zero.mp h0) this
    · simp only [tblAt, if_neg h] at hat
      have hmem : c ∈ m.map Prod.snd := by
        clear ih hcount
        induction m with
        | nil => simp [tblAt] at hat
        | cons y m ih2 =>
          obtain ⟨a2, b2⟩ := y
          by_cases h2 : a2 = d
          · simp [tblAt, h2] at hat; simp [hat]
          · simp only [tblAt, if_neg h2] at hat
            exact List.mem_cons_of_mem _ (ih2 hat)
      have hbc : b ≠ c := by
        intro hb
        subst hb
        simp only [List.map_cons, List.count_cons_self] at hcount
        have : 0 < (m.map Prod.snd).count b := List.count_pos_iff.mpr hmem
        omega
      have hcount2 : (m.map Prod.snd).count c ≤ 1 := by
        simp only [List.map_cons] at hcount
        rw [List.count_cons_of_ne (Ne.symm hbc)] at hcount
        exact hcount
      intro e he
      simp only [tblSet, if_neg h, List.mem_cons] at he
      rcases he with he | he
      · subst he; exact hbc
      · exact ih hat hcount2 e he

namespace TrunkPacket

theorem hasDstIdGranted_eq_true_iff (s : TrunkPacket) (d : Nat) :
    s.hasDstIdGranted d = true ↔ d ≠ 0 ∧ ∃ c, tblAt s.grantChTable d = some c ∧ c ≠ 0 := by
  unfold hasDstIdGranted
  by_cases hd : d = 0
  · simp [hd]
  · cases h : tblAt s.grantChTable d with
    | none => simp [hd]
    | some c => by_cases hc : c = 0 <;> simp [hd, hc]

theorem releaseDstIdGrant_false (s : TrunkPacket) (d : Nat) :
    s.releaseDstIdGrant d false = s.releaseGrant d := by
  unfold releaseDstIdGrant releaseGrant
  by_cases hd : d = 0 <;> simp [hd]

theorem releaseGrant_of_not_granted (s : TrunkPacket) (d : Nat)
    (h : s.hasDstIdGranted d = false) : s.releaseGrant d = s := by
  unfold releaseGrant releaseGranted
  simp [h]

/-- Effect of releasing a granted destination. -/
theorem releaseGrant_of_granted (s : TrunkPacket) (d c : Nat)
    (hg : s.hasDstIdGranted d = true) (hc : tblAt s.grantChTable d = some c) :
    (s.releaseGrant d).pool =
      { voiceChTable := s.voiceChTable ++ [c],
        grantChTable := tblSet s.grantChTable d 0,
        grantTimers := tblSet s.grantTimers d (timerAt s.grantTimers d).stop,
        voiceChCnt := s.voiceChCnt,
        voiceGrantChCnt := s.voiceGrantChCnt - 1 } ∧
    (s.releaseGrant d).p25 = s.p25 ∧ (s.releaseGrant d).events = s.events := by
  have hd : d ≠ 0 := ((hasDstIdGranted_eq_true_iff s d).mp hg).1
  unfold releaseGrant releaseGranted
  simp only [if_neg hd, hg, if_true, hc, Option.getD_some]
  by_cases hcnt : s.voiceGrantChCnt > 0
  · simp [hcnt, pool, setSiteChCnt]
  · have h0 : s.voiceGrantChCnt = 0 := by omega
    simp [h0, pool, setSiteChCnt]

end TrunkPacket
end p25

namespace p25
namespace TrunkPacket

theorem isChBusy_eq_false_of_forall (s : TrunkPacket) (c : Nat)
    (h : ∀ e ∈ s.grantChTable, e.2 ≠ c) : s.isChBusy c = false := by
  unfold isChBusy
  by_cases hc : c = 0
  · simp [hc]
  · simp only [if_neg hc, List.any_eq_false, beq_iff_eq]
    intro e he
    exact h e he

/-- Claim C7: releaseDstIdGrant(d, false) changes nothing when d is not
granted (d = 0 included); when d is granted on channel c it appends c to the
end of the free list, makes hasDstIdGranted(d) false, stops the timer of d,
decrements voiceGrantChCnt by one, stopping at zero, and makes isChBusy(c)
false, c being held by no other entry of the grant table. -/
theorem releaseDstIdGrant_single (s : TrunkPacket) (d : Nat) :
    (s.hasDstIdGranted d = false → s.releaseDstIdGrant d false = s) ∧
    (∀ c, s.hasDstIdGranted d = true → tblAt s.grantChTable d = some c →
      (s.releaseDstIdGrant d false).voiceChTable = s.voiceChTable ++ [c] ∧
      (s.releaseDstIdGrant d false).hasDstIdGranted d = false ∧
      (timerAt (s.releaseDstIdGrant d false).grantTimers d).isRunning = false ∧
      (s.releaseDstIdGrant d false).voiceGrantChCnt = s.voiceGrantChCnt - 1 ∧
      ((s.grantChTable.map Prod.snd).count c ≤ 1 →
        (s.releaseDstIdGrant d false).isChBusy c = false)) := by
  rw [releaseDstIdGrant_false]
  refine ⟨releaseGrant_of_not_granted s d, ?_⟩
  intro c hg hc
  obtain ⟨hpool, _, _⟩ := releaseGrant_of_granted s d c hg hc
  have hfree : (s.releaseGrant d).voiceChTable = s.voiceChTable ++ [c] :=
    congrArg GrantPool.voiceChTable hpool
  have htab : (s.releaseGrant d).grantChTable = tblSet s.grantChTable d 0 :=
    congrArg GrantPool.grantChTable hpool
  have htim : (s.releaseGrant d).grantTimers =
      tblSet s.grantTimers d (timerAt s.grantTimers d).stop :=
    congrArg GrantPool.grantTimers hpool
  have hcnt : (s.releaseGrant d).voiceGrantChCnt = s.voiceGrantChCnt - 1 :=
    congrArg GrantPool.voiceGrantChCnt hpool
  obtain ⟨_, c', hc', hc0⟩ := (hasDstIdGranted_eq_true_iff s d).mp hg
  have hcc : c' = c := Option.some.inj (hc'.symm.trans hc)
  subst hcc
  refine ⟨hfree, ?_, ?_, hcnt, ?_⟩
  · cases hx : (s.releaseGrant d).hasDstIdGranted d with
    | false => rfl
    | true =>
      obtain ⟨_, x, hx1, hx2⟩ := (hasDstIdGranted_eq_true_iff _ d).mp hx
      rw [htab, tblAt_tblSet_self] at hx1
      exact absurd (Option.some.inj hx1).symm hx2
  · rw [htim, timerAt_tblSet_self]; rfl
  · intro hcount
    apply isChBusy_eq_false_of_forall
    rw [htab]
    exact tblSet_zero_no_value s.grantChTable d c' hc0 hc hcount

/-- Claim C7 at concrete states: after scenario S1 (5000 granted on channel 2,
free list [3,4]) releasing destination 0 changes nothing, and releasing 5000
gives free list [3,4,2] with neither 5000 granted nor channel 2 busy. -/
theorem releaseDstIdGrant_single_witness :
    (scenarioPool.run [Op.grant (grpVchRequest 1001 5000) true false]).releaseDstIdGrant 0 false =
      scenarioPool.run [Op.grant (grpVchRequest 1001 5000) true false] ∧
    ((scenarioPool.run [Op.grant (grpVchRequest 1001 5000) true false]).releaseDstIdGrant 5000
      false).voiceChTable = [3, 4, 2] ∧
    ((scenarioPool.run [Op.grant (grpVchRequest 1001 5000) true false]).releaseDstIdGrant 5000
      false).hasDstIdGranted 5000 = false ∧
    ((scenarioPool.run [Op.grant (grpVchRequest 1001 5000) true false]).releaseDstIdGrant 5000
      false).isChBusy 2 = false :=
  have h0 := (releaseDstIdGrant_single
    (scenarioPool.run [Op.grant (grpVchRequest 1001 5000) true false]) 0).1 (by decide)
  have h := (releaseDstIdGrant_single
    (scenarioPool.run [Op.grant (grpVchRequest 1001 5000) true false]) 5000).2 2
    (by decide) (by decide)
  ⟨h0, h.1.trans (by decide), h.2.1, h.2.2.2.2 (by decide)⟩

end TrunkPacket
end p25

namespace p25

theorem tblAt_eq_none_of_not_mem_keys {β : Type} (m : List (Nat × β)) (k : Nat)
    (h : k ∉ tblKeys m) : tblAt m k = none := by
  induction m with
  | nil => rfl
  | cons x m ih =>
    obtain ⟨a, b⟩ := x
    simp only [tblKeys, List.map_cons, List.mem_cons, not_or] at h
    simp only [tblAt, if_neg (Ne.symm h.1)]
    exact ih h.2

theorem mem_keys_of_tblAt_eq_some {β : Type} (m : List (Nat × β)) (k : Nat) (v : β)
    (h : tblAt m k = some v) : k ∈ tblKeys m := by
  by_contra hk
  rw [tblAt_eq_none_of_not_mem_keys m k hk] at h
  exact Option.noConfusion h

namespace TrunkPacket

theorem hasDstIdGranted_congr (s s1 : TrunkPacket) (d : Nat)
    (h : tblAt s1.grantChTable d = tblAt s.grantChTable d) :
    s1.hasDstIdGranted d = s.hasDstIdGranted d := by
  unfold hasDstIdGranted
  rw [h]

/-- The grant table after a single release, read at any key. -/
theorem tblAt_releaseGrant (s : TrunkPacket) (k d : Nat) :
    tblAt (s.releaseGrant k).grantChTable d =
      if d = k ∧ s.hasDstIdGranted k = true then some 0 else tblAt s.grantChTable d := by
  cases hg : s.hasDstIdGranted k with
  | false => simp [releaseGrant_of_not_granted s k hg]
  | true =>
    obtain ⟨_, c, hc, _⟩ := (hasDstIdGranted_eq_true_iff s k).mp hg
    have htab : (s.releaseGrant k).grantChTable = tblSet s.grantChTable k 0 :=
      congrArg GrantPool.grantChTable (releaseGrant_of_granted s k c hg hc).1
    rw [htab]
    by_cases hd : d = k
    · subst hd; simp [tblAt_tblSet_self]
    · simp [hd, tblAt_tblSet_ne _ _ _ _ (Ne.symm hd)]

theorem hasDstIdGranted_releaseGrant (s : TrunkPacket) (k d : Nat) :
    (s.releaseGrant k).hasDstIdGranted d =
      if d = k then false else s.hasDstIdGranted d := by
  by_cases hd : d = k
  · subst hd
    simp only [if_true]
    cases hx : (s.releaseGrant d).hasDstIdGranted d with
    | false => rfl
    | true =>
      obtain ⟨_, x, hx1, hx2⟩ := (hasDstIdGranted_eq_true_iff _ d).mp hx
      rw [tblAt_releaseGrant] at hx1
      by_cases hg : s.hasDstIdGranted d = true
      · simp [hg] at hx1; exact absurd hx1.symm hx2
      · have hg' : s.hasDstIdGranted d = false := by simpa using hg
        rw [releaseGrant_of_not_granted s d hg'] at hx
        rw [hx] at hg'; exact Bool.noConfusion hg'
  · simp only [if_neg hd]
    apply hasDstIdGranted_congr
    rw [tblAt_releaseGrant]
    simp [hd]

theorem voiceChTable_releaseGrant (s : TrunkPacket) (k : Nat) :
    ∃ l, (s.releaseGrant k).voiceChTable = s.voiceChTable ++ l := by
  cases hg : s.hasDstIdGranted k with
  | false => exact ⟨[], by simp [releaseGrant_of_not_granted s k hg]⟩
  | true =>
    obtain ⟨_, c, hc, _⟩ := (hasDstIdGranted_eq_true_iff s k).mp hg
    exact ⟨[c], congrArg GrantPool.voiceChTable (releaseGrant_of_granted s k c hg hc).1⟩

theorem voiceGrantChCnt_releaseGrant (s : TrunkPacket) (k : Nat) :
    (s.releaseGrant k).voiceGrantChCnt =
      s.voiceGrantChCnt - (if s.hasDstIdGranted k = true then 1 else 0) := by
  cases hg : s.hasDstIdGranted k with
  | false => simp [releaseGrant_of_not_granted s k hg]
  | true =>
    obtain ⟨_, c, hc, _⟩ := (hasDstIdGranted_eq_true_iff s k).mp hg
    simpa using congrArg GrantPool.voiceGrantChCnt (releaseGrant_of_granted s k c hg hc).1

theorem p25_releaseGrant (s : TrunkPacket) (k : Nat) : (s.releaseGrant k).p25 = s.p25 := by
  cases hg : s.hasDstIdGranted k with
  | false => simp [releaseGrant_of_not_granted s k hg]
  | true =>
    obtain ⟨_, c, hc, _⟩ := (hasDstIdGranted_eq_true_iff s k).mp hg
    exact (releaseGrant_of_granted s k c hg hc).2.1

theorem events_releaseGrant (s : TrunkPacket) (k : Nat) :
    (s.releaseGrant k).events = s.events := by
  cases hg : s.hasDstIdGranted k with
  | false => simp [releaseGrant_of_not_granted s k hg]
  | true =>
    obtain ⟨_, c, hc, _⟩ := (hasDstIdGranted_eq_true_iff s k).mp hg
    exact (releaseGrant_of_granted s k c hg hc).2.2

theorem voiceChCnt_releaseGrant (s : TrunkPacket) (k : Nat) :
    (s.releaseGrant k).voiceChCnt = s.voiceChCnt := by
  cases hg : s.hasDstIdGranted k with
  | false => simp [releaseGrant_of_not_granted s k hg]
  | true =>
    obtain ⟨_, c, hc, _⟩ := (hasDstIdGranted_eq_true_iff s k).mp hg
    exact congrArg GrantPool.voiceChCnt (releaseGrant_of_granted s k c hg hc).1

/-! ### A list of releases -/

theorem tblAt_foldl_releaseGrant (l : List Nat) (s : TrunkPacket) (d : Nat) :
    tblAt (l.foldl releaseGrant s).grantChTable d =
      if d ∈ l ∧ s.hasDstIdGranted d = true then some 0 else tblAt s.grantChTable d := by
  induction l generalizing s with
  | nil => simp
  | cons k l ih =>
    simp only [List.foldl_cons]
    rw [ih, hasDstIdGranted_releaseGrant, tblAt_releaseGrant]
    by_cases hd : d = k
    · subst hd
      by_cases hg : s.hasDstIdGranted d = true <;> simp [hg]
    · by_cases hl : d ∈ l <;> simp [hd, hl]

theorem hasDstIdGranted_foldl_releaseGrant (l : List Nat) (s : TrunkPacket) (d : Nat) :
    (l.foldl releaseGrant s).hasDstIdGranted d =
      if d ∈ l then false else s.hasDstIdGranted d := by
  induction l generalizing s with
  | nil => simp
  | cons k l ih =>
    simp only [List.foldl_cons]
    rw [ih, hasDstIdGranted_releaseGrant]
    by_cases hd : d = k
    · subst hd; simp
    · by_cases hl : d ∈ l <;> simp [hd, hl]

theorem voiceChTable_foldl_releaseGrant (l : List Nat) (s : TrunkPacket) :
    ∃ r, (l.foldl releaseGrant s).voiceChTable = s.voiceChTable ++ r := by
  induction l generalizing s with
  | nil => exact ⟨[], by simp⟩
  | cons k l ih =>
    simp only [List.foldl_cons]
    obtain ⟨r1, h1⟩ := voiceChTable_releaseGrant s k
    obtain ⟨r2, h2⟩ := ih (s.releaseGrant k)
    exact ⟨r1 ++ r2, by rw [h2, h1, List.append_assoc]⟩

theorem mem_voiceChTable_foldl_releaseGrant (l : List Nat) (s : TrunkPacket) (d c : Nat)
    (hd : d ∈ l) (hg : s.hasDstIdGranted d = true) (hc : tblAt s.grantChTable d = some c) :
    c ∈ (l.foldl releaseGrant s).voiceChTable := by
  induction l generalizing s with
  | nil => simp at hd
  | cons k l ih =>
    simp only [List.foldl_cons]
    by_cases hk : d = k
    · subst hk
      obtain ⟨r, hr⟩ := voiceChTable_foldl_releaseGrant l (s.releaseGrant d)
      have hv : (s.releaseGrant d).voiceChTable = s.voiceChTable ++ [c] :=
        congrArg GrantPool.voiceChTable (releaseGrant_of_granted s d c hg hc).1
      rw [hr, hv]
      simp
    · have hl : d ∈ l := by
        rcases List.mem_cons.mp hd with h | h
        · exact absurd h hk
        · exact h
      apply ih (s.releaseGrant k) hl
      · rw [hasDstIdGranted_releaseGrant]; simp [hk, hg]
      · rw [tblAt_releaseGrant]; simp [hk, hc]

theorem p25_foldl_releaseGrant (l : List Nat) (s : TrunkPacket) :
    (l.foldl releaseGrant s).p25 = s.p25 := by
  induction l generalizing s with
  | nil => rfl
  | cons k l ih => simp only [List.foldl_cons]; rw [ih, p25_releaseGrant]

theorem events_foldl_releaseGrant (l : List Nat) (s : TrunkPacket) :
    (l.foldl releaseGrant s).events = s.events := by
  induction l generalizing s with
  | nil => rfl
  | cons k l ih => simp only [List.foldl_cons]; rw [ih, events_releaseGrant]

theorem voiceChCnt_foldl_releaseGrant (l : List Nat) (s : TrunkPacket) :
    (l.foldl releaseGrant s).voiceChCnt = s.voiceChCnt := by
  induction l generalizing s with
  | nil => rfl
  | cons k l ih => simp only [List.foldl_cons]; rw [ih, voiceChCnt_releaseGrant]

theorem voiceGrantChCnt_foldl_releaseGrant (l : List Nat) (s : TrunkPacket) (hl : l.Nodup) :
    (l.foldl releaseGrant s).voiceGrantChCnt =
      s.voiceGrantChCnt - (l.filter (fun d => s.hasDstIdGranted d)).length := by
  induction l generalizing s with
  | nil => simp
  | cons k l ih =>
    simp only [List.foldl_cons]
    obtain ⟨hk, hl'⟩ := List.nodup_cons.mp hl
    rw [ih (s.releaseGrant k) hl', voiceGrantChCnt_releaseGrant]
    have hfilter : l.filter (fun d => (s.releaseGrant k).hasDstIdGranted d) =
        l.filter (fun d => s.hasDstIdGranted d) := by
      apply List.filter_congr
      intro d hd
      rw [hasDstIdGranted_releaseGrant]
      have : d ≠ k := fun h => hk (h ▸ hd)
      simp [this]
    rw [hfilter]
    by_cases hg : s.hasDstIdGranted k = true
    · simp [hg, List.filter_cons]; omega
    · simp [hg, List.filter_cons]

end TrunkPacket
end p25

namespace p25
namespace TrunkPacket

/-- Claim C8, as stated, fails: with 5000 granted on channel 2 and 5001 on
channel 3, releaseDstIdGrant(5000, true) releases 5000 only; 5001 is still
granted, channel 3 is not free and voiceGrantChCnt is 1. -/
theorem releaseDstIdGrant_all_counterexample :
    ((scenarioPool.run [Op.grant (grpVchRequest 1001 5000) true false,
        Op.grant (grpVchRequest 1002 5001) true false]).releaseDstIdGrant 5000
      true).hasDstIdGranted 5001 = true ∧
    ((scenarioPool.run [Op.grant (grpVchRequest 1001 5000) true false,
        Op.grant (grpVchRequest 1002 5001) true false]).releaseDstIdGrant 5000
      true).voiceChTable = [4, 2] ∧
    ((scenarioPool.run [Op.grant (grpVchRequest 1001 5000) true false,
        Op.grant (grpVchRequest 1002 5001) true false]).releaseDstIdGrant 5000
      true).voiceGrantChCnt = 1 := by
  decide

/-- Claim C8, amended: releaseDstIdGrant(0, true) releases all grants:
afterwards no destination is granted and every channel that was granted is in
the free list, and voiceGrantChCnt is zero when it did not exceed the number
of granted destinations; for a dstId other than zero the releaseAll flag has
no effect and the call is releaseDstIdGrant(dstId, false). -/
theorem releaseDstIdGrant_all (s : TrunkPacket) :
    (∀ d, (s.releaseDstIdGrant 0 true).hasDstIdGranted d = false) ∧
    (∀ d c, s.hasDstIdGranted d = true → tblAt s.grantChTable d = some c →
      c ∈ (s.releaseDstIdGrant 0 true).voiceChTable) ∧
    ((tblKeys s.grantChTable).Nodup → s.voiceGrantChCnt ≤ s.grantedDsts.length →
      (s.releaseDstIdGrant 0 true).voiceGrantChCnt = 0) ∧
    (∀ d, d ≠ 0 → s.releaseDstIdGrant d true = s.releaseDstIdGrant d false) := by
  have hall : s.releaseDstIdGrant 0 true = (tblKeys s.grantChTable).foldl releaseGrant s := by
    simp [releaseDstIdGrant]
  rw [hall]
  refine ⟨?_, ?_, ?_, ?_⟩
  · intro d
    rw [hasDstIdGranted_foldl_releaseGrant]
    by_cases hd : d ∈ tblKeys s.grantChTable
    · simp [hd]
    · simp only [if_neg hd]
      unfold hasDstIdGranted
      rw [tblAt_eq_none_of_not_mem_keys _ _ hd]
      split_ifs <;> rfl
  · intro d c hg hc
    exact mem_voiceChTable_foldl_releaseGrant _ s d c
      (mem_keys_of_tblAt_eq_some _ _ _ hc) hg hc
  · intro hnd hle
    rw [voiceGrantChCnt_foldl_releaseGrant _ s hnd]
    exact Nat.sub_eq_zero_of_le hle
  · intro d hd
    simp [releaseDstIdGrant, hd]

/-- The amended claim C8 at a concrete state: with 5000 and 5001 granted from
the pool [2,3,4], releaseDstIdGrant(0, true) leaves neither granted, returns
channels 2 and 3 to the free list and brings voiceGrantChCnt to zero. -/
theorem releaseDstIdGrant_all_witness :
    ((scenarioPool.run [Op.grant (grpVchRequest 1001 5000) true false,
        Op.grant (grpVchRequest 1002 5001) true false]).releaseDstIdGrant 0
      true).hasDstIdGranted 5001 = false ∧
    3 ∈ ((scenarioPool.run [Op.grant (grpVchRequest 1001 5000) true false,
        Op.grant (grpVchRequest 1002 5001) true false]).releaseDstIdGrant 0
      true).voiceChTable ∧
    ((scenarioPool.run [Op.grant (grpVchRequest 1001 5000) true false,
        Op.grant (grpVchRequest 1002 5001) true false]).releaseDstIdGrant 0
      true).voiceGrantChCnt = 0 :=
  have h := releaseDstIdGrant_all (scenarioPool.run [Op.grant (grpVchRequest 1001 5000) true false,
        Op.grant (grpVchRequest 1002 5001) true false])
  ⟨h.1 5001, h.2.1 5001 3 (by decide) (by decide), h.2.2.1 (by decide) (by decide)⟩

end TrunkPacket
end p25

/-! ## Pool invariants -/

namespace p25

theorem tblSet_values_perm (m : List (Nat × Nat)) (k v : Nat) :
    ((tblSet m k v).map Prod.snd ++ (tblAt m k).toList).Perm (v :: m.map Prod.snd) := by
  induction m with
  | nil => simp [tblSet, tblAt]
  | cons x m ih =>
    obtain ⟨a, b⟩ := x
    by_cases h : a = k
    · subst h
      simp only [tblSet, tblAt, if_true, List.map_cons, Option.toList_some]
      simp
    · simp only [tblSet, tblAt, if_neg h, List.map_cons, List.cons_append]
      exact (ih.cons b).trans (List.Perm.swap v b _)

/-- Non-zero values of a grant table after an assignment. -/
theorem tblSet_nonzero_values_perm (m : List (Nat × Nat)) (k v : Nat) :
    (((tblSet m k v).map Prod.snd).filter (fun c => decide (c ≠ 0)) ++
      ((tblAt m k).toList).filter (fun c => decide (c ≠ 0))).Perm
      ((v :: m.map Prod.snd).filter (fun c => decide (c ≠ 0))) := by
  rw [← List.filter_append]
  exact (tblSet_values_perm m k v).filter _

namespace TrunkPacket

theorem channels_eq_of_pool_eq {s s1 : TrunkPacket}
    (hf : s1.voiceChTable = s.voiceChTable) (hg : s1.grantChTable = s.grantChTable) :
    s1.channels = s.channels := by
  simp [channels, grantedChannels, hf, hg]

theorem channels_releaseGrant (s : TrunkPacket) (d : Nat) :
    (s.releaseGrant d).channels.Perm s.channels := by
  cases hg : s.hasDstIdGranted d with
  | false => rw [releaseGrant_of_not_granted s d hg]
  | true =>
    obtain ⟨_, c, hc, hc0⟩ := (hasDstIdGranted_eq_true_iff s d).mp hg
    have hp := (releaseGrant_of_granted s d c hg hc).1
    have hfree : (s.releaseGrant d).voiceChTable = s.voiceChTable ++ [c] :=
      congrArg GrantPool.voiceChTable hp
    have htab : (s.releaseGrant d).grantChTable = tblSet s.grantChTable d 0 :=
      congrArg GrantPool.grantChTable hp
    have hv := tblSet_nonzero_values_perm s.grantChTable d 0
    rw [hc] at hv
    simp only [Option.toList_some, List.filter_cons, hc0, ne_eq, not_false_eq_true,
      decide_True, if_true, List.filter_nil, not_true_eq_false, decide_False] at hv
    unfold channels grantedChannels
    rw [hfree, htab, List.append_assoc]
    apply List.Perm.append_left
    exact List.perm_append_comm.trans (by simpa using hv)

theorem channels_foldl_releaseGrant (l : List Nat) (s : TrunkPacket) :
    (l.foldl releaseGrant s).channels.Perm s.channels := by
  induction l generalizing s with
  | nil => exact List.Perm.refl _
  | cons k l ih =>
    simp only [List.foldl_cons]
    exact (ih _).trans (channels_releaseGrant s k)

@[simp] theorem pool_setAdjSites (s : TrunkPacket) (t : List (Nat × SiteData))
    (c : List (Nat × Nat)) : (s.setAdjSites t c).pool = s.pool := rfl

@[simp] theorem pool_setAdjSiteUpdateTimer (s : TrunkPacket) (t : Timer) :
    (s.setAdjSiteUpdateTimer t).pool = s.pool := rfl

theorem pool_clockAdjSites (l : List (Nat × Nat)) (s : TrunkPacket) :
    (clockAdjSites l s).pool = s.pool := by
  induction l generalizing s with
  | nil => rfl
  | cons x l ih =>
    obtain ⟨a, b⟩ := x
    simp only [clockAdjSites]
    rw [ih]; rfl

theorem pool_clockAdjSiteUpdateTimer (s : TrunkPacket) (ms : Nat) :
    (s.clockAdjSiteUpdateTimer ms).pool = s.pool := by
  unfold clockAdjSiteUpdateTimer
  simp only []
  split_ifs
  · simp [pool_clockAdjSites]
  · simp

/-- The pool after `clock`: the release of the collected grants, applied to
the state with clocked timers. -/
theorem pool_clock (s : TrunkPacket) (ms : Nat) (hc : s.p25.control = true) :
    (s.clock ms).pool =
      ((clockGrantTimers ms (tblKeys s.grantChTable) s.grantTimers []).2.foldl releaseGrant
        (s.setGrantTimers
          (clockGrantTimers ms (tblKeys s.grantChTable) s.grantTimers []).1)).pool := by
  unfold clock
  simp only [hc, if_true]
  rw [pool_clockAdjSiteUpdateTimer]

theorem clock_of_not_control (s : TrunkPacket) (ms : Nat) (hc : s.p25.control = false) :
    s.clock ms = s := by
  unfold clock
  simp [hc]

/-- The three ways in which `writeRF_TSDU_Grant` leaves the pool: untouched,
with the timer of a granted destination restarted, or with the first free
channel allocated to a destination that was not granted. -/
theorem pool_writeRF_TSDU_Grant (s : TrunkPacket) (grp skip : Bool) :
    (s.writeRF_TSDU_Grant grp skip).2.pool = s.pool ∨
    (s.hasDstIdGranted s.rfTSBK.dstId = true ∧
      (s.writeRF_TSDU_Grant grp skip).2.pool = { s.pool with
        grantTimers := tblSet s.grantTimers s.rfTSBK.dstId
          (timerAt s.grantTimers s.rfTSBK.dstId).start }) ∨
    (∃ c rest, s.hasDstIdGranted s.rfTSBK.dstId = false ∧ s.voiceChTable = c :: rest ∧
      (s.writeRF_TSDU_Grant grp skip).2.pool =
        { voiceChTable := rest,
          grantChTable := tblSet s.grantChTable s.rfTSBK.dstId c,
          grantTimers := tblSet s.grantTimers s.rfTSBK.dstId
            (Timer.create 1000 GRANT_TIMER_TIMEOUT).start,
          voiceChCnt := s.voiceChCnt,
          voiceGrantChCnt := s.voiceGrantChCnt + 1 }) := by
  by_cases hall : s.rfTSBK.dstId = P25_TGID_ALL
  · left; unfold writeRF_TSDU_Grant; simp [hall]
  cases skip with
  | true =>
    left
    have : s.writeRF_TSDU_Grant grp true = s.transmitGrant grp s.rfTSBK.lco := by
      unfold writeRF_TSDU_Grant; simp [hall]
    rw [this, pool_transmitGrant]
  | false =>
    by_cases h1 : s.p25.rfState ≠ RPT_RF_STATE.RS_RF_LISTENING ∧
        s.p25.rfState ≠ RPT_RF_STATE.RS_RF_DATA
    · left; unfold writeRF_TSDU_Grant; simp only []
      rw [if_neg hall, if_pos trivial, if_pos h1]; simp
    by_cases h2 : s.p25.netState ≠ RPT_NET_STATE.RS_NET_IDLE ∧
        s.rfTSBK.dstId = s.p25.netLastDstId
    · left; unfold writeRF_TSDU_Grant; simp only []
      rw [if_neg hall, if_pos trivial, if_neg h1, if_pos h2]; simp
    by_cases h3 : s.p25.rfLastDstId ≠ 0 ∧ (s.p25.rfLastDstId ≠ s.rfTSBK.dstId ∧
        (s.p25.networkTGHang.isRunning = true ∧ s.p25.networkTGHang.hasExpired = false))
    · left; unfold writeRF_TSDU_Grant; simp only []
      rw [if_neg hall, if_pos trivial, if_neg h1, if_neg h2, if_pos h3]; simp
    have hrf : s.p25.rfState = RPT_RF_STATE.RS_RF_LISTENING ∨
        s.p25.rfState = RPT_RF_STATE.RS_RF_DATA := by
      by_contra hcon
      exact h1 ⟨fun h => hcon (Or.inl h), fun h => hcon (Or.inr h)⟩
    have hnet : s.p25.netState = RPT_NET_STATE.RS_NET_IDLE ∨
        s.p25.netLastDstId ≠ s.rfTSBK.dstId := by
      by_contra hcon
      exact h2 ⟨fun h => hcon (Or.inl h), by_contra fun h => hcon (Or.inr fun h' => h h'.symm)⟩
    cases hg : s.hasDstIdGranted s.rfTSBK.dstId with
    | true =>
      right; left
      obtain ⟨s1, heq, hpool, _⟩ := writeRF_TSDU_Grant_reuse_eq s grp hall hrf hnet h3 hg
      exact ⟨rfl, by rw [heq, pool_transmitGrant, hpool]⟩
    | false =>
      cases hfree : s.voiceChTable with
      | nil =>
        left
        rw [writeRF_TSDU_Grant_queue_eq s grp hall hrf hnet h3 hg hfree]
        simp
      | cons c rest =>
        right; right
        obtain ⟨s1, heq, hpool, _⟩ := writeRF_TSDU_Grant_alloc_eq s grp c rest hall hrf hnet h3 hg hfree
        exact ⟨c, rest, rfl, rfl, by rw [heq, pool_transmitGrant, hpool]⟩

end TrunkPacket
end p25

namespace p25
namespace TrunkPacket

theorem not_mem_channels_zero_iff (s : TrunkPacket) :
    0 ∉ s.channels ↔ 0 ∉ s.voiceChTable := by
  simp [channels, grantedChannels]

theorem releaseDstIdGrant_cases (s : TrunkPacket) (d : Nat) (all : Bool) :
    s.releaseDstIdGrant d all = s.releaseGrant d ∨
    s.releaseDstIdGrant d all = (tblKeys s.grantChTable).foldl releaseGrant s := by
  cases all with
  | false => left; exact releaseDstIdGrant_false s d
  | true =>
    by_cases hd : d = 0
    · right; simp [releaseDstIdGrant, hd]
    · left; simp [releaseDstIdGrant, releaseGrant, hd]

theorem channels_of_pool_eq {s s1 : TrunkPacket} (h : s1.pool = s.pool) :
    s1.channels = s.channels :=
  channels_eq_of_pool_eq (congrArg GrantPool.voiceChTable h) (congrArg GrantPool.grantChTable h)

theorem tblAt_of_not_granted (s : TrunkPacket) (d : Nat) (hd : d ≠ 0)
    (hg : s.hasDstIdGranted d = false) :
    tblAt s.grantChTable d = none ∨ tblAt s.grantChTable d = some 0 := by
  cases h : tblAt s.grantChTable d with
  | none => left; rfl
  | some v =>
    right
    by_cases hv : v = 0
    · rw [hv]
    · have : s.hasDstIdGranted d = true :=
        (hasDstIdGranted_eq_true_iff s d).mpr ⟨hd, v, h, hv⟩
      rw [this] at hg; exact Bool.noConfusion hg

/-- A step keeps the channels of the pool, as a multiset, when the free list
holds no zero and a grant request names a destination other than zero. -/
theorem channels_step (s : TrunkPacket) (op : Op) (h0 : 0 ∉ s.voiceChTable)
    (hop : nonzeroDst op = true) : (s.step op).channels.Perm s.channels := by
  cases op with
  | grant tsbk grp skip =>
    have hd : tsbk.dstId ≠ 0 := by simpa [nonzeroDst] using hop
    show ((s.setRfTSBK tsbk).writeRF_TSDU_Grant grp skip).2.channels.Perm s.channels
    rcases pool_writeRF_TSDU_Grant (s.setRfTSBK tsbk) grp skip with h | ⟨_, h⟩ | ⟨c, rest, hg, hfree, h⟩
    · rw [channels_of_pool_eq h]; exact List.Perm.refl _
    · rw [channels_eq_of_pool_eq (congrArg GrantPool.voiceChTable h)
        (congrArg GrantPool.grantChTable h)]
      exact List.Perm.refl _
    · have hfree' : s.voiceChTable = c :: rest := hfree
      have hc0 : c ≠ 0 := by
        intro hc; apply h0; rw [hfree', hc]; exact List.mem_cons_self _ _
      have hf1 : ((s.setRfTSBK tsbk).writeRF_TSDU_Grant grp skip).2.voiceChTable = rest :=
        congrArg GrantPool.voiceChTable h
      have hg1 : ((s.setRfTSBK tsbk).writeRF_TSDU_Grant grp skip).2.grantChTable =
          tblSet s.grantChTable tsbk.dstId c := congrArg GrantPool.grantChTable h
      have hv := tblSet_nonzero_values_perm s.grantChTable tsbk.dstId c
      have hold : ((tblAt s.grantChTable tsbk.dstId).toList).filter (fun c => decide (c ≠ 0))
          = [] := by
        rcases tblAt_of_not_granted (s.setRfTSBK tsbk) tsbk.dstId hd hg with hn | hn
        · have hn' : tblAt s.grantChTable tsbk.dstId = none := hn
          rw [hn']; rfl
        · have hn' : tblAt s.grantChTable tsbk.dstId = some 0 := hn
          rw [hn']; rfl
      rw [hold, List.append_nil] at hv
      simp only [List.filter_cons, hc0, ne_eq, not_false_eq_true, decide_True, if_true] at hv
      unfold channels grantedChannels
      rw [hf1, hg1, hfree']
      exact (List.Perm.append_left rest hv).trans (List.perm_middle)
  | release d all =>
    show (s.releaseDstIdGrant d all).channels.Perm s.channels
    rcases releaseDstIdGrant_cases s d all with h | h
    · rw [h]; exact channels_releaseGrant s d
    · rw [h]; exact channels_foldl_releaseGrant _ s
  | clock ms =>
    show (s.clock ms).channels.Perm s.channels
    cases hc : s.p25.control with
    | false => rw [clock_of_not_control s ms hc]
    | true =>
      rw [channels_of_pool_eq (pool_clock s ms hc)]
      exact channels_foldl_releaseGrant _ _
  | peer p => exact List.Perm.refl _

theorem voiceChCnt_step (s : TrunkPacket) (op : Op) : (s.step op).voiceChCnt = s.voiceChCnt := by
  cases op with
  | grant tsbk grp skip =>
    show ((s.setRfTSBK tsbk).writeRF_TSDU_Grant grp skip).2.voiceChCnt = s.voiceChCnt
    rcases pool_writeRF_TSDU_Grant (s.setRfTSBK tsbk) grp skip with h | ⟨_, h⟩ | ⟨c, rest, _, _, h⟩
    · exact congrArg GrantPool.voiceChCnt h
    · exact congrArg GrantPool.voiceChCnt h
    · exact congrArg GrantPool.voiceChCnt h
  | release d all =>
    show (s.releaseDstIdGrant d all).voiceChCnt = s.voiceChCnt
    rcases releaseDstIdGrant_cases s d all with h | h
    · rw [h]; exact voiceChCnt_releaseGrant s d
    · rw [h]; exact voiceChCnt_foldl_releaseGrant _ s
  | clock ms =>
    show (s.clock ms).voiceChCnt = s.voiceChCnt
    cases hc : s.p25.control with
    | false => rw [clock_of_not_control s ms hc]
    | true =>
      have h := congrArg GrantPool.voiceChCnt (pool_clock s ms hc)
      exact h.trans (voiceChCnt_foldl_releaseGrant _ _)
  | peer p => rfl

/-- A run keeps the channels of the pool, as a multiset, under the conditions
of `channels_step`. -/
theorem channels_run (ops : List Op) (s : TrunkPacket) (h0 : 0 ∉ s.voiceChTable)
    (hops : ∀ op ∈ ops, nonzeroDst op = true) : (s.run ops).channels.Perm s.channels := by
  induction ops generalizing s with
  | nil => exact List.Perm.refl _
  | cons op ops ih =>
    have hstep := channels_step s op h0 (hops op (List.mem_cons_self _ _))
    have h0' : 0 ∉ (s.step op).voiceChTable := by
      rw [← not_mem_channels_zero_iff]
      intro hmem
      exact (not_mem_channels_zero_iff s).mpr h0 (hstep.subset hmem)
    have := ih (s.step op) h0' (fun o ho => hops o (List.mem_cons_of_mem _ ho))
    exact this.trans hstep

theorem voiceChCnt_run (ops : List Op) (s : TrunkPacket) :
    (s.run ops).voiceChCnt = s.voiceChCnt := by
  induction ops generalizing s with
  | nil => rfl
  | cons op ops ih => exact (ih (s.step op)).trans (voiceChCnt_step s op)

end TrunkPacket
end p25

namespace p25
namespace TrunkPacket

/-- Claim C2 at its failing input: from the pool [2,3,4] two group requests
for dstId 0 each take a channel, because hasDstIdGranted(0) is false by its
guard; the second overwrites the entry of key 0, and channel 2 is then neither
in the free list nor in the grant table. -/
theorem writeRF_TSDU_Grant_dst_zero_loses_channel :
    (scenarioPool.run [Op.grant (grpVchRequest 1001 0) true false,
      Op.grant (grpVchRequest 1002 0) true false]).voiceChTable = [4] ∧
    (scenarioPool.run [Op.grant (grpVchRequest 1001 0) true false,
      Op.grant (grpVchRequest 1002 0) true false]).grantChTable = [(0, 3)] ∧
    2 ∉ (scenarioPool.run [Op.grant (grpVchRequest 1001 0) true false,
      Op.grant (grpVchRequest 1002 0) true false]).channels := by
  decide

/-- Claim C3, as stated, fails: from the pool [2,3,4] (voiceChCnt = 3) a grant
for 5000 followed by its release leaves three free channels and one entry in
the grant table, the released key, which maps to zero. -/
theorem pool_closure_counterexample :
    (scenarioPool.run [Op.grant (grpVchRequest 1001 5000) true false,
      Op.release 5000 false]).voiceChTable = [3, 4, 2] ∧
    (scenarioPool.run [Op.grant (grpVchRequest 1001 5000) true false,
      Op.release 5000 false]).grantChTable = [(5000, 0)] ∧
    (scenarioPool.run [Op.grant (grpVchRequest 1001 5000) true false,
      Op.release 5000 false]).voiceChCnt = 3 ∧
    (scenarioPool.run [Op.grant (grpVchRequest 1001 5000) true false,
      Op.release 5000 false]).voiceChTable.length +
    (scenarioPool.run [Op.grant (grpVchRequest 1001 5000) true false,
      Op.release 5000 false]).grantChTable.length ≠
    (scenarioPool.run [Op.grant (grpVchRequest 1001 5000) true false,
      Op.release 5000 false]).voiceChCnt := by
  decide

/-- Claim C3, amended: starting with no grants, a free list of voiceChCnt
channel numbers other than zero, after every sequence of grant requests for
destinations other than zero, releases, clock calls and peer state changes,
the number of free channels plus the number of grant table entries that hold
a channel (a value other than zero) equals voiceChCnt. -/
theorem pool_closure (s0 : TrunkPacket) (ops : List Op)
    (hg : s0.grantChTable = [])
    (hlen : s0.voiceChTable.length = s0.voiceChCnt)
    (h0 : 0 ∉ s0.voiceChTable)
    (hops : ∀ op ∈ ops, nonzeroDst op = true) :
    (s0.run ops).voiceChTable.length + (s0.run ops).grantedChannels.length =
      (s0.run ops).voiceChCnt := by
  have hperm := (channels_run ops s0 h0 hops).length_eq
  have hinit : s0.channels = s0.voiceChTable := by
    simp [channels, grantedChannels, hg]
  rw [hinit] at hperm
  rw [voiceChCnt_run, ← hlen, ← hperm]
  simp [channels]

/-- The amended claim C3 on a concrete run from the pool [2,3,4]: grant 5000,
release it, grant 5001, advance the clock by 20 ms. -/
theorem pool_closure_witness :
    (scenarioPool.run [Op.grant (grpVchRequest 1001 5000) true false, Op.release 5000 false,
      Op.grant (grpVchRequest 1002 5001) true false, Op.clock 20]).voiceChTable.length +
    (scenarioPool.run [Op.grant (grpVchRequest 1001 5000) true false, Op.release 5000 false,
      Op.grant (grpVchRequest 1002 5001) true false, Op.clock 20]).grantedChannels.length =
    (scenarioPool.run [Op.grant (grpVchRequest 1001 5000) true false, Op.release 5000 false,
      Op.grant (grpVchRequest 1002 5001) true false, Op.clock 20]).voiceChCnt :=
  pool_closure scenarioPool [Op.grant (grpVchRequest 1001 5000) true false,
    Op.release 5000 false, Op.grant (grpVchRequest 1002 5001) true false, Op.clock 20]
    (by decide) (by decide) (by decide) (by decide)

end TrunkPacket
end p25

namespace p25

theorem Timer.isRunning_clock (t : Timer) (ms : Nat) : (t.clock ms).isRunning = t.isRunning := by
  unfold Timer.clock Timer.isRunning
  split_ifs <;> rfl

theorem timerAt_tblSet (m : List (Nat × Timer)) (k q : Nat) (t : Timer) :
    timerAt (tblSet m k t) q = if q = k then t else timerAt m q := by
  by_cases h : q = k
  · subst h; simp [TrunkPacket.timerAt_tblSet_self]
  · simp [h, TrunkPacket.timerAt_tblSet_ne _ _ _ _ (Ne.symm h)]

theorem tblAt_tblSet {β : Type} (m : List (Nat × β)) (k q : Nat) (v : β) :
    tblAt (tblSet m k v) q = if q = k then some v else tblAt m q := by
  by_cases h : q = k
  · subst h; simp [tblAt_tblSet_self]
  · simp [h, tblAt_tblSet_ne _ _ _ _ (Ne.symm h)]

namespace TrunkPacket

theorem isRunning_clockGrantTimers (ms : Nat) (keys : List Nat) (timers : List (Nat × Timer))
    (acc : List Nat) (q : Nat) :
    (timerAt (clockGrantTimers ms keys timers acc).1 q).isRunning =
      (timerAt timers q).isRunning := by
  induction keys generalizing timers acc with
  | nil => rfl
  | cons k keys ih =>
    simp only [clockGrantTimers]
    split_ifs
    · rw [ih, timerAt_tblSet]
      split_ifs with hq
      · rw [hq, Timer.isRunning_clock]
      · rfl
    · rw [ih, timerAt_tblSet]
      split_ifs with hq
      · rw [hq, Timer.isRunning_clock]
      · rfl

theorem timerAt_releaseGrant (s : TrunkPacket) (k d : Nat) :
    timerAt (s.releaseGrant k).grantTimers d =
      if d = k ∧ s.hasDstIdGranted k = true then (timerAt s.grantTimers k).stop
      else timerAt s.grantTimers d := by
  cases hg : s.hasDstIdGranted k with
  | false => simp [releaseGrant_of_not_granted s k hg]
  | true =>
    obtain ⟨_, c, hc, _⟩ := (hasDstIdGranted_eq_true_iff s k).mp hg
    have htim : (s.releaseGrant k).grantTimers =
        tblSet s.grantTimers k (timerAt s.grantTimers k).stop :=
      congrArg GrantPool.grantTimers (releaseGrant_of_granted s k c hg hc).1
    rw [htim, timerAt_tblSet]
    simp

theorem GrantInv_of_pool_eq {chs : List Nat} {s s1 : TrunkPacket} (h : s1.pool = s.pool)
    (hinv : GrantInv chs s) : GrantInv chs s1 := by
  have hf : s1.voiceChTable = s.voiceChTable := congrArg GrantPool.voiceChTable h
  have hg : s1.grantChTable = s.grantChTable := congrArg GrantPool.grantChTable h
  have ht : s1.grantTimers = s.grantTimers := congrArg GrantPool.grantTimers h
  unfold GrantInv
  rw [hf, hg, ht]
  exact hinv

theorem GrantInv_releaseGrant {chs : List Nat} (s : TrunkPacket) (k : Nat)
    (hinv : GrantInv chs s) : GrantInv chs (s.releaseGrant k) := by
  cases hg : s.hasDstIdGranted k with
  | false => rw [releaseGrant_of_not_granted s k hg]; exact hinv
  | true =>
    obtain ⟨_, c, hc, hc0⟩ := (hasDstIdGranted_eq_true_iff s k).mp hg
    obtain ⟨h1, h2, h3⟩ := hinv
    have hfree : (s.releaseGrant k).voiceChTable = s.voiceChTable ++ [c] :=
      congrArg GrantPool.voiceChTable (releaseGrant_of_granted s k c hg hc).1
    refine ⟨?_, ?_, ?_⟩
    · intro x hx
      rw [hfree, List.mem_append, List.mem_singleton] at hx
      rcases hx with hx | hx
      · exact h1 x hx
      · rw [hx]; exact h2 k c hc hc0
    · intro q v hq hv
      rw [tblAt_releaseGrant] at hq
      split_ifs at hq with hcond
      · exact absurd (Option.some.inj hq).symm hv
      · exact h2 q v hq hv
    · intro q hq
      rw [tblAt_releaseGrant] at hq
      rw [timerAt_releaseGrant]
      by_cases hqk : q = k
      · simp [hqk, hg, Timer.stop, Timer.isRunning]
      · simp only [hqk, false_and, if_false] at hq ⊢
        exact h3 q hq

theorem GrantInv_foldl_releaseGrant {chs : List Nat} (l : List Nat) (s : TrunkPacket)
    (hinv : GrantInv chs s) : GrantInv chs (l.foldl releaseGrant s) := by
  induction l generalizing s with
  | nil => exact hinv
  | cons k l ih => exact ih _ (GrantInv_releaseGrant s k hinv)

theorem GrantInv_clock {chs : List Nat} (s : TrunkPacket) (ms : Nat)
    (hinv : GrantInv chs s) : GrantInv chs (s.clock ms) := by
  cases hc : s.p25.control with
  | false => rw [clock_of_not_control s ms hc]; exact hinv
  | true =>
    apply GrantInv_of_pool_eq (pool_clock s ms hc)
    apply GrantInv_foldl_releaseGrant
    obtain ⟨h1, h2, h3⟩ := hinv
    refine ⟨h1, h2, ?_⟩
    intro q hq
    show (timerAt (clockGrantTimers ms (tblKeys s.grantChTable) s.grantTimers []).1 q).isRunning
      = false
    rw [isRunning_clockGrantTimers]
    exact h3 q hq

theorem GrantInv_writeRF_TSDU_Grant {chs : List Nat} (s : TrunkPacket) (grp skip : Bool)
    (h0 : 0 ∉ chs) (hinv : GrantInv chs s) :
    GrantInv chs (s.writeRF_TSDU_Grant grp skip).2 := by
  obtain ⟨h1, h2, h3⟩ := hinv
  rcases pool_writeRF_TSDU_Grant s grp skip with h | ⟨hg, h⟩ | ⟨c, rest, hg, hfree, h⟩
  · exact GrantInv_of_pool_eq h ⟨h1, h2, h3⟩
  · have hf : (s.writeRF_TSDU_Grant grp skip).2.voiceChTable = s.voiceChTable :=
      congrArg GrantPool.voiceChTable h
    have hgt : (s.writeRF_TSDU_Grant grp skip).2.grantChTable = s.grantChTable :=
      congrArg GrantPool.grantChTable h
    have ht : (s.writeRF_TSDU_Grant grp skip).2.grantTimers =
        tblSet s.grantTimers s.rfTSBK.dstId (timerAt s.grantTimers s.rfTSBK.dstId).start :=
      congrArg GrantPool.grantTimers h
    unfold GrantInv
    rw [hf, hgt, ht]
    refine ⟨h1, h2, ?_⟩
    intro q hq
    obtain ⟨_, c, hc, hc0⟩ := (hasDstIdGranted_eq_true_iff s _).mp hg
    have hne : q ≠ s.rfTSBK.dstId := by
      intro hqd
      rw [hqd, hc] at hq
      exact hc0 (Option.some.inj hq)
    rw [timerAt_tblSet, if_neg hne]
    exact h3 q hq
  · have hf : (s.writeRF_TSDU_Grant grp skip).2.voiceChTable = rest :=
      congrArg GrantPool.voiceChTable h
    have hgt : (s.writeRF_TSDU_Grant grp skip).2.grantChTable =
        tblSet s.grantChTable s.rfTSBK.dstId c := congrArg GrantPool.grantChTable h
    have ht : (s.writeRF_TSDU_Grant grp skip).2.grantTimers =
        tblSet s.grantTimers s.rfTSBK.dstId (Timer.create 1000 GRANT_TIMER_TIMEOUT).start :=
      congrArg GrantPool.grantTimers h
    have hcmem : c ∈ chs := h1 c (by rw [hfree]; exact List.mem_cons_self _ _)
    have hc0 : c ≠ 0 := fun hc => h0 (hc ▸ hcmem)
    unfold GrantInv
    rw [hf, hgt, ht]
    refine ⟨?_, ?_, ?_⟩
    · intro x hx
      exact h1 x (by rw [hfree]; exact List.mem_cons_of_mem _ hx)
    · intro q v hq hv
      rw [tblAt_tblSet] at hq
      split_ifs at hq with hqd
      · rw [← Option.some.inj hq]; exact hcmem
      · exact h2 q v hq hv
    · intro q hq
      rw [tblAt_tblSet] at hq
      split_ifs at hq with hqd
      · exact absurd (Option.some.inj hq) hc0
      · rw [timerAt_tblSet, if_neg hqd]
        exact h3 q hq

theorem GrantInv_step {chs : List Nat} (s : TrunkPacket) (op : Op)
    (h0 : 0 ∉ chs) (hinv : GrantInv chs s) : GrantInv chs (s.step op) := by
  cases op with
  | grant tsbk grp skip =>
    exact GrantInv_writeRF_TSDU_Grant (s.setRfTSBK tsbk) grp skip h0
      (GrantInv_of_pool_eq (pool_setRfTSBK s tsbk) hinv)
  | release d all =>
    show GrantInv chs (s.releaseDstIdGrant d all)
    rcases releaseDstIdGrant_cases s d all with h | h
    · rw [h]; exact GrantInv_releaseGrant s d hinv
    · rw [h]; exact GrantInv_foldl_releaseGrant _ s hinv
  | clock ms => exact GrantInv_clock s ms hinv
  | peer p => exact hinv

theorem GrantInv_run {chs : List Nat} (ops : List Op) (s : TrunkPacket)
    (h0 : 0 ∉ chs) (hinv : GrantInv chs s) : GrantInv chs (s.run ops) := by
  induction ops generalizing s with
  | nil => exact hinv
  | cons op ops ih => exact ih (s.step op) (GrantInv_step s op h0 hinv)

/-- Claim C9, as stated, fails: from the pool [2,3,4] a grant for 5000
followed by its release leaves the key 5000 in the grant table, mapped to
zero. -/
theorem grantChTable_nonzero_counterexample :
    tblAt (scenarioPool.run [Op.grant (grpVchRequest 1001 5000) true false,
      Op.release 5000 false]).grantChTable 5000 = some 0 := by
  decide

/-- Claim C9, amended: in every state reached from a state with no grants and
a free list of channel numbers other than zero, by grant requests, releases,
clock calls and peer state changes, every key of the grant table maps either
to a channel number of the initial free list, which is not zero, or to zero;
and it maps to zero only as a released entry: its timer is stopped and
hasDstIdGranted is false for it. -/
theorem grantChTable_nonzero_or_released (s0 : TrunkPacket) (ops : List Op) (k v : Nat)
    (hg : s0.grantChTable = [])
    (h0 : 0 ∉ s0.voiceChTable)
    (hk : tblAt (s0.run ops).grantChTable k = some v) :
    (v ≠ 0 ∧ v ∈ s0.voiceChTable) ∨
    (v = 0 ∧ (timerAt (s0.run ops).grantTimers k).isRunning = false ∧
      (s0.run ops).hasDstIdGranted k = false) := by
  have hinit : GrantInv s0.voiceChTable s0 := by
    refine ⟨fun c hc => hc, ?_, ?_⟩
    · intro q w hq; rw [hg] at hq; exact Option.noConfusion hq
    · intro q hq; rw [hg] at hq; exact Option.noConfusion hq
  obtain ⟨_, h2, h3⟩ := GrantInv_run ops s0 h0 hinit
  by_cases hv : v = 0
  · right
    subst hv
    refine ⟨rfl, h3 k hk, ?_⟩
    cases hx : (s0.run ops).hasDstIdGranted k with
    | false => rfl
    | true =>
      obtain ⟨_, c, hc, hc0⟩ := (hasDstIdGranted_eq_true_iff _ k).mp hx
      rw [hk] at hc
      exact absurd (Option.some.inj hc).symm hc0
  · left
    exact ⟨hv, h2 k v hk hv⟩

/-- The amended claim C9 on a concrete run from the pool [2,3,4]: after a
grant and its release the key 5000 maps to zero, with a stopped timer and not
granted. -/
theorem grantChTable_nonzero_or_released_witness :
    ((0 : Nat) ≠ 0 ∧ 0 ∈ scenarioPool.voiceChTable) ∨
    ((0 : Nat) = 0 ∧ (timerAt (scenarioPool.run [Op.grant (grpVchRequest 1001 5000) true false,
      Op.release 5000 false]).grantTimers 5000).isRunning = false ∧
      (scenarioPool.run [Op.grant (grpVchRequest 1001 5000) true false,
        Op.release 5000 false]).hasDstIdGranted 5000 = false) :=
  grantChTable_nonzero_or_released scenarioPool [Op.grant (grpVchRequest 1001 5000) true false,
    Op.release 5000 false] 5000 0 (by decide) (by decide) (by decide)

end TrunkPacket
end p25

/-! ## Grant expiry -/

namespace p25

theorem tblKeys_tblSet_of_mem {β : Type} (m : List (Nat × β)) (k : Nat) (v : β)
    (h : k ∈ tblKeys m) : tblKeys (tblSet m k v) = tblKeys m := by
  induction m with
  | nil => simp [tblKeys] at h
  | cons x m ih =>
    obtain ⟨a, b⟩ := x
    by_cases hk : a = k
    · simp [tblSet, tblKeys, hk]
    · have hm : k ∈ tblKeys m := by
        simp only [tblKeys, List.map_cons, List.mem_cons] at h
        rcases h with h | h
        · exact absurd h.symm hk
        · exact h
      have := ih hm
      simp only [tblKeys] at this
      simp [tblSet, tblKeys, hk, this]

namespace TrunkPacket

/-- The first loop of `clock` on a key list without repetition: every listed
timer is advanced once, and a key is collected exactly when its advanced
timer is running and expired. -/
theorem clockGrantTimers_spec (ms : Nat) (keys : List Nat) (timers : List (Nat × Timer))
    (acc : List Nat) (hnd : keys.Nodup) :
    (∀ q, timerAt (clockGrantTimers ms keys timers acc).1 q =
      if q ∈ keys then (timerAt timers q).clock ms else timerAt timers q) ∧
    (∀ q, q ∈ (clockGrantTimers ms keys timers acc).2 ↔
      q ∈ acc ∨ (q ∈ keys ∧ ((timerAt timers q).clock ms).isRunning = true ∧
        ((timerAt timers q).clock ms).hasExpired = true)) := by
  induction keys generalizing timers acc with
  | nil => simp [clockGrantTimers]
  | cons k keys ih =>
    obtain ⟨hk, hnd'⟩ := List.nodup_cons.mp hnd
    have hT : ∀ q, q ∈ keys →
        timerAt (tblSet timers k ((timerAt timers k).clock ms)) q = timerAt timers q := by
      intro q hq
      have : q ≠ k := fun h => hk (h ▸ hq)
      rw [timerAt_tblSet, if_neg this]
    simp only [clockGrantTimers]
    by_cases hcond : (((timerAt timers k).clock ms).isRunning &&
        ((timerAt timers k).clock ms).hasExpired) = true
    · rw [if_pos hcond]
      obtain ⟨ih1, ih2⟩ := ih (tblSet timers k ((timerAt timers k).clock ms)) (acc ++ [k]) hnd'
      have hcond' := Bool.and_eq_true_iff.mp hcond
      refine ⟨?_, ?_⟩
      · intro q
        rw [ih1 q]
        by_cases hq : q ∈ keys
        · simp [hq, hT q hq]
        · by_cases hqk : q = k
          · subst hqk; simp [hq, timerAt_tblSet]
          · simp [hq, hqk, timerAt_tblSet]
      · intro q
        rw [ih2 q]
        by_cases hq : q ∈ keys
        · have hqk : q ≠ k := fun h => hk (h ▸ hq)
          simp [hq, hqk, hT q hq]
        · by_cases hqk : q = k
          · subst hqk; simp [hq, hcond'.1, hcond'.2]
          · simp [hq, hqk]
    · rw [if_neg hcond]
      obtain ⟨ih1, ih2⟩ := ih (tblSet timers k ((timerAt timers k).clock ms)) acc hnd'
      refine ⟨?_, ?_⟩
      · intro q
        rw [ih1 q]
        by_cases hq : q ∈ keys
        · simp [hq, hT q hq]
        · by_cases hqk : q = k
          · subst hqk; simp [hq, timerAt_tblSet]
          · simp [hq, hqk, timerAt_tblSet]
      · intro q
        rw [ih2 q]
        by_cases hq : q ∈ keys
        · have hqk : q ≠ k := fun h => hk (h ▸ hq)
          simp [hq, hqk, hT q hq]
        · by_cases hqk : q = k
          · subst hqk
            have : ¬ (((timerAt timers q).clock ms).isRunning = true ∧
                ((timerAt timers q).clock ms).hasExpired = true) := by
              intro h; exact hcond (Bool.and_eq_true_iff.mpr h)
            simp [hq, this]
          · simp [hq, hqk]

end TrunkPacket
end p25

namespace p25
namespace TrunkPacket

theorem timerAt_foldl_releaseGrant (l : List Nat) (s : TrunkPacket) (d : Nat) :
    timerAt (l.foldl releaseGrant s).grantTimers d =
      if d ∈ l ∧ s.hasDstIdGranted d = true then (timerAt s.grantTimers d).stop
      else timerAt s.grantTimers d := by
  induction l generalizing s with
  | nil => simp
  | cons k l ih =>
    simp only [List.foldl_cons]
    rw [ih, hasDstIdGranted_releaseGrant, timerAt_releaseGrant]
    by_cases hd : d = k
    · subst hd
      by_cases hg : s.hasDstIdGranted d = true <;> simp [hg]
    · by_cases hl : d ∈ l <;> simp [hd, hl]

theorem tblKeys_releaseGrant (s : TrunkPacket) (k : Nat) :
    tblKeys (s.releaseGrant k).grantChTable = tblKeys s.grantChTable := by
  cases hg : s.hasDstIdGranted k with
  | false => rw [releaseGrant_of_not_granted s k hg]
  | true =>
    obtain ⟨_, c, hc, _⟩ := (hasDstIdGranted_eq_true_iff s k).mp hg
    have htab : (s.releaseGrant k).grantChTable = tblSet s.grantChTable k 0 :=
      congrArg GrantPool.grantChTable (releaseGrant_of_granted s k c hg hc).1
    rw [htab]
    exact tblKeys_tblSet_of_mem _ _ _ (mem_keys_of_tblAt_eq_some _ _ _ hc)

theorem tblKeys_foldl_releaseGrant (l : List Nat) (s : TrunkPacket) :
    tblKeys (l.foldl releaseGrant s).grantChTable = tblKeys s.grantChTable := by
  induction l generalizing s with
  | nil => rfl
  | cons k l ih => simp only [List.foldl_cons]; rw [ih, tblKeys_releaseGrant]

@[simp] theorem p25_setAdjSites (s : TrunkPacket) (t : List (Nat × SiteData))
    (c : List (Nat × Nat)) : (s.setAdjSites t c).p25 = s.p25 := rfl

@[simp] theorem p25_setAdjSiteUpdateTimer (s : TrunkPacket) (t : Timer) :
    (s.setAdjSiteUpdateTimer t).p25 = s.p25 := rfl

theorem p25_clockAdjSites (l : List (Nat × Nat)) (s : TrunkPacket) :
    (clockAdjSites l s).p25 = s.p25 := by
  induction l generalizing s with
  | nil => rfl
  | cons x l ih =>
    obtain ⟨a, b⟩ := x
    simp only [clockAdjSites]
    rw [ih]; rfl

theorem p25_clock (s : TrunkPacket) (ms : Nat) : (s.clock ms).p25 = s.p25 := by
  cases hc : s.p25.control with
  | false => rw [clock_of_not_control s ms hc]
  | true =>
    unfold clock clockAdjSiteUpdateTimer
    simp only [hc, if_true]
    split_ifs
    · simp [p25_clockAdjSites, p25_foldl_releaseGrant, setGrantTimers]
    · simp [p25_foldl_releaseGrant, setGrantTimers]

/-- The pool fields after `clock`, control being enabled. -/
theorem clock_fields (s : TrunkPacket) (ms : Nat) (hc : s.p25.control = true) :
    (s.clock ms).voiceChTable =
      ((clockGrantTimers ms (tblKeys s.grantChTable) s.grantTimers []).2.foldl releaseGrant
        (s.setGrantTimers
          (clockGrantTimers ms (tblKeys s.grantChTable) s.grantTimers []).1)).voiceChTable ∧
    (s.clock ms).grantChTable =
      ((clockGrantTimers ms (tblKeys s.grantChTable) s.grantTimers []).2.foldl releaseGrant
        (s.setGrantTimers
          (clockGrantTimers ms (tblKeys s.grantChTable) s.grantTimers []).1)).grantChTable ∧
    (s.clock ms).grantTimers =
      ((clockGrantTimers ms (tblKeys s.grantChTable) s.grantTimers []).2.foldl releaseGrant
        (s.setGrantTimers
          (clockGrantTimers ms (tblKeys s.grantChTable) s.grantTimers []).1)).grantTimers :=
  ⟨congrArg GrantPool.voiceChTable (pool_clock s ms hc),
    congrArg GrantPool.grantChTable (pool_clock s ms hc),
    congrArg GrantPool.grantTimers (pool_clock s ms hc)⟩

theorem tblKeys_clock (s : TrunkPacket) (ms : Nat) :
    tblKeys (s.clock ms).grantChTable = tblKeys s.grantChTable := by
  cases hc : s.p25.control with
  | false => rw [clock_of_not_control s ms hc]
  | true =>
    rw [(clock_fields s ms hc).2.1, tblKeys_foldl_releaseGrant]
    rfl

/-- What one `clock(ms)` does to the grant of a destination, the grant table
having no key twice: the released keys are the granted keys whose advanced
timer is running and expired. -/
theorem clock_grant (s : TrunkPacket) (ms d : Nat) (hc : s.p25.control = true)
    (hnd : (tblKeys s.grantChTable).Nodup) :
    tblAt (s.clock ms).grantChTable d =
      (if s.hasDstIdGranted d = true ∧ ((timerAt s.grantTimers d).clock ms).isRunning = true ∧
          ((timerAt s.grantTimers d).clock ms).hasExpired = true
        then some 0 else tblAt s.grantChTable d) ∧
    (s.clock ms).hasDstIdGranted d =
      (if ((timerAt s.grantTimers d).clock ms).isRunning = true ∧
          ((timerAt s.grantTimers d).clock ms).hasExpired = true
        then false else s.hasDstIdGranted d) ∧
    timerAt (s.clock ms).grantTimers d =
      (if d ∈ tblKeys s.grantChTable then
        (if s.hasDstIdGranted d = true ∧ ((timerAt s.grantTimers d).clock ms).isRunning = true ∧
            ((timerAt s.grantTimers d).clock ms).hasExpired = true
          then ((timerAt s.grantTimers d).clock ms).stop else (timerAt s.grantTimers d).clock ms)
      else timerAt s.grantTimers d) ∧
    (∃ r, (s.clock ms).voiceChTable = s.voiceChTable ++ r) ∧
    (∀ c, s.hasDstIdGranted d = true → tblAt s.grantChTable d = some c →
      ((timerAt s.grantTimers d).clock ms).isRunning = true →
      ((timerAt s.grantTimers d).clock ms).hasExpired = true →
      c ∈ (s.clock ms).voiceChTable) := by
  obtain ⟨hT, hL⟩ := clockGrantTimers_spec ms (tblKeys s.grantChTable) s.grantTimers [] hnd
  obtain ⟨hfree, htab, htim⟩ := clock_fields s ms hc
  have hgr : ∀ q, (s.setGrantTimers
      (clockGrantTimers ms (tblKeys s.grantChTable) s.grantTimers []).1).hasDstIdGranted q =
      s.hasDstIdGranted q := fun q => rfl
  have hkey : s.hasDstIdGranted d = true → d ∈ tblKeys s.grantChTable := by
    intro hg
    obtain ⟨_, c, hcv, _⟩ := (hasDstIdGranted_eq_true_iff s d).mp hg
    exact mem_keys_of_tblAt_eq_some _ _ _ hcv
  have hnk : d ∉ tblKeys s.grantChTable → s.hasDstIdGranted d = false := by
    intro hk
    cases hg : s.hasDstIdGranted d with
    | false => rfl
    | true => exact absurd (hkey hg) hk
  have hmem := hL d
  simp only [List.not_mem_nil, false_or] at hmem
  refine ⟨?_, ?_, ?_, ?_, ?_⟩
  · rw [htab, tblAt_foldl_releaseGrant, hgr]
    show (if _ then _ else tblAt s.grantChTable d) = _
    by_cases hg : s.hasDstIdGranted d = true
    · simp [hmem, hg, hkey hg]
    · simp [hmem, hg]
  · have hh : (s.clock ms).hasDstIdGranted d =
        ((clockGrantTimers ms (tblKeys s.grantChTable) s.grantTimers []).2.foldl releaseGrant
          (s.setGrantTimers
            (clockGrantTimers ms (tblKeys s.grantChTable) s.grantTimers []).1)).hasDstIdGranted
          d := hasDstIdGranted_congr _ _ d (by rw [htab])
    rw [hh, hasDstIdGranted_foldl_releaseGrant, hgr]
    by_cases hk : d ∈ tblKeys s.grantChTable
    · simp [hmem, hk]
    · simp [hmem, hk, hnk hk]
  · rw [htim, timerAt_foldl_releaseGrant, hgr]
    show (if _ then (timerAt (clockGrantTimers ms (tblKeys s.grantChTable) s.grantTimers []).1
      d).stop else timerAt (clockGrantTimers ms (tblKeys s.grantChTable) s.grantTimers []).1 d)
      = _
    rw [hT d]
    by_cases hk : d ∈ tblKeys s.grantChTable
    · by_cases hg : s.hasDstIdGranted d = true
      · simp [hmem, hk, hg]
      · simp [hmem, hk, hg]
    · simp [hmem, hk, hnk hk]
  · rw [hfree]
    exact voiceChTable_foldl_releaseGrant _ _
  · intro c hg hcv hrun hexp
    rw [hfree]
    exact mem_voiceChTable_foldl_releaseGrant _ _ d c (hmem.mpr ⟨hkey hg, hrun, hexp⟩) hg hcv

end TrunkPacket
end p25

namespace p25
namespace TrunkPacket

/-- A destination that is not granted stays so under `clock`, and the free
list only grows. -/
theorem clock_keeps_released (s : TrunkPacket) (ms d c : Nat)
    (hng : s.hasDstIdGranted d = false) (hcf : c ∈ s.voiceChTable) :
    (s.clock ms).hasDstIdGranted d = false ∧ c ∈ (s.clock ms).voiceChTable := by
  cases hc : s.p25.control with
  | false => rw [clock_of_not_control s ms hc]; exact ⟨hng, hcf⟩
  | true =>
    obtain ⟨hfree, htab, _⟩ := clock_fields s ms hc
    refine ⟨?_, ?_⟩
    · rw [hasDstIdGranted_congr _ _ d (congrArg (fun t => tblAt t d) htab),
        hasDstIdGranted_foldl_releaseGrant]
      split_ifs
      · rfl
      · exact hng
    · rw [hfree]
      obtain ⟨r, hr⟩ := voiceChTable_foldl_releaseGrant
        (clockGrantTimers ms (tblKeys s.grantChTable) s.grantTimers []).2
        (s.setGrantTimers (clockGrantTimers ms (tblKeys s.grantChTable) s.grantTimers []).1)
      rw [hr]
      exact List.mem_append_left _ hcf

theorem foldl_clock_keeps_released (msList : List Nat) (s : TrunkPacket) (d c : Nat)
    (hng : s.hasDstIdGranted d = false) (hcf : c ∈ s.voiceChTable) :
    (msList.foldl clock s).hasDstIdGranted d = false ∧
      c ∈ (msList.foldl clock s).voiceChTable := by
  induction msList generalizing s with
  | nil => exact ⟨hng, hcf⟩
  | cons ms rest ih =>
    obtain ⟨h1, h2⟩ := clock_keeps_released s ms d c hng hcf
    exact ih (s.clock ms) h1 h2

/-- One `clock(ms)` on a granted destination whose timer runs with at most
`r` ticks left: either the grant is released, or `ms < r` and the grant stays
with at most `r - ms` ticks left. -/
theorem clock_running_grant (s : TrunkPacket) (ms d c r : Nat) (hc : s.p25.control = true)
    (hnd : (tblKeys s.grantChTable).Nodup)
    (hg : s.hasDstIdGranted d = true) (hcv : tblAt s.grantChTable d = some c)
    (hrun : (timerAt s.grantTimers d).running = true)
    (hrem : (timerAt s.grantTimers d).remaining ≤ r) :
    ((s.clock ms).hasDstIdGranted d = false ∧ c ∈ (s.clock ms).voiceChTable) ∨
    (ms < r ∧ (s.clock ms).hasDstIdGranted d = true ∧
      tblAt (s.clock ms).grantChTable d = some c ∧
      (timerAt (s.clock ms).grantTimers d).running = true ∧
      (timerAt (s.clock ms).grantTimers d).remaining ≤ r - ms) := by
  obtain ⟨h1, h2, h3, _, h5⟩ := clock_grant s ms d hc hnd
  have hk : d ∈ tblKeys s.grantChTable := mem_keys_of_tblAt_eq_some _ _ _ hcv
  have hclk : (timerAt s.grantTimers d).clock ms =
      { timerAt s.grantTimers d with remaining := (timerAt s.grantTimers d).remaining - ms } := by
    simp [Timer.clock, hrun]
  have hrunning : ((timerAt s.grantTimers d).clock ms).isRunning = true := by
    rw [Timer.isRunning_clock]; exact hrun
  by_cases hexp : ((timerAt s.grantTimers d).clock ms).hasExpired = true
  · left
    refine ⟨?_, h5 c hg hcv hrunning hexp⟩
    rw [h2]; simp [hrunning, hexp]
  · right
    have hpos : (timerAt s.grantTimers d).remaining - ms ≠ 0 := by
      intro h0
      apply hexp
      rw [hclk]
      simp [Timer.hasExpired, hrun, h0]
    have h3' : timerAt (s.clock ms).grantTimers d = (timerAt s.grantTimers d).clock ms := by
      rw [h3, if_pos hk, if_neg (fun h => hexp h.2.2)]
    refine ⟨by omega, ?_, ?_, ?_, ?_⟩
    · rw [h2, if_neg (fun h => hexp h.2)]; exact hg
    · rw [h1, if_neg (fun h => hexp h.2.2)]; exact hcv
    · rw [h3', hclk]; exact hrun
    · rw [h3', hclk]
      show (timerAt s.grantTimers d).remaining - ms ≤ r - ms
      omega

theorem foldl_clock_running_grant (msList : List Nat) (s : TrunkPacket) (d c r : Nat)
    (hc : s.p25.control = true) (hnd : (tblKeys s.grantChTable).Nodup)
    (hg : s.hasDstIdGranted d = true) (hcv : tblAt s.grantChTable d = some c)
    (hrun : (timerAt s.grantTimers d).running = true)
    (hrem : (timerAt s.grantTimers d).remaining ≤ r)
    (hsum : r < msList.sum) :
    (msList.foldl clock s).hasDstIdGranted d = false ∧
      c ∈ (msList.foldl clock s).voiceChTable := by
  induction msList generalizing s r with
  | nil => simp at hsum
  | cons ms rest ih =>
    simp only [List.foldl_cons]
    rcases clock_running_grant s ms d c r hc hnd hg hcv hrun hrem with ⟨h1, h2⟩ | ⟨hlt, h1, h2, h3, h4⟩
    · exact foldl_clock_keeps_released rest _ d c h1 h2
    · apply ih (s.clock ms) (r - ms) _ _ h1 h2 h3 h4
      · simp only [List.sum_cons] at hsum; omega
      · rw [p25_clock]; exact hc
      · rw [tblKeys_clock]; exact hnd

/-- Claim C6: with control enabled and a grant table without repeated keys,
clock(ms) releases exactly the granted destinations whose timer, advanced by
ms, is running and expired (their key then maps to zero, they are no longer
granted and their channel is in the free list) and leaves every other grant
table entry unchanged; and a grant of dst on channel c whose timer was
started at t = 0 (1000 ticks per second, 15 s) and is not touched is released
once the clock(ms) calls have accumulated 15 s plus one tick: dst is no longer
granted and c is back in the free list. -/
theorem clock_releases_expired (s : TrunkPacket) (hc : s.p25.control = true)
    (hnd : (tblKeys s.grantChTable).Nodup) :
    (∀ ms d, tblAt (s.clock ms).grantChTable d =
      if s.hasDstIdGranted d = true ∧ ((timerAt s.grantTimers d).clock ms).isRunning = true ∧
          ((timerAt s.grantTimers d).clock ms).hasExpired = true
        then some 0 else tblAt s.grantChTable d) ∧
    (∀ ms d c, s.hasDstIdGranted d = true → tblAt s.grantChTable d = some c →
      ((timerAt s.grantTimers d).clock ms).isRunning = true →
      ((timerAt s.grantTimers d).clock ms).hasExpired = true →
      (s.clock ms).hasDstIdGranted d = false ∧ c ∈ (s.clock ms).voiceChTable) ∧
    (∀ (d c : Nat) (msList : List Nat), s.hasDstIdGranted d = true →
      tblAt s.grantChTable d = some c →
      timerAt s.grantTimers d = (Timer.create 1000 GRANT_TIMER_TIMEOUT).start →
      GRANT_TIMER_TIMEOUT * 1000 + 1 ≤ msList.sum →
      (msList.foldl clock s).hasDstIdGranted d = false ∧
        c ∈ (msList.foldl clock s).voiceChTable) := by
  refine ⟨fun ms d => (clock_grant s ms d hc hnd).1, ?_, ?_⟩
  · intro ms d c hg hcv hrun hexp
    obtain ⟨_, h2, _, _, h5⟩ := clock_grant s ms d hc hnd
    refine ⟨?_, h5 c hg hcv hrun hexp⟩
    rw [h2]; simp [hrun, hexp]
  · intro d c msList hg hcv htimer hsum
    apply foldl_clock_running_grant msList s d c (GRANT_TIMER_TIMEOUT * 1000) hc hnd hg hcv
    · rw [htimer]; rfl
    · rw [htimer]; exact Nat.le_refl _
    · omega

/-- Claim C6 on the pool [2,3,4]: 5000 is granted channel 2 at t = 0; clock
calls of 5000, 5000 and 5001 ms accumulate 15 s plus one tick, after which
5000 is not granted and channel 2 is in the free list. -/
theorem clock_releases_expired_witness :
    ([5000, 5000, 5001].foldl clock
      (scenarioPool.run [Op.grant (grpVchRequest 1001 5000) true false])).hasDstIdGranted 5000
      = false ∧
    2 ∈ ([5000, 5000, 5001].foldl clock
      (scenarioPool.run [Op.grant (grpVchRequest 1001 5000) true false])).voiceChTable :=
  (clock_releases_expired (scenarioPool.run [Op.grant (grpVchRequest 1001 5000) true false])
    (by decide) (by decide)).2.2 5000 2 [5000, 5000, 5001] (by decide) (by decide) (by decide)
    (by decide)

end TrunkPacket
end p25

/-! ## The hypotheses on the grant table hold in every reachable state -/

namespace p25

theorem tblKeys_tblSet_of_not_mem {β : Type} (m : List (Nat × β)) (k : Nat) (v : β)
    (h : k ∉ tblKeys m) : tblKeys (tblSet m k v) = tblKeys m ++ [k] := by
  induction m with
  | nil => rfl
  | cons x m ih =>
    obtain ⟨a, b⟩ := x
    simp only [tblKeys, List.map_cons, List.mem_cons, not_or] at h
    have := ih h.2
    simp only [tblKeys] at this
    simp [tblSet, tblKeys, Ne.symm h.1, this]

theorem nodup_tblKeys_tblSet {β : Type} (m : List (Nat × β)) (k : Nat) (v : β)
    (h : (tblKeys m).Nodup) : (tblKeys (tblSet m k v)).Nodup := by
  by_cases hk : k ∈ tblKeys m
  · rw [tblKeys_tblSet_of_mem m k v hk]; exact h
  · rw [tblKeys_tblSet_of_not_mem m k v hk]
    exact List.Nodup.append h (List.nodup_singleton k) (by simpa using hk)

namespace TrunkPacket

/-- No operation puts a key twice into the grant table. -/
theorem nodup_keys_step (s : TrunkPacket) (op : Op) (h : (tblKeys s.grantChTable).Nodup) :
    (tblKeys (s.step op).grantChTable).Nodup := by
  cases op with
  | grant tsbk grp skip =>
    show (tblKeys ((s.setRfTSBK tsbk).writeRF_TSDU_Grant grp skip).2.grantChTable).Nodup
    rcases pool_writeRF_TSDU_Grant (s.setRfTSBK tsbk) grp skip with hp | ⟨_, hp⟩ | ⟨c, rest, _, _, hp⟩
    · have ht : ((s.setRfTSBK tsbk).writeRF_TSDU_Grant grp skip).2.grantChTable =
          s.grantChTable := congrArg GrantPool.grantChTable hp
      rw [ht]; exact h
    · have ht : ((s.setRfTSBK tsbk).writeRF_TSDU_Grant grp skip).2.grantChTable =
          s.grantChTable := congrArg GrantPool.grantChTable hp
      rw [ht]; exact h
    · have ht : ((s.setRfTSBK tsbk).writeRF_TSDU_Grant grp skip).2.grantChTable =
          tblSet s.grantChTable tsbk.dstId c := congrArg GrantPool.grantChTable hp
      rw [ht]; exact nodup_tblKeys_tblSet _ _ _ h
  | release d all =>
    show (tblKeys (s.releaseDstIdGrant d all).grantChTable).Nodup
    rcases releaseDstIdGrant_cases s d all with hr | hr
    · rw [hr, tblKeys_releaseGrant]; exact h
    · rw [hr, tblKeys_foldl_releaseGrant]; exact h
  | clock ms =>
    show (tblKeys (s.clock ms).grantChTable).Nodup
    rw [tblKeys_clock]; exact h
  | peer p => exact h

theorem nodup_keys_run (ops : List Op) (s : TrunkPacket) (h : (tblKeys s.grantChTable).Nodup) :
    (tblKeys (s.run ops).grantChTable).Nodup := by
  induction ops generalizing s with
  | nil => exact h
  | cons op ops ih => exact ih (s.step op) (nodup_keys_step s op h)

/-- From a free list of distinct channel numbers other than zero and no
grants, under grant requests for destinations other than zero, releases and
clock calls, no channel is held by two entries of the grant table. -/
theorem count_granted_le_one_run (s0 : TrunkPacket) (ops : List Op) (c : Nat)
    (hg : s0.grantChTable = []) (hnd : s0.voiceChTable.Nodup) (h0 : 0 ∉ s0.voiceChTable)
    (hops : ∀ op ∈ ops, nonzeroDst op = true) (hc : c ≠ 0) :
    ((s0.run ops).grantChTable.map Prod.snd).count c ≤ 1 := by
  have hperm := channels_run ops s0 h0 hops
  have hinit : s0.channels = s0.voiceChTable := by
    simp [channels, grantedChannels, hg]
  rw [hinit] at hperm
  have hnodup : (s0.run ops).channels.Nodup := hperm.nodup_iff.mpr hnd
  have hgr : (s0.run ops).grantedChannels.Nodup := (List.nodup_append.mp hnodup).2.1
  have hle := List.nodup_iff_count_le_one.mp hgr c
  unfold grantedChannels at hle
  rw [List.count_filter (by simpa using hc)] at hle
  exact hle

end TrunkPacket
end p25

namespace p25
namespace TrunkPacket

theorem process_dispatched (acl : AccessControl) (s : TrunkPacket) (f : RFFrame)
    (h : Dispatched s f) :
    process acl s f =
      match processLCO acl (s.switchEntry f) f.tsbk.srcId f.tsbk.dstId s.p25.rfState with
      | (some ret, s1) => (ret, s1)
      | (none, s1) => (true, s1.switchExit s.p25.rfState) := by
  obtain ⟨h1, h2, h3⟩ := h
  unfold process
  rw [if_neg h1]
  simp only [h2, h3, if_true]
  rfl

end TrunkPacket
end p25

namespace p25
namespace TrunkPacket

/-! ### The registry view under the frame shaper -/

@[simp] theorem reg_emit (s : TrunkPacket) (e : Event) : (s.emit e).reg = s.reg := rfl
@[simp] theorem reg_setRfTSBK (s : TrunkPacket) (t : TSBK) : (s.setRfTSBK t).reg = s.reg := rfl
@[simp] theorem reg_setMBF (s : TrunkPacket) (b : List (Nat × TSBK)) (c : Nat) :
    (s.setMBF b c).reg = s.reg := rfl
@[simp] theorem reg_setSkipSBFPreamble (s : TrunkPacket) (b : Bool) :
    (s.setSkipSBFPreamble b).reg = s.reg := rfl
@[simp] theorem reg_setLastBlock (s : TrunkPacket) (b : Bool) : (s.setLastBlock b).reg = s.reg := rfl
@[simp] theorem reg_setLCO (s : TrunkPacket) (l : LCO) : (s.setLCO l).reg = s.reg := rfl
@[simp] theorem reg_setResponse (s : TrunkPacket) (r : Response) :
    (s.setResponse r).reg = s.reg := rfl
@[simp] theorem reg_checkAndReject (s : TrunkPacket) : s.checkAndReject.reg = s.reg := rfl
@[simp] theorem reg_setRfState (s : TrunkPacket) (st : RPT_RF_STATE) :
    (s.setRfState st).reg = s.reg := rfl

@[simp] theorem reg_writeNetworkRF (s : TrunkPacket) (d : TSBK) (r : Bool) :
    (s.writeNetworkRF d r).reg = s.reg := by
  unfold writeNetworkRF; split_ifs <;> rfl

@[simp] theorem reg_writeRF_TSDU_MBF (s : TrunkPacket) (c : Bool) :
    (s.writeRF_TSDU_MBF c).reg = s.reg := by
  unfold writeRF_TSDU_MBF; simp only []; split_ifs <;> simp

@[simp] theorem reg_queueSBF (s : TrunkPacket) (d : TSBK) (c : Bool) :
    (s.queueSBF d c).reg = s.reg := by
  unfold queueSBF; simp only []; split_ifs <;> simp

@[simp] theorem reg_writeRF_TSDU_SBF (s : TrunkPacket) (n c : Bool) :
    (s.writeRF_TSDU_SBF n c).reg = s.reg := by
  unfold writeRF_TSDU_SBF; simp only []; split_ifs <;> simp

@[simp] theorem reg_writeRF_TSDU_Deny (s : TrunkPacket) (r : Response) (v : LCO) :
    (s.writeRF_TSDU_Deny r v).reg = s.reg := by
  simp [writeRF_TSDU_Deny]

@[simp] theorem reg_writeRF_TSDU_Queue (s : TrunkPacket) (r : Response) (v : LCO) :
    (s.writeRF_TSDU_Queue r v).reg = s.reg := by
  simp [writeRF_TSDU_Queue]

/-! ### The RF TSBK under the frame shaper: only the last-block flag moves -/

theorem rfTSBK_writeRF_TSDU_MBF (s : TrunkPacket) (c : Bool) :
    ∃ b, (s.writeRF_TSDU_MBF c).rfTSBK = { s.rfTSBK with lastBlock := b } := by
  unfold writeRF_TSDU_MBF
  simp only []
  split_ifs
  all_goals first
    | exact ⟨true, rfl⟩
    | exact ⟨false, rfl⟩
    | exact ⟨s.rfTSBK.lastBlock, rfl⟩

@[simp] theorem rfTSBK_queueSBF (s : TrunkPacket) (d : TSBK) (c : Bool) :
    (s.queueSBF d c).rfTSBK = s.rfTSBK := by
  unfold queueSBF; simp only []; split_ifs <;> rfl

theorem rfTSBK_writeRF_TSDU_SBF (s : TrunkPacket) (n c : Bool) :
    ∃ b, (s.writeRF_TSDU_SBF n c).rfTSBK = { s.rfTSBK with lastBlock := b } := by
  have key : ∀ s1 : TrunkPacket, s1.rfTSBK = { s.rfTSBK with lastBlock := true } →
      ∃ b, (s1.writeRF_TSDU_MBF c).rfTSBK = { s.rfTSBK with lastBlock := b } := by
    intro s1 h1
    obtain ⟨b, hb⟩ := rfTSBK_writeRF_TSDU_MBF s1 c
    exact ⟨b, by rw [hb, h1]⟩
  unfold writeRF_TSDU_SBF
  simp only []
  split_ifs
  all_goals first
    | exact key _ (by simp [setLastBlock])
    | exact ⟨true, by simp [setLastBlock]⟩

end TrunkPacket
end p25

namespace p25
namespace TrunkPacket

/-- The collision branch of the grant writer: a deny for PTT collision, the
reject state reset and the opcode saved on entry restored. -/
theorem writeRF_TSDU_Grant_collide_eq (s : TrunkPacket) (grp : Bool)
    (hdst : s.rfTSBK.dstId ≠ P25_TGID_ALL)
    (hcol : (s.p25.rfState ≠ RPT_RF_STATE.RS_RF_LISTENING ∧
        s.p25.rfState ≠ RPT_RF_STATE.RS_RF_DATA) ∨
      (s.p25.netState ≠ RPT_NET_STATE.RS_NET_IDLE ∧ s.rfTSBK.dstId = s.p25.netLastDstId)) :
    s.writeRF_TSDU_Grant grp false =
      (false, ((s.writeRF_TSDU_Deny Response.P25_DENY_RSN_PTT_COLLIDE
        (if grp then LCO.TSBK_IOSP_GRP_VCH else LCO.TSBK_IOSP_UU_VCH)).checkAndReject).setLCO
          s.rfTSBK.lco) := by
  unfold writeRF_TSDU_Grant
  simp only []
  rw [if_neg hdst, if_pos trivial]
  by_cases h1 : s.p25.rfState ≠ RPT_RF_STATE.RS_RF_LISTENING ∧
      s.p25.rfState ≠ RPT_RF_STATE.RS_RF_DATA
  · rw [if_pos h1]
  · rw [if_neg h1]
    have h2 := hcol.resolve_left h1
    rw [if_pos h2]

/-- Claim C12: for every state and both values of grp and skip, the grant
writer called with the destination of the RF TSBK equal to the all-call group
0xFFFF returns true and leaves the whole engine state as it was: no frame is
written, and the free list, the grant table, the timers and voiceGrantChCnt
are unchanged. -/
theorem writeRF_TSDU_Grant_all_call (s : TrunkPacket) (grp skip : Bool)
    (hdst : s.rfTSBK.dstId = P25_TGID_ALL) :
    s.writeRF_TSDU_Grant grp skip = (true, s) ∧
    (s.writeRF_TSDU_Grant grp skip).2.events = s.events ∧
    (s.writeRF_TSDU_Grant grp skip).2.pool = s.pool := by
  have h : s.writeRF_TSDU_Grant grp skip = (true, s) := by
    unfold writeRF_TSDU_Grant
    simp only []
    rw [if_pos hdst]
  rw [h]
  exact ⟨rfl, rfl, rfl⟩

/-- Claim C12 at a concrete state: with channels 2, 3 and 4 free, a group
request for talkgroup 0xFFFF returns true and changes nothing. -/
theorem writeRF_TSDU_Grant_all_call_witness :
    (scenarioPool.setRfTSBK (grpVchRequest 1001 0xFFFF)).writeRF_TSDU_Grant true false =
      (true, scenarioPool.setRfTSBK (grpVchRequest 1001 0xFFFF)) :=
  (writeRF_TSDU_Grant_all_call (scenarioPool.setRfTSBK (grpVchRequest 1001 0xFFFF)) true false
    (by decide)).1

end TrunkPacket
end p25

namespace p25
namespace TrunkPacket

/-! ### Setters of the registries and of the status command -/

@[simp] theorem pool_setRfState (s : TrunkPacket) (st : RPT_RF_STATE) :
    (s.setRfState st).pool = s.pool := rfl
@[simp] theorem rfTSBK_setRfState (s : TrunkPacket) (st : RPT_RF_STATE) :
    (s.setRfState st).rfTSBK = s.rfTSBK := rfl
@[simp] theorem emitted_setRfState (s : TrunkPacket) (st : RPT_RF_STATE) :
    (s.setRfState st).emitted = s.emitted := rfl
@[simp] theorem events_setRfState (s : TrunkPacket) (st : RPT_RF_STATE) :
    (s.setRfState st).events = s.events := rfl
@[simp] theorem p25_setRfState (s : TrunkPacket) (st : RPT_RF_STATE) :
    (s.setRfState st).p25 = { s.p25 with rfState := st } := rfl

@[simp] theorem pool_setUnitRegTable (s : TrunkPacket) (t : List Nat) :
    (s.setUnitRegTable t).pool = s.pool := rfl
@[simp] theorem p25_setUnitRegTable (s : TrunkPacket) (t : List Nat) :
    (s.setUnitRegTable t).p25 = s.p25 := rfl
@[simp] theorem rfTSBK_setUnitRegTable (s : TrunkPacket) (t : List Nat) :
    (s.setUnitRegTable t).rfTSBK = s.rfTSBK := rfl
@[simp] theorem emitted_setUnitRegTable (s : TrunkPacket) (t : List Nat) :
    (s.setUnitRegTable t).emitted = s.emitted := rfl
@[simp] theorem reg_setUnitRegTable (s : TrunkPacket) (t : List Nat) :
    (s.setUnitRegTable t).reg = { s.reg with unitRegTable := t } := rfl

@[simp] theorem pool_setGrpAffTable (s : TrunkPacket) (t : List (Nat × Nat)) :
    (s.setGrpAffTable t).pool = s.pool := rfl
@[simp] theorem p25_setGrpAffTable (s : TrunkPacket) (t : List (Nat × Nat)) :
    (s.setGrpAffTable t).p25 = s.p25 := rfl
@[simp] theorem rfTSBK_setGrpAffTable (s : TrunkPacket) (t : List (Nat × Nat)) :
    (s.setGrpAffTable t).rfTSBK = s.rfTSBK := rfl
@[simp] theorem emitted_setGrpAffTable (s : TrunkPacket) (t : List (Nat × Nat)) :
    (s.setGrpAffTable t).emitted = s.emitted := rfl
@[simp] theorem reg_setGrpAffTable (s : TrunkPacket) (t : List (Nat × Nat)) :
    (s.setGrpAffTable t).reg = { s.reg with grpAffTable := t } := rfl

@[simp] theorem pool_setStatus (s : TrunkPacket) (a b : Nat) : (s.setStatus a b).pool = s.pool := rfl
@[simp] theorem p25_setStatus (s : TrunkPacket) (a b : Nat) : (s.setStatus a b).p25 = s.p25 := rfl
@[simp] theorem rfTSBK_setStatus (s : TrunkPacket) (a b : Nat) :
    (s.setStatus a b).rfTSBK = s.rfTSBK := rfl
@[simp] theorem emitted_setStatus (s : TrunkPacket) (a b : Nat) :
    (s.setStatus a b).emitted = s.emitted := rfl
@[simp] theorem reg_setStatus (s : TrunkPacket) (a b : Nat) :
    (s.setStatus a b).reg = { s.reg with statusSrcId := a, statusValue := b } := rfl

@[simp] theorem pool_setResponse (s : TrunkPacket) (r : Response) :
    (s.setResponse r).pool = s.pool := rfl
@[simp] theorem p25_setResponse (s : TrunkPacket) (r : Response) :
    (s.setResponse r).p25 = s.p25 := rfl
@[simp] theorem rfTSBK_setResponse (s : TrunkPacket) (r : Response) :
    (s.setResponse r).rfTSBK = { s.rfTSBK with response := r } := rfl
@[simp] theorem emitted_setResponse (s : TrunkPacket) (r : Response) :
    (s.setResponse r).emitted = s.emitted := rfl

@[simp] theorem rfTSBK_setLCO (s : TrunkPacket) (l : LCO) :
    (s.setLCO l).rfTSBK = { s.rfTSBK with lco := l } := rfl
@[simp] theorem rfTSBK_setLastBlock (s : TrunkPacket) (b : Bool) :
    (s.setLastBlock b).rfTSBK = { s.rfTSBK with lastBlock := b } := rfl
@[simp] theorem rfTSBK_checkAndReject (s : TrunkPacket) :
    s.checkAndReject.rfTSBK = s.rfTSBK := rfl

/-! ### Fields of the registry view -/

theorem unitRegTable_of_reg {s s1 : TrunkPacket} (h : s1.reg = s.reg) :
    s1.unitRegTable = s.unitRegTable := congrArg Registry.unitRegTable h
theorem grpAffTable_of_reg {s s1 : TrunkPacket} (h : s1.reg = s.reg) :
    s1.grpAffTable = s.grpAffTable := congrArg Registry.grpAffTable h
theorem statusSrcId_of_reg {s s1 : TrunkPacket} (h : s1.reg = s.reg) :
    s1.statusSrcId = s.statusSrcId := congrArg Registry.statusSrcId h
theorem statusValue_of_reg {s s1 : TrunkPacket} (h : s1.reg = s.reg) :
    s1.statusValue = s.statusValue := congrArg Registry.statusValue h
theorem hasSrcIdUnitReg_of_reg {s s1 : TrunkPacket} (h : s1.reg = s.reg) (srcId : Nat) :
    s1.hasSrcIdUnitReg srcId = s.hasSrcIdUnitReg srcId := by
  unfold hasSrcIdUnitReg; rw [unitRegTable_of_reg h]
theorem hasSrcIdGrpAff_of_reg {s s1 : TrunkPacket} (h : s1.reg = s.reg) (srcId dstId : Nat) :
    s1.hasSrcIdGrpAff srcId dstId = s.hasSrcIdGrpAff srcId dstId := by
  unfold hasSrcIdGrpAff; rw [grpAffTable_of_reg h]

/-! ### Response writers built on the single-block frame shaper -/

@[simp] theorem pool_writeRF_TSDU_ACK_FNE (s : TrunkPacket) (a : Nat) (v : LCO) (n : Bool) :
    (s.writeRF_TSDU_ACK_FNE a v n).pool = s.pool := by
  simp [writeRF_TSDU_ACK_FNE]
@[simp] theorem p25_writeRF_TSDU_ACK_FNE (s : TrunkPacket) (a : Nat) (v : LCO) (n : Bool) :
    (s.writeRF_TSDU_ACK_FNE a v n).p25 = s.p25 := by
  simp [writeRF_TSDU_ACK_FNE]
@[simp] theorem reg_writeRF_TSDU_ACK_FNE (s : TrunkPacket) (a : Nat) (v : LCO) (n : Bool) :
    (s.writeRF_TSDU_ACK_FNE a v n).reg = s.reg := by
  simp [writeRF_TSDU_ACK_FNE]
theorem emitted_writeRF_TSDU_ACK_FNE (s : TrunkPacket) (a : Nat) (v : LCO) (n : Bool) :
    (s.writeRF_TSDU_ACK_FNE a v n).emitted = s.emitted ++ [{ s.rfTSBK with
      lco := LCO.TSBK_IOSP_ACK_RSP, mfId := MFId.P25_MFG_STANDARD, service := v,
      lastBlock := true }] := by
  simp [writeRF_TSDU_ACK_FNE, emitted_writeRF_TSDU_SBF]
theorem rfTSBK_writeRF_TSDU_ACK_FNE (s : TrunkPacket) (a : Nat) (v : LCO) (n : Bool) :
    ∃ b, (s.writeRF_TSDU_ACK_FNE a v n).rfTSBK =
      { s.rfTSBK with service := v, lastBlock := b } := by
  unfold writeRF_TSDU_ACK_FNE
  simp only []
  obtain ⟨b, hb⟩ := rfTSBK_writeRF_TSDU_SBF (s.setRfTSBK { s.rfTSBK with
    lco := LCO.TSBK_IOSP_ACK_RSP, mfId := MFId.P25_MFG_STANDARD, service := v }) n false
  exact ⟨b, by simp [hb]⟩

end TrunkPacket
end p25

namespace p25
namespace TrunkPacket

@[simp] theorem pool_writeRF_TSDU_Ext_Func (s : TrunkPacket) (f : ExtFunc) (a d : Nat) :
    (s.writeRF_TSDU_Ext_Func f a d).pool = s.pool := by
  simp [writeRF_TSDU_Ext_Func]
@[simp] theorem p25_writeRF_TSDU_Ext_Func (s : TrunkPacket) (f : ExtFunc) (a d : Nat) :
    (s.writeRF_TSDU_Ext_Func f a d).p25 = s.p25 := by
  simp [writeRF_TSDU_Ext_Func]
@[simp] theorem reg_writeRF_TSDU_Ext_Func (s : TrunkPacket) (f : ExtFunc) (a d : Nat) :
    (s.writeRF_TSDU_Ext_Func f a d).reg = s.reg := by
  simp [writeRF_TSDU_Ext_Func]
theorem emitted_writeRF_TSDU_Ext_Func (s : TrunkPacket) (f : ExtFunc) (a d : Nat) :
    (s.writeRF_TSDU_Ext_Func f a d).emitted = s.emitted ++ [{ s.rfTSBK with
      mfId := MFId.P25_MFG_STANDARD, lco := LCO.TSBK_IOSP_EXT_FNCT, extendedFunction := f,
      srcId := a, dstId := d, lastBlock := true }] := by
  simp [writeRF_TSDU_Ext_Func, emitted_writeRF_TSDU_SBF]
theorem rfTSBK_writeRF_TSDU_Ext_Func (s : TrunkPacket) (f : ExtFunc) (a d : Nat) :
    ∃ b, (s.writeRF_TSDU_Ext_Func f a d).rfTSBK =
      { s.rfTSBK with extendedFunction := f, srcId := a, dstId := d, lastBlock := b } := by
  unfold writeRF_TSDU_Ext_Func
  simp only []
  obtain ⟨b, hb⟩ := rfTSBK_writeRF_TSDU_SBF (s.setRfTSBK { s.rfTSBK with
    mfId := MFId.P25_MFG_STANDARD, lco := LCO.TSBK_IOSP_EXT_FNCT, extendedFunction := f,
    srcId := a, dstId := d }) false false
  exact ⟨b, by simp [hb]⟩

@[simp] theorem pool_writeRF_TSDU_Call_Alrt (s : TrunkPacket) (a d : Nat) :
    (s.writeRF_TSDU_Call_Alrt a d).pool = s.pool := by
  simp [writeRF_TSDU_Call_Alrt]
@[simp] theorem p25_writeRF_TSDU_Call_Alrt (s : TrunkPacket) (a d : Nat) :
    (s.writeRF_TSDU_Call_Alrt a d).p25 = s.p25 := by
  simp [writeRF_TSDU_Call_Alrt]
@[simp] theorem reg_writeRF_TSDU_Call_Alrt (s : TrunkPacket) (a d : Nat) :
    (s.writeRF_TSDU_Call_Alrt a d).reg = s.reg := by
  simp [writeRF_TSDU_Call_Alrt]
theorem emitted_writeRF_TSDU_Call_Alrt (s : TrunkPacket) (a d : Nat) :
    (s.writeRF_TSDU_Call_Alrt a d).emitted = s.emitted ++ [{ s.rfTSBK with
      lco := LCO.TSBK_IOSP_CALL_ALRT, srcId := a, dstId := d, lastBlock := true }] := by
  simp [writeRF_TSDU_Call_Alrt, emitted_writeRF_TSDU_SBF]

@[simp] theorem pool_writeRF_TSDU_U_Reg_Cmd (s : TrunkPacket) (d : Nat) :
    (s.writeRF_TSDU_U_Reg_Cmd d).pool = s.pool := by
  simp [writeRF_TSDU_U_Reg_Cmd]
@[simp] theorem p25_writeRF_TSDU_U_Reg_Cmd (s : TrunkPacket) (d : Nat) :
    (s.writeRF_TSDU_U_Reg_Cmd d).p25 = s.p25 := by
  simp [writeRF_TSDU_U_Reg_Cmd]
@[simp] theorem reg_writeRF_TSDU_U_Reg_Cmd (s : TrunkPacket) (d : Nat) :
    (s.writeRF_TSDU_U_Reg_Cmd d).reg = s.reg := by
  simp [writeRF_TSDU_U_Reg_Cmd]
theorem emitted_writeRF_TSDU_U_Reg_Cmd (s : TrunkPacket) (d : Nat) :
    (s.writeRF_TSDU_U_Reg_Cmd d).emitted = s.emitted ++ [{ s.rfTSBK with
      lco := LCO.TSBK_OSP_U_REG_CMD, srcId := P25_WUID_SYS, dstId := d, lastBlock := true }] := by
  simp [writeRF_TSDU_U_Reg_Cmd, emitted_writeRF_TSDU_SBF]

@[simp] theorem pool_writeRF_TSDU_UU_Ans_Req (s : TrunkPacket) (a d : Nat) :
    (s.writeRF_TSDU_UU_Ans_Req a d).pool = s.pool := by
  simp [writeRF_TSDU_UU_Ans_Req]
@[simp] theorem p25_writeRF_TSDU_UU_Ans_Req (s : TrunkPacket) (a d : Nat) :
    (s.writeRF_TSDU_UU_Ans_Req a d).p25 = s.p25 := by
  simp [writeRF_TSDU_UU_Ans_Req]
@[simp] theorem reg_writeRF_TSDU_UU_Ans_Req (s : TrunkPacket) (a d : Nat) :
    (s.writeRF_TSDU_UU_Ans_Req a d).reg = s.reg := by
  simp [writeRF_TSDU_UU_Ans_Req]
theorem emitted_writeRF_TSDU_UU_Ans_Req (s : TrunkPacket) (a d : Nat) :
    (s.writeRF_TSDU_UU_Ans_Req a d).emitted = s.emitted ++ [{ s.rfTSBK with
      lco := LCO.TSBK_IOSP_UU_ANS, srcId := a, dstId := d, vendorSkip := true,
      lastBlock := true }] := by
  simp [writeRF_TSDU_UU_Ans_Req, emitted_writeRF_TSDU_SBF]

/-! ### Automatic inhibit on a denial -/

@[simp] theorem pool_denialInhibit (acl : AccessControl) (s : TrunkPacket) (a : Nat) :
    (denialInhibit acl s a).pool = s.pool := by
  unfold denialInhibit; split_ifs <;> simp
@[simp] theorem p25_denialInhibit (acl : AccessControl) (s : TrunkPacket) (a : Nat) :
    (denialInhibit acl s a).p25 = s.p25 := by
  unfold denialInhibit; split_ifs <;> simp
@[simp] theorem reg_denialInhibit (acl : AccessControl) (s : TrunkPacket) (a : Nat) :
    (denialInhibit acl s a).reg = s.reg := by
  unfold denialInhibit; split_ifs <;> simp

/-- What `denialInhibit` hands to the frame shaper: nothing, or one extended
function TSBK that inhibits the rejected source. -/
theorem emitted_denialInhibit (acl : AccessControl) (s : TrunkPacket) (a : Nat) :
    (denialInhibit acl s a).emitted = s.emitted ++
      (if s.p25.inhibitIllegal = true ∧ acl.validateSrcId a = false then
        [{ s.rfTSBK with
          mfId := MFId.P25_MFG_STANDARD, lco := LCO.TSBK_IOSP_EXT_FNCT,
          extendedFunction := ExtFunc.P25_EXT_FNCT_INHIBIT,
          srcId := P25_WUID_SYS, dstId := a, lastBlock := true }]
      else []) := by
  unfold denialInhibit
  by_cases h1 : s.p25.inhibitIllegal = false
  · simp [h1]
  · by_cases h2 : acl.validateSrcId a = false
    · simp [h1, h2, emitted_writeRF_TSDU_Ext_Func]
    · simp [h1, h2]

theorem lco_denialInhibit (acl : AccessControl) (s : TrunkPacket) (a : Nat) :
    (denialInhibit acl s a).rfTSBK.lco = s.rfTSBK.lco := by
  unfold denialInhibit
  split_ifs
  · rfl
  · obtain ⟨b, hb⟩ := rfTSBK_writeRF_TSDU_Ext_Func s ExtFunc.P25_EXT_FNCT_INHIBIT P25_WUID_SYS a
    rw [hb]
  · rfl

end TrunkPacket
end p25

namespace p25
namespace TrunkPacket

@[simp] theorem hasSrcIdUnitReg_setRfTSBK (s : TrunkPacket) (t : TSBK) (a : Nat) :
    (s.setRfTSBK t).hasSrcIdUnitReg a = s.hasSrcIdUnitReg a := rfl
@[simp] theorem hasSrcIdUnitReg_setLCO (s : TrunkPacket) (l : LCO) (a : Nat) :
    (s.setLCO l).hasSrcIdUnitReg a = s.hasSrcIdUnitReg a := rfl
@[simp] theorem hasSrcIdUnitReg_setResponse (s : TrunkPacket) (r : Response) (a : Nat) :
    (s.setResponse r).hasSrcIdUnitReg a = s.hasSrcIdUnitReg a := rfl
@[simp] theorem verifyReg_setRfTSBK (s : TrunkPacket) (t : TSBK) :
    (s.setRfTSBK t).verifyReg = s.verifyReg := rfl
@[simp] theorem verifyReg_setLCO (s : TrunkPacket) (l : LCO) :
    (s.setLCO l).verifyReg = s.verifyReg := rfl
@[simp] theorem verifyReg_setResponse (s : TrunkPacket) (r : Response) :
    (s.setResponse r).verifyReg = s.verifyReg := rfl
@[simp] theorem grpAffTable_setRfTSBK (s : TrunkPacket) (t : TSBK) :
    (s.setRfTSBK t).grpAffTable = s.grpAffTable := rfl
@[simp] theorem grpAffTable_setLCO (s : TrunkPacket) (l : LCO) :
    (s.setLCO l).grpAffTable = s.grpAffTable := rfl
@[simp] theorem grpAffTable_setResponse (s : TrunkPacket) (r : Response) :
    (s.setResponse r).grpAffTable = s.grpAffTable := rfl
@[simp] theorem unitRegTable_setRfTSBK (s : TrunkPacket) (t : TSBK) :
    (s.setRfTSBK t).unitRegTable = s.unitRegTable := rfl
@[simp] theorem unitRegTable_setLCO (s : TrunkPacket) (l : LCO) :
    (s.setLCO l).unitRegTable = s.unitRegTable := rfl
@[simp] theorem unitRegTable_setResponse (s : TrunkPacket) (r : Response) :
    (s.setResponse r).unitRegTable = s.unitRegTable := rfl
@[simp] theorem grpAffTable_writeRF_TSDU_SBF (s : TrunkPacket) (n c : Bool) :
    (s.writeRF_TSDU_SBF n c).grpAffTable = s.grpAffTable :=
  grpAffTable_of_reg (reg_writeRF_TSDU_SBF s n c)
@[simp] theorem unitRegTable_writeRF_TSDU_SBF (s : TrunkPacket) (n c : Bool) :
    (s.writeRF_TSDU_SBF n c).unitRegTable = s.unitRegTable :=
  unitRegTable_of_reg (reg_writeRF_TSDU_SBF s n c)
@[simp] theorem grpAffTable_setGrpAffTable (s : TrunkPacket) (t : List (Nat × Nat)) :
    (s.setGrpAffTable t).grpAffTable = t := rfl
@[simp] theorem unitRegTable_setGrpAffTable (s : TrunkPacket) (t : List (Nat × Nat)) :
    (s.setGrpAffTable t).unitRegTable = s.unitRegTable := rfl
@[simp] theorem unitRegTable_setUnitRegTable (s : TrunkPacket) (t : List Nat) :
    (s.setUnitRegTable t).unitRegTable = t := rfl
@[simp] theorem grpAffTable_setUnitRegTable (s : TrunkPacket) (t : List Nat) :
    (s.setUnitRegTable t).grpAffTable = s.grpAffTable := rfl

/-- The condition under which `writeRF_TSDU_Grp_Aff_Rsp` accepts. -/
theorem writeRF_TSDU_Grp_Aff_Rsp_fst (acl : AccessControl) (s : TrunkPacket) (srcId dstId : Nat) :
    (writeRF_TSDU_Grp_Aff_Rsp acl s srcId dstId).1 = true ↔
      (acl.validateSrcId srcId = true ∧
        (s.hasSrcIdUnitReg srcId = true ∨ s.verifyReg = false) ∧
        (s.rfTSBK.group = false ∨ acl.validateTGId dstId = true)) := by
  unfold writeRF_TSDU_Grp_Aff_Rsp
  simp only []
  cases h1 : acl.validateSrcId srcId <;> cases h2 : s.hasSrcIdUnitReg srcId <;>
    cases h3 : s.verifyReg <;> cases h4 : s.rfTSBK.group <;>
    cases h5 : acl.validateTGId dstId <;> simp [h1, h2, h3, h4, h5]

end TrunkPacket
end p25

namespace p25
namespace TrunkPacket

@[simp] theorem patchSuperGroup_setRfTSBK (s : TrunkPacket) (t : TSBK) :
    (s.setRfTSBK t).patchSuperGroup = s.patchSuperGroup := rfl
@[simp] theorem patchSuperGroup_setLCO (s : TrunkPacket) (l : LCO) :
    (s.setLCO l).patchSuperGroup = s.patchSuperGroup := rfl
@[simp] theorem patchSuperGroup_setResponse (s : TrunkPacket) (r : Response) :
    (s.setResponse r).patchSuperGroup = s.patchSuperGroup := rfl

theorem grpAffTable_writeRF_TSDU_Grp_Aff_Rsp (acl : AccessControl) (s : TrunkPacket)
    (srcId dstId : Nat) :
    (writeRF_TSDU_Grp_Aff_Rsp acl s srcId dstId).2.grpAffTable =
      if (writeRF_TSDU_Grp_Aff_Rsp acl s srcId dstId).1 = true then
        tblSet s.grpAffTable srcId dstId
      else s.grpAffTable := by
  unfold writeRF_TSDU_Grp_Aff_Rsp
  simp only []
  by_cases h2 : s.hasSrcIdUnitReg srcId = false ∧ s.verifyReg = true <;>
    cases h1 : acl.validateSrcId srcId <;> cases h4 : s.rfTSBK.group <;>
    cases h5 : acl.validateTGId dstId <;> simp [h1, h2, h4, h5]

theorem unitRegTable_writeRF_TSDU_Grp_Aff_Rsp (acl : AccessControl) (s : TrunkPacket)
    (srcId dstId : Nat) :
    (writeRF_TSDU_Grp_Aff_Rsp acl s srcId dstId).2.unitRegTable = s.unitRegTable := by
  unfold writeRF_TSDU_Grp_Aff_Rsp
  simp only []
  split_ifs <;> simp

theorem pool_writeRF_TSDU_Grp_Aff_Rsp (acl : AccessControl) (s : TrunkPacket)
    (srcId dstId : Nat) :
    (writeRF_TSDU_Grp_Aff_Rsp acl s srcId dstId).2.pool = s.pool := by
  unfold writeRF_TSDU_Grp_Aff_Rsp
  simp only []
  split_ifs <;> simp

theorem p25_writeRF_TSDU_Grp_Aff_Rsp (acl : AccessControl) (s : TrunkPacket)
    (srcId dstId : Nat) :
    (writeRF_TSDU_Grp_Aff_Rsp acl s srcId dstId).2.p25 = s.p25 := by
  unfold writeRF_TSDU_Grp_Aff_Rsp
  simp only []
  split_ifs <;> simp

/-- The one TSBK that `writeRF_TSDU_Grp_Aff_Rsp` hands to the frame shaper. -/
theorem emitted_writeRF_TSDU_Grp_Aff_Rsp (acl : AccessControl) (s : TrunkPacket)
    (srcId dstId : Nat) :
    ∃ t : TSBK, (writeRF_TSDU_Grp_Aff_Rsp acl s srcId dstId).2.emitted = s.emitted ++ [t] ∧
      t.lco = LCO.TSBK_IOSP_GRP_AFF ∧ t.lastBlock = true ∧
      t.srcId = s.rfTSBK.srcId ∧ t.dstId = s.rfTSBK.dstId ∧
      t.patchSuperGroupId = s.patchSuperGroup ∧
      (t.response = Response.P25_RSP_ACCEPT ↔
        (writeRF_TSDU_Grp_Aff_Rsp acl s srcId dstId).1 = true) ∧
      (t.response = Response.P25_RSP_ACCEPT ∨ t.response = Response.P25_RSP_DENY ∨
        t.response = Response.P25_RSP_REFUSED) := by
  unfold writeRF_TSDU_Grp_Aff_Rsp
  simp only []
  by_cases h2 : s.hasSrcIdUnitReg srcId = false ∧ s.verifyReg = true <;>
    cases h1 : acl.validateSrcId srcId <;> cases h4 : s.rfTSBK.group <;>
    cases h5 : acl.validateTGId dstId <;>
    simp [h1, h2, h4, h5, emitted_writeRF_TSDU_SBF]

end TrunkPacket
end p25

namespace p25
namespace TrunkPacket

end TrunkPacket
end p25

namespace p25
namespace TrunkPacket

end TrunkPacket
end p25

namespace p25
namespace TrunkPacket

@[simp] theorem siteData_setRfTSBK (s : TrunkPacket) (t : TSBK) :
    (s.setRfTSBK t).siteData = s.siteData := rfl
@[simp] theorem siteData_setLCO (s : TrunkPacket) (l : LCO) :
    (s.setLCO l).siteData = s.siteData := rfl
@[simp] theorem siteData_setResponse (s : TrunkPacket) (r : Response) :
    (s.setResponse r).siteData = s.siteData := rfl
@[simp] theorem unitRegTable_denialInhibit (acl : AccessControl) (s : TrunkPacket) (a : Nat) :
    (denialInhibit acl s a).unitRegTable = s.unitRegTable :=
  unitRegTable_of_reg (reg_denialInhibit acl s a)
@[simp] theorem grpAffTable_denialInhibit (acl : AccessControl) (s : TrunkPacket) (a : Nat) :
    (denialInhibit acl s a).grpAffTable = s.grpAffTable :=
  grpAffTable_of_reg (reg_denialInhibit acl s a)

theorem hasSrcIdUnitReg_eq_true_iff (s : TrunkPacket) (a : Nat) :
    s.hasSrcIdUnitReg a = true ↔ a ∈ s.unitRegTable := by
  unfold hasSrcIdUnitReg; simp

theorem hasSrcIdUnitReg_eq_false_iff (s : TrunkPacket) (a : Nat) :
    s.hasSrcIdUnitReg a = false ↔ a ∉ s.unitRegTable := by
  unfold hasSrcIdUnitReg; simp

/-- The unit registration table after `writeRF_TSDU_U_Reg_Rsp`: the source is
appended when the system ID matches, the ACL accepts it and it is absent. -/
theorem unitRegTable_writeRF_TSDU_U_Reg_Rsp (acl : AccessControl) (s : TrunkPacket)
    (srcId : Nat) :
    (writeRF_TSDU_U_Reg_Rsp acl s srcId).unitRegTable =
      if (s.rfTSBK.sysId = s.siteData.sysId ∧ acl.validateSrcId srcId = true) ∧
          srcId ∉ s.unitRegTable then
        s.unitRegTable ++ [srcId]
      else s.unitRegTable := by
  unfold writeRF_TSDU_U_Reg_Rsp
  simp only []
  by_cases h1 : s.rfTSBK.sysId = s.siteData.sysId <;>
    cases h2 : acl.validateSrcId srcId <;>
    by_cases h3 : srcId ∈ s.unitRegTable <;>
    simp [h1, h2, h3, hasSrcIdUnitReg]

theorem grpAffTable_writeRF_TSDU_U_Reg_Rsp (acl : AccessControl) (s : TrunkPacket)
    (srcId : Nat) :
    (writeRF_TSDU_U_Reg_Rsp acl s srcId).grpAffTable = s.grpAffTable := by
  unfold writeRF_TSDU_U_Reg_Rsp
  simp only []
  split_ifs <;> simp

theorem pool_writeRF_TSDU_U_Reg_Rsp (acl : AccessControl) (s : TrunkPacket) (srcId : Nat) :
    (writeRF_TSDU_U_Reg_Rsp acl s srcId).pool = s.pool := by
  unfold writeRF_TSDU_U_Reg_Rsp
  simp only []
  split_ifs <;> simp

theorem p25_writeRF_TSDU_U_Reg_Rsp (acl : AccessControl) (s : TrunkPacket) (srcId : Nat) :
    (writeRF_TSDU_U_Reg_Rsp acl s srcId).p25 = s.p25 := by
  unfold writeRF_TSDU_U_Reg_Rsp
  simp only []
  split_ifs <;> simp

/-- The end of `writeRF_TSDU_U_Reg_Rsp`: the response goes to the frame
shaper, followed by an inhibit when the ACL rejects the source and illegal
sources are inhibited. -/
theorem emitted_U_Reg_Rsp_tail (acl : AccessControl) (x : TrunkPacket) (srcId : Nat) :
    ∃ extra : List TSBK,
      (if acl.validateSrcId srcId = false then
          denialInhibit acl (x.writeRF_TSDU_SBF true false) srcId
        else x.writeRF_TSDU_SBF true false).emitted =
        x.emitted ++ { x.rfTSBK with lastBlock := true } :: extra ∧
      (acl.validateSrcId srcId = true → extra = []) ∧
      (x.p25.inhibitIllegal = false → extra = []) ∧
      (∀ e ∈ extra, e.lco = LCO.TSBK_IOSP_EXT_FNCT ∧
        e.extendedFunction = ExtFunc.P25_EXT_FNCT_INHIBIT ∧
        e.srcId = P25_WUID_SYS ∧ e.dstId = srcId) ∧
      extra.length ≤ 1 := by
  cases h2 : acl.validateSrcId srcId
  · rw [if_pos rfl, emitted_denialInhibit, emitted_writeRF_TSDU_SBF, List.append_assoc,
      List.singleton_append]
    refine ⟨_, rfl, ?_, ?_, ?_, ?_⟩
    · intro h; cases h
    · intro h; simp [h]
    · intro e he
      split_ifs at he
      · simp only [List.mem_singleton] at he
        subst he
        exact ⟨rfl, rfl, rfl, rfl⟩
      · cases he
    · split_ifs <;> simp
  · rw [if_neg (by simp), emitted_writeRF_TSDU_SBF]
    exact ⟨[], rfl, fun _ => rfl, fun _ => rfl, by simp, by simp⟩

/-- What `writeRF_TSDU_U_Reg_Rsp` hands to the frame shaper: the registration
response with source and destination both set to the source, accepted exactly
when the system ID matches and the ACL accepts the source; an inhibit may
follow a source that the ACL rejects. -/
theorem emitted_writeRF_TSDU_U_Reg_Rsp (acl : AccessControl) (s : TrunkPacket) (srcId : Nat) :
    ∃ (t : TSBK) (extra : List TSBK),
      (writeRF_TSDU_U_Reg_Rsp acl s srcId).emitted = s.emitted ++ t :: extra ∧
      t.lco = LCO.TSBK_IOSP_U_REG ∧ t.lastBlock = true ∧
      t.srcId = srcId ∧ t.dstId = srcId ∧
      t.response = (if s.rfTSBK.sysId = s.siteData.sysId ∧ acl.validateSrcId srcId = true then
        Response.P25_RSP_ACCEPT else Response.P25_RSP_DENY) ∧
      (acl.validateSrcId srcId = true → extra = []) ∧
      (s.p25.inhibitIllegal = false → extra = []) ∧
      (∀ e ∈ extra, e.lco = LCO.TSBK_IOSP_EXT_FNCT ∧
        e.extendedFunction = ExtFunc.P25_EXT_FNCT_INHIBIT ∧
        e.srcId = P25_WUID_SYS ∧ e.dstId = srcId) ∧
      extra.length ≤ 1 := by
  unfold writeRF_TSDU_U_Reg_Rsp
  simp only []
  generalize hx : TrunkPacket.setRfTSBK _ { srcId := srcId, dstId := srcId, .. } = x
  obtain ⟨extra, he, h1, h2, h3, h4⟩ := emitted_U_Reg_Rsp_tail acl x srcId
  have hem : x.emitted = s.emitted := by
    subst hx; simp only [emitted_setRfTSBK]; split_ifs <;> rfl
  have hp : x.p25 = s.p25 := by
    subst hx; simp only [p25_setRfTSBK]; split_ifs <;> rfl
  refine ⟨_, extra, hem ▸ he, ?_, rfl, ?_, ?_, ?_, h1, hp ▸ h2, h3, h4⟩
  · subst hx; simp only [rfTSBK_setRfTSBK]; split_ifs <;> rfl
  · subst hx; rfl
  · subst hx; rfl
  · subst hx
    simp only [rfTSBK_setRfTSBK]
    by_cases c1 : s.rfTSBK.sysId = s.siteData.sysId <;>
      cases c2 : acl.validateSrcId srcId <;>
      by_cases c3 : srcId ∈ s.unitRegTable <;>
      simp [c1, c2, c3, hasSrcIdUnitReg]

end TrunkPacket
end p25

namespace p25
namespace TrunkPacket

end TrunkPacket
end p25

namespace p25
theorem tblErase_nil {β : Type} (k : Nat) : tblErase ([] : List (Nat × β)) k = [] := rfl

theorem tblErase_cons {β : Type} (a : Nat) (b : β) (m : List (Nat × β)) (k : Nat) :
    tblErase ((a, b) :: m) k = if a = k then tblErase m k else (a, b) :: tblErase m k := by
  unfold tblErase
  by_cases h : a = k <;> simp [List.filter_cons, h]

theorem tblErase_of_tblAt_none {β : Type} (m : List (Nat × β)) (k : Nat)
    (h : tblAt m k = none) : tblErase m k = m := by
  induction m with
  | nil => rfl
  | cons e m ih =>
    obtain ⟨a, b⟩ := e
    by_cases hk : a = k
    · simp [tblAt, hk] at h
    · simp only [tblAt, hk, if_false] at h
      rw [tblErase_cons, if_neg hk, ih h]

theorem tblAt_tblErase_self {β : Type} (m : List (Nat × β)) (k : Nat) :
    tblAt (tblErase m k) k = none := by
  induction m with
  | nil => rfl
  | cons e m ih =>
    obtain ⟨a, b⟩ := e
    by_cases hk : a = k
    · rw [tblErase_cons, if_pos hk, ih]
    · rw [tblErase_cons, if_neg hk]
      simp [tblAt, hk, ih]

theorem tblAt_tblErase_ne {β : Type} (m : List (Nat × β)) (k k' : Nat) (hne : k' ≠ k) :
    tblAt (tblErase m k) k' = tblAt m k' := by
  induction m with
  | nil => rfl
  | cons e m ih =>
    obtain ⟨a, b⟩ := e
    by_cases hk : a = k
    · have hk' : a ≠ k' := fun h => hne (h ▸ hk)
      rw [tblErase_cons, if_pos hk, ih]
      simp [tblAt, hk']
    · rw [tblErase_cons, if_neg hk]
      by_cases hk' : a = k'
      · simp [tblAt, hk']
      · simp [tblAt, hk', ih]

namespace TrunkPacket

theorem unitRegTable_writeRF_TSDU_U_Dereg_Ack (s : TrunkPacket) (srcId : Nat) :
    (s.writeRF_TSDU_U_Dereg_Ack srcId).unitRegTable = s.unitRegTable.erase srcId := by
  unfold writeRF_TSDU_U_Dereg_Ack
  simp only []
  by_cases h : srcId ∈ s.unitRegTable
  · cases h2 : tblAt s.grpAffTable srcId <;> simp [h, h2]
  · cases h2 : tblAt s.grpAffTable srcId <;> simp [h, h2, List.erase_of_not_mem h]

theorem grpAffTable_writeRF_TSDU_U_Dereg_Ack (s : TrunkPacket) (srcId : Nat) :
    (s.writeRF_TSDU_U_Dereg_Ack srcId).grpAffTable = tblErase s.grpAffTable srcId := by
  unfold writeRF_TSDU_U_Dereg_Ack
  simp only []
  by_cases h : srcId ∈ s.unitRegTable
  · cases h2 : tblAt s.grpAffTable srcId
    · simp [h, h2, tblErase_of_tblAt_none _ _ h2]
    · simp [h, h2]
  · cases h2 : tblAt s.grpAffTable srcId
    · simp [h, h2, tblErase_of_tblAt_none _ _ h2]
    · simp [h, h2]

theorem emitted_writeRF_TSDU_U_Dereg_Ack (s : TrunkPacket) (srcId : Nat) :
    (s.writeRF_TSDU_U_Dereg_Ack srcId).emitted = s.emitted ++ [{ s.rfTSBK with
      lco := LCO.TSBK_OSP_U_DEREG_ACK, srcId := P25_WUID_SYS, dstId := srcId,
      lastBlock := true }] := by
  unfold writeRF_TSDU_U_Dereg_Ack
  simp only []
  by_cases h : srcId ∈ s.unitRegTable <;> cases h2 : tblAt s.grpAffTable srcId <;>
    simp [h, h2, emitted_writeRF_TSDU_SBF]

@[simp] theorem pool_writeRF_TSDU_U_Dereg_Ack (s : TrunkPacket) (srcId : Nat) :
    (s.writeRF_TSDU_U_Dereg_Ack srcId).pool = s.pool := by
  unfold writeRF_TSDU_U_Dereg_Ack
  simp only []
  by_cases h : srcId ∈ s.unitRegTable <;> cases h2 : tblAt s.grpAffTable srcId <;>
    simp [h, h2]

@[simp] theorem p25_writeRF_TSDU_U_Dereg_Ack (s : TrunkPacket) (srcId : Nat) :
    (s.writeRF_TSDU_U_Dereg_Ack srcId).p25 = s.p25 := by
  unfold writeRF_TSDU_U_Dereg_Ack
  simp only []
  by_cases h : srcId ∈ s.unitRegTable <;> cases h2 : tblAt s.grpAffTable srcId <;>
    simp [h, h2]

theorem rfTSBK_writeRF_TSDU_U_Dereg_Ack (s : TrunkPacket) (srcId : Nat) :
    ∃ b, (s.writeRF_TSDU_U_Dereg_Ack srcId).rfTSBK = { s.rfTSBK with
      lco := LCO.TSBK_OSP_U_DEREG_ACK, srcId := P25_WUID_SYS, dstId := srcId,
      lastBlock := b } := by
  unfold writeRF_TSDU_U_Dereg_Ack
  simp only []
  generalize hx : TrunkPacket.setRfTSBK _ { srcId := P25_WUID_SYS, dstId := srcId, .. } = x
  obtain ⟨b, hb⟩ := rfTSBK_writeRF_TSDU_SBF x false false
  refine ⟨b, ?_⟩
  rw [hb]
  subst hx
  by_cases h : srcId ∈ s.unitRegTable <;> cases h2 : tblAt s.grpAffTable srcId <;>
    simp [h, h2]

end TrunkPacket
end p25

namespace p25
namespace TrunkPacket

/-! ### Status command and the entry and exit of the switch -/

@[simp] theorem pool_resetStatusCommand (s : TrunkPacket) : s.resetStatusCommand.pool = s.pool := by
  unfold resetStatusCommand; split_ifs <;> rfl
@[simp] theorem p25_resetStatusCommand (s : TrunkPacket) : s.resetStatusCommand.p25 = s.p25 := by
  unfold resetStatusCommand; split_ifs <;> rfl
@[simp] theorem rfTSBK_resetStatusCommand (s : TrunkPacket) :
    s.resetStatusCommand.rfTSBK = s.rfTSBK := by
  unfold resetStatusCommand; split_ifs <;> rfl
@[simp] theorem emitted_resetStatusCommand (s : TrunkPacket) :
    s.resetStatusCommand.emitted = s.emitted := by
  unfold resetStatusCommand; split_ifs <;> rfl
@[simp] theorem events_resetStatusCommand (s : TrunkPacket) :
    s.resetStatusCommand.events = s.events := by
  unfold resetStatusCommand; split_ifs <;> rfl
@[simp] theorem unitRegTable_resetStatusCommand (s : TrunkPacket) :
    s.resetStatusCommand.unitRegTable = s.unitRegTable := by
  unfold resetStatusCommand; split_ifs <;> rfl
@[simp] theorem grpAffTable_resetStatusCommand (s : TrunkPacket) :
    s.resetStatusCommand.grpAffTable = s.grpAffTable := by
  unfold resetStatusCommand; split_ifs <;> rfl
theorem reg_resetStatusCommand (s : TrunkPacket) :
    s.resetStatusCommand.reg =
      if s.statusCmdEnable = true then { s.reg with statusSrcId := 0, statusValue := 0 }
      else s.reg := by
  unfold resetStatusCommand; split_ifs <;> rfl

@[simp] theorem pool_resetStatusCommandTSBK (s : TrunkPacket) (t : TSBK) :
    (s.resetStatusCommandTSBK t).pool = s.pool := by
  unfold resetStatusCommandTSBK; split_ifs <;> simp
@[simp] theorem p25_resetStatusCommandTSBK (s : TrunkPacket) (t : TSBK) :
    (s.resetStatusCommandTSBK t).p25 = s.p25 := by
  unfold resetStatusCommandTSBK; split_ifs <;> simp
@[simp] theorem rfTSBK_resetStatusCommandTSBK (s : TrunkPacket) (t : TSBK) :
    (s.resetStatusCommandTSBK t).rfTSBK = s.rfTSBK := by
  unfold resetStatusCommandTSBK; split_ifs <;> simp
@[simp] theorem emitted_resetStatusCommandTSBK (s : TrunkPacket) (t : TSBK) :
    (s.resetStatusCommandTSBK t).emitted = s.emitted := by
  unfold resetStatusCommandTSBK; split_ifs <;> simp
@[simp] theorem unitRegTable_resetStatusCommandTSBK (s : TrunkPacket) (t : TSBK) :
    (s.resetStatusCommandTSBK t).unitRegTable = s.unitRegTable := by
  unfold resetStatusCommandTSBK; split_ifs <;> simp
@[simp] theorem grpAffTable_resetStatusCommandTSBK (s : TrunkPacket) (t : TSBK) :
    (s.resetStatusCommandTSBK t).grpAffTable = s.grpAffTable := by
  unfold resetStatusCommandTSBK; split_ifs <;> simp

@[simp] theorem unitRegTable_emit (s : TrunkPacket) (e : Event) :
    (s.emit e).unitRegTable = s.unitRegTable := rfl
@[simp] theorem grpAffTable_emit (s : TrunkPacket) (e : Event) :
    (s.emit e).grpAffTable = s.grpAffTable := rfl
@[simp] theorem unitRegTable_setRfState (s : TrunkPacket) (st : RPT_RF_STATE) :
    (s.setRfState st).unitRegTable = s.unitRegTable := rfl
@[simp] theorem grpAffTable_setRfState (s : TrunkPacket) (st : RPT_RF_STATE) :
    (s.setRfState st).grpAffTable = s.grpAffTable := rfl

@[simp] theorem pool_setNetTSBK (s : TrunkPacket) (t : TSBK) : (s.setNetTSBK t).pool = s.pool := rfl
@[simp] theorem p25_setNetTSBK (s : TrunkPacket) (t : TSBK) : (s.setNetTSBK t).p25 = s.p25 := rfl
@[simp] theorem rfTSBK_setNetTSBK (s : TrunkPacket) (t : TSBK) :
    (s.setNetTSBK t).rfTSBK = s.rfTSBK := rfl
@[simp] theorem emitted_setNetTSBK (s : TrunkPacket) (t : TSBK) :
    (s.setNetTSBK t).emitted = s.emitted := rfl
@[simp] theorem events_setNetTSBK (s : TrunkPacket) (t : TSBK) :
    (s.setNetTSBK t).events = s.events := rfl
@[simp] theorem reg_setNetTSBK (s : TrunkPacket) (t : TSBK) : (s.setNetTSBK t).reg = s.reg := rfl
@[simp] theorem unitRegTable_setNetTSBK (s : TrunkPacket) (t : TSBK) :
    (s.setNetTSBK t).unitRegTable = s.unitRegTable := rfl
@[simp] theorem grpAffTable_setNetTSBK (s : TrunkPacket) (t : TSBK) :
    (s.setNetTSBK t).grpAffTable = s.grpAffTable := rfl

@[simp] theorem rfTSBK_switchEntry (s : TrunkPacket) (f : RFFrame) :
    (s.switchEntry f).rfTSBK = f.tsbk := by
  unfold switchEntry; simp only []; split_ifs <;> simp
@[simp] theorem emitted_switchEntry (s : TrunkPacket) (f : RFFrame) :
    (s.switchEntry f).emitted = s.emitted := by
  unfold switchEntry; simp only []
  split_ifs <;> simp [eventTSBK]
@[simp] theorem pool_switchEntry (s : TrunkPacket) (f : RFFrame) :
    (s.switchEntry f).pool = s.pool := by
  unfold switchEntry; simp only []; split_ifs <;> simp
@[simp] theorem unitRegTable_switchEntry (s : TrunkPacket) (f : RFFrame) :
    (s.switchEntry f).unitRegTable = s.unitRegTable := by
  unfold switchEntry; simp only []; split_ifs <;> simp
@[simp] theorem grpAffTable_switchEntry (s : TrunkPacket) (f : RFFrame) :
    (s.switchEntry f).grpAffTable = s.grpAffTable := by
  unfold switchEntry; simp only []; split_ifs <;> simp
theorem p25_switchEntry (s : TrunkPacket) (f : RFFrame) :
    (s.switchEntry f).p25 = { s.p25 with rfState := RPT_RF_STATE.RS_RF_DATA } := by
  unfold switchEntry; simp only []
  split_ifs with h
  · simp
  · simp
    have h' : s.p25.rfState = RPT_RF_STATE.RS_RF_DATA := not_not.mp h
    rw [← h']
@[simp] theorem control_switchEntry (s : TrunkPacket) (f : RFFrame) :
    (s.switchEntry f).p25.control = s.p25.control := by
  rw [p25_switchEntry]
@[simp] theorem inhibitIllegal_switchEntry (s : TrunkPacket) (f : RFFrame) :
    (s.switchEntry f).p25.inhibitIllegal = s.p25.inhibitIllegal := by
  rw [p25_switchEntry]

@[simp] theorem pool_switchExit (s : TrunkPacket) (st : RPT_RF_STATE) :
    (s.switchExit st).pool = s.pool := by
  unfold switchExit; simp only []; split_ifs <;> simp
@[simp] theorem rfTSBK_switchExit (s : TrunkPacket) (st : RPT_RF_STATE) :
    (s.switchExit st).rfTSBK = s.rfTSBK := by
  unfold switchExit; simp only []; split_ifs <;> simp
@[simp] theorem emitted_switchExit (s : TrunkPacket) (st : RPT_RF_STATE) :
    (s.switchExit st).emitted = s.emitted := by
  unfold switchExit; simp only []; split_ifs <;> simp [eventTSBK]
@[simp] theorem reg_switchExit (s : TrunkPacket) (st : RPT_RF_STATE) :
    (s.switchExit st).reg = s.reg := by
  unfold switchExit; simp only []; split_ifs <;> simp
@[simp] theorem unitRegTable_switchExit (s : TrunkPacket) (st : RPT_RF_STATE) :
    (s.switchExit st).unitRegTable = s.unitRegTable :=
  unitRegTable_of_reg (reg_switchExit s st)
@[simp] theorem grpAffTable_switchExit (s : TrunkPacket) (st : RPT_RF_STATE) :
    (s.switchExit st).grpAffTable = s.grpAffTable :=
  grpAffTable_of_reg (reg_switchExit s st)
@[simp] theorem rfState_switchExit (s : TrunkPacket) (st : RPT_RF_STATE) :
    (s.switchExit st).p25.rfState = st := by
  unfold switchExit; simp only []; split_ifs <;> simp

end TrunkPacket
end p25

namespace p25
namespace TrunkPacket

/-! ### Pre-conditions that pass -/

theorem IS_SUPPORT_CONTROL_CHECK_pass (s : TrunkPacket) (l : LCO) (h : s.p25.control = true) :
    s.IS_SUPPORT_CONTROL_CHECK l = none := by
  unfold IS_SUPPORT_CONTROL_CHECK; simp [h]

theorem VALID_SRCID_pass (acl : AccessControl) (s : TrunkPacket) (l : LCO) (a : Nat)
    (h : acl.validateSrcId a = true) : VALID_SRCID acl s l a = none := by
  unfold VALID_SRCID; simp [h]

theorem VALID_DSTID_pass (acl : AccessControl) (s : TrunkPacket) (l : LCO) (a : Nat)
    (h : acl.validateSrcId a = true) : VALID_DSTID acl s l a = none := by
  unfold VALID_DSTID; simp [h]

theorem VALID_TGID_pass (acl : AccessControl) (s : TrunkPacket) (l : LCO) (a : Nat)
    (h : acl.validateTGId a = true) : VALID_TGID acl s l a = none := by
  unfold VALID_TGID; simp [h]

/-- An accepted deregistration request: the acknowledgement, then the
deregistration. -/
theorem process_U_DEREG_REQ_pass (acl : AccessControl) (s : TrunkPacket) (srcId : Nat)
    (hc : s.p25.control = true) (hv : acl.validateSrcId srcId = true) :
    process_U_DEREG_REQ acl s srcId =
      (none, (s.writeRF_TSDU_ACK_FNE srcId LCO.TSBK_ISP_U_DEREG_REQ true).writeRF_TSDU_U_Dereg_Ack
        srcId) := by
  unfold process_U_DEREG_REQ
  rw [IS_SUPPORT_CONTROL_CHECK_pass s _ hc]
  simp only []
  rw [VALID_SRCID_pass acl s _ srcId hv]

end TrunkPacket
end p25

namespace p25
namespace TrunkPacket

end TrunkPacket
end p25

namespace p25
theorem foldl_tblErase {β : Type} (L : List Nat) (m : List (Nat × β)) :
    L.foldl tblErase m = m.filter (fun e => decide (e.1 ∉ L)) := by
  induction L generalizing m with
  | nil => simp
  | cons k L ih =>
    rw [List.foldl_cons, ih]
    unfold tblErase
    rw [List.filter_filter]
    apply List.filter_congr
    intro e _
    by_cases h1 : e.1 = k <;> by_cases h2 : e.1 ∈ L <;> simp [h1, h2]

theorem tblAt_eq_some_mem {β : Type} (m : List (Nat × β)) (k : Nat) (v : β)
    (h : tblAt m k = some v) : (k, v) ∈ m := by
  induction m with
  | nil => simp [tblAt] at h
  | cons e m ih =>
    obtain ⟨a, b⟩ := e
    by_cases hk : a = k
    · simp [tblAt, hk] at h
      simp [hk, h]
    · simp only [tblAt, hk, if_false] at h
      exact List.mem_cons_of_mem _ (ih h)

theorem tblAt_of_mem_nodup {β : Type} (m : List (Nat × β)) (k : Nat) (v : β)
    (hnd : (tblKeys m).Nodup) (h : (k, v) ∈ m) : tblAt m k = some v := by
  induction m with
  | nil => cases h
  | cons e m ih =>
    obtain ⟨a, b⟩ := e
    have hnd' : a ∉ tblKeys m ∧ (tblKeys m).Nodup := by
      simpa [tblKeys] using hnd
    rcases List.mem_cons.mp h with h | h
    · cases h; simp [tblAt]
    · have hk : a ≠ k := by
        intro hak
        apply hnd'.1
        rw [hak]
        exact List.mem_map_of_mem Prod.fst h
      simp only [tblAt, hk, if_false]
      exact ih hnd'.2 h

theorem nodup_keys_filter {β : Type} (m : List (Nat × β)) (p : Nat × β → Bool)
    (hnd : (tblKeys m).Nodup) : (tblKeys (m.filter p)).Nodup := by
  unfold tblKeys at hnd ⊢
  exact (List.Nodup.sublist ((List.filter_sublist m).map Prod.fst) hnd)

/-- Lookup in a map with unique keys after filtering its entries. -/
theorem tblAt_filter {β : Type} (m : List (Nat × β)) (p : Nat × β → Bool)
    (hnd : (tblKeys m).Nodup) (k : Nat) :
    tblAt (m.filter p) k =
      match tblAt m k with
      | some v => if p (k, v) = true then some v else none
      | none => none := by
  cases h : tblAt m k with
  | none =>
    simp only []
    cases h' : tblAt (m.filter p) k with
    | none => rfl
    | some v =>
      have hm := tblAt_eq_some_mem _ _ _ h'
      have hm' : (k, v) ∈ m := (List.mem_filter.mp hm).1
      rw [tblAt_of_mem_nodup m k v hnd hm'] at h
      cases h
  | some v =>
    simp only []
    have hm := tblAt_eq_some_mem _ _ _ h
    by_cases hp : p (k, v) = true
    · rw [if_pos hp]
      exact tblAt_of_mem_nodup _ k v (nodup_keys_filter m p hnd)
        (List.mem_filter.mpr ⟨hm, hp⟩)
    · rw [if_neg hp]
      cases h' : tblAt (m.filter p) k with
      | none => rfl
      | some w =>
        have hw := tblAt_eq_some_mem _ _ _ h'
        have hw' := List.mem_filter.mp hw
        have : tblAt m k = some w := tblAt_of_mem_nodup m k w hnd hw'.1
        rw [h] at this
        cases this
        exact absurd hw'.2 hp

/-- In a map with unique keys, dropping the keys of the entries with value
`d` drops exactly the entries with value `d`. -/
theorem filter_keys_of_value (m : List (Nat × Nat)) (d : Nat) (hnd : (tblKeys m).Nodup) :
    m.filter (fun e => decide (e.1 ∉ tblKeys (m.filter (fun it => decide (it.2 = d))))) =
      m.filter (fun e => decide (e.2 ≠ d)) := by
  apply List.filter_congr
  intro e he
  have hinj := List.inj_on_of_nodup_map hnd
  by_cases h : e.2 = d
  · have : e.1 ∈ tblKeys (m.filter (fun it => decide (it.2 = d))) :=
      List.mem_map_of_mem Prod.fst (List.mem_filter.mpr ⟨he, by simp [h]⟩)
    simp [h, this]
  · have : e.1 ∉ tblKeys (m.filter (fun it => decide (it.2 = d))) := by
      intro hmem
      obtain ⟨e', he', hk⟩ := List.mem_map.mp hmem
      have he'' := List.mem_filter.mp he'
      have : e' = e := hinj he''.1 he hk
      subst this
      exact h (by simpa using he''.2)
    simp [h, this]
end p25

namespace p25
namespace TrunkPacket

/-! ### Releasing a list of subscribers -/

theorem grpAffTable_foldl_U_Dereg_Ack (L : List Nat) (s : TrunkPacket) :
    (L.foldl writeRF_TSDU_U_Dereg_Ack s).grpAffTable = L.foldl tblErase s.grpAffTable := by
  induction L generalizing s with
  | nil => rfl
  | cons k L ih => rw [List.foldl_cons, ih, grpAffTable_writeRF_TSDU_U_Dereg_Ack, List.foldl_cons]

theorem unitRegTable_foldl_U_Dereg_Ack (L : List Nat) (s : TrunkPacket) :
    (L.foldl writeRF_TSDU_U_Dereg_Ack s).unitRegTable = L.foldl List.erase s.unitRegTable := by
  induction L generalizing s with
  | nil => rfl
  | cons k L ih => rw [List.foldl_cons, ih, unitRegTable_writeRF_TSDU_U_Dereg_Ack, List.foldl_cons]

theorem pool_foldl_U_Dereg_Ack (L : List Nat) (s : TrunkPacket) :
    (L.foldl writeRF_TSDU_U_Dereg_Ack s).pool = s.pool := by
  induction L generalizing s with
  | nil => rfl
  | cons k L ih => rw [List.foldl_cons, ih, pool_writeRF_TSDU_U_Dereg_Ack]

/-- One U_DEREG_ACK from WUID_SYS per released subscriber, in order. -/
theorem emitted_foldl_U_Dereg_Ack (L : List Nat) (s : TrunkPacket) :
    ∃ ts : List TSBK, (L.foldl writeRF_TSDU_U_Dereg_Ack s).emitted = s.emitted ++ ts ∧
      ts.map (fun t => (t.lco, t.srcId, t.dstId)) =
        L.map (fun k => (LCO.TSBK_OSP_U_DEREG_ACK, P25_WUID_SYS, k)) := by
  induction L generalizing s with
  | nil => exact ⟨[], by simp, rfl⟩
  | cons k L ih =>
    obtain ⟨ts, h1, h2⟩ := ih (s.writeRF_TSDU_U_Dereg_Ack k)
    rw [emitted_writeRF_TSDU_U_Dereg_Ack, List.append_assoc] at h1
    exact ⟨_, h1, by simp [h2]⟩

theorem clearGrpAff_zero_false (s : TrunkPacket) : s.clearGrpAff 0 false = s := by
  unfold clearGrpAff; simp

theorem clearGrpAff_zero_true (s : TrunkPacket) :
    s.clearGrpAff 0 true = (tblKeys s.grpAffTable).foldl writeRF_TSDU_U_Dereg_Ack s := by
  unfold clearGrpAff; simp

theorem clearGrpAff_nonzero (s : TrunkPacket) (dstId : Nat) (releaseAll : Bool)
    (h : dstId ≠ 0) :
    s.clearGrpAff dstId releaseAll =
      (tblKeys (s.grpAffTable.filter (fun it => decide (it.2 = dstId)))).foldl
        writeRF_TSDU_U_Dereg_Ack s := by
  unfold clearGrpAff; simp [h]

end TrunkPacket
end p25

namespace p25
namespace TrunkPacket

end TrunkPacket
end p25

namespace p25
namespace TrunkPacket

/-! ### The registry view under the grant writer and the pre-conditions -/

@[simp] theorem reg_setSiteChCnt (s : TrunkPacket) (n : Nat) : (s.setSiteChCnt n).reg = s.reg := rfl

@[simp] theorem reg_transmitGrant (s : TrunkPacket) (grp : Bool) (l : LCO) :
    (s.transmitGrant grp l).2.reg = s.reg := by
  unfold transmitGrant; split_ifs <;> simp

@[simp] theorem reg_writeRF_TSDU_Grant (s : TrunkPacket) (grp skip : Bool) :
    (s.writeRF_TSDU_Grant grp skip).2.reg = s.reg := by
  unfold writeRF_TSDU_Grant
  simp only []
  split_ifs
  all_goals first
    | rfl
    | (simp; done)
    | (simp; rfl)
    | (split <;> first | rfl | (simp; done) | (simp; rfl))

theorem reg_IS_SUPPORT_CONTROL_CHECK (s s1 : TrunkPacket) (l : LCO)
    (h : s.IS_SUPPORT_CONTROL_CHECK l = some s1) : s1.reg = s.reg := by
  unfold IS_SUPPORT_CONTROL_CHECK at h
  split_ifs at h
  cases h
  simp

theorem reg_VALID_SRCID (acl : AccessControl) (s s1 : TrunkPacket) (l : LCO) (a : Nat)
    (h : VALID_SRCID acl s l a = some s1) : s1.reg = s.reg := by
  unfold VALID_SRCID at h
  split_ifs at h
  cases h
  simp

theorem reg_VALID_DSTID (acl : AccessControl) (s s1 : TrunkPacket) (l : LCO) (a : Nat)
    (h : VALID_DSTID acl s l a = some s1) : s1.reg = s.reg := by
  unfold VALID_DSTID at h
  split_ifs at h
  cases h
  simp

theorem reg_VALID_TGID (acl : AccessControl) (s s1 : TrunkPacket) (l : LCO) (a : Nat)
    (h : VALID_TGID acl s l a = some s1) : s1.reg = s.reg := by
  unfold VALID_TGID at h
  split_ifs at h
  cases h
  simp

theorem reg_VERIFY_SRCID_REG (s s1 : TrunkPacket) (l : LCO) (a : Nat)
    (h : s.VERIFY_SRCID_REG l a = some s1) : s1.reg = s.reg := by
  unfold VERIFY_SRCID_REG at h
  split_ifs at h
  cases h
  simp

theorem reg_VERIFY_SRCID_AFF (s s1 : TrunkPacket) (l : LCO) (a d : Nat)
    (h : s.VERIFY_SRCID_AFF l a d = some s1) : s1.reg = s.reg := by
  unfold VERIFY_SRCID_AFF at h
  split_ifs at h
  cases h
  simp

@[simp] theorem reg_RF_TO_WRITE_NET (s : TrunkPacket) : s.RF_TO_WRITE_NET.reg = s.reg := by
  unfold RF_TO_WRITE_NET; split_ifs <;> simp

end TrunkPacket
end p25

namespace p25
namespace TrunkPacket

/-! ### The registry view under the cases of the switch -/

theorem reg_process_GRP_VCH (acl : AccessControl) (s : TrunkPacket) (a d : Nat) :
    (process_GRP_VCH acl s a d).2.reg = s.reg := by
  simp only [process_GRP_VCH, IS_SUPPORT_CONTROL_CHECK, VALID_SRCID, VALID_TGID,
    VERIFY_SRCID_AFF]
  split_ifs <;> simp

theorem reg_process_UU_VCH (acl : AccessControl) (s : TrunkPacket) (a d : Nat) :
    (process_UU_VCH acl s a d).2.reg = s.reg := by
  simp only [process_UU_VCH, IS_SUPPORT_CONTROL_CHECK, VALID_SRCID, VALID_DSTID,
    VERIFY_SRCID_REG]
  split_ifs <;> simp

theorem reg_process_UU_ANS (acl : AccessControl) (s : TrunkPacket) (a d : Nat) :
    (process_UU_ANS acl s a d).2.reg = s.reg := by
  simp only [process_UU_ANS, IS_SUPPORT_CONTROL_CHECK, VALID_SRCID, VALID_DSTID]
  split_ifs <;> simp

theorem reg_process_TELE_INT_ANS (acl : AccessControl) (s : TrunkPacket) (a : Nat) :
    (process_TELE_INT_ANS acl s a).2.reg = s.reg := by
  simp only [process_TELE_INT_ANS, IS_SUPPORT_CONTROL_CHECK, VALID_SRCID]
  split_ifs <;> simp

theorem reg_process_MSG_UPDT (acl : AccessControl) (s : TrunkPacket) (a : Nat) :
    (process_MSG_UPDT acl s a).2.reg = s.reg := by
  simp only [process_MSG_UPDT, VALID_SRCID]
  split_ifs <;> simp

theorem reg_process_ACK_RSP (acl : AccessControl) (s : TrunkPacket) (a d : Nat) :
    (process_ACK_RSP acl s a d).2.reg = s.reg := by
  simp only [process_ACK_RSP, VALID_SRCID, VALID_DSTID]
  split_ifs <;> simp

theorem reg_process_GRP_AFF_Q_RSP (s : TrunkPacket) : s.process_GRP_AFF_Q_RSP.2.reg = s.reg := by
  simp only [process_GRP_AFF_Q_RSP, IS_SUPPORT_CONTROL_CHECK]
  split_ifs <;> simp

theorem reg_process_LOC_REG_REQ (s : TrunkPacket) (a : Nat) :
    (s.process_LOC_REG_REQ a).2.reg = s.reg := by
  simp only [process_LOC_REG_REQ, IS_SUPPORT_CONTROL_CHECK]
  split_ifs <;> simp

end TrunkPacket
end p25

namespace p25
namespace TrunkPacket

/-! ### The two registries under functions that keep the registry view -/

@[simp] theorem unitRegTable_writeRF_TSDU_Deny (s : TrunkPacket) (r : Response) (v : LCO) :
    (s.writeRF_TSDU_Deny r v).unitRegTable = s.unitRegTable :=
  unitRegTable_of_reg (reg_writeRF_TSDU_Deny s r v)
@[simp] theorem grpAffTable_writeRF_TSDU_Deny (s : TrunkPacket) (r : Response) (v : LCO) :
    (s.writeRF_TSDU_Deny r v).grpAffTable = s.grpAffTable :=
  grpAffTable_of_reg (reg_writeRF_TSDU_Deny s r v)
@[simp] theorem unitRegTable_writeRF_TSDU_Queue (s : TrunkPacket) (r : Response) (v : LCO) :
    (s.writeRF_TSDU_Queue r v).unitRegTable = s.unitRegTable :=
  unitRegTable_of_reg (reg_writeRF_TSDU_Queue s r v)
@[simp] theorem grpAffTable_writeRF_TSDU_Queue (s : TrunkPacket) (r : Response) (v : LCO) :
    (s.writeRF_TSDU_Queue r v).grpAffTable = s.grpAffTable :=
  grpAffTable_of_reg (reg_writeRF_TSDU_Queue s r v)
@[simp] theorem unitRegTable_checkAndReject (s : TrunkPacket) :
    s.checkAndReject.unitRegTable = s.unitRegTable :=
  unitRegTable_of_reg (reg_checkAndReject s)
@[simp] theorem grpAffTable_checkAndReject (s : TrunkPacket) :
    s.checkAndReject.grpAffTable = s.grpAffTable :=
  grpAffTable_of_reg (reg_checkAndReject s)
@[simp] theorem unitRegTable_writeRF_TSDU_Call_Alrt (s : TrunkPacket) (a d : Nat) :
    (s.writeRF_TSDU_Call_Alrt a d).unitRegTable = s.unitRegTable :=
  unitRegTable_of_reg (reg_writeRF_TSDU_Call_Alrt s a d)
@[simp] theorem grpAffTable_writeRF_TSDU_Call_Alrt (s : TrunkPacket) (a d : Nat) :
    (s.writeRF_TSDU_Call_Alrt a d).grpAffTable = s.grpAffTable :=
  grpAffTable_of_reg (reg_writeRF_TSDU_Call_Alrt s a d)
@[simp] theorem unitRegTable_writeRF_TSDU_U_Reg_Cmd (s : TrunkPacket) (d : Nat) :
    (s.writeRF_TSDU_U_Reg_Cmd d).unitRegTable = s.unitRegTable :=
  unitRegTable_of_reg (reg_writeRF_TSDU_U_Reg_Cmd s d)
@[simp] theorem grpAffTable_writeRF_TSDU_U_Reg_Cmd (s : TrunkPacket) (d : Nat) :
    (s.writeRF_TSDU_U_Reg_Cmd d).grpAffTable = s.grpAffTable :=
  grpAffTable_of_reg (reg_writeRF_TSDU_U_Reg_Cmd s d)
@[simp] theorem unitRegTable_writeRF_TSDU_UU_Ans_Req (s : TrunkPacket) (a d : Nat) :
    (s.writeRF_TSDU_UU_Ans_Req a d).unitRegTable = s.unitRegTable :=
  unitRegTable_of_reg (reg_writeRF_TSDU_UU_Ans_Req s a d)
@[simp] theorem grpAffTable_writeRF_TSDU_UU_Ans_Req (s : TrunkPacket) (a d : Nat) :
    (s.writeRF_TSDU_UU_Ans_Req a d).grpAffTable = s.grpAffTable :=
  grpAffTable_of_reg (reg_writeRF_TSDU_UU_Ans_Req s a d)
@[simp] theorem unitRegTable_RF_TO_WRITE_NET (s : TrunkPacket) :
    s.RF_TO_WRITE_NET.unitRegTable = s.unitRegTable :=
  unitRegTable_of_reg (reg_RF_TO_WRITE_NET s)
@[simp] theorem grpAffTable_RF_TO_WRITE_NET (s : TrunkPacket) :
    s.RF_TO_WRITE_NET.grpAffTable = s.grpAffTable :=
  grpAffTable_of_reg (reg_RF_TO_WRITE_NET s)
@[simp] theorem unitRegTable_writeRF_TSDU_Grant (s : TrunkPacket) (grp skip : Bool) :
    (s.writeRF_TSDU_Grant grp skip).2.unitRegTable = s.unitRegTable :=
  unitRegTable_of_reg (reg_writeRF_TSDU_Grant s grp skip)
@[simp] theorem grpAffTable_writeRF_TSDU_Grant (s : TrunkPacket) (grp skip : Bool) :
    (s.writeRF_TSDU_Grant grp skip).2.grpAffTable = s.grpAffTable :=
  grpAffTable_of_reg (reg_writeRF_TSDU_Grant s grp skip)
@[simp] theorem unitRegTable_writeRF_TSDU_ACK_FNE (s : TrunkPacket) (a : Nat) (v : LCO)
    (n : Bool) : (s.writeRF_TSDU_ACK_FNE a v n).unitRegTable = s.unitRegTable :=
  unitRegTable_of_reg (reg_writeRF_TSDU_ACK_FNE s a v n)
@[simp] theorem grpAffTable_writeRF_TSDU_ACK_FNE (s : TrunkPacket) (a : Nat) (v : LCO)
    (n : Bool) : (s.writeRF_TSDU_ACK_FNE a v n).grpAffTable = s.grpAffTable :=
  grpAffTable_of_reg (reg_writeRF_TSDU_ACK_FNE s a v n)
@[simp] theorem unitRegTable_writeRF_TSDU_Ext_Func (s : TrunkPacket) (f : ExtFunc) (a d : Nat) :
    (s.writeRF_TSDU_Ext_Func f a d).unitRegTable = s.unitRegTable :=
  unitRegTable_of_reg (reg_writeRF_TSDU_Ext_Func s f a d)
@[simp] theorem grpAffTable_writeRF_TSDU_Ext_Func (s : TrunkPacket) (f : ExtFunc) (a d : Nat) :
    (s.writeRF_TSDU_Ext_Func f a d).grpAffTable = s.grpAffTable :=
  grpAffTable_of_reg (reg_writeRF_TSDU_Ext_Func s f a d)
@[simp] theorem unitRegTable_setStatus (s : TrunkPacket) (a b : Nat) :
    (s.setStatus a b).unitRegTable = s.unitRegTable := rfl
@[simp] theorem grpAffTable_setStatus (s : TrunkPacket) (a b : Nat) :
    (s.setStatus a b).grpAffTable = s.grpAffTable := rfl
@[simp] theorem unitRegTable_preprocessStatusCommand (s : TrunkPacket) :
    s.preprocessStatusCommand.unitRegTable = s.unitRegTable := by
  unfold preprocessStatusCommand
  simp only []
  split_ifs <;> simp
@[simp] theorem grpAffTable_preprocessStatusCommand (s : TrunkPacket) :
    s.preprocessStatusCommand.grpAffTable = s.grpAffTable := by
  unfold preprocessStatusCommand
  simp only []
  split_ifs <;> simp

end TrunkPacket
end p25

namespace p25
namespace TrunkPacket

/-! ### The unit registration table keeps its entries distinct -/

theorem nodup_writeRF_TSDU_U_Reg_Rsp (acl : AccessControl) (s : TrunkPacket) (a : Nat)
    (h : s.unitRegTable.Nodup) : (writeRF_TSDU_U_Reg_Rsp acl s a).unitRegTable.Nodup := by
  rw [unitRegTable_writeRF_TSDU_U_Reg_Rsp]
  split_ifs with hc
  · exact List.Nodup.append h (List.nodup_singleton a) (by simpa using hc.2)
  · exact h

theorem nodup_writeRF_TSDU_U_Dereg_Ack (s : TrunkPacket) (a : Nat)
    (h : s.unitRegTable.Nodup) : (s.writeRF_TSDU_U_Dereg_Ack a).unitRegTable.Nodup := by
  rw [unitRegTable_writeRF_TSDU_U_Dereg_Ack]
  exact h.erase a

theorem nodup_foldl_U_Dereg_Ack (L : List Nat) (s : TrunkPacket)
    (h : s.unitRegTable.Nodup) : (L.foldl writeRF_TSDU_U_Dereg_Ack s).unitRegTable.Nodup := by
  induction L generalizing s with
  | nil => exact h
  | cons k L ih => exact ih _ (nodup_writeRF_TSDU_U_Dereg_Ack s k h)

theorem nodup_clearGrpAff (s : TrunkPacket) (d : Nat) (r : Bool)
    (h : s.unitRegTable.Nodup) : (s.clearGrpAff d r).unitRegTable.Nodup := by
  unfold clearGrpAff
  simp only []
  split_ifs
  · exact h
  · exact nodup_foldl_U_Dereg_Ack _ s h
  · exact nodup_foldl_U_Dereg_Ack _ s h

theorem nodup_processStatusCommand (acl : AccessControl) (s : TrunkPacket) (a d : Nat)
    (h : s.unitRegTable.Nodup) : (processStatusCommand acl s a d).2.unitRegTable.Nodup := by
  unfold processStatusCommand
  split_ifs
  all_goals simp only [unitRegTable_writeRF_TSDU_ACK_FNE, unitRegTable_writeRF_TSDU_Ext_Func,
    unitRegTable_resetStatusCommand, unitRegTable_writeRF_TSDU_Grp_Aff_Rsp,
    unitRegTable_setUnitRegTable]
  all_goals first
    | exact h
    | exact nodup_writeRF_TSDU_U_Dereg_Ack s a h
    | exact List.Nodup.append h (List.nodup_singleton a)
        (by simpa using (hasSrcIdUnitReg_eq_false_iff s a).mp (by assumption))

theorem unitRegTable_process_STS_UPDT (acl : AccessControl) (s : TrunkPacket) (a : Nat) :
    (process_STS_UPDT acl s a).2.unitRegTable = s.unitRegTable := by
  simp only [process_STS_UPDT, VALID_SRCID]
  split_ifs <;> simp

end TrunkPacket
end p25

namespace p25
namespace TrunkPacket

theorem nodup_callAlert (acl : AccessControl) (s : TrunkPacket) (a d : Nat)
    (h : s.unitRegTable.Nodup) : (callAlert acl s a d).2.unitRegTable.Nodup := by
  simp only [callAlert, VALID_DSTID]
  split_ifs <;> simpa using h

theorem nodup_process_CALL_ALRT (acl : AccessControl) (s : TrunkPacket) (a d : Nat)
    (p : RPT_RF_STATE) (h : s.unitRegTable.Nodup) :
    (process_CALL_ALRT acl s a d p).2.unitRegTable.Nodup := by
  unfold process_CALL_ALRT
  cases hv : VALID_SRCID acl s LCO.TSBK_IOSP_CALL_ALRT a with
  | some s1 =>
    simp only []
    rw [unitRegTable_of_reg (reg_VALID_SRCID _ _ _ _ _ hv)]
    exact h
  | none =>
    simp only []
    split_ifs
    · have hs := nodup_processStatusCommand acl s a d h
      rcases hp : processStatusCommand acl s a d with ⟨b, s1⟩
      rw [hp] at hs
      cases b
      · simp only []
        exact nodup_callAlert _ _ _ _ (by simpa using hs)
      · simp only []
        simpa using hs
    · exact nodup_callAlert acl s a d h

theorem unitRegTable_process_EXT_FNCT (s : TrunkPacket) :
    s.process_EXT_FNCT.2.unitRegTable = s.unitRegTable := by
  simp only [process_EXT_FNCT]
  split_ifs <;> simp

theorem unitRegTable_process_GRP_AFF (acl : AccessControl) (s : TrunkPacket) (a d : Nat) :
    (process_GRP_AFF acl s a d).2.unitRegTable = s.unitRegTable := by
  simp only [process_GRP_AFF, IS_SUPPORT_CONTROL_CHECK]
  split_ifs <;> simp [unitRegTable_writeRF_TSDU_Grp_Aff_Rsp]

theorem nodup_process_U_DEREG_REQ (acl : AccessControl) (s : TrunkPacket) (a : Nat)
    (h : s.unitRegTable.Nodup) : (process_U_DEREG_REQ acl s a).2.unitRegTable.Nodup := by
  simp only [process_U_DEREG_REQ, IS_SUPPORT_CONTROL_CHECK, VALID_SRCID]
  split_ifs
  all_goals first
    | (simpa using h)
    | (simp only []
       apply nodup_writeRF_TSDU_U_Dereg_Ack
       simpa using h)

theorem nodup_process_U_REG (acl : AccessControl) (s : TrunkPacket) (a : Nat)
    (h : s.unitRegTable.Nodup) : (process_U_REG acl s a).2.unitRegTable.Nodup := by
  simp only [process_U_REG, IS_SUPPORT_CONTROL_CHECK]
  split_ifs
  all_goals first
    | (simpa using h)
    | (simp only []
       apply nodup_writeRF_TSDU_U_Reg_Rsp
       simpa using h)

theorem nodup_processLCO (acl : AccessControl) (s : TrunkPacket) (a d : Nat)
    (p : RPT_RF_STATE) (h : s.unitRegTable.Nodup) :
    (processLCO acl s a d p).2.unitRegTable.Nodup := by
  unfold processLCO
  split
  · rw [unitRegTable_of_reg (reg_process_GRP_VCH acl s a d)]; exact h
  · rw [unitRegTable_of_reg (reg_process_UU_VCH acl s a d)]; exact h
  · rw [unitRegTable_of_reg (reg_process_UU_ANS acl s a d)]; exact h
  · rw [unitRegTable_of_reg (reg_process_TELE_INT_ANS acl s a)]; exact h
  · rw [unitRegTable_process_STS_UPDT]; exact h
  · rw [unitRegTable_of_reg (reg_process_MSG_UPDT acl s a)]; exact h
  · exact nodup_process_CALL_ALRT acl s a d p h
  · rw [unitRegTable_of_reg (reg_process_ACK_RSP acl s a d)]; exact h
  · simpa using h
  · rw [unitRegTable_process_EXT_FNCT]; exact h
  · rw [unitRegTable_process_GRP_AFF]; exact h
  · rw [unitRegTable_of_reg (reg_process_GRP_AFF_Q_RSP s)]; exact h
  · exact nodup_process_U_DEREG_REQ acl s a h
  · exact nodup_process_U_REG acl s a h
  · rw [unitRegTable_of_reg (reg_process_LOC_REG_REQ s a)]; exact h
  · exact h

theorem nodup_process (acl : AccessControl) (s : TrunkPacket) (f : RFFrame)
    (h : s.unitRegTable.Nodup) : (process acl s f).2.unitRegTable.Nodup := by
  by_cases hd : Dispatched s f
  · rw [process_dispatched acl s f hd]
    have hl := nodup_processLCO acl (s.switchEntry f) f.tsbk.srcId f.tsbk.dstId s.p25.rfState
      (by simpa using h)
    split
    · rename_i ret s1 heq
      rw [heq] at hl
      exact hl
    · rename_i s1 heq
      rw [heq] at hl
      simpa using hl
  · unfold process
    unfold Dispatched at hd
    split_ifs
    all_goals first
      | exact h
      | (simp only []; simpa using h)
      | (exfalso; exact hd ⟨by assumption, by assumption, by simpa using ‹¬ f.decoded = false›⟩)

theorem nodup_regStep (s : TrunkPacket) (op : RegOp) (h : s.unitRegTable.Nodup) :
    (s.regStep op).unitRegTable.Nodup := by
  cases op with
  | rf acl frame => exact nodup_process acl s frame h
  | regRsp acl srcId => exact nodup_writeRF_TSDU_U_Reg_Rsp acl s srcId h
  | statusCmd acl srcId dstId => exact nodup_processStatusCommand acl s srcId dstId h
  | deregAck srcId => exact nodup_writeRF_TSDU_U_Dereg_Ack s srcId h
  | clearGrpAff dstId releaseAll => exact nodup_clearGrpAff s dstId releaseAll h

theorem nodup_regRun (ops : List RegOp) (s : TrunkPacket) (h : s.unitRegTable.Nodup) :
    (s.regRun ops).unitRegTable.Nodup := by
  induction ops generalizing s with
  | nil => exact h
  | cons op ops ih => exact ih _ (nodup_regStep s op h)

end TrunkPacket
end p25

namespace p25
namespace TrunkPacket

theorem siteData_of_reg {s s1 : TrunkPacket} (h : s1.reg = s.reg) :
    s1.siteData = s.siteData := congrArg Registry.siteData h

theorem sysId_writeRF_TSDU_SBF (s : TrunkPacket) (n c : Bool) :
    (s.writeRF_TSDU_SBF n c).rfTSBK.sysId = s.rfTSBK.sysId := by
  obtain ⟨b, hb⟩ := rfTSBK_writeRF_TSDU_SBF s n c
  rw [hb]

theorem sysId_denialInhibit (acl : AccessControl) (s : TrunkPacket) (a : Nat) :
    (denialInhibit acl s a).rfTSBK.sysId = s.rfTSBK.sysId := by
  unfold denialInhibit
  split_ifs
  · rfl
  · obtain ⟨b, hb⟩ := rfTSBK_writeRF_TSDU_Ext_Func s ExtFunc.P25_EXT_FNCT_INHIBIT P25_WUID_SYS a
    rw [hb]
  · rfl

theorem sysId_writeRF_TSDU_U_Reg_Rsp (acl : AccessControl) (s : TrunkPacket) (a : Nat) :
    (writeRF_TSDU_U_Reg_Rsp acl s a).rfTSBK.sysId = s.rfTSBK.sysId := by
  unfold writeRF_TSDU_U_Reg_Rsp
  simp only []
  split_ifs <;> simp [sysId_denialInhibit, sysId_writeRF_TSDU_SBF]

theorem siteData_writeRF_TSDU_U_Reg_Rsp (acl : AccessControl) (s : TrunkPacket) (a : Nat) :
    (writeRF_TSDU_U_Reg_Rsp acl s a).siteData = s.siteData := by
  unfold writeRF_TSDU_U_Reg_Rsp
  simp only []
  split_ifs <;>
    simp [siteData_of_reg (reg_denialInhibit _ _ _), siteData_of_reg (reg_writeRF_TSDU_SBF _ _ _)]
      <;> rfl

/-- Registering the same source twice in succession leaves the table as it is
after the first registration. -/
theorem unitRegTable_writeRF_TSDU_U_Reg_Rsp_twice (acl : AccessControl) (s : TrunkPacket)
    (a : Nat) :
    (writeRF_TSDU_U_Reg_Rsp acl (writeRF_TSDU_U_Reg_Rsp acl s a) a).unitRegTable =
      (writeRF_TSDU_U_Reg_Rsp acl s a).unitRegTable := by
  rw [unitRegTable_writeRF_TSDU_U_Reg_Rsp acl (writeRF_TSDU_U_Reg_Rsp acl s a) a,
    sysId_writeRF_TSDU_U_Reg_Rsp, siteData_writeRF_TSDU_U_Reg_Rsp]
  apply if_neg
  rintro ⟨hc, hn⟩
  apply hn
  rw [unitRegTable_writeRF_TSDU_U_Reg_Rsp]
  by_cases hm : a ∈ s.unitRegTable
  · simp [hm]
  · simp [hc, hm]

/-- Claim C16: the unit registration table never holds a source ID twice.
Starting from a table without duplicates, in particular from the empty table,
after every sequence of inbound RF frames, registration responses, status
commands, deregistrations and affiliation clearings each source ID occurs at
most once; and registering the same source twice in succession leaves the
table identical to the table after the first registration. -/
theorem unitRegTable_nodup (s : TrunkPacket) (ops : List RegOp)
    (h : s.unitRegTable.Nodup) :
    (s.regRun ops).unitRegTable.Nodup ∧
    (∀ a, (s.regRun ops).unitRegTable.count a ≤ 1) ∧
    (∀ (acl : AccessControl) (a : Nat),
      (writeRF_TSDU_U_Reg_Rsp acl (writeRF_TSDU_U_Reg_Rsp acl (s.regRun ops) a) a).unitRegTable =
        (writeRF_TSDU_U_Reg_Rsp acl (s.regRun ops) a).unitRegTable) := by
  have hn := nodup_regRun ops s h
  exact ⟨hn, fun a => List.nodup_iff_count_le_one.mp hn a,
    fun acl a => unitRegTable_writeRF_TSDU_U_Reg_Rsp_twice acl _ a⟩

/-- Claim C16 at a concrete run: from empty registries on a site with system
ID 1, subscriber 1001 registers twice over RF, 1002 registers once, and 1001
registers again after a deregistration; the table is [1002, 1001]. -/
theorem unitRegTable_nodup_witness :
    (scenarioSite.regRun [RegOp.rf aclAcceptAll (rfTSDU (uRegRequest 1001 1)),
      RegOp.rf aclAcceptAll (rfTSDU (uRegRequest 1001 1)),
      RegOp.rf aclAcceptAll (rfTSDU (uRegRequest 1002 1)),
      RegOp.deregAck 1001,
      RegOp.regRsp aclAcceptAll 1001]).unitRegTable = [1002, 1001] ∧
    (scenarioSite.regRun [RegOp.rf aclAcceptAll (rfTSDU (uRegRequest 1001 1)),
      RegOp.rf aclAcceptAll (rfTSDU (uRegRequest 1001 1)),
      RegOp.rf aclAcceptAll (rfTSDU (uRegRequest 1002 1)),
      RegOp.deregAck 1001,
      RegOp.regRsp aclAcceptAll 1001]).unitRegTable.Nodup :=
  ⟨by decide, (unitRegTable_nodup scenarioSite _ (by decide)).1⟩

end TrunkPacket
end p25

namespace p25
namespace TrunkPacket

/-- The case `TSBK_IOSP_GRP_VCH` branch by branch. -/
theorem process_GRP_VCH_eq (acl : AccessControl) (s : TrunkPacket) (a d : Nat) :
    process_GRP_VCH acl s a d =
      if s.p25.control = false then
        (some false, (s.writeRF_TSDU_Deny Response.P25_DENY_RSN_SYS_UNSUPPORTED_SVC
          LCO.TSBK_IOSP_GRP_VCH).checkAndReject)
      else if acl.validateSrcId a = false then
        (some false, (denialInhibit acl (s.writeRF_TSDU_Deny
          Response.P25_DENY_RSN_REQ_UNIT_NOT_VALID LCO.TSBK_IOSP_GRP_VCH) a).checkAndReject)
      else if acl.validateTGId d = false then
        (some false, (s.writeRF_TSDU_Deny Response.P25_DENY_RSN_TGT_GROUP_NOT_VALID
          LCO.TSBK_IOSP_GRP_VCH).checkAndReject)
      else if s.verifyAff = true ∧ s.hasSrcIdGrpAff a d = false then
        (some false, ((s.writeRF_TSDU_Deny Response.P25_DENY_RSN_REQ_UNIT_NOT_AUTH
          LCO.TSBK_IOSP_GRP_VCH).writeRF_TSDU_U_Reg_Cmd a).checkAndReject)
      else (none, (s.writeRF_TSDU_Grant true false).2) := by
  simp only [process_GRP_VCH, IS_SUPPORT_CONTROL_CHECK, VALID_SRCID, VALID_TGID,
    VERIFY_SRCID_AFF]
  by_cases h1 : s.p25.control = false
  · simp [h1]
  · by_cases h2 : acl.validateSrcId a = false
    · simp [h1, h2]
    · by_cases h3 : acl.validateTGId d = false
      · simp [h1, h2, h3]
      · by_cases h4 : s.verifyAff = true ∧ s.hasSrcIdGrpAff a d = false
        · simp [h1, h2, h3, h4.1, h4.2]
        · have h4' : ¬ (s.hasSrcIdGrpAff a d = false ∧ s.verifyAff = true) :=
            fun h => h4 ⟨h.2, h.1⟩
          rw [if_neg h1]
          simp only []
          rw [if_neg h2]
          simp only []
          rw [if_neg h3]
          simp only []
          rw [if_neg h4', if_neg h1, if_neg h2, if_neg h3, if_neg h4]

@[simp] theorem verifyAff_switchEntry (s : TrunkPacket) (f : RFFrame) :
    (s.switchEntry f).verifyAff = s.verifyAff := by
  unfold switchEntry resetStatusCommandTSBK resetStatusCommand
  simp only []
  split_ifs <;> rfl

@[simp] theorem hasSrcIdGrpAff_switchEntry (s : TrunkPacket) (f : RFFrame) (a d : Nat) :
    (s.switchEntry f).hasSrcIdGrpAff a d = s.hasSrcIdGrpAff a d := by
  unfold hasSrcIdGrpAff
  rw [grpAffTable_switchEntry]

theorem grpVchFirstFailure_switchEntry (acl : AccessControl) (s : TrunkPacket) (f : RFFrame)
    (a d : Nat) :
    grpVchFirstFailure acl (s.switchEntry f) a d = grpVchFirstFailure acl s a d := by
  unfold grpVchFirstFailure
  simp only [control_switchEntry, verifyAff_switchEntry, hasSrcIdGrpAff_switchEntry]

end TrunkPacket
end p25

namespace p25
namespace TrunkPacket

theorem emitted_denialInhibit_extra (acl : AccessControl) (s : TrunkPacket) (a : Nat) :
    ∃ extra : List TSBK, (denialInhibit acl s a).emitted = s.emitted ++ extra ∧
      (∀ e ∈ extra, e.lco = LCO.TSBK_IOSP_EXT_FNCT) ∧ extra.length ≤ 1 := by
  refine ⟨_, emitted_denialInhibit acl s a, ?_, ?_⟩
  · intro e he
    split_ifs at he
    · simp only [List.mem_singleton] at he
      subst he
      rfl
    · cases he
  · split_ifs <;> simp

/-- A denied GRP_VCH request at the switch: one DENY_RSP with the reason of the
first failing check, followed at most by an inhibit of the source or by a
registration command, and no change of the voice-channel pool. -/
theorem process_GRP_VCH_denied (acl : AccessControl) (s : TrunkPacket) (a d : Nat)
    (r : Response) (h : grpVchFirstFailure acl s a d = some r) :
    (process_GRP_VCH acl s a d).1 = some false ∧
    (∃ extra : List TSBK, (process_GRP_VCH acl s a d).2.emitted = s.emitted ++
        { s.rfTSBK with
          lco := LCO.TSBK_OSP_DENY_RSP, service := LCO.TSBK_IOSP_GRP_VCH, response := r,
          lastBlock := true } :: extra ∧
      ∀ e ∈ extra, e.lco = LCO.TSBK_IOSP_EXT_FNCT ∨ e.lco = LCO.TSBK_OSP_U_REG_CMD) ∧
    (process_GRP_VCH acl s a d).2.pool = s.pool := by
  rw [process_GRP_VCH_eq]
  unfold grpVchFirstFailure at h
  by_cases h1 : s.p25.control = false
  · rw [if_pos h1] at h ⊢
    cases h
    exact ⟨rfl, ⟨[], by simp [emitted_writeRF_TSDU_Deny], by simp⟩, by simp⟩
  · rw [if_neg h1] at h ⊢
    by_cases h2 : acl.validateSrcId a = false
    · rw [if_pos h2] at h ⊢
      cases h
      obtain ⟨extra, he, hx, _⟩ := emitted_denialInhibit_extra acl (s.writeRF_TSDU_Deny
        Response.P25_DENY_RSN_REQ_UNIT_NOT_VALID LCO.TSBK_IOSP_GRP_VCH) a
      rw [emitted_writeRF_TSDU_Deny, List.append_assoc, List.singleton_append] at he
      exact ⟨rfl, ⟨extra, he, fun e h => Or.inl (hx e h)⟩, by simp⟩
    · rw [if_neg h2] at h ⊢
      by_cases h3 : acl.validateTGId d = false
      · rw [if_pos h3] at h ⊢
        cases h
        exact ⟨rfl, ⟨[], by simp [emitted_writeRF_TSDU_Deny], by simp⟩, by simp⟩
      · rw [if_neg h3] at h ⊢
        by_cases h4 : s.verifyAff = true ∧ s.hasSrcIdGrpAff a d = false
        · rw [if_pos h4] at h ⊢
          cases h
          have he := emitted_writeRF_TSDU_U_Reg_Cmd (s.writeRF_TSDU_Deny
            Response.P25_DENY_RSN_REQ_UNIT_NOT_AUTH LCO.TSBK_IOSP_GRP_VCH) a
          rw [emitted_writeRF_TSDU_Deny, List.append_assoc, List.singleton_append] at he
          refine ⟨rfl, ⟨_, he, ?_⟩, by simp⟩
          intro e hm
          simp only [List.mem_singleton] at hm
          subst hm
          exact Or.inr rfl
        · rw [if_neg h4] at h
          cases h

/-- A GRP_VCH request that passes the four checks reaches the grant writer. -/
theorem process_GRP_VCH_granted (acl : AccessControl) (s : TrunkPacket) (a d : Nat)
    (h : grpVchFirstFailure acl s a d = none) :
    process_GRP_VCH acl s a d = (none, (s.writeRF_TSDU_Grant true false).2) := by
  rw [process_GRP_VCH_eq]
  unfold grpVchFirstFailure at h
  split_ifs at h ⊢
  rfl

theorem processLCO_GRP_VCH (acl : AccessControl) (s : TrunkPacket) (a d : Nat)
    (p : RPT_RF_STATE) (h : s.rfTSBK.lco = LCO.TSBK_IOSP_GRP_VCH) :
    processLCO acl s a d p = process_GRP_VCH acl s a d := by
  unfold processLCO
  simp only [h]

end TrunkPacket
end p25

namespace p25
namespace TrunkPacket

end TrunkPacket
end p25

namespace p25
namespace TrunkPacket

/-- Without control support, a case that begins with the control check ends
there: a deny for unsupported service and the reject state reset. -/
theorem processLCO_unsupported (acl : AccessControl) (s : TrunkPacket) (a d : Nat)
    (p : RPT_RF_STATE) (hc : s.p25.control = false)
    (hl : s.rfTSBK.lco ∈ controlCheckedLCOs) :
    processLCO acl s a d p =
      (some false, (s.writeRF_TSDU_Deny Response.P25_DENY_RSN_SYS_UNSUPPORTED_SVC
        s.rfTSBK.lco).checkAndReject) := by
  simp only [controlCheckedLCOs, List.mem_cons, List.mem_singleton, List.not_mem_nil,
    or_false] at hl
  unfold processLCO
  rcases hl with h | h | h | h | h | h | h | h | h <;> rw [h] <;>
    simp [process_GRP_VCH, process_UU_VCH, process_UU_ANS, process_TELE_INT_ANS,
      process_GRP_AFF, process_GRP_AFF_Q_RSP, process_U_DEREG_REQ, process_U_REG,
      process_LOC_REG_REQ, IS_SUPPORT_CONTROL_CHECK, hc]

theorem reg_resetStatusCommandTSBK (s : TrunkPacket) (t : TSBK) :
    (s.resetStatusCommandTSBK t).reg =
      if s.reg.statusCmdEnable = true ∧ (s.rfTSBK.lco ≠ LCO.TSBK_IOSP_CALL_ALRT ∧
          s.rfTSBK.lco ≠ LCO.TSBK_IOSP_EXT_FNCT) then
        { s.reg with statusSrcId := 0, statusValue := 0 }
      else s.reg := by
  unfold resetStatusCommandTSBK
  by_cases h : s.statusCmdEnable = true ∧ (s.rfTSBK.lco ≠ LCO.TSBK_IOSP_CALL_ALRT ∧
      s.rfTSBK.lco ≠ LCO.TSBK_IOSP_EXT_FNCT)
  · rw [if_pos h, reg_resetStatusCommand, if_pos h.1]
    exact (if_pos h).symm
  · rw [if_neg h]
    exact (if_neg h).symm

/-- The registry view on entry to the switch: only the status command may
have been reset. -/
theorem reg_switchEntry (s : TrunkPacket) (f : RFFrame) :
    (s.switchEntry f).reg =
      if s.statusCmdEnable = true ∧ (f.tsbk.lco ≠ LCO.TSBK_IOSP_CALL_ALRT ∧
          f.tsbk.lco ≠ LCO.TSBK_IOSP_EXT_FNCT) then
        { s.reg with statusSrcId := 0, statusValue := 0 }
      else s.reg := by
  unfold switchEntry
  simp only [reg_emit, reg_resetStatusCommandTSBK]
  by_cases h : s.p25.rfState ≠ RPT_RF_STATE.RS_RF_DATA
  · rw [if_pos h]; rfl
  · rw [if_neg h]; rfl

end TrunkPacket
end p25

namespace p25
namespace TrunkPacket

end TrunkPacket
end p25

namespace p25
namespace TrunkPacket

/-! ### The status command side channel -/

theorem rfTSBK_RF_TO_WRITE_NET (s : TrunkPacket) :
    ∃ b, s.RF_TO_WRITE_NET.rfTSBK = { s.rfTSBK with lastBlock := b } := by
  unfold RF_TO_WRITE_NET
  split_ifs
  · exact ⟨true, by simp⟩
  · exact ⟨s.rfTSBK.lastBlock, rfl⟩

@[simp] theorem emitted_RF_TO_WRITE_NET (s : TrunkPacket) :
    s.RF_TO_WRITE_NET.emitted = s.emitted := by
  unfold RF_TO_WRITE_NET
  split_ifs <;> simp

@[simp] theorem emitted_preprocessStatusCommand (s : TrunkPacket) :
    s.preprocessStatusCommand.emitted = s.emitted := by
  unfold preprocessStatusCommand
  simp only []
  split_ifs <;> simp

/-- A status update whose status is the radio check code arms the status
command with the source and the status of the RF TSBK. -/
theorem reg_preprocessStatusCommand_check (s : TrunkPacket)
    (hen : s.statusCmdEnable = true) (hv : s.rfTSBK.status = s.statusRadioCheck)
    (hc : s.statusRadioCheck ≠ 0) :
    s.preprocessStatusCommand.reg =
      { s.reg with statusSrcId := s.rfTSBK.srcId, statusValue := s.rfTSBK.status } := by
  unfold preprocessStatusCommand
  simp only []
  rw [if_pos hen]
  have h1 : (s.setStatus s.rfTSBK.srcId s.rfTSBK.status).statusValue ≠ 0 := by
    show s.rfTSBK.status ≠ 0
    rw [hv]; exact hc
  rw [if_pos h1]
  split_ifs with h2
  · rfl
  · exact absurd (Or.inl hv) h2

/-- The case STS_UPDT for a source the ACL accepts, with the status command
enabled and disarmed, acknowledgements on, and the radio check code as
status: the acknowledgement is written and the status command is armed. -/
theorem process_STS_UPDT_arms (acl : AccessControl) (s : TrunkPacket) (a : Nat)
    (hacl : acl.validateSrcId a = true) (hen : s.statusCmdEnable = true)
    (hack : s.noStatusAck = false) (h0 : s.statusSrcId = 0 ∧ s.statusValue = 0)
    (hv : s.rfTSBK.status = s.statusRadioCheck) (hc : s.statusRadioCheck ≠ 0) :
    (process_STS_UPDT acl s a).1 = none ∧
    (process_STS_UPDT acl s a).2.reg =
      { s.reg with statusSrcId := s.rfTSBK.srcId, statusValue := s.rfTSBK.status } ∧
    ∃ t1 : TSBK, (process_STS_UPDT acl s a).2.emitted = s.emitted ++ [t1] ∧
      t1.lco = LCO.TSBK_IOSP_ACK_RSP ∧ t1.service = LCO.TSBK_IOSP_STS_UPDT := by
  unfold process_STS_UPDT
  rw [VALID_SRCID_pass acl s _ a hacl]
  simp only []
  rw [if_pos h0]
  have hr1 : s.RF_TO_WRITE_NET.reg = s.reg := reg_RF_TO_WRITE_NET s
  have hack1 : s.RF_TO_WRITE_NET.noStatusAck = false :=
    (congrArg Registry.noStatusAck hr1).trans hack
  rw [if_pos hack1]
  have hr2 : (s.RF_TO_WRITE_NET.writeRF_TSDU_ACK_FNE a LCO.TSBK_IOSP_STS_UPDT false).reg =
      s.reg := (reg_writeRF_TSDU_ACK_FNE _ _ _ _).trans hr1
  have hen2 : (s.RF_TO_WRITE_NET.writeRF_TSDU_ACK_FNE a LCO.TSBK_IOSP_STS_UPDT
      false).statusCmdEnable = true := (congrArg Registry.statusCmdEnable hr2).trans hen
  rw [if_pos hen2]
  obtain ⟨b1, hb1⟩ := rfTSBK_RF_TO_WRITE_NET s
  obtain ⟨b2, hb2⟩ := rfTSBK_writeRF_TSDU_ACK_FNE s.RF_TO_WRITE_NET a LCO.TSBK_IOSP_STS_UPDT false
  have hsrc : (s.RF_TO_WRITE_NET.writeRF_TSDU_ACK_FNE a LCO.TSBK_IOSP_STS_UPDT
      false).rfTSBK.srcId = s.rfTSBK.srcId := by rw [hb2, hb1]
  have hst : (s.RF_TO_WRITE_NET.writeRF_TSDU_ACK_FNE a LCO.TSBK_IOSP_STS_UPDT
      false).rfTSBK.status = s.rfTSBK.status := by rw [hb2, hb1]
  have hchk : (s.RF_TO_WRITE_NET.writeRF_TSDU_ACK_FNE a LCO.TSBK_IOSP_STS_UPDT
      false).statusRadioCheck = s.statusRadioCheck := congrArg Registry.statusRadioCheck hr2
  refine ⟨by first | rfl | trivial, ?_, ?_⟩
  · rw [reg_preprocessStatusCommand_check _ hen2 (by rw [hst, hchk, hv]) (by rw [hchk]; exact hc),
      hr2, hsrc, hst]
  · rw [emitted_preprocessStatusCommand, emitted_writeRF_TSDU_ACK_FNE, emitted_RF_TO_WRITE_NET]
    exact ⟨_, rfl, rfl, rfl⟩

/-- An armed radio check is executed by the call alert of its source: the
extended function CHECK, then the acknowledgement of the call alert. -/
theorem processStatusCommand_radio_check (acl : AccessControl) (s : TrunkPacket) (a d : Nat)
    (hen : s.statusCmdEnable = true) (hv : s.statusValue = s.statusRadioCheck)
    (hc : s.statusRadioCheck ≠ 0) (hs : s.statusSrcId = a) :
    processStatusCommand acl s a d =
      (true, (s.writeRF_TSDU_Ext_Func ExtFunc.P25_EXT_FNCT_CHECK a d).writeRF_TSDU_ACK_FNE a
        LCO.TSBK_IOSP_CALL_ALRT false) := by
  unfold processStatusCommand
  rw [if_pos ⟨hen, by rw [hv]; exact hc⟩, if_pos hs]
  simp only []
  rw [if_pos ⟨hc, hv⟩]

theorem process_CALL_ALRT_radio_check (acl : AccessControl) (s : TrunkPacket) (a d : Nat)
    (p : RPT_RF_STATE) (hacl : acl.validateSrcId a = true)
    (hen : s.statusCmdEnable = true) (hv : s.statusValue = s.statusRadioCheck)
    (hc : s.statusRadioCheck ≠ 0) (hs : s.statusSrcId = a) :
    process_CALL_ALRT acl s a d p =
      (some true, ((s.writeRF_TSDU_Ext_Func ExtFunc.P25_EXT_FNCT_CHECK a d).writeRF_TSDU_ACK_FNE a
        LCO.TSBK_IOSP_CALL_ALRT false).setRfState p) := by
  unfold process_CALL_ALRT
  rw [VALID_SRCID_pass acl s _ a hacl]
  simp only []
  rw [if_pos hen, processStatusCommand_radio_check acl s a d hen hv hc hs]

end TrunkPacket
end p25

namespace p25
namespace TrunkPacket

theorem processLCO_STS_UPDT (acl : AccessControl) (s : TrunkPacket) (a d : Nat)
    (p : RPT_RF_STATE) (h : s.rfTSBK.lco = LCO.TSBK_IOSP_STS_UPDT) :
    processLCO acl s a d p = process_STS_UPDT acl s a := by
  unfold processLCO
  simp only [h]

theorem processLCO_CALL_ALRT (acl : AccessControl) (s : TrunkPacket) (a d : Nat)
    (p : RPT_RF_STATE) (h : s.rfTSBK.lco = LCO.TSBK_IOSP_CALL_ALRT) :
    processLCO acl s a d p = process_CALL_ALRT acl s a d p := by
  unfold processLCO
  simp only [h]

theorem dispatched_of_nidValid (s : TrunkPacket) (f : RFFrame) (h1 : f.nidValid = true)
    (h2 : f.duid = DUID.P25_DUID_TSDU) (h3 : f.decoded = true) : Dispatched s f :=
  ⟨fun h => by rw [h1] at h; exact absurd h.2 (by decide), h2, h3⟩

/-- An inbound STS_UPDT that carries the radio check code arms the status
command for its source and is acknowledged. -/
theorem process_STS_UPDT_frame (acl : AccessControl) (s : TrunkPacket) (f : RFFrame)
    (hd : Dispatched s f) (hl : f.tsbk.lco = LCO.TSBK_IOSP_STS_UPDT)
    (hacl : acl.validateSrcId f.tsbk.srcId = true) (hen : s.statusCmdEnable = true)
    (hack : s.noStatusAck = false) (hv : f.tsbk.status = s.statusRadioCheck)
    (hc : s.statusRadioCheck ≠ 0) :
    (process acl s f).2.reg =
      { s.reg with statusSrcId := f.tsbk.srcId, statusValue := f.tsbk.status } ∧
    ∃ t1 : TSBK, (process acl s f).2.emitted = s.emitted ++ [t1] ∧
      t1.lco = LCO.TSBK_IOSP_ACK_RSP ∧ t1.service = LCO.TSBK_IOSP_STS_UPDT := by
  have hreg : (s.switchEntry f).reg = { s.reg with statusSrcId := 0, statusValue := 0 } := by
    rw [reg_switchEntry, if_pos ⟨hen, by rw [hl]; decide, by rw [hl]; decide⟩]
  have hp := process_dispatched acl s f hd
  rw [processLCO_STS_UPDT acl _ _ _ _ (by simpa using hl)] at hp
  obtain ⟨h1, h2, t1, h3, h4, h5⟩ := process_STS_UPDT_arms acl (s.switchEntry f) f.tsbk.srcId hacl
    ((congrArg Registry.statusCmdEnable hreg).trans hen)
    ((congrArg Registry.noStatusAck hreg).trans hack)
    ⟨congrArg Registry.statusSrcId hreg, congrArg Registry.statusValue hreg⟩
    (by rw [rfTSBK_switchEntry, hv]; exact (congrArg Registry.statusRadioCheck hreg).symm)
    (by
      have : (s.switchEntry f).statusRadioCheck = s.statusRadioCheck :=
        congrArg Registry.statusRadioCheck hreg
      rw [this]; exact hc)
  rcases hq : process_STS_UPDT acl (s.switchEntry f) f.tsbk.srcId with ⟨ret, s1⟩
  rw [hq] at hp h1 h2 h3
  simp only [] at h1
  subst h1
  simp only [] at hp
  rw [hp]
  simp only [] at h2 h3 ⊢
  refine ⟨?_, t1, ?_, h4, h5⟩
  · rw [reg_switchExit, h2, hreg, rfTSBK_switchEntry]
  · rw [emitted_switchExit, h3, emitted_switchEntry]

/-- An inbound CALL_ALRT from the source of an armed radio check is answered
by the extended function CHECK and the acknowledgement of the call alert. -/
theorem process_CALL_ALRT_frame (acl : AccessControl) (s : TrunkPacket) (f : RFFrame)
    (hd : Dispatched s f) (hl : f.tsbk.lco = LCO.TSBK_IOSP_CALL_ALRT)
    (hacl : acl.validateSrcId f.tsbk.srcId = true) (hen : s.statusCmdEnable = true)
    (hv : s.statusValue = s.statusRadioCheck) (hc : s.statusRadioCheck ≠ 0)
    (hs : s.statusSrcId = f.tsbk.srcId) :
    (process acl s f).1 = true ∧
    (process acl s f).2.reg = s.reg ∧
    ∃ t2 t3 : TSBK, (process acl s f).2.emitted = s.emitted ++ [t2, t3] ∧
      t2.lco = LCO.TSBK_IOSP_EXT_FNCT ∧ t2.extendedFunction = ExtFunc.P25_EXT_FNCT_CHECK ∧
      t2.srcId = f.tsbk.srcId ∧ t2.dstId = f.tsbk.dstId ∧
      t3.lco = LCO.TSBK_IOSP_ACK_RSP ∧ t3.service = LCO.TSBK_IOSP_CALL_ALRT := by
  have hreg : (s.switchEntry f).reg = s.reg := by
    rw [reg_switchEntry, if_neg (fun h => h.2.1 hl)]
  have hp := process_dispatched acl s f hd
  rw [processLCO_CALL_ALRT acl _ _ _ _ (by simpa using hl),
    process_CALL_ALRT_radio_check acl _ _ _ _ hacl
      ((congrArg Registry.statusCmdEnable hreg).trans hen)
      ((congrArg Registry.statusValue hreg).trans (hv.trans
        (congrArg Registry.statusRadioCheck hreg).symm))
      (by
        have : (s.switchEntry f).statusRadioCheck = s.statusRadioCheck :=
          congrArg Registry.statusRadioCheck hreg
        rw [this]; exact hc)
      ((congrArg Registry.statusSrcId hreg).trans hs)] at hp
  simp only [] at hp
  rw [hp]
  refine ⟨rfl, ?_, ?_⟩
  · simp only [reg_setRfState, reg_writeRF_TSDU_ACK_FNE, reg_writeRF_TSDU_Ext_Func, hreg]
  · simp only [emitted_setRfState]
    rw [emitted_writeRF_TSDU_ACK_FNE, emitted_writeRF_TSDU_Ext_Func, emitted_switchEntry,
      List.append_assoc]
    exact ⟨_, _, rfl, rfl, rfl, rfl, rfl, rfl, rfl⟩

end TrunkPacket
end p25

namespace p25
namespace TrunkPacket

end TrunkPacket
end p25

namespace p25
namespace TrunkPacket

theorem processLCO_ACK_RSP (acl : AccessControl) (s : TrunkPacket) (a d : Nat)
    (p : RPT_RF_STATE) (h : s.rfTSBK.lco = LCO.TSBK_IOSP_ACK_RSP) :
    processLCO acl s a d p = process_ACK_RSP acl s a d := by
  unfold processLCO
  simp only [h]

/-- The case ACK_RSP for a source and a target the ACL accepts: the RF TSBK,
with source and target swapped and AIV set if AIV was clear and the target is
not zero, goes to the single-block writer. -/
theorem process_ACK_RSP_pass (acl : AccessControl) (s : TrunkPacket) (a d : Nat)
    (ha : acl.validateSrcId a = true) (hd : acl.validateSrcId d = true) :
    process_ACK_RSP acl s a d =
      (none, ((if s.rfTSBK.aiv = false ∧ d ≠ 0 then
          s.setRfTSBK { s.rfTSBK with aiv := true, srcId := d, dstId := a }
        else s).writeRF_TSDU_SBF false false)) := by
  unfold process_ACK_RSP
  rw [VALID_SRCID_pass acl s _ a ha]
  simp only []
  rw [VALID_DSTID_pass acl s _ d hd]

/-- Claim C28. For an inbound RF ACK_RSP whose source s and target d the ACL
both accept, `process` returns true and hands exactly one TSBK to the
single-block writer: the received TSBK with AIV set, source d and target s
when the received AIV is clear and d is not zero, and the received TSBK with
source, target and AIV as received otherwise (only the last-block flag is
set by the writer). Without a running control channel, in duplex mode, that
TSBK is the single-block frame last queued for the modem. -/
theorem process_ACK_RSP_swaps (acl : AccessControl) (s : TrunkPacket) (f : RFFrame)
    (hdis : Dispatched s f) (hl : f.tsbk.lco = LCO.TSBK_IOSP_ACK_RSP)
    (ha : acl.validateSrcId f.tsbk.srcId = true)
    (hd : acl.validateSrcId f.tsbk.dstId = true) :
    (process acl s f).1 = true ∧
    (process acl s f).2.emitted = s.emitted ++
      [if f.tsbk.aiv = false ∧ f.tsbk.dstId ≠ 0 then
        { f.tsbk with aiv := true, srcId := f.tsbk.dstId, dstId := f.tsbk.srcId,
                      lastBlock := true }
      else { f.tsbk with lastBlock := true }] ∧
    (s.p25.duplex = true → s.p25.continuousControl = false → s.p25.ccRunning = false →
      Event.writeQueueRF (Frame.sbf
        (if f.tsbk.aiv = false ∧ f.tsbk.dstId ≠ 0 then
          { f.tsbk with aiv := true, srcId := f.tsbk.dstId, dstId := f.tsbk.srcId,
                        lastBlock := true }
        else { f.tsbk with lastBlock := true })) ∈ (process acl s f).2.events) := by
  have hp := process_dispatched acl s f hdis
  rw [processLCO_ACK_RSP acl _ _ _ _ (by simpa using hl),
    process_ACK_RSP_pass acl _ _ _ ha hd] at hp
  simp only [] at hp
  rw [hp]
  simp only [rfTSBK_switchEntry]
  refine ⟨trivial, ?_, ?_⟩
  · rw [emitted_switchExit, emitted_writeRF_TSDU_SBF]
    split_ifs <;> simp
  · intro h1 h2 h3
    have hq : ∀ x : TrunkPacket, x.p25 = (s.switchEntry f).p25 →
        Event.writeQueueRF (Frame.sbf { x.rfTSBK with lastBlock := true }) ∈
          ((x.writeRF_TSDU_SBF false false).switchExit s.p25.rfState).events := by
      intro x hx
      have h := events_writeRF_TSDU_SBF_duplex x false false
        (by rw [hx, p25_switchEntry]; exact h1) (by rw [hx, p25_switchEntry]; exact h2)
        (by rw [hx, p25_switchEntry]; exact h3)
      have hm := List.mem_of_getLast?_eq_some h
      unfold switchExit
      simp only []
      split_ifs
      · simp [emit, hm]
      · simpa using hm
    split_ifs with hc
    · exact hq _ rfl
    · have h := hq (s.switchEntry f) rfl
      rw [rfTSBK_switchEntry] at h
      exact h

theorem process_ACK_RSP_swaps_witness :
    (process aclAcceptAll scenarioAudio
      (rfTSDU { lco := LCO.TSBK_IOSP_ACK_RSP, srcId := 1001, dstId := 1002 })).2.emitted =
      scenarioAudio.emitted ++
        [{ lco := LCO.TSBK_IOSP_ACK_RSP, srcId := 1002, dstId := 1001, aiv := true,
           lastBlock := true }] :=
  (process_ACK_RSP_swaps aclAcceptAll scenarioAudio
    (rfTSDU { lco := LCO.TSBK_IOSP_ACK_RSP, srcId := 1001, dstId := 1002 })
    (dispatched_of_nidValid _ _ rfl rfl rfl) rfl rfl rfl).2.1

end TrunkPacket
end p25

namespace p25
namespace TrunkPacket
/-- The status command after `preprocessStatusCommand`, with status commands
enabled: source and status of the RF TSBK when the status is zero or one of
the five configured codes, both zero otherwise. -/
theorem reg_preprocessStatusCommand (s : TrunkPacket) (hen : s.statusCmdEnable = true) :
    s.preprocessStatusCommand.reg =
      if s.rfTSBK.status = 0 then
        { s.reg with statusSrcId := s.rfTSBK.srcId, statusValue := 0 }
      else if s.rfTSBK.status = s.statusRadioCheck ∨ s.rfTSBK.status = s.statusRadioInhibit ∨
          s.rfTSBK.status = s.statusRadioUninhibit ∨ s.rfTSBK.status = s.statusRadioForceReg ∨
          s.rfTSBK.status = s.statusRadioForceDereg then
        { s.reg with statusSrcId := s.rfTSBK.srcId, statusValue := s.rfTSBK.status }
      else { s.reg with statusSrcId := 0, statusValue := 0 } := by
  unfold preprocessStatusCommand
  simp only []
  rw [if_pos hen]
  show (if s.rfTSBK.status ≠ 0 then
      if s.rfTSBK.status = s.statusRadioCheck ∨ s.rfTSBK.status = s.statusRadioInhibit ∨
          s.rfTSBK.status = s.statusRadioUninhibit ∨ s.rfTSBK.status = s.statusRadioForceReg ∨
          s.rfTSBK.status = s.statusRadioForceDereg then
        s.setStatus s.rfTSBK.srcId s.rfTSBK.status
      else (s.setStatus s.rfTSBK.srcId s.rfTSBK.status).resetStatusCommand
    else s.setStatus s.rfTSBK.srcId s.rfTSBK.status).reg = _
  by_cases h0 : s.rfTSBK.status = 0
  · rw [if_neg (not_not.mpr h0), if_pos h0]
    show { s.reg with statusSrcId := s.rfTSBK.srcId, statusValue := s.rfTSBK.status } = _
    rw [h0]
  · rw [if_pos h0, if_neg h0]
    split_ifs with h1
    · rfl
    · rw [reg_resetStatusCommand, if_pos (by exact hen)]
      rfl

/-- The case STS_UPDT for a source the ACL accepts, with status commands
enabled: the case leaves the switch by `break` and the status command is what
`preprocessStatusCommand` makes of the source and the status of the RF TSBK. -/
theorem reg_process_STS_UPDT (acl : AccessControl) (s : TrunkPacket) (a : Nat)
    (hacl : acl.validateSrcId a = true) (hen : s.statusCmdEnable = true) :
    (process_STS_UPDT acl s a).1 = none ∧
    (process_STS_UPDT acl s a).2.reg =
      if s.rfTSBK.status = 0 then
        { s.reg with statusSrcId := s.rfTSBK.srcId, statusValue := 0 }
      else if s.rfTSBK.status = s.statusRadioCheck ∨ s.rfTSBK.status = s.statusRadioInhibit ∨
          s.rfTSBK.status = s.statusRadioUninhibit ∨ s.rfTSBK.status = s.statusRadioForceReg ∨
          s.rfTSBK.status = s.statusRadioForceDereg then
        { s.reg with statusSrcId := s.rfTSBK.srcId, statusValue := s.rfTSBK.status }
      else { s.reg with statusSrcId := 0, statusValue := 0 } := by
  have h0 : ∃ y0 : TrunkPacket, y0.reg = s.reg ∧ y0.rfTSBK.srcId = s.rfTSBK.srcId ∧
      y0.rfTSBK.status = s.rfTSBK.status ∧
      y0 = (if s.statusSrcId = 0 ∧ s.statusValue = 0 then s.RF_TO_WRITE_NET else s) := by
    by_cases c : s.statusSrcId = 0 ∧ s.statusValue = 0
    · obtain ⟨b, hb⟩ := rfTSBK_RF_TO_WRITE_NET s
      exact ⟨_, reg_RF_TO_WRITE_NET s, by rw [hb], by rw [hb], (if_pos c).symm⟩
    · exact ⟨_, rfl, rfl, rfl, (if_neg c).symm⟩
  obtain ⟨y0, r0, a0, v0, e0⟩ := h0
  have h1 : ∃ y : TrunkPacket, y.reg = s.reg ∧ y.rfTSBK.srcId = s.rfTSBK.srcId ∧
      y.rfTSBK.status = s.rfTSBK.status ∧
      y = (if y0.noStatusAck = false then
        y0.writeRF_TSDU_ACK_FNE a LCO.TSBK_IOSP_STS_UPDT false else y0) := by
    by_cases c : y0.noStatusAck = false
    · obtain ⟨b, hb⟩ := rfTSBK_writeRF_TSDU_ACK_FNE y0 a LCO.TSBK_IOSP_STS_UPDT false
      exact ⟨_, (reg_writeRF_TSDU_ACK_FNE _ _ _ _).trans r0, by rw [hb]; exact a0,
        by rw [hb]; exact v0, (if_pos c).symm⟩
    · exact ⟨_, r0, a0, v0, (if_neg c).symm⟩
  obtain ⟨y, r1, a1, v1, e1⟩ := h1
  have hp : process_STS_UPDT acl s a =
      (none, if y.statusCmdEnable then y.preprocessStatusCommand else y) := by
    unfold process_STS_UPDT
    rw [VALID_SRCID_pass acl s _ a hacl]
    simp only []
    rw [← e0, ← e1]
  have hen1 : y.statusCmdEnable = true := (congrArg Registry.statusCmdEnable r1).trans hen
  rw [hp, if_pos hen1]
  have c1 : y.statusRadioCheck = s.statusRadioCheck := congrArg Registry.statusRadioCheck r1
  have c2 : y.statusRadioInhibit = s.statusRadioInhibit :=
    congrArg Registry.statusRadioInhibit r1
  have c3 : y.statusRadioUninhibit = s.statusRadioUninhibit :=
    congrArg Registry.statusRadioUninhibit r1
  have c4 : y.statusRadioForceReg = s.statusRadioForceReg :=
    congrArg Registry.statusRadioForceReg r1
  have c5 : y.statusRadioForceDereg = s.statusRadioForceDereg :=
    congrArg Registry.statusRadioForceDereg r1
  refine ⟨rfl, ?_⟩
  rw [reg_preprocessStatusCommand y hen1, r1, a1, v1, c1, c2, c3, c4, c5]

/-- Claim C22 as stated fails: with all five status codes configured and
non-zero, a status update from 1001 with status 0 (which equals none of the
codes) leaves `statusSrcId` at 1001, not at zero. -/
theorem process_STS_UPDT_status_counterexample :
    scenarioStatusCodes.statusCmdEnable = true ∧
    aclAcceptAll.validateSrcId 1001 = true ∧
    (0 ≠ scenarioStatusCodes.statusRadioCheck ∧ 0 ≠ scenarioStatusCodes.statusRadioInhibit ∧
      0 ≠ scenarioStatusCodes.statusRadioUninhibit ∧
      0 ≠ scenarioStatusCodes.statusRadioForceReg ∧
      0 ≠ scenarioStatusCodes.statusRadioForceDereg) ∧
    (process aclAcceptAll scenarioStatusCodes (rfTSDU (stsUpdtRequest 1001 0))).1 = true ∧
    (process aclAcceptAll scenarioStatusCodes (rfTSDU (stsUpdtRequest 1001 0))).2.statusSrcId =
      1001 ∧
    (process aclAcceptAll scenarioStatusCodes (rfTSDU (stsUpdtRequest 1001 0))).2.statusValue =
      0 := by
  decide

/-- Claim C22, amended: with status commands enabled, after an RF STS_UPDT
from a source s the ACL accepts, with status v, has been processed: if v is
not zero and equals one of the five configured codes the status command is
armed with `statusSrcId = s` and `statusValue = v`; if v is not zero and
equals none of them both are zero; if v is zero the status command is not
armed (`statusValue = 0`) and `statusSrcId` is s. -/
theorem process_STS_UPDT_status (acl : AccessControl) (s : TrunkPacket) (f : RFFrame)
    (hd : Dispatched s f) (hl : f.tsbk.lco = LCO.TSBK_IOSP_STS_UPDT)
    (hacl : acl.validateSrcId f.tsbk.srcId = true) (hen : s.statusCmdEnable = true) :
    (process acl s f).1 = true ∧
    ((process acl s f).2.statusSrcId, (process acl s f).2.statusValue) =
      if f.tsbk.status = 0 then (f.tsbk.srcId, 0)
      else if f.tsbk.status = s.statusRadioCheck ∨ f.tsbk.status = s.statusRadioInhibit ∨
          f.tsbk.status = s.statusRadioUninhibit ∨ f.tsbk.status = s.statusRadioForceReg ∨
          f.tsbk.status = s.statusRadioForceDereg then
        (f.tsbk.srcId, f.tsbk.status)
      else (0, 0) := by
  have hreg : (s.switchEntry f).reg = { s.reg with statusSrcId := 0, statusValue := 0 } := by
    rw [reg_switchEntry, if_pos ⟨hen, by rw [hl]; decide, by rw [hl]; decide⟩]
  have hp := process_dispatched acl s f hd
  rw [processLCO_STS_UPDT acl _ _ _ _ (by simpa using hl)] at hp
  obtain ⟨h1, h2⟩ := reg_process_STS_UPDT acl (s.switchEntry f) f.tsbk.srcId hacl
    ((congrArg Registry.statusCmdEnable hreg).trans hen)
  rcases hq : process_STS_UPDT acl (s.switchEntry f) f.tsbk.srcId with ⟨ret, s1⟩
  rw [hq] at hp h1 h2
  simp only [] at h1
  subst h1
  simp only [] at hp
  rw [hp]
  simp only [] at h2 ⊢
  have c1 : (s.switchEntry f).statusRadioCheck = s.statusRadioCheck :=
    congrArg Registry.statusRadioCheck hreg
  have c2 : (s.switchEntry f).statusRadioInhibit = s.statusRadioInhibit :=
    congrArg Registry.statusRadioInhibit hreg
  have c3 : (s.switchEntry f).statusRadioUninhibit = s.statusRadioUninhibit :=
    congrArg Registry.statusRadioUninhibit hreg
  have c4 : (s.switchEntry f).statusRadioForceReg = s.statusRadioForceReg :=
    congrArg Registry.statusRadioForceReg hreg
  have c5 : (s.switchEntry f).statusRadioForceDereg = s.statusRadioForceDereg :=
    congrArg Registry.statusRadioForceDereg hreg
  rw [rfTSBK_switchEntry, c1, c2, c3, c4, c5] at h2
  have h3 : (s1.switchExit s.p25.rfState).reg = _ := (reg_switchExit s1 s.p25.rfState).trans h2
  refine ⟨trivial, ?_⟩
  split_ifs at h3 ⊢
  all_goals
    exact Prod.ext (congrArg Registry.statusSrcId h3) (congrArg Registry.statusValue h3)

theorem process_STS_UPDT_status_witness :
    ((process aclAcceptAll scenarioStatusCodes (rfTSDU (stsUpdtRequest 1001 0x43))).2.statusSrcId,
      (process aclAcceptAll scenarioStatusCodes
        (rfTSDU (stsUpdtRequest 1001 0x43))).2.statusValue) = (1001, 0x43) :=
  (process_STS_UPDT_status aclAcceptAll scenarioStatusCodes (rfTSDU (stsUpdtRequest 1001 0x43))
    (dispatched_of_nidValid _ _ rfl rfl rfl) rfl rfl rfl).2

end TrunkPacket
end p25

namespace p25
namespace TrunkPacket
/-! ### The status command after it has been consumed -/

theorem config_of_reg {s s1 : TrunkPacket} (h : s1.reg = s.reg) : s1.config = s.config := by
  unfold config; rw [h]

@[simp] theorem config_setUnitRegTable (s : TrunkPacket) (t : List Nat) :
    (s.setUnitRegTable t).config = s.config := rfl
@[simp] theorem config_setGrpAffTable (s : TrunkPacket) (t : List (Nat × Nat)) :
    (s.setGrpAffTable t).config = s.config := rfl
@[simp] theorem config_setRfTSBK (s : TrunkPacket) (t : TSBK) :
    (s.setRfTSBK t).config = s.config := rfl
@[simp] theorem config_setLCO (s : TrunkPacket) (l : LCO) : (s.setLCO l).config = s.config := rfl
@[simp] theorem config_setResponse (s : TrunkPacket) (r : Response) :
    (s.setResponse r).config = s.config := rfl
@[simp] theorem config_setRfState (s : TrunkPacket) (st : RPT_RF_STATE) :
    (s.setRfState st).config = s.config := rfl
@[simp] theorem config_writeRF_TSDU_SBF (s : TrunkPacket) (n c : Bool) :
    (s.writeRF_TSDU_SBF n c).config = s.config := config_of_reg (reg_writeRF_TSDU_SBF s n c)
@[simp] theorem config_writeRF_TSDU_ACK_FNE (s : TrunkPacket) (a : Nat) (l : LCO) (n : Bool) :
    (s.writeRF_TSDU_ACK_FNE a l n).config = s.config :=
  config_of_reg (reg_writeRF_TSDU_ACK_FNE s a l n)
@[simp] theorem config_writeRF_TSDU_Ext_Func (s : TrunkPacket) (f : ExtFunc) (a d : Nat) :
    (s.writeRF_TSDU_Ext_Func f a d).config = s.config :=
  config_of_reg (reg_writeRF_TSDU_Ext_Func s f a d)

theorem config_writeRF_TSDU_Grp_Aff_Rsp (acl : AccessControl) (s : TrunkPacket)
    (srcId dstId : Nat) :
    (writeRF_TSDU_Grp_Aff_Rsp acl s srcId dstId).2.config = s.config := by
  unfold writeRF_TSDU_Grp_Aff_Rsp
  simp only []
  split_ifs <;> simp

theorem config_writeRF_TSDU_U_Dereg_Ack (s : TrunkPacket) (srcId : Nat) :
    (s.writeRF_TSDU_U_Dereg_Ack srcId).config = s.config := by
  unfold writeRF_TSDU_U_Dereg_Ack
  simp only []
  by_cases h : srcId ∈ s.unitRegTable <;> cases h2 : tblAt s.grpAffTable srcId <;> simp [h, h2]

/-- An armed status command whose value is one of the five configured codes
is executed by the call alert of its source, and stays armed. -/
theorem processStatusCommand_consumed (acl : AccessControl) (s : TrunkPacket) (a d : Nat)
    (hen : s.statusCmdEnable = true) (hv : s.statusValue ≠ 0) (hs : s.statusSrcId = a)
    (hk : s.statusValue = s.statusRadioCheck ∨ s.statusValue = s.statusRadioInhibit ∨
      s.statusValue = s.statusRadioUninhibit ∨ s.statusValue = s.statusRadioForceReg ∨
      s.statusValue = s.statusRadioForceDereg) :
    (processStatusCommand acl s a d).1 = true ∧
    (processStatusCommand acl s a d).2.config = s.config := by
  unfold processStatusCommand
  rw [if_pos ⟨hen, hv⟩, if_pos hs]
  simp only []
  refine ⟨by first | rfl | trivial, ?_⟩
  rw [config_writeRF_TSDU_ACK_FNE]
  split_ifs with h1 h2 h3 h4 h5 h6
  · simp
  · simp
  · simp
  · rw [config_writeRF_TSDU_Grp_Aff_Rsp]; simp
  · rw [config_writeRF_TSDU_Grp_Aff_Rsp]
  · exact config_writeRF_TSDU_U_Dereg_Ack s a
  · exfalso
    rcases hk with e | e | e | e | e
    · exact h1 ⟨fun c => hv (e.trans c), e⟩
    · exact h2 ⟨fun c => hv (e.trans c), e⟩
    · exact h3 ⟨fun c => hv (e.trans c), e⟩
    · exact h4 ⟨fun c => hv (e.trans c), e⟩
    · exact h6 ⟨fun c => hv (e.trans c), e⟩

theorem processLCO_EXT_FNCT (acl : AccessControl) (s : TrunkPacket) (a d : Nat)
    (p : RPT_RF_STATE) (h : s.rfTSBK.lco = LCO.TSBK_IOSP_EXT_FNCT) :
    processLCO acl s a d p = s.process_EXT_FNCT := by
  unfold processLCO
  simp only [h]

/-- An inbound EXT_FNCT disarms the status command. -/
theorem process_EXT_FNCT_frame (acl : AccessControl) (s : TrunkPacket) (f : RFFrame)
    (hd : Dispatched s f) (hl : f.tsbk.lco = LCO.TSBK_IOSP_EXT_FNCT)
    (hen : s.statusCmdEnable = true) :
    (process acl s f).1 = true ∧
    (process acl s f).2.reg = { s.reg with statusSrcId := 0, statusValue := 0 } := by
  have hreg : (s.switchEntry f).reg = s.reg := by
    rw [reg_switchEntry, if_neg (fun h => h.2.2 hl)]
  have hp := process_dispatched acl s f hd
  rw [processLCO_EXT_FNCT acl _ _ _ _ (by simpa using hl)] at hp
  unfold process_EXT_FNCT at hp
  simp only [] at hp
  rw [hp]
  refine ⟨rfl, ?_⟩
  rw [reg_switchExit, reg_resetStatusCommand]
  have hen1 : ∀ x : TrunkPacket, x.reg = s.reg → x.statusCmdEnable = true := fun x hx =>
    (congrArg Registry.statusCmdEnable hx).trans hen
  split_ifs with c1 c2 c3
  · simp [hreg]
  · exact absurd (hen1 _ (by simp [hreg])) c2
  · simp [hreg]
  · exact absurd (hen1 _ (by simp [hreg])) c3

/-- Claim C21 as stated fails: in the scenario of the radio check (status
commands enabled, check code 0x42), the status update of 1001 arms the status
command and the call alert of 1001 to 1002 is consumed by it (the extended
function CHECK and the acknowledgement are written), yet when `process`
returns the status command is still armed with source 1001 and value 0x42. -/
theorem process_CALL_ALRT_disarm_counterexample :
    scenarioStatusCmd.statusCmdEnable = true ∧
    (processAll aclAcceptAll scenarioStatusCmd
      [rfTSDU (stsUpdtRequest 1001 0x42)]).statusSrcId = 1001 ∧
    (processAll aclAcceptAll scenarioStatusCmd
      [rfTSDU (stsUpdtRequest 1001 0x42)]).statusValue = 0x42 ∧
    (process aclAcceptAll (processAll aclAcceptAll scenarioStatusCmd
      [rfTSDU (stsUpdtRequest 1001 0x42)]) (rfTSDU (callAlrtRequest 1001 1002))).1 = true ∧
    (process aclAcceptAll (processAll aclAcceptAll scenarioStatusCmd
      [rfTSDU (stsUpdtRequest 1001 0x42)]) (rfTSDU (callAlrtRequest 1001 1002))).2.emitted.map
        (fun t => t.lco) =
      [LCO.TSBK_IOSP_ACK_RSP, LCO.TSBK_IOSP_EXT_FNCT, LCO.TSBK_IOSP_ACK_RSP] ∧
    (process aclAcceptAll (processAll aclAcceptAll scenarioStatusCmd
      [rfTSDU (stsUpdtRequest 1001 0x42)])
      (rfTSDU (callAlrtRequest 1001 1002))).2.statusSrcId = 1001 ∧
    (process aclAcceptAll (processAll aclAcceptAll scenarioStatusCmd
      [rfTSDU (stsUpdtRequest 1001 0x42)])
      (rfTSDU (callAlrtRequest 1001 1002))).2.statusValue = 0x42 := by
  decide

/-- Claim C21, amended: with status commands enabled, after an RF CALL_ALRT
from the arming source has been consumed by an armed status command (any of
the five configured kinds), `process` returns true and the status command is
still armed, with `statusSrcId` and `statusValue` unchanged; it is the RF
EXT_FNCT processed next (the answer of the target) that disarms it:
`statusSrcId == 0` and `statusValue == 0` when `process` returns from it. -/
theorem process_CALL_ALRT_stays_armed (acl : AccessControl) (s : TrunkPacket) (f : RFFrame)
    (hd : Dispatched s f) (hl : f.tsbk.lco = LCO.TSBK_IOSP_CALL_ALRT)
    (hacl : acl.validateSrcId f.tsbk.srcId = true) (hen : s.statusCmdEnable = true)
    (hv : s.statusValue ≠ 0) (hs : s.statusSrcId = f.tsbk.srcId)
    (hk : s.statusValue = s.statusRadioCheck ∨ s.statusValue = s.statusRadioInhibit ∨
      s.statusValue = s.statusRadioUninhibit ∨ s.statusValue = s.statusRadioForceReg ∨
      s.statusValue = s.statusRadioForceDereg) :
    (process acl s f).1 = true ∧
    (process acl s f).2.statusSrcId = s.statusSrcId ∧
    (process acl s f).2.statusValue = s.statusValue ∧
    ∀ g : RFFrame, Dispatched (process acl s f).2 g →
      g.tsbk.lco = LCO.TSBK_IOSP_EXT_FNCT →
      (process acl (process acl s f).2 g).1 = true ∧
      (process acl (process acl s f).2 g).2.statusSrcId = 0 ∧
      (process acl (process acl s f).2 g).2.statusValue = 0 := by
  have hreg : (s.switchEntry f).reg = s.reg := by
    rw [reg_switchEntry, if_neg (fun h => h.2.1 hl)]
  have hcfg : (s.switchEntry f).config = s.config := config_of_reg hreg
  have hen1 : (s.switchEntry f).statusCmdEnable = true :=
    (congrArg Registry.statusCmdEnable hreg).trans hen
  have hv1 : (s.switchEntry f).statusValue = s.statusValue := congrArg Registry.statusValue hreg
  have hs1 : (s.switchEntry f).statusSrcId = s.statusSrcId :=
    congrArg Registry.statusSrcId hreg
  have c1 : (s.switchEntry f).statusRadioCheck = s.statusRadioCheck :=
    congrArg Registry.statusRadioCheck hreg
  have c2 : (s.switchEntry f).statusRadioInhibit = s.statusRadioInhibit :=
    congrArg Registry.statusRadioInhibit hreg
  have c3 : (s.switchEntry f).statusRadioUninhibit = s.statusRadioUninhibit :=
    congrArg Registry.statusRadioUninhibit hreg
  have c4 : (s.switchEntry f).statusRadioForceReg = s.statusRadioForceReg :=
    congrArg Registry.statusRadioForceReg hreg
  have c5 : (s.switchEntry f).statusRadioForceDereg = s.statusRadioForceDereg :=
    congrArg Registry.statusRadioForceDereg hreg
  obtain ⟨k1, k2⟩ := processStatusCommand_consumed acl (s.switchEntry f) f.tsbk.srcId
    f.tsbk.dstId hen1 (by rw [hv1]; exact hv) (hs1.trans hs)
    (by rw [hv1, c1, c2, c3, c4, c5]; exact hk)
  have hp := process_dispatched acl s f hd
  rw [processLCO_CALL_ALRT acl _ _ _ _ (by simpa using hl)] at hp
  unfold process_CALL_ALRT at hp
  rw [VALID_SRCID_pass acl _ _ _ hacl] at hp
  simp only [] at hp
  rw [if_pos hen1] at hp
  rcases hq : processStatusCommand acl (s.switchEntry f) f.tsbk.srcId f.tsbk.dstId with ⟨b, s1⟩
  rw [hq] at hp k1 k2
  simp only [] at k1 k2
  subst k1
  simp only [] at hp
  have hc : (process acl s f).2.config = s.config := by
    rw [hp]
    exact (config_setRfState s1 _).trans (k2.trans hcfg)
  have hen2 : (process acl s f).2.statusCmdEnable = true :=
    (congrArg Registry.statusCmdEnable hc).trans hen
  refine ⟨by rw [hp], congrArg Registry.statusSrcId hc, congrArg Registry.statusValue hc, ?_⟩
  intro g hg hgl
  obtain ⟨e1, e2⟩ := process_EXT_FNCT_frame acl _ g hg hgl hen2
  exact ⟨e1, congrArg Registry.statusSrcId e2, congrArg Registry.statusValue e2⟩

theorem process_CALL_ALRT_stays_armed_witness :
    (process aclAcceptAll
      { scenarioStatusCodes with statusSrcId := 1001, statusValue := 0x46 }
      (rfTSDU (callAlrtRequest 1001 1002))).2.statusValue = 0x46 ∧
    (process aclAcceptAll
      (process aclAcceptAll
        { scenarioStatusCodes with statusSrcId := 1001, statusValue := 0x46 }
        (rfTSDU (callAlrtRequest 1001 1002))).2
      (rfTSDU { lco := LCO.TSBK_IOSP_EXT_FNCT, srcId := 1002, dstId := 1001 })).2.statusValue =
      0 :=
  ⟨(process_CALL_ALRT_stays_armed aclAcceptAll
      { scenarioStatusCodes with statusSrcId := 1001, statusValue := 0x46 }
      (rfTSDU (callAlrtRequest 1001 1002)) (dispatched_of_nidValid _ _ rfl rfl rfl) rfl rfl rfl
      (by decide) rfl (by decide)).2.2.1,
    ((process_CALL_ALRT_stays_armed aclAcceptAll
      { scenarioStatusCodes with statusSrcId := 1001, statusValue := 0x46 }
      (rfTSDU (callAlrtRequest 1001 1002)) (dispatched_of_nidValid _ _ rfl rfl rfl) rfl rfl rfl
      (by decide) rfl (by decide)).2.2.2
      (rfTSDU { lco := LCO.TSBK_IOSP_EXT_FNCT, srcId := 1002, dstId := 1001 })
      (dispatched_of_nidValid _ _ rfl rfl rfl) rfl).2.2⟩

end TrunkPacket
end p25

namespace p25
namespace TrunkPacket

/-! ### A call alert from another source than the one that armed -/

theorem processStatusCommand_other (acl : AccessControl) (s : TrunkPacket) (a d : Nat)
    (hs : s.statusSrcId ≠ a) :
    processStatusCommand acl s a d = (false, s.resetStatusCommand) := by
  unfold processStatusCommand
  split_ifs <;> rfl

theorem callAlert_pass (acl : AccessControl) (s : TrunkPacket) (a d : Nat)
    (hd : acl.validateSrcId d = true) :
    callAlert acl s a d = (none, s.writeRF_TSDU_Call_Alrt a d) := by
  unfold callAlert
  rw [VALID_DSTID_pass acl s _ d hd]

end TrunkPacket
end p25

namespace p25
namespace TrunkPacket

/-! ### Network inbound adjacent site broadcasts -/

@[simp] theorem netTSBK_setRfTSBK (s : TrunkPacket) (t : TSBK) :
    (s.setRfTSBK t).netTSBK = s.netTSBK := rfl
@[simp] theorem netTSBK_setNetTSBK (s : TrunkPacket) (t : TSBK) :
    (s.setNetTSBK t).netTSBK = t := rfl
@[simp] theorem siteData_setNetTSBK (s : TrunkPacket) (t : TSBK) :
    (s.setNetTSBK t).siteData = s.siteData := rfl
@[simp] theorem adjSiteTable_setRfTSBK (s : TrunkPacket) (t : TSBK) :
    (s.setRfTSBK t).adjSiteTable = s.adjSiteTable := rfl
@[simp] theorem adjSiteTable_setNetTSBK (s : TrunkPacket) (t : TSBK) :
    (s.setNetTSBK t).adjSiteTable = s.adjSiteTable := rfl
@[simp] theorem adjSiteUpdateCnt_setRfTSBK (s : TrunkPacket) (t : TSBK) :
    (s.setRfTSBK t).adjSiteUpdateCnt = s.adjSiteUpdateCnt := rfl
@[simp] theorem adjSiteUpdateCnt_setNetTSBK (s : TrunkPacket) (t : TSBK) :
    (s.setNetTSBK t).adjSiteUpdateCnt = s.adjSiteUpdateCnt := rfl
@[simp] theorem adjSiteTable_setAdjSites (s : TrunkPacket) (t : List (Nat × SiteData))
    (c : List (Nat × Nat)) : (s.setAdjSites t c).adjSiteTable = t := rfl
@[simp] theorem adjSiteUpdateCnt_setAdjSites (s : TrunkPacket) (t : List (Nat × SiteData))
    (c : List (Nat × Nat)) : (s.setAdjSites t c).adjSiteUpdateCnt = c := rfl

/-- An adjacent site broadcast from the network, with the RF side listening,
the network side idle and control enabled, is the adjacent site update. -/
theorem processNetwork_ADJ_STS_BCAST (acl : AccessControl) (s : TrunkPacket) (frame : NetFrame)
    (hrf : s.p25.rfState = RPT_RF_STATE.RS_RF_LISTENING)
    (hnet : s.p25.netState = RPT_NET_STATE.RS_NET_IDLE)
    (hduid : frame.duid = DUID.P25_DUID_TSDU) (hdec : frame.decoded = true)
    (hl : frame.tsbk.lco = LCO.TSBK_OSP_ADJ_STS_BCAST) (hc : s.p25.control = true) :
    processNetwork acl s frame =
      (true, ((s.setRfTSBK frame.rfTSBK).setNetTSBK frame.tsbk).updateAdjSite) := by
  unfold processNetwork
  rw [if_neg (fun h => h.1 hrf), if_pos hduid, if_pos hnet]
  simp only [netTSBK_setNetTSBK]
  rw [if_neg (by rw [hdec]; decide), if_pos hl, if_neg (by simp [hc])]

/-- Claim C24. When a network-inbound ADJ_STS_BCAST is processed (RF
listening, network idle, control enabled, decode succeeds): if its site ID
is not the local site ID, the adjacent site table afterwards holds an entry
for that site with the system ID, the RFSS ID, the channel ID and the channel
number of the broadcast, the update counter of the site is
`ADJ_SITE_UPDATE_CNT`, which is 5, and the entries and the counters of all
other sites are as before; if its site ID is the local site ID, both tables
are unchanged. -/
theorem processNetwork_adjSite_upsert (acl : AccessControl) (s : TrunkPacket) (frame : NetFrame)
    (hrf : s.p25.rfState = RPT_RF_STATE.RS_RF_LISTENING)
    (hnet : s.p25.netState = RPT_NET_STATE.RS_NET_IDLE)
    (hduid : frame.duid = DUID.P25_DUID_TSDU) (hdec : frame.decoded = true)
    (hl : frame.tsbk.lco = LCO.TSBK_OSP_ADJ_STS_BCAST) (hc : s.p25.control = true) :
    (processNetwork acl s frame).1 = true ∧
    (frame.tsbk.adjSiteId ≠ s.siteData.siteId →
      (∃ site : SiteData,
        tblAt (processNetwork acl s frame).2.adjSiteTable frame.tsbk.adjSiteId = some site ∧
        site.siteId = frame.tsbk.adjSiteId ∧ site.sysId = frame.tsbk.adjSiteSysId ∧
        site.rfssId = frame.tsbk.adjSiteRFSSId ∧ site.channelId = frame.tsbk.adjSiteChnId ∧
        site.channelNo = frame.tsbk.adjSiteChnNo) ∧
      tblAt (processNetwork acl s frame).2.adjSiteUpdateCnt frame.tsbk.adjSiteId =
        some ADJ_SITE_UPDATE_CNT ∧
      ADJ_SITE_UPDATE_CNT = 5 ∧
      ∀ k : Nat, k ≠ frame.tsbk.adjSiteId →
        tblAt (processNetwork acl s frame).2.adjSiteTable k = tblAt s.adjSiteTable k ∧
        tblAt (processNetwork acl s frame).2.adjSiteUpdateCnt k =
          tblAt s.adjSiteUpdateCnt k) ∧
    (frame.tsbk.adjSiteId = s.siteData.siteId →
      (processNetwork acl s frame).2.adjSiteTable = s.adjSiteTable ∧
      (processNetwork acl s frame).2.adjSiteUpdateCnt = s.adjSiteUpdateCnt) := by
  rw [processNetwork_ADJ_STS_BCAST acl s frame hrf hnet hduid hdec hl hc]
  refine ⟨rfl, ?_, ?_⟩
  · intro hne
    have hu : ((s.setRfTSBK frame.rfTSBK).setNetTSBK frame.tsbk).updateAdjSite =
        ((s.setRfTSBK frame.rfTSBK).setNetTSBK frame.tsbk).setAdjSites
          (tblSet s.adjSiteTable frame.tsbk.adjSiteId
            (((tblAt s.adjSiteTable frame.tsbk.adjSiteId).getD {}).setAdjSite
              frame.tsbk.adjSiteSysId frame.tsbk.adjSiteRFSSId frame.tsbk.adjSiteId
              frame.tsbk.adjSiteChnId frame.tsbk.adjSiteChnNo))
          (tblSet s.adjSiteUpdateCnt frame.tsbk.adjSiteId ADJ_SITE_UPDATE_CNT) := by
      unfold updateAdjSite
      rw [if_pos (by simpa using hne)]
      rfl
    simp only [hu, adjSiteTable_setAdjSites, adjSiteUpdateCnt_setAdjSites]
    refine ⟨⟨_, tblAt_tblSet_self _ _ _, rfl, rfl, rfl, rfl, rfl⟩, tblAt_tblSet_self _ _ _,
      rfl, ?_⟩
    intro k hk
    exact ⟨tblAt_tblSet_ne _ _ _ _ (Ne.symm hk), tblAt_tblSet_ne _ _ _ _ (Ne.symm hk)⟩
  · intro he
    have hu : ((s.setRfTSBK frame.rfTSBK).setNetTSBK frame.tsbk).updateAdjSite =
        (s.setRfTSBK frame.rfTSBK).setNetTSBK frame.tsbk := by
      unfold updateAdjSite
      rw [if_neg (by simpa using he)]
    simp only [hu]
    exact ⟨rfl, rfl⟩

theorem processNetwork_adjSite_upsert_witness :
    tblAt (processNetwork aclAcceptAll scenarioSite (netTSDU adjStsBcast)).2.adjSiteUpdateCnt
      adjStsBcast.adjSiteId = some ADJ_SITE_UPDATE_CNT :=
  ((processNetwork_adjSite_upsert aclAcceptAll scenarioSite (netTSDU adjStsBcast)
    rfl rfl rfl rfl rfl rfl).2.1 (by decide)).2.1

end TrunkPacket
end p25

namespace p25
namespace TrunkPacket

/-! ### The multi-block buffer and its cursor -/

@[simp] theorem mbfCnt_setRfTSBK (s : TrunkPacket) (t : TSBK) :
    (s.setRfTSBK t).mbfCnt = s.mbfCnt := rfl
@[simp] theorem mbfCnt_setLastBlock (s : TrunkPacket) (b : Bool) :
    (s.setLastBlock b).mbfCnt = s.mbfCnt := rfl
@[simp] theorem mbfCnt_setLCO (s : TrunkPacket) (l : LCO) : (s.setLCO l).mbfCnt = s.mbfCnt := rfl
@[simp] theorem mbfCnt_emit (s : TrunkPacket) (e : Event) : (s.emit e).mbfCnt = s.mbfCnt := rfl
@[simp] theorem mbfCnt_setMBF (s : TrunkPacket) (b : List (Nat × TSBK)) (c : Nat) :
    (s.setMBF b c).mbfCnt = c := rfl
@[simp] theorem rfMBF_setMBF (s : TrunkPacket) (b : List (Nat × TSBK)) (c : Nat) :
    (s.setMBF b c).rfMBF = b := rfl
@[simp] theorem events_setMBF (s : TrunkPacket) (b : List (Nat × TSBK)) (c : Nat) :
    (s.setMBF b c).events = s.events := rfl
@[simp] theorem events_setLastBlock (s : TrunkPacket) (b : Bool) :
    (s.setLastBlock b).events = s.events := rfl
@[simp] theorem mbfCnt_setSkipSBFPreamble (s : TrunkPacket) (b : Bool) :
    (s.setSkipSBFPreamble b).mbfCnt = s.mbfCnt := rfl
@[simp] theorem mbfCnt_setControl (s : TrunkPacket) (c : Control) :
    (s.setControl c).mbfCnt = s.mbfCnt := rfl
@[simp] theorem mbfCnt_setMbfIdenCnt (s : TrunkPacket) (c : Nat) :
    (s.setMbfIdenCnt c).mbfCnt = s.mbfCnt := rfl
@[simp] theorem mbfCnt_setMbfAdjSSCnt (s : TrunkPacket) (c : Nat) :
    (s.setMbfAdjSSCnt c).mbfCnt = s.mbfCnt := rfl
@[simp] theorem mbfCnt_setAdjSites (s : TrunkPacket) (t : List (Nat × SiteData))
    (c : List (Nat × Nat)) : (s.setAdjSites t c).mbfCnt = s.mbfCnt := rfl

/-- A write in simplex mode: nothing is queued, the buffer is zeroed and the
cursor is reset. -/
theorem writeRF_TSDU_MBF_simplex (s : TrunkPacket) (c : Bool) (hd : s.p25.duplex = false) :
    s.writeRF_TSDU_MBF c = s.setMBF [] 0 := by
  unfold writeRF_TSDU_MBF
  rw [if_pos hd]

/-- A write in duplex mode that is not the third of its burst: the TSBK is
staged with the last-block flag clear and the cursor moves on. -/
theorem writeRF_TSDU_MBF_stage (s : TrunkPacket) (c : Bool) (hd : s.p25.duplex = true)
    (hn : s.mbfCnt + 1 ≠ TSBK_MBF_CNT) :
    s.writeRF_TSDU_MBF c =
      ((s.setMBF (if s.mbfCnt = 0 then
            s.rfMBF.filter (fun e => decide (TSBK_MBF_CNT ≤ e.1)) else s.rfMBF)
          s.mbfCnt).setLastBlock false).setMBF
        (tblSet (if s.mbfCnt = 0 then
            s.rfMBF.filter (fun e => decide (TSBK_MBF_CNT ≤ e.1)) else s.rfMBF) s.mbfCnt
          { s.rfTSBK with lastBlock := false })
        (s.mbfCnt + 1) := by
  unfold writeRF_TSDU_MBF
  rw [if_neg (by rw [hd]; decide)]
  by_cases h0 : s.mbfCnt = 0
  · simp only [h0, if_true]
    rw [if_neg (by simpa [h0] using hn)]
    rfl
  · simp only [h0, if_false]
    rw [if_neg hn]
    rfl

/-- The third write of a burst in duplex mode: the TSBK is staged with the
last-block flag set, the three blocks are queued as one triple frame, the
buffer is zeroed and the cursor is reset. -/
theorem writeRF_TSDU_MBF_flush (s : TrunkPacket) (c : Bool) (hd : s.p25.duplex = true)
    (hn : s.mbfCnt + 1 = TSBK_MBF_CNT) :
    (s.writeRF_TSDU_MBF c).rfTSBK = { s.rfTSBK with lastBlock := true } ∧
    (s.writeRF_TSDU_MBF c).events =
      s.events ++ (if c then [Event.clearP25Data] else []) ++
        [Event.writeQueueRF (Frame.mbf (mbfBlocks
          (tblSet s.rfMBF s.mbfCnt { s.rfTSBK with lastBlock := true }) TSBK_MBF_CNT))] ∧
    (s.writeRF_TSDU_MBF c).rfMBF = [] ∧ (s.writeRF_TSDU_MBF c).mbfCnt = 0 := by
  have h0 : s.mbfCnt ≠ 0 := by
    intro h; rw [h] at hn; exact absurd hn (by decide)
  unfold writeRF_TSDU_MBF
  rw [if_neg (by rw [hd]; decide)]
  simp only [h0, if_false]
  rw [if_pos hn]
  cases c
  · simp [hn]
    rfl
  · simp [hn]
    rfl

theorem mbfCnt_writeRF_TSDU_MBF (s : TrunkPacket) (c : Bool) (h : s.mbfCnt < TSBK_MBF_CNT) :
    (s.writeRF_TSDU_MBF c).mbfCnt < TSBK_MBF_CNT := by
  unfold writeRF_TSDU_MBF
  simp only []
  unfold TSBK_MBF_CNT at h ⊢
  split_ifs with h1 h2 h3 h4 <;> simp at * <;> omega

theorem mbfCnt_queueSBF (s : TrunkPacket) (d : TSBK) (c : Bool) :
    (s.queueSBF d c).mbfCnt = s.mbfCnt := by
  unfold queueSBF; simp only []; split_ifs <;> rfl

theorem mbfCnt_writeNetworkRF (s : TrunkPacket) (d : TSBK) (r : Bool) :
    (s.writeNetworkRF d r).mbfCnt = s.mbfCnt := by
  unfold writeNetworkRF; split_ifs <;> rfl

theorem mbfCnt_writeRF_TSDU_SBF (s : TrunkPacket) (n c : Bool) (h : s.mbfCnt < TSBK_MBF_CNT) :
    (s.writeRF_TSDU_SBF n c).mbfCnt < TSBK_MBF_CNT := by
  unfold writeRF_TSDU_SBF
  simp only []
  split_ifs
  all_goals first
    | exact mbfCnt_writeRF_TSDU_MBF _ _ (by simpa [mbfCnt_writeNetworkRF] using h)
    | (rw [mbfCnt_queueSBF]; simpa [mbfCnt_writeNetworkRF] using h)

theorem mbfCnt_ctrlTSBK (walk : AdjSiteWalk) (s : TrunkPacket) (l : LCO) : (s.ctrlTSBK walk l).2.mbfCnt = s.mbfCnt := by
  unfold ctrlTSBK
  cases l <;> simp only [] <;> (try rfl)
  · split_ifs
    · cases s.p25.idenTable.get? (s.setMbfIdenCnt 0).mbfIdenCnt with
      | none => rfl
      | some e => simp only []; split_ifs <;> rfl
    · cases s.p25.idenTable.get? s.mbfIdenCnt with
      | none => rfl
      | some e => simp only []; split_ifs <;> rfl
  · split_ifs
    · rcases h : (walk (s.setMbfAdjSSCnt 0).adjSiteTable).get? (s.setMbfAdjSSCnt 0).mbfAdjSSCnt with
        _ | ⟨k, site⟩
      · rfl
      · simp only []
        cases tblAt (s.setMbfAdjSSCnt 0).adjSiteUpdateCnt site.siteId <;> rfl
    · rcases h : (walk s.adjSiteTable).get? s.mbfAdjSSCnt with _ | ⟨k, site⟩
      · rfl
      · simp only []
        cases tblAt s.adjSiteUpdateCnt site.siteId <;> rfl
    · rfl

theorem mbfCnt_queueRF_TSBK_Ctrl_MBF (r : TSBK → TSBK) (walk : AdjSiteWalk) (s : TrunkPacket) (l : LCO)
    (h : s.mbfCnt < TSBK_MBF_CNT) : (queueRF_TSBK_Ctrl_MBF r walk s l).mbfCnt < TSBK_MBF_CNT := by
  unfold queueRF_TSBK_Ctrl_MBF
  simp only []
  have hc := mbfCnt_ctrlTSBK walk (s.setRfTSBK (r s.rfTSBK)) l
  rcases hq : (s.setRfTSBK (r s.rfTSBK)).ctrlTSBK walk l with ⟨b, s1⟩
  rw [hq] at hc
  simp only [mbfCnt_setRfTSBK] at hc
  cases b
  · simp only []; rw [hc]; exact h
  · simp only []
    exact mbfCnt_writeRF_TSDU_MBF _ _ (by simpa [hc] using h)

theorem mbfCnt_mbfStep (s : TrunkPacket) (op : MbfOp) (h : s.mbfCnt < TSBK_MBF_CNT) :
    (s.mbfStep op).mbfCnt < TSBK_MBF_CNT := by
  cases op with
  | mbf t c => exact mbfCnt_writeRF_TSDU_MBF _ _ h
  | sbf t n c => exact mbfCnt_writeRF_TSDU_SBF _ _ _ h
  | ctrl r walk l => exact mbfCnt_queueRF_TSBK_Ctrl_MBF r walk s l h
  | peer c => exact h

theorem mbfCnt_mbfRun (s : TrunkPacket) (ops : List MbfOp) (h : s.mbfCnt < TSBK_MBF_CNT) :
    (s.mbfRun ops).mbfCnt < TSBK_MBF_CNT := by
  induction ops generalizing s with
  | nil => exact h
  | cons op ops ih => exact ih _ (mbfCnt_mbfStep s op h)

end TrunkPacket
end p25

namespace p25
namespace TrunkPacket

theorem writeRF_TSDU_MBF_stage_facts (s : TrunkPacket) (c : Bool) (hd : s.p25.duplex = true)
    (hn : s.mbfCnt + 1 ≠ TSBK_MBF_CNT) :
    (s.writeRF_TSDU_MBF c).rfTSBK = { s.rfTSBK with lastBlock := false } ∧
    (s.writeRF_TSDU_MBF c).events = s.events ∧
    (s.writeRF_TSDU_MBF c).mbfCnt = s.mbfCnt + 1 ∧
    (s.writeRF_TSDU_MBF c).p25 = s.p25 ∧
    (s.writeRF_TSDU_MBF c).rfMBF =
      tblSet (if s.mbfCnt = 0 then
          s.rfMBF.filter (fun e => decide (TSBK_MBF_CNT ≤ e.1)) else s.rfMBF) s.mbfCnt
        { s.rfTSBK with lastBlock := false } := by
  rw [writeRF_TSDU_MBF_stage s c hd hn]
  exact ⟨rfl, rfl, rfl, rfl, rfl⟩

theorem mbfBlocks_three (m : List (Nat × TSBK)) (b1 b2 b3 : TSBK) :
    mbfBlocks (tblSet (tblSet (tblSet m 0 b1) 1 b2) 2 b3) TSBK_MBF_CNT =
      [some b1, some b2, some b3] := by
  have e0 : tblAt (tblSet (tblSet (tblSet m 0 b1) 1 b2) 2 b3) 0 = some b1 := by
    rw [tblAt_tblSet_ne _ _ _ _ (by decide), tblAt_tblSet_ne _ _ _ _ (by decide),
      tblAt_tblSet_self]
  have e1 : tblAt (tblSet (tblSet (tblSet m 0 b1) 1 b2) 2 b3) 1 = some b2 := by
    rw [tblAt_tblSet_ne _ _ _ _ (by decide), tblAt_tblSet_self]
  have e2 : tblAt (tblSet (tblSet (tblSet m 0 b1) 1 b2) 2 b3) 2 = some b3 :=
    tblAt_tblSet_self _ _ _
  show List.map _ (List.range 3) = _
  rw [show List.range 3 = [0, 1, 2] from rfl]
  simp only [List.map, e0, e1, e2]

/-- Claim C27. The cursor `mbfCnt` of the multi-block buffer is always 0, 1
or 2: it is so after any sequence of calls into the frame shaper from a state
where it is so (it is 0 at construction). In duplex mode, starting from
`mbfCnt = 0`, the first and the second call of `writeRF_TSDU_MBF` stage their
TSBK with `lastBlock = false`, queue nothing and increment `mbfCnt`; the third
call stages its TSBK with `lastBlock = true`, queues exactly one frame, the
triple frame of the three staged blocks, passed with the length
`P25_TSDU_TRIPLE_FRAME_LENGTH_BYTES + 2` and the first two bytes `TAG_DATA`,
0x00, and resets `mbfCnt` to 0. With duplex disabled a call queues nothing,
zeroes the buffer and leaves `mbfCnt = 0`. -/
theorem writeRF_TSDU_MBF_burst (s : TrunkPacket) (ops : List MbfOp) (t1 t2 t3 : TSBK)
    (c1 c2 c3 : Bool) :
    (s.mbfCnt < TSBK_MBF_CNT →
      (s.mbfRun ops).mbfCnt = 0 ∨ (s.mbfRun ops).mbfCnt = 1 ∨ (s.mbfRun ops).mbfCnt = 2) ∧
    (s.p25.duplex = true → s.mbfCnt = 0 →
      (s.mbfRun [MbfOp.mbf t1 c1]).rfTSBK = { t1 with lastBlock := false } ∧
      (s.mbfRun [MbfOp.mbf t1 c1]).events = s.events ∧
      (s.mbfRun [MbfOp.mbf t1 c1]).mbfCnt = 1 ∧
      (s.mbfRun [MbfOp.mbf t1 c1, MbfOp.mbf t2 c2]).rfTSBK = { t2 with lastBlock := false } ∧
      (s.mbfRun [MbfOp.mbf t1 c1, MbfOp.mbf t2 c2]).events = s.events ∧
      (s.mbfRun [MbfOp.mbf t1 c1, MbfOp.mbf t2 c2]).mbfCnt = 2 ∧
      (s.mbfRun [MbfOp.mbf t1 c1, MbfOp.mbf t2 c2, MbfOp.mbf t3 c3]).rfTSBK =
        { t3 with lastBlock := true } ∧
      (s.mbfRun [MbfOp.mbf t1 c1, MbfOp.mbf t2 c2, MbfOp.mbf t3 c3]).events =
        s.events ++ (if c3 then [Event.clearP25Data] else []) ++
          [Event.writeQueueRF (Frame.mbf [some { t1 with lastBlock := false },
            some { t2 with lastBlock := false }, some { t3 with lastBlock := true }])] ∧
      (Frame.mbf [some { t1 with lastBlock := false }, some { t2 with lastBlock := false },
          some { t3 with lastBlock := true }]).shape =
        { tag := ModemTag.TAG_DATA, pad := 0,
          length := FrameLength.P25_TSDU_TRIPLE_FRAME_LENGTH_BYTES, extra := 2 } ∧
      (s.mbfRun [MbfOp.mbf t1 c1, MbfOp.mbf t2 c2, MbfOp.mbf t3 c3]).mbfCnt = 0) ∧
    (s.p25.duplex = false →
      (s.mbfRun [MbfOp.mbf t1 c1]).events = s.events ∧
      (s.mbfRun [MbfOp.mbf t1 c1]).rfMBF = [] ∧
      (s.mbfRun [MbfOp.mbf t1 c1]).mbfCnt = 0) := by
  refine ⟨?_, ?_, ?_⟩
  · intro h
    have := mbfCnt_mbfRun s ops h
    unfold TSBK_MBF_CNT at this
    omega
  · intro hd h0
    show ((s.setRfTSBK t1).writeRF_TSDU_MBF c1).rfTSBK = _ ∧
      ((s.setRfTSBK t1).writeRF_TSDU_MBF c1).events = _ ∧
      ((s.setRfTSBK t1).writeRF_TSDU_MBF c1).mbfCnt = _ ∧
      ((((s.setRfTSBK t1).writeRF_TSDU_MBF c1).setRfTSBK t2).writeRF_TSDU_MBF c2).rfTSBK = _ ∧
      ((((s.setRfTSBK t1).writeRF_TSDU_MBF c1).setRfTSBK t2).writeRF_TSDU_MBF c2).events = _ ∧
      ((((s.setRfTSBK t1).writeRF_TSDU_MBF c1).setRfTSBK t2).writeRF_TSDU_MBF c2).mbfCnt = _ ∧
      ((((((s.setRfTSBK t1).writeRF_TSDU_MBF c1).setRfTSBK t2).writeRF_TSDU_MBF
        c2).setRfTSBK t3).writeRF_TSDU_MBF c3).rfTSBK = _ ∧
      ((((((s.setRfTSBK t1).writeRF_TSDU_MBF c1).setRfTSBK t2).writeRF_TSDU_MBF
        c2).setRfTSBK t3).writeRF_TSDU_MBF c3).events = _ ∧ _ ∧
      ((((((s.setRfTSBK t1).writeRF_TSDU_MBF c1).setRfTSBK t2).writeRF_TSDU_MBF
        c2).setRfTSBK t3).writeRF_TSDU_MBF c3).mbfCnt = _
    obtain ⟨a1, a2, a3, a4, a5⟩ := writeRF_TSDU_MBF_stage_facts (s.setRfTSBK t1) c1 hd
      (by rw [mbfCnt_setRfTSBK, h0]; decide)
    rw [mbfCnt_setRfTSBK, h0] at a3 a5
    simp only [if_true] at a5
    generalize (s.setRfTSBK t1).writeRF_TSDU_MBF c1 = x1 at *
    obtain ⟨b1, b2, b3, b4, b5⟩ := writeRF_TSDU_MBF_stage_facts (x1.setRfTSBK t2) c2
      (by rw [p25_setRfTSBK, a4]; exact hd) (by rw [mbfCnt_setRfTSBK, a3]; decide)
    rw [mbfCnt_setRfTSBK, a3] at b3 b5
    simp only [Nat.zero_add, Nat.one_ne_zero, if_false] at b5
    generalize (x1.setRfTSBK t2).writeRF_TSDU_MBF c2 = x2 at *
    obtain ⟨d1, d2, d3, d4⟩ := writeRF_TSDU_MBF_flush (x2.setRfTSBK t3) c3
      (by rw [p25_setRfTSBK, b4, p25_setRfTSBK, a4]; exact hd)
      (by rw [mbfCnt_setRfTSBK, b3]; rfl)
    have a5' : x1.rfMBF = tblSet (s.rfMBF.filter (fun e => decide (TSBK_MBF_CNT ≤ e.1))) 0
        { t1 with lastBlock := false } := a5
    have b5' : x2.rfMBF = tblSet x1.rfMBF 1 { t2 with lastBlock := false } := b5
    have b3' : x2.mbfCnt = 2 := b3
    have b2' : x2.events = s.events := b2.trans a2
    have d2' : ((x2.setRfTSBK t3).writeRF_TSDU_MBF c3).events =
        x2.events ++ (if c3 then [Event.clearP25Data] else []) ++
          [Event.writeQueueRF (Frame.mbf (mbfBlocks (tblSet x2.rfMBF x2.mbfCnt
            { t3 with lastBlock := true }) TSBK_MBF_CNT))] := d2
    rw [b5', a5', b3', mbfBlocks_three, b2'] at d2'
    exact ⟨a1, a2, a3, b1, b2', b3, d1, d2', rfl, d4⟩
  · intro hd
    show ((s.setRfTSBK t1).writeRF_TSDU_MBF c1).events = _ ∧
      ((s.setRfTSBK t1).writeRF_TSDU_MBF c1).rfMBF = _ ∧
      ((s.setRfTSBK t1).writeRF_TSDU_MBF c1).mbfCnt = _
    rw [writeRF_TSDU_MBF_simplex _ _ (by rw [p25_setRfTSBK]; exact hd)]
    exact ⟨rfl, rfl, rfl⟩

end TrunkPacket
end p25

namespace p25
namespace TrunkPacket

/-! ### The adjacent site tables under the clock -/

theorem adjSiteTable_of_adj {s s1 : TrunkPacket} (h : s1.adj = s.adj) :
    s1.adjSiteTable = s.adjSiteTable := congrArg AdjSites.adjSiteTable h
theorem adjSiteUpdateCnt_of_adj {s s1 : TrunkPacket} (h : s1.adj = s.adj) :
    s1.adjSiteUpdateCnt = s.adjSiteUpdateCnt := congrArg AdjSites.adjSiteUpdateCnt h
theorem adjSiteUpdateTimer_of_adj {s s1 : TrunkPacket} (h : s1.adj = s.adj) :
    s1.adjSiteUpdateTimer = s.adjSiteUpdateTimer := congrArg AdjSites.adjSiteUpdateTimer h

@[simp] theorem adj_emit (s : TrunkPacket) (e : Event) : (s.emit e).adj = s.adj := rfl
@[simp] theorem adj_setRfTSBK (s : TrunkPacket) (t : TSBK) : (s.setRfTSBK t).adj = s.adj := rfl
@[simp] theorem adj_setNetTSBK (s : TrunkPacket) (t : TSBK) : (s.setNetTSBK t).adj = s.adj := rfl
@[simp] theorem adj_setStatus (s : TrunkPacket) (a b : Nat) : (s.setStatus a b).adj = s.adj := rfl
@[simp] theorem adj_setGrantTimers (s : TrunkPacket) (t : List (Nat × Timer)) :
    (s.setGrantTimers t).adj = s.adj := rfl
@[simp] theorem adj_setSiteChCnt (s : TrunkPacket) (c : Nat) : (s.setSiteChCnt c).adj = s.adj := rfl

@[simp] theorem adj_resetStatusCommand (s : TrunkPacket) : s.resetStatusCommand.adj = s.adj := by
  unfold resetStatusCommand; split_ifs <;> rfl

@[simp] theorem adj_resetStatusCommandTSBK (s : TrunkPacket) (t : TSBK) :
    (s.resetStatusCommandTSBK t).adj = s.adj := by
  unfold resetStatusCommandTSBK; split_ifs <;> simp

@[simp] theorem adj_writeNet_TSDU (s : TrunkPacket) : s.writeNet_TSDU.adj = s.adj := by
  unfold writeNet_TSDU; simp only []; split_ifs <;> rfl

theorem adj_releaseGrant (s : TrunkPacket) (k : Nat) : (s.releaseGrant k).adj = s.adj := by
  unfold releaseGrant releaseGranted
  simp only []
  split_ifs <;> rfl

theorem adj_foldl_releaseGrant (l : List Nat) (s : TrunkPacket) :
    (l.foldl releaseGrant s).adj = s.adj := by
  induction l generalizing s with
  | nil => rfl
  | cons k l ih => simp only [List.foldl_cons]; rw [ih, adj_releaseGrant]

/-- The counters after the adjacent site loop of `clock`, run on a snapshot
that holds no site twice and only sites and counters that fit a `uint8_t`:
the counter of a site of the snapshot is one less, stopping at zero, and any
other counter is as before. -/
theorem tblAt_clockAdjSites (l : List (Nat × Nat)) (s : TrunkPacket)
    (hnd : (tblKeys l).Nodup) (hw : ∀ e ∈ l, e.1 < 256 ∧ e.2 < 256) (k : Nat) :
    tblAt (clockAdjSites l s).adjSiteUpdateCnt k =
      match tblAt l k with
      | some c => some (c - 1)
      | none => tblAt s.adjSiteUpdateCnt k := by
  induction l generalizing s with
  | nil => rfl
  | cons x l ih =>
    obtain ⟨key, cnt⟩ := x
    have hk := (hw (key, cnt) (List.mem_cons_self _ _))
    have hnd' : (tblKeys l).Nodup := (List.nodup_cons.mp hnd).2
    have hnot : key ∉ tblKeys l := (List.nodup_cons.mp hnd).1
    have hw' : ∀ e ∈ l, e.1 < 256 ∧ e.2 < 256 := fun e he => hw e (List.mem_cons_of_mem _ he)
    simp only [clockAdjSites, Nat.mod_eq_of_lt hk.1, Nat.mod_eq_of_lt hk.2]
    rw [ih _ hnd' hw']
    by_cases hkk : key = k
    · subst hkk
      rw [tblAt_eq_none_of_not_mem_keys l key hnot]
      simp only [tblAt, if_true]
      rw [adjSiteUpdateCnt_setAdjSites, tblAt_tblSet_self]
      congr 1
      split_ifs <;> omega
    · simp only [tblAt, if_neg hkk]
      cases tblAt l k with
      | some c => rfl
      | none =>
        simp only []
        rw [adjSiteUpdateCnt_setAdjSites, tblAt_tblSet_ne _ _ _ _ hkk]

/-- The adjacent site loop of `clock` keeps the sites of the counter map. -/
theorem tblKeys_clockAdjSites (l : List (Nat × Nat)) (s : TrunkPacket)
    (hw : ∀ e ∈ l, e.1 < 256 ∧ e.1 ∈ tblKeys s.adjSiteUpdateCnt) :
    tblKeys (clockAdjSites l s).adjSiteUpdateCnt = tblKeys s.adjSiteUpdateCnt := by
  induction l generalizing s with
  | nil => rfl
  | cons x l ih =>
    obtain ⟨key, cnt⟩ := x
    have hk := (hw (key, cnt) (List.mem_cons_self _ _))
    simp only [clockAdjSites, Nat.mod_eq_of_lt hk.1]
    have e1 : tblKeys (tblSet s.adjSiteUpdateCnt key
        (if cnt % 256 > 0 then cnt % 256 - 1 else cnt % 256)) = tblKeys s.adjSiteUpdateCnt :=
      tblKeys_tblSet_of_mem _ _ _ hk.2
    rw [ih]
    · rw [adjSiteUpdateCnt_setAdjSites]; exact e1
    · intro e he
      rw [adjSiteUpdateCnt_setAdjSites, e1]
      exact hw e (List.mem_cons_of_mem _ he)

/-- The adjacent site loop of `clock` keeps every entry of the site table. -/
theorem adjSiteTable_clockAdjSites (l : List (Nat × Nat)) (s : TrunkPacket) (k : Nat)
    (e : SiteData) (h : tblAt s.adjSiteTable k = some e) :
    tblAt (clockAdjSites l s).adjSiteTable k = some e := by
  induction l generalizing s with
  | nil => exact h
  | cons x l ih =>
    obtain ⟨key, cnt⟩ := x
    simp only [clockAdjSites]
    apply ih
    rw [adjSiteTable_setAdjSites]
    have hm : tblAt (match tblAt s.adjSiteTable (key % 256) with
        | some _ => s.adjSiteTable
        | none => tblSet s.adjSiteTable (key % 256) {}) k = some e := by
      cases hq : tblAt s.adjSiteTable (key % 256) with
      | some v => exact h
      | none =>
        simp only []
        have hne : key % 256 ≠ k := by
          intro hh; rw [hh, h] at hq; exact Option.noConfusion hq
        rw [tblAt_tblSet_ne _ _ _ _ hne]; exact h
    split_ifs
    all_goals first
      | exact h
      | exact hm

end TrunkPacket
end p25

namespace p25
namespace TrunkPacket

theorem mem_tblSet {β : Type} (m : List (Nat × β)) (k : Nat) (v : β) (e : Nat × β)
    (h : e ∈ tblSet m k v) : e ∈ m ∨ e = (k, v) := by
  induction m with
  | nil =>
    simp only [tblSet, List.mem_singleton] at h
    exact Or.inr h
  | cons x m ih =>
    obtain ⟨a, b⟩ := x
    by_cases hk : a = k
    · simp only [tblSet, hk, if_true, List.mem_cons] at h ⊢
      rcases h with h | h
      · exact Or.inr h
      · exact Or.inl (Or.inr h)
    · simp only [tblSet, hk, if_false, List.mem_cons] at h ⊢
      rcases h with h | h
      · exact Or.inl (Or.inl h)
      · rcases ih h with h1 | h1
        · exact Or.inl (Or.inr h1)
        · exact Or.inr h1

/-- The adjacent site tables after `clock`: when the update timer is found
expired they are those of the adjacent site loop, run on the counters of
entry; otherwise they are unchanged. -/
theorem clock_adj (s : TrunkPacket) (ms : Nat) :
    ∃ x : TrunkPacket, x.adjSiteTable = s.adjSiteTable ∧
      x.adjSiteUpdateCnt = s.adjSiteUpdateCnt ∧
      (s.clock ms).adjSiteTable =
        (if s.adjSiteTimerExpires ms then (clockAdjSites s.adjSiteUpdateCnt x).adjSiteTable
         else s.adjSiteTable) ∧
      (s.clock ms).adjSiteUpdateCnt =
        (if s.adjSiteTimerExpires ms then (clockAdjSites s.adjSiteUpdateCnt x).adjSiteUpdateCnt
         else s.adjSiteUpdateCnt) := by
  cases hc : s.p25.control with
  | false =>
    refine ⟨s, rfl, rfl, ?_, ?_⟩ <;>
      rw [clock_of_not_control s ms hc] <;> simp [adjSiteTimerExpires, hc]
  | true =>
    have hy : ((clockGrantTimers ms (tblKeys s.grantChTable) s.grantTimers []).2.foldl
        releaseGrant (s.setGrantTimers
          (clockGrantTimers ms (tblKeys s.grantChTable) s.grantTimers []).1)).adj = s.adj :=
      (adj_foldl_releaseGrant _ _).trans (adj_setGrantTimers _ _)
    unfold clock
    rw [if_pos hc]
    simp only []
    generalize (clockGrantTimers ms (tblKeys s.grantChTable) s.grantTimers []).2.foldl
        releaseGrant (s.setGrantTimers
          (clockGrantTimers ms (tblKeys s.grantChTable) s.grantTimers []).1) = y at hy
    have ht : y.adjSiteUpdateTimer = s.adjSiteUpdateTimer := adjSiteUpdateTimer_of_adj hy
    have e1 : y.adjSiteTable = s.adjSiteTable := adjSiteTable_of_adj hy
    have e2 : y.adjSiteUpdateCnt = s.adjSiteUpdateCnt := adjSiteUpdateCnt_of_adj hy
    refine ⟨y.setAdjSiteUpdateTimer (y.adjSiteUpdateTimer.clock ms), e1, e2, ?_, ?_⟩
    · unfold clockAdjSiteUpdateTimer
      simp only []
      have hcond :
          ((y.setAdjSiteUpdateTimer
              (y.adjSiteUpdateTimer.clock ms)).adjSiteUpdateTimer.isRunning &&
            (y.setAdjSiteUpdateTimer
              (y.adjSiteUpdateTimer.clock ms)).adjSiteUpdateTimer.hasExpired) =
          s.adjSiteTimerExpires ms := by
        show ((y.adjSiteUpdateTimer.clock ms).isRunning &&
          (y.adjSiteUpdateTimer.clock ms).hasExpired) = _
        rw [ht]
        simp [adjSiteTimerExpires, hc]
      rw [hcond]
      cases s.adjSiteTimerExpires ms with
      | true =>
        simp only [if_true]
        show (clockAdjSites y.adjSiteUpdateCnt _).adjSiteTable = _
        rw [e2]
      | false => exact e1
    · unfold clockAdjSiteUpdateTimer
      simp only []
      have hcond :
          ((y.setAdjSiteUpdateTimer
              (y.adjSiteUpdateTimer.clock ms)).adjSiteUpdateTimer.isRunning &&
            (y.setAdjSiteUpdateTimer
              (y.adjSiteUpdateTimer.clock ms)).adjSiteUpdateTimer.hasExpired) =
          s.adjSiteTimerExpires ms := by
        show ((y.adjSiteUpdateTimer.clock ms).isRunning &&
          (y.adjSiteUpdateTimer.clock ms).hasExpired) = _
        rw [ht]
        simp [adjSiteTimerExpires, hc]
      rw [hcond]
      cases s.adjSiteTimerExpires ms with
      | true =>
        simp only [if_true]
        show (clockAdjSites y.adjSiteUpdateCnt _).adjSiteUpdateCnt = _
        rw [e2]
      | false => exact e2

/-- One `clock` on well-formed counters: they stay well-formed, an entry of
the site table stays, and its counter is one less, stopping at zero, if the
update timer is found expired, and unchanged if not. -/
theorem clock_adj_facts (s : TrunkPacket) (ms site n : Nat) (e : SiteData) (hinv : s.AdjInv)
    (hc : tblAt s.adjSiteUpdateCnt site = some n) (he : tblAt s.adjSiteTable site = some e) :
    (s.clock ms).AdjInv ∧
    tblAt (s.clock ms).adjSiteUpdateCnt site =
      some (n - (if s.adjSiteTimerExpires ms then 1 else 0)) ∧
    tblAt (s.clock ms).adjSiteTable site = some e := by
  obtain ⟨x, x1, x2, h1, h2⟩ := clock_adj s ms
  cases hexp : s.adjSiteTimerExpires ms with
  | false =>
    rw [hexp] at h1 h2
    simp only [Bool.false_eq_true, if_false] at h1 h2 ⊢
    unfold AdjInv
    rw [h1, h2]
    exact ⟨hinv, hc, he⟩
  | true =>
    rw [hexp] at h1 h2
    simp only [if_true] at h1 h2 ⊢
    have hA := tblAt_clockAdjSites s.adjSiteUpdateCnt x hinv.1 hinv.2
    have hK : tblKeys (clockAdjSites s.adjSiteUpdateCnt x).adjSiteUpdateCnt =
        tblKeys s.adjSiteUpdateCnt := by
      rw [tblKeys_clockAdjSites s.adjSiteUpdateCnt x, x2]
      intro e' he'
      rw [x2]
      exact ⟨(hinv.2 e' he').1, List.mem_map_of_mem Prod.fst he'⟩
    have hnd : (tblKeys (s.clock ms).adjSiteUpdateCnt).Nodup := by
      rw [h2, hK]; exact hinv.1
    refine ⟨⟨hnd, ?_⟩, ?_, ?_⟩
    · intro e' he'
      have ht := tblAt_of_mem_nodup _ e'.1 e'.2 hnd he'
      rw [h2, hA e'.1] at ht
      cases hq : tblAt s.adjSiteUpdateCnt e'.1 with
      | some c =>
        rw [hq] at ht
        simp only [Option.some.injEq] at ht
        have hb := hinv.2 _ (tblAt_eq_some_mem _ _ _ hq)
        simp only [] at hb
        exact ⟨hb.1, by omega⟩
      | none =>
        rw [hq] at ht
        simp only [] at ht
        rw [x2, hq] at ht
        exact Option.noConfusion ht
    · rw [h2, hA site, hc]
    · rw [h1]
      exact adjSiteTable_clockAdjSites _ _ _ _ (by rw [x1]; exact he)

end TrunkPacket
end p25

namespace p25
namespace TrunkPacket

/-! ### The adjacent site tables under the network and in the broadcasts -/

theorem adj_processNetworkLCO (acl : AccessControl) (s : TrunkPacket) (a d : Nat) :
    (processNetworkLCO acl s a d).2.adj = s.adj := by
  unfold processNetworkLCO
  cases s.netTSBK.lco <;>
    simp only [processNetwork_UPDT, processNetwork_CALL_ALRT, processNetwork_ACK_RSP,
      processNetwork_EXT_FNCT, VALID_SRCID_NET, VALID_DSTID_NET] <;>
    split_ifs <;> simp

/-- What `processNetwork` does to the adjacent site tables: nothing, or the
adjacent site update of a broadcast. -/
theorem adj_processNetwork (acl : AccessControl) (s : TrunkPacket) (f : NetFrame) :
    (processNetwork acl s f).2.adj = s.adj ∨
    (f.tsbk.lco = LCO.TSBK_OSP_ADJ_STS_BCAST ∧
      (processNetwork acl s f).2.adj =
        ((s.setRfTSBK f.rfTSBK).setNetTSBK f.tsbk).updateAdjSite.adj) := by
  unfold processNetwork
  simp only [netTSBK_setNetTSBK]
  split_ifs with h1 h2 h3 h4 h5 h6
  all_goals first
    | exact Or.inl rfl
    | exact Or.inr ⟨h5, rfl⟩
    | skip
  left
  rcases hq : processNetworkLCO acl
    (((s.setRfTSBK f.rfTSBK).setNetTSBK f.tsbk).resetStatusCommandTSBK f.tsbk) f.tsbk.srcId
    f.tsbk.dstId with ⟨r, s1⟩
  have ha := adj_processNetworkLCO acl
    (((s.setRfTSBK f.rfTSBK).setNetTSBK f.tsbk).resetStatusCommandTSBK f.tsbk) f.tsbk.srcId
    f.tsbk.dstId
  rw [hq] at ha
  simp only [adj_resetStatusCommandTSBK, adj_setNetTSBK, adj_setRfTSBK] at ha
  cases r with
  | none => simp only []; rw [adj_writeNet_TSDU]; exact ha
  | some b => exact ha

/-- The adjacent site update of a broadcast about another site than `site`,
on well-formed counters: they stay well-formed, and the entry and the counter
of `site` are unchanged. -/
theorem updateAdjSite_facts (s : TrunkPacket) (site : Nat) (hinv : s.AdjInv)
    (hne : s.netTSBK.adjSiteId ≠ site) (hfit : s.netTSBK.adjSiteId < 256) :
    s.updateAdjSite.AdjInv ∧
    tblAt s.updateAdjSite.adjSiteUpdateCnt site = tblAt s.adjSiteUpdateCnt site ∧
    tblAt s.updateAdjSite.adjSiteTable site = tblAt s.adjSiteTable site := by
  unfold updateAdjSite
  split_ifs with h
  · simp only []
    refine ⟨⟨nodup_tblKeys_tblSet _ _ _ hinv.1, ?_⟩, tblAt_tblSet_ne _ _ _ _ hne,
      tblAt_tblSet_ne _ _ _ _ hne⟩
    intro e he
    rcases mem_tblSet _ _ _ _ he with h1 | h1
    · exact hinv.2 e h1
    · rw [h1]
      exact ⟨hfit, (by decide : ADJ_SITE_UPDATE_CNT < 256)⟩
  · exact ⟨hinv, rfl, rfl⟩

theorem AdjInv_of_adj {s s1 : TrunkPacket} (h : s1.adj = s.adj) (hinv : s.AdjInv) :
    s1.AdjInv := by
  unfold AdjInv
  rw [adjSiteUpdateCnt_of_adj h]
  exact hinv

/-- One network frame that is not a broadcast about `site`, on well-formed
counters: they stay well-formed, and the entry and the counter of `site` are
unchanged. -/
theorem processNetwork_adj_facts (acl : AccessControl) (s : TrunkPacket) (f : NetFrame)
    (site : Nat) (hinv : s.AdjInv)
    (hnot : ¬ (f.tsbk.lco = LCO.TSBK_OSP_ADJ_STS_BCAST ∧ f.tsbk.adjSiteId = site))
    (hfit : f.tsbk.adjSiteId < 256) :
    (processNetwork acl s f).2.AdjInv ∧
    tblAt (processNetwork acl s f).2.adjSiteUpdateCnt site = tblAt s.adjSiteUpdateCnt site ∧
    tblAt (processNetwork acl s f).2.adjSiteTable site = tblAt s.adjSiteTable site := by
  rcases adj_processNetwork acl s f with h | ⟨hl, h⟩
  · exact ⟨AdjInv_of_adj h hinv, by rw [adjSiteUpdateCnt_of_adj h],
      by rw [adjSiteTable_of_adj h]⟩
  · have hne : f.tsbk.adjSiteId ≠ site := fun hh => hnot ⟨hl, hh⟩
    obtain ⟨u1, u2, u3⟩ := updateAdjSite_facts ((s.setRfTSBK f.rfTSBK).setNetTSBK f.tsbk) site
      hinv hne hfit
    exact ⟨AdjInv_of_adj h u1, by rw [adjSiteUpdateCnt_of_adj h]; exact u2,
      by rw [adjSiteTable_of_adj h]; exact u3⟩

/-- A run of clocks and network frames, none of them a broadcast about
`site`: the entry of `site` stays, and its counter has lost one per expiry of
the update timer, stopping at zero. -/
theorem adjRun_facts (acl : AccessControl) (ops : List AdjOp) (s : TrunkPacket) (site n : Nat)
    (e : SiteData) (hinv : s.AdjInv) (hc : tblAt s.adjSiteUpdateCnt site = some n)
    (he : tblAt s.adjSiteTable site = some e)
    (hops : ∀ op ∈ ops, op.isBcastOf site = false ∧ op.siteIdFits = true) :
    tblAt (adjRun acl s ops).adjSiteUpdateCnt site = some (n - adjExpiries acl s ops) ∧
    tblAt (adjRun acl s ops).adjSiteTable site = some e := by
  induction ops generalizing s n with
  | nil => exact ⟨hc, he⟩
  | cons op ops ih =>
    have hops' : ∀ op ∈ ops, op.isBcastOf site = false ∧ op.siteIdFits = true :=
      fun o ho => hops o (List.mem_cons_of_mem _ ho)
    have hop := hops op (List.mem_cons_self _ _)
    cases op with
    | clock ms =>
      obtain ⟨k1, k2, k3⟩ := clock_adj_facts s ms site n e hinv hc he
      obtain ⟨r1, r2⟩ := ih (s.clock ms) _ k1 k2 k3 hops'
      refine ⟨?_, r2⟩
      show tblAt (adjRun acl (s.clock ms) ops).adjSiteUpdateCnt site = _
      rw [r1]
      simp only [adjExpiries]
      congr 1
      omega
    | net f =>
      have hnot : ¬ (f.tsbk.lco = LCO.TSBK_OSP_ADJ_STS_BCAST ∧ f.tsbk.adjSiteId = site) := by
        simpa [AdjOp.isBcastOf] using hop.1
      have hfit : f.tsbk.adjSiteId < 256 := by simpa [AdjOp.siteIdFits] using hop.2
      obtain ⟨k1, k2, k3⟩ := processNetwork_adj_facts acl s f site hinv hnot hfit
      exact ih (processNetwork acl s f).2 n k1 (k2.trans hc) (k3.trans he) hops'

end TrunkPacket
end p25

namespace p25
namespace TrunkPacket

@[simp] theorem adjSiteTable_setMbfAdjSSCnt (s : TrunkPacket) (c : Nat) :
    (s.setMbfAdjSSCnt c).adjSiteTable = s.adjSiteTable := rfl
@[simp] theorem adjSiteUpdateCnt_setMbfAdjSSCnt (s : TrunkPacket) (c : Nat) :
    (s.setMbfAdjSSCnt c).adjSiteUpdateCnt = s.adjSiteUpdateCnt := rfl
@[simp] theorem mbfAdjSSCnt_setRfTSBK (s : TrunkPacket) (t : TSBK) :
    (s.setRfTSBK t).mbfAdjSSCnt = s.mbfAdjSSCnt := rfl
@[simp] theorem rfTSBK_setMbfAdjSSCnt (s : TrunkPacket) (c : Nat) :
    (s.setMbfAdjSSCnt c).rfTSBK = s.rfTSBK := rfl
@[simp] theorem rfTSBK_setAdjSites (s : TrunkPacket) (t : List (Nat × SiteData))
    (c : List (Nat × Nat)) : (s.setAdjSites t c).rfTSBK = s.rfTSBK := rfl

/-- The adjacent site broadcast built by `queueRF_TSBK_Ctrl_MBF` when the
cursor `mbfAdjSSCnt` stands on the entry `site` of the site table: the
identity of the entry, and the CFVA flags CONV and NETWORK with FAILURE if
the update counter of the site is zero and VALID if not. -/
theorem rfTSBK_queueRF_ADJ_STS_BCAST (reset : TSBK → TSBK) (walk : AdjSiteWalk) (s : TrunkPacket) (k : Nat)
    (site : SiteData) (hw : AdjSiteWalk.Lawful walk)
    (hget : (walk s.adjSiteTable).get? s.mbfAdjSSCnt = some (k, site)) :
    ∃ b, (queueRF_TSBK_Ctrl_MBF reset walk s LCO.TSBK_OSP_ADJ_STS_BCAST).rfTSBK =
      { reset s.rfTSBK with
        lco := LCO.TSBK_OSP_ADJ_STS_BCAST,
        adjSiteCFVA :=
          if (tblAt s.adjSiteUpdateCnt site.siteId).getD 0 = 0 then
            { conv := true, network := true, failure := true }
          else { conv := true, network := true, valid := true },
        adjSiteSysId := site.sysId, adjSiteRFSSId := site.rfssId, adjSiteId := site.siteId,
        adjSiteChnId := site.channelId, adjSiteChnNo := site.channelNo, lastBlock := b } := by
  have hlt : s.mbfAdjSSCnt < s.adjSiteTable.length := by
    rw [← (hw s.adjSiteTable).length_eq]
    by_contra hh
    rw [List.get?_eq_none.mpr (not_lt.mp hh)] at hget
    exact Option.noConfusion hget
  have hc : ∃ x : TrunkPacket, (s.setRfTSBK (reset s.rfTSBK)).ctrlTSBK walk
      LCO.TSBK_OSP_ADJ_STS_BCAST = (true, x) ∧
      x.rfTSBK = { reset s.rfTSBK with
        lco := LCO.TSBK_OSP_ADJ_STS_BCAST,
        adjSiteCFVA :=
          if (tblAt s.adjSiteUpdateCnt site.siteId).getD 0 = 0 then
            { conv := true, network := true, failure := true }
          else { conv := true, network := true, valid := true },
        adjSiteSysId := site.sysId, adjSiteRFSSId := site.rfssId, adjSiteId := site.siteId,
        adjSiteChnId := site.channelId, adjSiteChnNo := site.channelNo } := by
    unfold ctrlTSBK
    simp only [adjSiteTable_setRfTSBK, mbfAdjSSCnt_setRfTSBK]
    rw [if_pos (by omega), if_neg (by omega)]
    simp only [adjSiteTable_setRfTSBK, mbfAdjSSCnt_setRfTSBK, hget,
      adjSiteUpdateCnt_setRfTSBK]
    have hcases : tblAt s.adjSiteUpdateCnt site.siteId = none ∨
        ∃ c, tblAt s.adjSiteUpdateCnt site.siteId = some c := by
      cases tblAt s.adjSiteUpdateCnt site.siteId with
      | none => exact Or.inl rfl
      | some c => exact Or.inr ⟨c, rfl⟩
    rcases hcases with hq | ⟨c, hq⟩
    · simp only [hq]
      exact ⟨_, rfl, rfl⟩
    · simp only [hq, Option.getD_some]
      refine ⟨_, rfl, ?_⟩
      split_ifs <;> rfl
  obtain ⟨x, hx1, hx2⟩ := hc
  unfold queueRF_TSBK_Ctrl_MBF
  simp only []
  rw [hx1]
  simp only []
  obtain ⟨b, hb⟩ := rfTSBK_writeRF_TSDU_MBF (x.setLastBlock true) false
  refine ⟨b, ?_⟩
  rw [hb, rfTSBK_setLastBlock, hx2]

/-- Claim C25. After an adjacent site has been upserted (its entry is in the
site table and its counter is `ADJ_SITE_UPDATE_CNT`, which is 5) and the
adjacent site update timer has expired k times in `clock`, with no further
ADJ_STS_BCAST for the site, the entry of the site is still present and its
counter is 5 - k, stopping at zero; the ADJ_STS_BCAST that
`queueRF_TSBK_Ctrl_MBF` builds for the site carries the FAILURE flag in CFVA
if and only if the counter is zero (k >= 5) and the VALID flag otherwise,
never both. -/
theorem adjSite_ages (acl : AccessControl) (s : TrunkPacket) (ops : List AdjOp) (site : Nat)
    (e : SiteData) (reset : TSBK → TSBK) (walk : AdjSiteWalk) (hw : AdjSiteWalk.Lawful walk)
    (hinv : s.AdjInv)
    (hc : tblAt s.adjSiteUpdateCnt site = some ADJ_SITE_UPDATE_CNT)
    (he : tblAt s.adjSiteTable site = some e) (hid : e.siteId = site)
    (hops : ∀ op ∈ ops, op.isBcastOf site = false ∧ op.siteIdFits = true) :
    tblAt (adjRun acl s ops).adjSiteTable site = some e ∧
    tblAt (adjRun acl s ops).adjSiteUpdateCnt site = some (5 - adjExpiries acl s ops) ∧
    ∀ k : Nat,
      (walk (adjRun acl s ops).adjSiteTable).get? (adjRun acl s ops).mbfAdjSSCnt =
        some (k, e) →
      (queueRF_TSBK_Ctrl_MBF reset walk (adjRun acl s ops) LCO.TSBK_OSP_ADJ_STS_BCAST).rfTSBK.lco =
        LCO.TSBK_OSP_ADJ_STS_BCAST ∧
      (queueRF_TSBK_Ctrl_MBF reset walk (adjRun acl s ops)
        LCO.TSBK_OSP_ADJ_STS_BCAST).rfTSBK.adjSiteId = site ∧
      ((queueRF_TSBK_Ctrl_MBF reset walk (adjRun acl s ops)
        LCO.TSBK_OSP_ADJ_STS_BCAST).rfTSBK.adjSiteCFVA.failure = true ↔
          5 ≤ adjExpiries acl s ops) ∧
      ((queueRF_TSBK_Ctrl_MBF reset walk (adjRun acl s ops)
        LCO.TSBK_OSP_ADJ_STS_BCAST).rfTSBK.adjSiteCFVA.valid = true ↔
          adjExpiries acl s ops < 5) ∧
      ¬ ((queueRF_TSBK_Ctrl_MBF reset walk (adjRun acl s ops)
          LCO.TSBK_OSP_ADJ_STS_BCAST).rfTSBK.adjSiteCFVA.failure = true ∧
        (queueRF_TSBK_Ctrl_MBF reset walk (adjRun acl s ops)
          LCO.TSBK_OSP_ADJ_STS_BCAST).rfTSBK.adjSiteCFVA.valid = true) := by
  obtain ⟨r1, r2⟩ := adjRun_facts acl ops s site ADJ_SITE_UPDATE_CNT e hinv hc he hops
  refine ⟨r2, r1, ?_⟩
  intro k hget
  obtain ⟨b, hb⟩ := rfTSBK_queueRF_ADJ_STS_BCAST reset walk (adjRun acl s ops) k e hw hget
  rw [hb, hid, r1]
  simp only [Option.getD_some]
  have h5 : ADJ_SITE_UPDATE_CNT = 5 := rfl
  rw [h5]
  by_cases hz : 5 - adjExpiries acl s ops = 0
  · rw [if_pos hz]
    simp only [true_and, and_true, Bool.false_eq_true, iff_true, true_iff, false_iff, not_lt,
      not_false_eq_true, and_false]
    omega
  · rw [if_neg hz]
    simp only [true_and, and_true, Bool.false_eq_true, iff_true, true_iff, false_iff, not_le,
      not_false_eq_true, false_and]
    omega

theorem adjSite_ages_witness :
    adjExpiries aclAcceptAll scenarioAdjUpserted fiveTicks = 5 ∧
    tblAt (adjRun aclAcceptAll scenarioAdjUpserted fiveTicks).adjSiteUpdateCnt 2 =
      some (5 - adjExpiries aclAcceptAll scenarioAdjUpserted fiveTicks) :=
  ⟨by decide,
    (adjSite_ages aclAcceptAll scenarioAdjUpserted fiveTicks 2
      { sysId := 0x294, rfssId := 1, siteId := 2, channelId := 1, channelNo := 10 } id
      newestFirst newestFirst_lawful (by unfold AdjInv; decide) (by decide) (by decide) rfl (by decide)).2.1⟩

end TrunkPacket
end p25

namespace p25
namespace TrunkPacket

/-- Claim C26 fails on the code: with the RF side listening and the network
side idle, a GRP_AFF from the network, and likewise a U_DEREG_ACK, leaves the
registries and the voice channel pool as they are, but is not ignored:
`processNetwork` returns true and the TSBK, re-encoded as a single-block
frame, is queued by `writeQueueNet`. -/
theorem processNetwork_GRP_AFF_enqueues :
    scenarioRegistered.p25.rfState = RPT_RF_STATE.RS_RF_LISTENING ∧
    scenarioRegistered.p25.netState = RPT_NET_STATE.RS_NET_IDLE ∧
    scenarioRegistered.events = [] ∧
    (processNetwork aclAcceptAll scenarioRegistered (netTSDU netGrpAff)).1 = true ∧
    (processNetwork aclAcceptAll scenarioRegistered (netTSDU netGrpAff)).2.events =
      [Event.writeQueueNet (Frame.sbf { netGrpAff with lastBlock := true })] ∧
    (processNetwork aclAcceptAll scenarioRegistered (netTSDU netGrpAff)).2.reg =
      scenarioRegistered.reg ∧
    (processNetwork aclAcceptAll scenarioRegistered (netTSDU netGrpAff)).2.pool =
      scenarioRegistered.pool ∧
    (processNetwork aclAcceptAll scenarioRegistered (netTSDU netUDeregAck)).1 = true ∧
    (processNetwork aclAcceptAll scenarioRegistered (netTSDU netUDeregAck)).2.events =
      [Event.writeQueueNet (Frame.sbf { netUDeregAck with lastBlock := true })] ∧
    (processNetwork aclAcceptAll scenarioRegistered (netTSDU netUDeregAck)).2.reg =
      scenarioRegistered.reg ∧
    (processNetwork aclAcceptAll scenarioRegistered (netTSDU netUDeregAck)).2.pool =
      scenarioRegistered.pool := by
  decide

theorem writeRF_TSDU_MBF_burst_witness :
    ((({} : TrunkPacket).mbfRun [MbfOp.mbf { lco := LCO.TSBK_OSP_IDEN_UP } false,
        MbfOp.mbf { lco := LCO.TSBK_OSP_RFSS_STS_BCAST } false]).mbfCnt = 0 ∨
      (({} : TrunkPacket).mbfRun [MbfOp.mbf { lco := LCO.TSBK_OSP_IDEN_UP } false,
        MbfOp.mbf { lco := LCO.TSBK_OSP_RFSS_STS_BCAST } false]).mbfCnt = 1 ∨
      (({} : TrunkPacket).mbfRun [MbfOp.mbf { lco := LCO.TSBK_OSP_IDEN_UP } false,
        MbfOp.mbf { lco := LCO.TSBK_OSP_RFSS_STS_BCAST } false]).mbfCnt = 2) ∧
    (({} : TrunkPacket).mbfRun [MbfOp.mbf { lco := LCO.TSBK_OSP_IDEN_UP } false,
        MbfOp.mbf { lco := LCO.TSBK_OSP_RFSS_STS_BCAST } false,
        MbfOp.mbf { lco := LCO.TSBK_OSP_NET_STS_BCAST } false]).mbfCnt = 0 ∧
    (scenarioSimplex.mbfRun [MbfOp.mbf { lco := LCO.TSBK_OSP_IDEN_UP } false]).rfMBF = [] :=
  ⟨(writeRF_TSDU_MBF_burst {}
      [MbfOp.mbf { lco := LCO.TSBK_OSP_IDEN_UP } false,
        MbfOp.mbf { lco := LCO.TSBK_OSP_RFSS_STS_BCAST } false]
      { lco := LCO.TSBK_OSP_IDEN_UP } { lco := LCO.TSBK_OSP_RFSS_STS_BCAST }
      { lco := LCO.TSBK_OSP_NET_STS_BCAST } false false false).1 (by decide),
    ((writeRF_TSDU_MBF_burst {} []
      { lco := LCO.TSBK_OSP_IDEN_UP } { lco := LCO.TSBK_OSP_RFSS_STS_BCAST }
      { lco := LCO.TSBK_OSP_NET_STS_BCAST } false false false).2.1 rfl rfl).2.2.2.2.2.2.2.2.2,
    ((writeRF_TSDU_MBF_burst scenarioSimplex []
      { lco := LCO.TSBK_OSP_IDEN_UP } { lco := LCO.TSBK_OSP_RFSS_STS_BCAST }
      { lco := LCO.TSBK_OSP_NET_STS_BCAST } false false false).2.2 rfl).2.1⟩

end TrunkPacket
end p25

namespace network
namespace RawFrameQueue

/-! ## The raw frame queue: one batch per flush -/

/-- Messages of positive length are all queued, in order, each as a datagram
with its `length` first bytes; the trace of socket writes does not move. -/
theorem enqueueAll_spec (msgs : List Message) (q : RawFrameQueue)
    (hlen : ∀ m ∈ msgs, 0 < m.length) :
    enqueueAll q msgs = some
      { q with
        buffers := q.buffers ++ msgs.map (fun m =>
          { buffer := m.message.take m.length ++
              List.replicate (m.length - m.message.length) 0,
            length := m.length, address := m.addr, addrLen := m.addrLen }) } := by
  induction msgs generalizing q with
  | nil => simp [enqueueAll]
  | cons m ms ih =>
    have hm : m.length ≠ 0 := Nat.pos_iff_ne_zero.mp (hlen m (List.mem_cons_self _ _))
    simp only [enqueueAll, enqueueMessage, if_neg hm]
    rw [ih _ (fun x hx => hlen x (List.mem_cons_of_mem _ hx))]
    simp

theorem flushQueue_empty (sock : List UDPDatagram → Bool) (q : RawFrameQueue)
    (h : q.buffers = []) : flushQueue sock q = (false, q) := by
  unfold flushQueue
  simp [h]

theorem flushQueue_nonempty (sock : List UDPDatagram → Bool) (q : RawFrameQueue)
    (h : q.buffers ≠ []) :
    flushQueue sock q = (sock q.buffers, { buffers := [], writes := q.writes ++ [q.buffers] }) := by
  unfold flushQueue
  have h1 : q.buffers.isEmpty = false := by
    cases hq : q.buffers with
    | nil => exact absurd hq h
    | cons a l => rfl
  have h2 : q.buffers.length ≠ 0 := fun hh => h (List.length_eq_zero.mp hh)
  simp only [h1, Bool.false_eq_true, if_false, h2, deleteBuffers]
  cases sock q.buffers <;> rfl

/-- Claim C29. `flushQueue` on an empty queue returns false and performs no
socket write. After messages of positive length have been queued by
`enqueueMessage` on an empty queue, `flushQueue` hands all the datagrams, in
the order of the calls and with the enqueued bytes and lengths, to a single
socket write, returns true exactly when that write succeeds, and leaves the
queue empty whether or not the write succeeded: the next `flushQueue` returns
false without a socket write. -/
theorem flushQueue_drains (sock : List UDPDatagram → Bool) (q0 : RawFrameQueue)
    (msgs : List Message) (h0 : q0.buffers = []) (hne : msgs ≠ [])
    (hlen : ∀ m ∈ msgs, 0 < m.length) :
    flushQueue sock q0 = (false, q0) ∧
    ∃ q : RawFrameQueue, enqueueAll q0 msgs = some q ∧
      (flushQueue sock q).2.writes = q0.writes ++ [msgs.map (fun m =>
        { buffer := m.message.take m.length ++
            List.replicate (m.length - m.message.length) 0,
          length := m.length, address := m.addr, addrLen := m.addrLen })] ∧
      (flushQueue sock q).1 = sock (msgs.map (fun m =>
        { buffer := m.message.take m.length ++
            List.replicate (m.length - m.message.length) 0,
          length := m.length, address := m.addr, addrLen := m.addrLen })) ∧
      (flushQueue sock q).2.buffers = [] ∧
      flushQueue sock (flushQueue sock q).2 = (false, (flushQueue sock q).2) := by
  refine ⟨flushQueue_empty sock q0 h0, _, enqueueAll_spec msgs q0 hlen, ?_⟩
  have hb : ∀ f : Message → UDPDatagram, q0.buffers ++ msgs.map f ≠ [] := by
    intro f
    rw [h0, List.nil_append]
    intro hh
    exact hne (List.map_eq_nil_iff.mp hh)
  rw [flushQueue_nonempty sock _ (hb _)]
  simp only [h0, List.nil_append]
  exact ⟨trivial, trivial, trivial, flushQueue_empty sock _ rfl⟩

theorem flushQueue_drains_witness :
    (flushQueue (fun _ => false) {}).1 = false ∧
    ∃ q : RawFrameQueue,
      enqueueAll {} [{ message := [1, 2, 3], length := 3, addr := 7, addrLen := 16 },
        { message := [4, 5], length := 2, addr := 7, addrLen := 16 }] = some q ∧
      (flushQueue (fun _ => false) q).2.writes =
        [[{ buffer := [1, 2, 3], length := 3, address := 7, addrLen := 16 },
          { buffer := [4, 5], length := 2, address := 7, addrLen := 16 }]] ∧
      (flushQueue (fun _ => false) q).1 = false ∧
      (flushQueue (fun _ => false) q).2.buffers = [] :=
  ⟨congrArg Prod.fst (flushQueue_drains (fun _ => false) {}
      [{ message := [1, 2, 3], length := 3, addr := 7, addrLen := 16 },
        { message := [4, 5], length := 2, addr := 7, addrLen := 16 }] rfl (by decide)
      (by decide)).1,
    (flushQueue_drains (fun _ => false) {}
      [{ message := [1, 2, 3], length := 3, addr := 7, addrLen := 16 },
        { message := [4, 5], length := 2, addr := 7, addrLen := 16 }] rfl (by decide)
      (by decide)).2.imp (fun _ h => ⟨h.1, h.2.1, h.2.2.1, h.2.2.2.1⟩)⟩

end RawFrameQueue
end network

namespace p25
namespace TrunkPacket

theorem reg_writeNet_TSDU (s : TrunkPacket) : s.writeNet_TSDU.reg = s.reg := by
  unfold writeNet_TSDU
  simp only []
  split_ifs <;> rfl

/-- The switch of `processNetwork` changes the status command only by the
reset of the case EXT_FNCT. -/
theorem reg_processNetworkLCO (acl : AccessControl) (s : TrunkPacket) (a d : Nat) :
    (processNetworkLCO acl s a d).2.reg = s.reg ∨
      (s.netTSBK.lco = LCO.TSBK_IOSP_EXT_FNCT ∧
        (processNetworkLCO acl s a d).2.reg = s.resetStatusCommand.reg) := by
  unfold processNetworkLCO
  cases hl : s.netTSBK.lco <;>
    simp only [processNetwork_UPDT, processNetwork_CALL_ALRT, processNetwork_ACK_RSP,
      processNetwork_EXT_FNCT, VALID_SRCID_NET, VALID_DSTID_NET] <;>
    (try split_ifs) <;> simp

/-- The registry view after `processNetwork` on a decoded TSDU other than an
adjacent site broadcast, from RF listening and network idle: that of the
state after `resetStatusCommand(m_netTSBK)`, up to the reset of the case
EXT_FNCT. -/
theorem reg_processNetwork (acl : AccessControl) (s : TrunkPacket) (f : NetFrame)
    (hn : s.p25.netState = RPT_NET_STATE.RS_NET_IDLE)
    (hr : s.p25.rfState = RPT_RF_STATE.RS_RF_LISTENING)
    (hd : f.duid = DUID.P25_DUID_TSDU) (hdec : f.decoded = true)
    (hl : f.tsbk.lco ≠ LCO.TSBK_OSP_ADJ_STS_BCAST) :
    (processNetwork acl s f).2.reg =
        (((s.setRfTSBK f.rfTSBK).setNetTSBK f.tsbk).resetStatusCommandTSBK f.tsbk).reg ∨
      (f.tsbk.lco = LCO.TSBK_IOSP_EXT_FNCT ∧
        (processNetwork acl s f).2.reg =
          (((s.setRfTSBK f.rfTSBK).setNetTSBK f.tsbk).resetStatusCommandTSBK
            f.tsbk).resetStatusCommand.reg) := by
  unfold processNetwork
  rw [if_neg (fun h => h.1 hr), if_pos hd, if_pos hn]
  simp only [netTSBK_setNetTSBK]
  rw [if_neg (by simp [hdec]), if_neg hl]
  generalize hx : ((s.setRfTSBK f.rfTSBK).setNetTSBK f.tsbk).resetStatusCommandTSBK f.tsbk = x
  have hxl : x.netTSBK.lco = f.tsbk.lco := by
    rw [← hx]; unfold resetStatusCommandTSBK resetStatusCommand; split_ifs <;> rfl
  rcases reg_processNetworkLCO acl x f.tsbk.srcId f.tsbk.dstId with h | ⟨h1, h2⟩
  · left
    rcases hp : processNetworkLCO acl x f.tsbk.srcId f.tsbk.dstId with ⟨_ | r, y⟩
    · rw [hp] at h; simpa [reg_writeNet_TSDU] using h
    · rw [hp] at h; simpa using h
  · right
    refine ⟨hxl ▸ h1, ?_⟩
    rcases hp : processNetworkLCO acl x f.tsbk.srcId f.tsbk.dstId with ⟨_ | r, y⟩
    · rw [hp] at h2; simpa [reg_writeNet_TSDU] using h2
    · rw [hp] at h2; simpa using h2

end TrunkPacket
namespace TrunkPacket

theorem processLCO_TELE_INT_ANS (acl : AccessControl) (s : TrunkPacket) (a d : Nat)
    (p : RPT_RF_STATE) (h : s.rfTSBK.lco = LCO.TSBK_IOSP_TELE_INT_ANS) :
    processLCO acl s a d p = process_TELE_INT_ANS acl s a := by
  unfold processLCO
  simp only [h]

/-- The case TELE_INT_ANS on a control channel site for a source the ACL
accepts: it leaves the switch by `break`, and the TSBKs handed to the single
block writer are the acknowledgement and the reply chosen by the response. -/
theorem process_TELE_INT_ANS_pass (acl : AccessControl) (s : TrunkPacket) (a : Nat)
    (hc : s.p25.control = true) (ha : acl.validateSrcId a = true) :
    (process_TELE_INT_ANS acl s a).1 = none ∧
    (process_TELE_INT_ANS acl s a).2.emitted = s.emitted ++
      { s.rfTSBK with lco := LCO.TSBK_IOSP_ACK_RSP, mfId := MFId.P25_MFG_STANDARD,
                      service := LCO.TSBK_IOSP_TELE_INT_ANS, lastBlock := true } ::
      (if s.rfTSBK.response = Response.P25_ANS_RSP_PROCEED then
        [{ s.rfTSBK with lco := LCO.TSBK_OSP_DENY_RSP, service := LCO.TSBK_IOSP_TELE_INT_ANS,
                         response := Response.P25_DENY_RSN_SYS_UNSUPPORTED_SVC,
                         lastBlock := true }]
      else if s.rfTSBK.response = Response.P25_ANS_RSP_DENY then
        [{ s.rfTSBK with lco := LCO.TSBK_IOSP_ACK_RSP, mfId := MFId.P25_MFG_STANDARD,
                         service := LCO.TSBK_IOSP_TELE_INT_ANS, lastBlock := true }]
      else if s.rfTSBK.response = Response.P25_ANS_RSP_WAIT then
        [{ s.rfTSBK with lco := LCO.TSBK_OSP_QUE_RSP, service := LCO.TSBK_IOSP_TELE_INT_ANS,
                         response := Response.P25_QUE_RSN_TGT_UNIT_QUEUED,
                         lastBlock := true }]
      else []) := by
  unfold process_TELE_INT_ANS
  rw [IS_SUPPORT_CONTROL_CHECK_pass s _ hc]
  simp only []
  rw [VALID_SRCID_pass acl s _ a ha]
  simp only []
  obtain ⟨b, hb⟩ := rfTSBK_writeRF_TSDU_ACK_FNE s a LCO.TSBK_IOSP_TELE_INT_ANS true
  have he := emitted_writeRF_TSDU_ACK_FNE s a LCO.TSBK_IOSP_TELE_INT_ANS true
  generalize s.writeRF_TSDU_ACK_FNE a LCO.TSBK_IOSP_TELE_INT_ANS true = x at hb he
  have hr : x.rfTSBK.response = s.rfTSBK.response := by rw [hb]
  rw [hr]
  split_ifs with h1 h2 h3
  · exact ⟨rfl, by rw [emitted_writeRF_TSDU_Deny, he, hb]; simp⟩
  · exact ⟨rfl, by rw [emitted_writeRF_TSDU_ACK_FNE, he, hb]; simp⟩
  · exact ⟨rfl, by rw [emitted_writeRF_TSDU_Queue, he, hb]; simp⟩
  · exact ⟨rfl, by rw [he]⟩

end TrunkPacket
namespace TrunkPacket

/-- The two TSBKs written when an armed status command is executed by the
call alert of its source: the OSP of the command, then the acknowledgement.
The three extended functions and the group affiliation response carry the
target of the call alert as destination; the deregistration acknowledgement
carries the source of the call alert. -/
theorem emitted_processStatusCommand (acl : AccessControl) (s : TrunkPacket) (a d : Nat)
    (hen : s.statusCmdEnable = true) (hv : s.statusValue ≠ 0) (hs : s.statusSrcId = a)
    (hk : s.statusValue = s.statusRadioCheck ∨ s.statusValue = s.statusRadioInhibit ∨
      s.statusValue = s.statusRadioUninhibit ∨ s.statusValue = s.statusRadioForceReg ∨
      s.statusValue = s.statusRadioForceDereg) :
    ∃ osp ack : TSBK,
      (processStatusCommand acl s a d).2.emitted = s.emitted ++ [osp, ack] ∧
      ack.lco = LCO.TSBK_IOSP_ACK_RSP ∧ ack.service = LCO.TSBK_IOSP_CALL_ALRT ∧
      (if s.statusValue = s.statusRadioCheck then
        osp.lco = LCO.TSBK_IOSP_EXT_FNCT ∧
          osp.extendedFunction = ExtFunc.P25_EXT_FNCT_CHECK ∧ osp.srcId = a ∧ osp.dstId = d
      else if s.statusValue = s.statusRadioInhibit then
        osp.lco = LCO.TSBK_IOSP_EXT_FNCT ∧
          osp.extendedFunction = ExtFunc.P25_EXT_FNCT_INHIBIT ∧ osp.srcId = P25_WUID_SYS ∧
          osp.dstId = d
      else if s.statusValue = s.statusRadioUninhibit then
        osp.lco = LCO.TSBK_IOSP_EXT_FNCT ∧
          osp.extendedFunction = ExtFunc.P25_EXT_FNCT_UNINHIBIT ∧ osp.srcId = P25_WUID_SYS ∧
          osp.dstId = d
      else if s.statusValue = s.statusRadioForceReg then
        osp.lco = LCO.TSBK_IOSP_GRP_AFF ∧ osp.srcId = s.rfTSBK.srcId ∧
          osp.dstId = s.rfTSBK.dstId
      else
        osp.lco = LCO.TSBK_OSP_U_DEREG_ACK ∧ osp.srcId = P25_WUID_SYS ∧ osp.dstId = a) := by
  unfold processStatusCommand
  rw [if_pos ⟨hen, hv⟩, if_pos hs]
  simp only []
  rw [emitted_writeRF_TSDU_ACK_FNE]
  by_cases h1 : s.statusValue = s.statusRadioCheck
  · rw [if_pos ⟨fun c => hv (h1.trans c), h1⟩, emitted_writeRF_TSDU_Ext_Func,
      List.append_assoc, List.singleton_append]
    simp only [if_pos h1]
    exact ⟨_, _, rfl, rfl, rfl, rfl, rfl, rfl, rfl⟩
  rw [if_neg (fun c => h1 c.2)]
  simp only [if_neg h1]
  by_cases h2 : s.statusValue = s.statusRadioInhibit
  · rw [if_pos ⟨fun c => hv (h2.trans c), h2⟩, emitted_writeRF_TSDU_Ext_Func,
      List.append_assoc, List.singleton_append]
    simp only [if_pos h2]
    exact ⟨_, _, rfl, rfl, rfl, rfl, rfl, rfl, rfl⟩
  rw [if_neg (fun c => h2 c.2)]
  simp only [if_neg h2]
  by_cases h3 : s.statusValue = s.statusRadioUninhibit
  · rw [if_pos ⟨fun c => hv (h3.trans c), h3⟩, emitted_writeRF_TSDU_Ext_Func,
      List.append_assoc, List.singleton_append]
    simp only [if_pos h3]
    exact ⟨_, _, rfl, rfl, rfl, rfl, rfl, rfl, rfl⟩
  rw [if_neg (fun c => h3 c.2)]
  simp only [if_neg h3]
  by_cases h4 : s.statusValue = s.statusRadioForceReg
  · rw [if_pos ⟨fun c => hv (h4.trans c), h4⟩]
    simp only [if_pos h4]
    generalize hx : (if s.hasSrcIdUnitReg a = false then
      s.setUnitRegTable (s.unitRegTable ++ [a]) else s) = x
    have hxe : x.emitted = s.emitted := by rw [← hx]; split_ifs <;> rfl
    have hxr : x.rfTSBK = s.rfTSBK := by rw [← hx]; split_ifs <;> rfl
    obtain ⟨t, e, t1, _, t3, t4, _⟩ := emitted_writeRF_TSDU_Grp_Aff_Rsp acl x a d
    rw [hxe] at e
    rw [hxr] at t3 t4
    rw [e, List.append_assoc, List.singleton_append]
    exact ⟨t, _, rfl, rfl, rfl, t1, t3, t4⟩
  rw [if_neg (fun c => h4 c.2)]
  simp only [if_neg h4]
  have h5 : s.statusValue = s.statusRadioForceDereg := by
    rcases hk with e | e | e | e | e
    · exact absurd e h1
    · exact absurd e h2
    · exact absurd e h3
    · exact absurd e h4
    · exact e
  rw [if_pos ⟨fun c => hv (h5.trans c), h5⟩, emitted_writeRF_TSDU_U_Dereg_Ack,
    List.append_assoc, List.singleton_append]
  exact ⟨_, _, rfl, rfl, rfl, rfl, rfl, rfl⟩

/-- Claim C35 as stated fails for the kind force-dereg: the status command
is armed by 1001 with the force-dereg code 0x46; the call alert of 1001 to
1002 is consumed (`process` returns true) and the OSP written for the
command is a U_DEREG_ACK from the system ID whose destination is 1001, the
source of the call alert, not its target 1002. -/
theorem processStatusCommand_target_counterexample :
    (process aclAcceptAll (scenarioArmed 0x46) (rfTSDU (callAlrtRequest 1001 1002))).1 = true ∧
    (process aclAcceptAll (scenarioArmed 0x46)
      (rfTSDU (callAlrtRequest 1001 1002))).2.emitted.map
        (fun t => (t.lco, t.srcId, t.dstId)) =
      [(LCO.TSBK_OSP_U_DEREG_ACK, P25_WUID_SYS, 1001),
       (LCO.TSBK_IOSP_ACK_RSP, P25_WUID_SYS, 1001)] ∧
    (1001 : Nat) ≠ 1002 := by
  decide

/-- Claim C35, amended: when an armed status command of one of the five
configured kinds is consumed by an RF CALL_ALRT from its source s to the
target t, `process` returns true and writes two TSBKs, the OSP of the
command and then an acknowledgement. For the kinds check, inhibit and
uninhibit the OSP is an EXT_FNCT with destination t (source s for check, the
system ID for the other two); for force-reg it is a group affiliation
response with source s and destination t; for force-dereg it is a
U_DEREG_ACK from the system ID whose destination is s, the source of the
call alert. -/
theorem process_CALL_ALRT_command_target (acl : AccessControl) (s : TrunkPacket)
    (f : RFFrame) (hd : Dispatched s f) (hl : f.tsbk.lco = LCO.TSBK_IOSP_CALL_ALRT)
    (hacl : acl.validateSrcId f.tsbk.srcId = true) (hen : s.statusCmdEnable = true)
    (hv : s.statusValue ≠ 0) (hs : s.statusSrcId = f.tsbk.srcId)
    (hk : s.statusValue = s.statusRadioCheck ∨ s.statusValue = s.statusRadioInhibit ∨
      s.statusValue = s.statusRadioUninhibit ∨ s.statusValue = s.statusRadioForceReg ∨
      s.statusValue = s.statusRadioForceDereg) :
    (process acl s f).1 = true ∧
    ∃ osp ack : TSBK,
      (process acl s f).2.emitted = s.emitted ++ [osp, ack] ∧
      ack.lco = LCO.TSBK_IOSP_ACK_RSP ∧ ack.service = LCO.TSBK_IOSP_CALL_ALRT ∧
      (if s.statusValue = s.statusRadioCheck then
        osp.lco = LCO.TSBK_IOSP_EXT_FNCT ∧
          osp.extendedFunction = ExtFunc.P25_EXT_FNCT_CHECK ∧ osp.srcId = f.tsbk.srcId ∧
          osp.dstId = f.tsbk.dstId
      else if s.statusValue = s.statusRadioInhibit then
        osp.lco = LCO.TSBK_IOSP_EXT_FNCT ∧
          osp.extendedFunction = ExtFunc.P25_EXT_FNCT_INHIBIT ∧ osp.srcId = P25_WUID_SYS ∧
          osp.dstId = f.tsbk.dstId
      else if s.statusValue = s.statusRadioUninhibit then
        osp.lco = LCO.TSBK_IOSP_EXT_FNCT ∧
          osp.extendedFunction = ExtFunc.P25_EXT_FNCT_UNINHIBIT ∧ osp.srcId = P25_WUID_SYS ∧
          osp.dstId = f.tsbk.dstId
      else if s.statusValue = s.statusRadioForceReg then
        osp.lco = LCO.TSBK_IOSP_GRP_AFF ∧ osp.srcId = f.tsbk.srcId ∧
          osp.dstId = f.tsbk.dstId
      else
        osp.lco = LCO.TSBK_OSP_U_DEREG_ACK ∧ osp.srcId = P25_WUID_SYS ∧
          osp.dstId = f.tsbk.srcId) := by
  have hreg : (s.switchEntry f).reg = s.reg := by
    rw [reg_switchEntry, if_neg (fun h => h.2.1 hl)]
  have hen1 : (s.switchEntry f).statusCmdEnable = true :=
    (congrArg Registry.statusCmdEnable hreg).trans hen
  have hv1 : (s.switchEntry f).statusValue = s.statusValue := congrArg Registry.statusValue hreg
  have hs1 : (s.switchEntry f).statusSrcId = s.statusSrcId :=
    congrArg Registry.statusSrcId hreg
  have c1 : (s.switchEntry f).statusRadioCheck = s.statusRadioCheck :=
    congrArg Registry.statusRadioCheck hreg
  have c2 : (s.switchEntry f).statusRadioInhibit = s.statusRadioInhibit :=
    congrArg Registry.statusRadioInhibit hreg
  have c3 : (s.switchEntry f).statusRadioUninhibit = s.statusRadioUninhibit :=
    congrArg Registry.statusRadioUninhibit hreg
  have c4 : (s.switchEntry f).statusRadioForceReg = s.statusRadioForceReg :=
    congrArg Registry.statusRadioForceReg hreg
  have c5 : (s.switchEntry f).statusRadioForceDereg = s.statusRadioForceDereg :=
    congrArg Registry.statusRadioForceDereg hreg
  obtain ⟨k1, _⟩ := processStatusCommand_consumed acl (s.switchEntry f) f.tsbk.srcId
    f.tsbk.dstId hen1 (by rw [hv1]; exact hv) (hs1.trans hs)
    (by rw [hv1, c1, c2, c3, c4, c5]; exact hk)
  obtain ⟨osp, ack, e, a1, a2, ho⟩ := emitted_processStatusCommand acl (s.switchEntry f)
    f.tsbk.srcId f.tsbk.dstId hen1 (by rw [hv1]; exact hv) (hs1.trans hs)
    (by rw [hv1, c1, c2, c3, c4, c5]; exact hk)
  rw [hv1, c1, c2, c3, c4, rfTSBK_switchEntry] at ho
  rw [emitted_switchEntry] at e
  have hp := process_dispatched acl s f hd
  rw [processLCO_CALL_ALRT acl _ _ _ _ (by simpa using hl)] at hp
  unfold process_CALL_ALRT at hp
  rw [VALID_SRCID_pass acl _ _ _ hacl] at hp
  simp only [] at hp
  rw [if_pos hen1] at hp
  rcases hq : processStatusCommand acl (s.switchEntry f) f.tsbk.srcId f.tsbk.dstId with ⟨b, s1⟩
  rw [hq] at hp k1 e
  simp only [] at k1 e
  subst k1
  simp only [] at hp
  rw [hp]
  exact ⟨rfl, osp, ack, e, a1, a2, ho⟩

theorem process_CALL_ALRT_command_target_witness :
    ∃ osp ack : TSBK,
      (process aclAcceptAll (scenarioArmed 0x43)
        (rfTSDU (callAlrtRequest 1001 1002))).2.emitted = [osp, ack] ∧
      osp.lco = LCO.TSBK_IOSP_EXT_FNCT ∧
      osp.extendedFunction = ExtFunc.P25_EXT_FNCT_INHIBIT ∧ osp.dstId = 1002 := by
  obtain ⟨osp, ack, e, _, _, ho⟩ := (process_CALL_ALRT_command_target aclAcceptAll
    (scenarioArmed 0x43) (rfTSDU (callAlrtRequest 1001 1002))
    (dispatched_of_nidValid _ _ rfl rfl rfl) rfl rfl rfl (by decide) rfl (by decide)).2
  rw [if_neg (by decide), if_pos (by decide)] at ho
  exact ⟨osp, ack, e, ho.1, ho.2.1, ho.2.2.2⟩

/-- Claim C36 fails on the code. `writeRF_TSDU_ACK_FNE` does not write its
`srcId` argument into the TSBK: the acknowledgement carries the source ID
that `m_rfTSBK` holds. With the inhibit code 0x43 armed by 1001, the call
alert of 1001 to 1002 writes an EXT_FNCT from the system ID to 1002 and then
an ACK_RSP for the service CALL_ALRT whose source ID is the system ID, not
1001; and a direct call with `srcId` 1001 on an RF TSBK with source 1002
writes an acknowledgement with source 1002. -/
theorem writeRF_TSDU_ACK_FNE_source :
    (process aclAcceptAll (scenarioArmed 0x43)
      (rfTSDU (callAlrtRequest 1001 1002))).2.emitted.map
        (fun t => (t.lco, t.srcId, t.dstId)) =
      [(LCO.TSBK_IOSP_EXT_FNCT, P25_WUID_SYS, 1002),
       (LCO.TSBK_IOSP_ACK_RSP, P25_WUID_SYS, 1002)] ∧
    (process aclAcceptAll (scenarioArmed 0x43)
      (rfTSDU (callAlrtRequest 1001 1002))).2.emitted.getLast?.map (fun t => t.service) =
      some LCO.TSBK_IOSP_CALL_ALRT ∧
    P25_WUID_SYS ≠ 1001 ∧
    (({ rfTSBK := { srcId := 1002, dstId := 1001 } } : TrunkPacket).writeRF_TSDU_ACK_FNE 1001
      LCO.TSBK_IOSP_CALL_ALRT false).emitted.map (fun t => (t.lco, t.srcId)) =
      [(LCO.TSBK_IOSP_ACK_RSP, 1002)] := by
  decide

end TrunkPacket
end p25

/-! ## Lemmas on the bit macros and the idle bits -/

theorem msbMask_eq (i : Nat) : msbMask i = 2 ^ (7 - i % 8) := by
  unfold msbMask
  have h : i &&& 7 = i % 8 := Nat.and_pow_two_sub_one_eq_mod i 3
  rw [h]
  have hlt : i % 8 < 8 := Nat.mod_lt _ (by decide)
  generalize i % 8 = r at hlt
  interval_cases r <;> rfl

theorem and_two_pow_cases (x e : Nat) : x &&& 2 ^ e = 0 ∨ x &&& 2 ^ e = 2 ^ e := by
  by_cases h : x.testBit e = true
  · right
    apply Nat.eq_of_testBit_eq
    intro t
    rw [Nat.testBit_and, Nat.testBit_two_pow]
    by_cases ht : e = t
    · subst ht; simp [h]
    · simp [ht]
  · left
    apply Nat.eq_of_testBit_eq
    intro t
    rw [Nat.testBit_and, Nat.testBit_two_pow, Nat.zero_testBit]
    by_cases ht : e = t
    · subst ht; simp [h]
    · simp [ht]

theorem or_and_self_two_pow (x m : Nat) : (x ||| m) &&& m = m := by
  apply Nat.eq_of_testBit_eq
  intro t
  rw [Nat.testBit_and, Nat.testBit_or]
  cases x.testBit t <;> cases m.testBit t <;> rfl

theorem xor_and_and_self (x m : Nat) : (x ^^^ (x &&& m)) &&& m = 0 := by
  apply Nat.eq_of_testBit_eq
  intro t
  rw [Nat.testBit_and, Nat.testBit_xor, Nat.testBit_and, Nat.zero_testBit]
  cases x.testBit t <;> cases m.testBit t <;> rfl

theorem or_and_of_disjoint (x m n : Nat) (h : m &&& n = 0) : (x ||| m) &&& n = x &&& n := by
  apply Nat.eq_of_testBit_eq
  intro t
  have ht : (m &&& n).testBit t = false := by rw [h, Nat.zero_testBit]
  rw [Nat.testBit_and] at ht
  rw [Nat.testBit_and, Nat.testBit_or, Nat.testBit_and]
  cases x.testBit t <;> cases hm : m.testBit t <;> cases hn : n.testBit t <;> simp_all

theorem xor_and_of_disjoint (x m n : Nat) (h : m &&& n = 0) :
    (x ^^^ (x &&& m)) &&& n = x &&& n := by
  apply Nat.eq_of_testBit_eq
  intro t
  have ht : (m &&& n).testBit t = false := by rw [h, Nat.zero_testBit]
  rw [Nat.testBit_and] at ht
  rw [Nat.testBit_and, Nat.testBit_xor, Nat.testBit_and, Nat.testBit_and]
  cases x.testBit t <;> cases hm : m.testBit t <;> cases hn : n.testBit t <;> simp_all

theorem two_pow_and_two_pow (a b : Nat) (h : a ≠ b) : 2 ^ a &&& 2 ^ b = 0 := by
  apply Nat.eq_of_testBit_eq
  intro t
  rw [Nat.testBit_and, Nat.testBit_two_pow, Nat.testBit_two_pow, Nat.zero_testBit]
  by_cases h1 : a = t
  · by_cases h2 : b = t
    · exact absurd (h1.trans h2.symm) h
    · simp [h2]
  · simp [h1]

/-- The bit macros `msbFirst` are lawful. -/
theorem msbFirst_lawful : msbFirst.Lawful := by
  refine ⟨?_, ?_, ?_, ?_⟩
  · intro p i b
    show decide (Function.update p (i >>> 3) _ (i >>> 3) &&& msbMask i ≠ 0) = b
    rw [Function.update_same]
    cases b
    · simp [xor_and_and_self]
    · simp only [if_true, or_and_self_two_pow]
      rw [msbMask_eq]
      simp
  · intro p i j b hne
    show decide (Function.update p (i >>> 3) _ (j >>> 3) &&& msbMask j ≠ 0) =
      decide (p (j >>> 3) &&& msbMask j ≠ 0)
    by_cases hb : j >>> 3 = i >>> 3
    · rw [hb, Function.update_same]
      have hd : msbMask i &&& msbMask j = 0 := by
        rw [msbMask_eq, msbMask_eq]
        apply two_pow_and_two_pow
        rw [Nat.shiftRight_eq_div_pow, Nat.shiftRight_eq_div_pow] at hb
        have h8 : (2 : Nat) ^ 3 = 8 := by norm_num
        rw [h8] at hb
        omega
      cases b
      · simp only [Bool.false_eq_true, if_false, xor_and_of_disjoint _ _ _ hd]
      · simp only [if_true, or_and_of_disjoint _ _ _ hd]
    · rw [Function.update_noteq hb]
  · intro p i
    show Function.update p (i >>> 3) _ = p
    apply Function.update_eq_self_iff.mpr
    show (if decide (p (i >>> 3) &&& msbMask i ≠ 0) = true then _ else _) = _
    rw [msbMask_eq]
    rcases and_two_pow_cases (p (i >>> 3)) (7 - i % 8) with h | h
    · simp [h]
    · have hne : p (i >>> 3) &&& 2 ^ (7 - i % 8) ≠ 0 := by
        rw [h]; exact Nat.pos_iff_ne_zero.mp (Nat.two_pow_pos _)
      simp only [hne, ne_eq, not_false_eq_true, decide_True, if_true]
      apply Nat.eq_of_testBit_eq
      intro t
      have ht : (p (i >>> 3) &&& 2 ^ (7 - i % 8)).testBit t = (2 ^ (7 - i % 8)).testBit t := by
        rw [h]
      rw [Nat.testBit_and] at ht
      rw [Nat.testBit_or]
      cases hx : (p (i >>> 3)).testBit t <;> cases hm : (2 ^ (7 - i % 8)).testBit t <;>
        simp_all
  · intro p i b k hk
    show Function.update p (i >>> 3) _ k = p k
    apply Function.update_noteq
    rw [Nat.shiftRight_eq_div_pow]
    exact hk

/-- Bits written one after the other at positions `f i` with values `v i`,
for `i` along a list on which `f` is injective: each written bit reads back,
the other bits are those of the buffer written to, and so are the bytes that
hold no written bit. -/
theorem read_foldl_write (m : BitMacros) (hl : m.Lawful) (f : Nat → Nat) (v : Nat → Bool)
    (L : List Nat) :
    ∀ init : Nat → Nat, (∀ a ∈ L, ∀ b ∈ L, f a = f b → a = b) →
      (∀ i ∈ L, m.READ_BIT (L.foldl (fun d i => m.WRITE_BIT d (f i) (v i)) init) (f i) = v i) ∧
      (∀ j, (∀ i ∈ L, f i ≠ j) →
        m.READ_BIT (L.foldl (fun d i => m.WRITE_BIT d (f i) (v i)) init) j = m.READ_BIT init j) ∧
      (∀ k, (∀ i ∈ L, k ≠ f i / 8) →
        L.foldl (fun d i => m.WRITE_BIT d (f i) (v i)) init k = init k) := by
  obtain ⟨l1, l2, _, l4⟩ := hl
  induction L with
  | nil =>
    intro init _
    exact ⟨fun i hi => absurd hi (List.not_mem_nil i), fun j _ => rfl, fun k _ => rfl⟩
  | cons a L ih =>
    intro init hinj
    have hinj' : ∀ x ∈ L, ∀ y ∈ L, f x = f y → x = y := fun x hx y hy =>
      hinj x (List.mem_cons_of_mem a hx) y (List.mem_cons_of_mem a hy)
    obtain ⟨h1, h2, h3⟩ := ih (m.WRITE_BIT init (f a) (v a)) hinj'
    rw [List.foldl_cons]
    refine ⟨?_, ?_, ?_⟩
    · intro i hi
      by_cases hiL : i ∈ L
      · exact h1 i hiL
      · have hia : i = a := by
          rcases List.mem_cons.mp hi with h | h
          · exact h
          · exact absurd h hiL
        subst hia
        rw [h2 (f i) (fun x hx hfx => hiL (by
          have := hinj x (List.mem_cons_of_mem i hx) i (List.mem_cons_self i L) hfx
          rw [← this]; exact hx))]
        exact l1 init (f i) (v i)
    · intro j hj
      rw [h2 j (fun i hi => hj i (List.mem_cons_of_mem a hi))]
      exact l2 init (f a) j (v a) (fun h => hj a (List.mem_cons_self a L) h.symm)
    · intro k hk
      rw [h3 k (fun i hi => hk i (List.mem_cons_of_mem a hi))]
      exact l4 init (f a) (v a) k (hk a (List.mem_cons_self a L))

namespace p25
namespace TrunkPacket

theorem isSS0Pos_self (pos step length : Nat) (hp : pos < length) :
    isSS0Pos pos step length pos = true := by
  unfold isSS0Pos
  simp [hp]

theorem isSS0Pos_ge {start step length j : Nat} (h : isSS0Pos start step length j = true) :
    start ≤ j ∧ j < length := by
  unfold isSS0Pos at h
  have h' := of_decide_eq_true h
  exact ⟨h'.1, h'.2.1⟩

/-- The positions from `pos` on are `pos` and the positions from
`pos + step` on. -/
theorem isSS0Pos_step (pos step length j : Nat) (hstep : 0 < step) (hp : pos < length) :
    isSS0Pos pos step length j = (decide (j = pos) || isSS0Pos (pos + step) step length j) := by
  unfold isSS0Pos
  rw [← Bool.decide_or]
  apply decide_eq_decide.mpr
  constructor
  · rintro ⟨h1, h2, h3⟩
    by_cases hj : j = pos
    · left; exact hj
    · right
      have hge : step ≤ j - pos := by
        by_contra hlt
        rw [Nat.mod_eq_of_lt (Nat.lt_of_not_le hlt)] at h3
        omega
      refine ⟨by omega, h2, ?_⟩
      rw [Nat.mod_eq_sub_mod hge] at h3
      rw [show j - (pos + step) = j - pos - step by omega]
      exact h3
  · rintro (hj | ⟨h1, h2, h3⟩)
    · subst hj
      exact ⟨Nat.le_refl _, hp, by simp⟩
    · refine ⟨by omega, h2, ?_⟩
      rw [Nat.mod_eq_sub_mod (by omega : j - pos ≥ step),
        show j - pos - step = j - (pos + step) by omega]
      exact h3

/-- The position after an idle position is not one, for a step of two or
more. -/
theorem isSS0Pos_succ_false (start step length j : Nat) (hstep : 2 ≤ step)
    (h : isSS0Pos start step length j = true) : isSS0Pos start step length (j + 1) = false := by
  unfold isSS0Pos at h ⊢
  have h' := of_decide_eq_true h
  apply decide_eq_false
  rintro ⟨_, _, h3⟩
  have e : j + 1 - start = (j - start) + 1 := by omega
  rw [e, Nat.add_mod, h'.2.2, Nat.zero_add, Nat.mod_mod, Nat.mod_eq_of_lt (by omega)] at h3
  exact absurd h3 (by decide)

/-- The loop of `addIdleBits` from the position `pos`, with enough passes. -/
theorem addIdleBitsLoop_spec (m : BitMacros) (hl : m.Lawful) (step length : Nat) (b1 b2 : Bool)
    (hstep : 2 ≤ step) (hlen : length + step ≤ 2 ^ 32) :
    ∀ (fuel pos : Nat) (data : Nat → Nat), length - pos < fuel →
      ∃ out, addIdleBitsLoop m step length b1 b2 fuel pos data = some out ∧
        ∀ j, m.READ_BIT out j =
          if isSS0Pos pos step length j = true then b1
          else if 1 ≤ j ∧ isSS0Pos pos step length (j - 1) = true then b2
          else m.READ_BIT data j := by
  obtain ⟨l1, l2, _, _⟩ := hl
  intro fuel
  induction fuel with
  | zero => intro pos data h; exact absurd h (Nat.not_lt_zero _)
  | succ fuel ih =>
    intro pos data hf
    unfold addIdleBitsLoop
    by_cases hp : pos < length
    · rw [if_pos hp]
      simp only []
      have e1 : (pos + 1) % 2 ^ 32 = pos + 1 := Nat.mod_eq_of_lt (by omega)
      have e2 : (pos + step) % 2 ^ 32 = pos + step := Nat.mod_eq_of_lt (by omega)
      rw [e1, e2]
      obtain ⟨out, ho, hr⟩ := ih (pos + step)
        (m.WRITE_BIT (m.WRITE_BIT data pos b1) (pos + 1) b2) (by omega)
      refine ⟨out, ho, ?_⟩
      intro j
      rw [hr j, isSS0Pos_step pos step length j (by omega) hp,
        isSS0Pos_step pos step length (j - 1) (by omega) hp]
      have hA : isSS0Pos (pos + step) step length j = true → pos + step ≤ j :=
        fun h => (isSS0Pos_ge h).1
      have hB : isSS0Pos (pos + step) step length (j - 1) = true → pos + step ≤ j - 1 :=
        fun h => (isSS0Pos_ge h).1
      by_cases cA : isSS0Pos (pos + step) step length j = true
      · simp [cA]
      · by_cases cB : isSS0Pos (pos + step) step length (j - 1) = true
        · have hj1 : 1 ≤ j := by have := hB cB; omega
          have hjp : j ≠ pos := by have := hB cB; omega
          simp [cA, cB, hj1, hjp]
        · by_cases hj0 : j = pos
          · subst hj0
            rw [l2 _ _ _ _ (by omega), l1]
            simp [cA, cB]
          · by_cases hj1 : j = pos + 1
            · subst hj1
              rw [l1]
              simp [cA, cB]
            · rw [l2 _ _ _ _ hj1, l2 _ _ _ _ hj0]
              have hj2 : ¬ j - 1 = pos ∨ ¬ 1 ≤ j := by omega
              rcases hj2 with h | h
              · simp [cA, cB, hj0, h]
              · simp [cA, cB, hj0, h]
    · rw [if_neg hp]
      refine ⟨data, rfl, ?_⟩
      intro j
      have n1 : ¬ isSS0Pos pos step length j = true := fun h => by
        have := isSS0Pos_ge h; omega
      have n2 : ¬ isSS0Pos pos step length (j - 1) = true := fun h => by
        have := isSS0Pos_ge h; omega
      rw [if_neg n1, if_neg (fun h => n2 h.2)]

/-- The loop of `addIdleBits` on a buffer whose idle bits are set already
leaves the buffer as it is. -/
theorem addIdleBitsLoop_fixed (m : BitMacros) (hl : m.Lawful) (step length : Nat) (b1 b2 : Bool)
    (hstep : 2 ≤ step) (hlen : length + step ≤ 2 ^ 32) :
    ∀ (fuel pos : Nat) (data : Nat → Nat), length - pos < fuel →
      (∀ j, isSS0Pos pos step length j = true → m.READ_BIT data j = b1) →
      (∀ j, isSS0Pos pos step length j = true → m.READ_BIT data (j + 1) = b2) →
      addIdleBitsLoop m step length b1 b2 fuel pos data = some data := by
  obtain ⟨_, _, l3, _⟩ := hl
  intro fuel
  induction fuel with
  | zero => intro pos data h; exact absurd h (Nat.not_lt_zero _)
  | succ fuel ih =>
    intro pos data hf h1 h2
    unfold addIdleBitsLoop
    by_cases hp : pos < length
    · rw [if_pos hp]
      simp only []
      have e1 : (pos + 1) % 2 ^ 32 = pos + 1 := Nat.mod_eq_of_lt (by omega)
      have e2 : (pos + step) % 2 ^ 32 = pos + step := Nat.mod_eq_of_lt (by omega)
      have w1 : m.WRITE_BIT data pos b1 = data := by
        have := l3 data pos
        rw [h1 pos (isSS0Pos_self pos step length hp)] at this
        exact this
      have w2 : m.WRITE_BIT data (pos + 1) b2 = data := by
        have := l3 data (pos + 1)
        rw [h2 pos (isSS0Pos_self pos step length hp)] at this
        exact this
      rw [e1, e2, w1, w2]
      have hsub : ∀ j, isSS0Pos (pos + step) step length j = true →
          isSS0Pos pos step length j = true := by
        intro j hj
        rw [isSS0Pos_step pos step length j (by omega) hp, hj, Bool.or_true]
      exact ih (pos + step) data (by omega) (fun j hj => h1 j (hsub j hj))
        (fun j hj => h2 j (hsub j hj))
    · rw [if_neg hp]

end TrunkPacket
end p25

namespace p25
namespace TrunkPacket

theorem isSS0Pos_iff (start step length j : Nat) :
    isSS0Pos start step length j = true ↔ ∃ k, j = start + k * step ∧ j < length := by
  unfold isSS0Pos
  rw [decide_eq_true_iff]
  constructor
  · rintro ⟨h1, h2, h3⟩
    obtain ⟨k, hk⟩ := Nat.dvd_of_mod_eq_zero h3
    exact ⟨k, by rw [Nat.mul_comm k step, ← hk]; omega, h2⟩
  · rintro ⟨k, hk, h2⟩
    refine ⟨by omega, h2, ?_⟩
    rw [hk, Nat.add_sub_cancel_left]
    exact Nat.mul_mod_left k step

/-- Claim C33. `addIdleBits(data, length, b1, b2)` returns, for a positive
`P25_SS_INCREMENT` and while `length + P25_SS_INCREMENT * 5` stays below
2^32. In the buffer it leaves, bit p is `b1` and bit p + 1 is `b2` for the
positions p = P25_SS0_START + k * (P25_SS_INCREMENT * 5), k = 0, 1, 2, ...,
with p < length, and every bit that is at none of these p and p + 1 is the
bit of `data`; a second call with the same arguments leaves that buffer as
it is. -/
theorem addIdleBits_positions (m : BitMacros) (hl : m.Lawful)
    (P25_SS0_START P25_SS_INCREMENT : Nat) (data : Nat → Nat) (length : Nat) (b1 b2 : Bool)
    (hinc : 0 < P25_SS_INCREMENT) (hlen : length + P25_SS_INCREMENT * 5 < 2 ^ 32) :
    ∃ out, addIdleBits m P25_SS0_START P25_SS_INCREMENT data length b1 b2 = some out ∧
      (∀ k, P25_SS0_START + k * (P25_SS_INCREMENT * 5) < length →
        m.READ_BIT out (P25_SS0_START + k * (P25_SS_INCREMENT * 5)) = b1 ∧
        m.READ_BIT out (P25_SS0_START + k * (P25_SS_INCREMENT * 5) + 1) = b2) ∧
      (∀ j, (∀ k, P25_SS0_START + k * (P25_SS_INCREMENT * 5) < length →
          j ≠ P25_SS0_START + k * (P25_SS_INCREMENT * 5) ∧
          j ≠ P25_SS0_START + k * (P25_SS_INCREMENT * 5) + 1) →
        m.READ_BIT out j = m.READ_BIT data j) ∧
      addIdleBits m P25_SS0_START P25_SS_INCREMENT out length b1 b2 = some out := by
  have e : (P25_SS_INCREMENT * 5) % 2 ^ 32 = P25_SS_INCREMENT * 5 :=
    Nat.mod_eq_of_lt (by omega)
  have hstep : 2 ≤ P25_SS_INCREMENT * 5 := by omega
  unfold addIdleBits
  rw [e]
  obtain ⟨out, ho, hr⟩ := addIdleBitsLoop_spec m hl (P25_SS_INCREMENT * 5) length b1 b2 hstep
    (by omega) (length + 1) P25_SS0_START data (by omega)
  refine ⟨out, ho, ?_, ?_, ?_⟩
  · intro k hk
    have p0 : isSS0Pos P25_SS0_START (P25_SS_INCREMENT * 5) length
        (P25_SS0_START + k * (P25_SS_INCREMENT * 5)) = true :=
      (isSS0Pos_iff _ _ _ _).mpr ⟨k, rfl, hk⟩
    constructor
    · rw [hr _, if_pos p0]
    · rw [hr _, if_neg (by rw [isSS0Pos_succ_false _ _ _ _ hstep p0]; decide),
        if_pos ⟨by omega, by rw [Nat.add_sub_cancel]; exact p0⟩]
  · intro j hj
    have n1 : ¬ isSS0Pos P25_SS0_START (P25_SS_INCREMENT * 5) length j = true := by
      intro h
      obtain ⟨k, hk, h2⟩ := (isSS0Pos_iff _ _ _ _).mp h
      exact (hj k (by omega)).1 hk
    have n2 : ¬ (1 ≤ j ∧
        isSS0Pos P25_SS0_START (P25_SS_INCREMENT * 5) length (j - 1) = true) := by
      rintro ⟨h1, h⟩
      obtain ⟨k, hk, h2⟩ := (isSS0Pos_iff _ _ _ _).mp h
      exact (hj k (by omega)).2 (by omega)
    rw [hr j, if_neg n1, if_neg n2]
  · refine addIdleBitsLoop_fixed m hl (P25_SS_INCREMENT * 5) length b1 b2 hstep (by omega)
      (length + 1) P25_SS0_START out (by omega) ?_ ?_
    · intro j hj
      rw [hr j, if_pos hj]
    · intro j hj
      rw [hr (j + 1), if_neg (by rw [isSS0Pos_succ_false _ _ _ _ hstep hj]; decide),
        if_pos ⟨by omega, by rw [Nat.add_sub_cancel]; exact hj⟩]

theorem addIdleBits_positions_witness :
    ∃ out, addIdleBits msbFirst 70 72 (fun _ => 0) 1440 true true = some out ∧
      msbFirst.READ_BIT out 70 = true ∧ msbFirst.READ_BIT out 431 = true ∧
      msbFirst.READ_BIT out 72 = false ∧
      addIdleBits msbFirst 70 72 out 1440 true true = some out := by
  obtain ⟨out, ho, hr, hn, hi⟩ := addIdleBits_positions msbFirst msbFirst_lawful 70 72
    (fun _ => 0) 1440 true true (by decide) (by decide)
  refine ⟨out, ho, (hr 0 (by decide)).1, (hr 1 (by decide)).2, ?_, hi⟩
  rw [hn 72 (fun k _ => by omega)]
  decide

end TrunkPacket
end p25

/-- A fallible loop none of whose passes fails is the loop of the passes. -/
theorem foldlM_eq_foldl {α : Type} (g : α → Nat → Option α) (f : α → Nat → α) (L : List Nat)
    (h : ∀ a, ∀ i ∈ L, g a i = some (f a i)) :
    ∀ init, L.foldlM g init = some (L.foldl f init) := by
  induction L with
  | nil => intro init; rfl
  | cons a L ih =>
    intro init
    rw [List.foldlM_cons, h init a (List.mem_cons_self a L), List.foldl_cons]
    exact ih (fun b i hi => h b i (List.mem_cons_of_mem a hi)) (f init a)

namespace nxdn
namespace channel
namespace SACCH

theorem INTERLEAVE_TABLE_formula :
    ∀ i, i < 60 → INTERLEAVE_TABLE.get? i = some (5 * (i % 12) + i / 12) := by
  decide

theorem frameBit_eq (d : NXDNDefines)
    (hoff : d.NXDN_FSW_LENGTH_BITS + d.NXDN_LICH_LENGTH_BITS + 60 ≤ 2 ^ 32) (i : Nat)
    (hi : i < 60) :
    frameBit d i =
      some (5 * (i % 12) + i / 12 + d.NXDN_FSW_LENGTH_BITS + d.NXDN_LICH_LENGTH_BITS) := by
  unfold frameBit
  rw [INTERLEAVE_TABLE_formula i hi]
  simp only []
  rw [Nat.mod_eq_of_lt (by omega)]

/-- Claim C38. `INTERLEAVE_TABLE[i]` is `5 * (i mod 12) + (i div 12)` for
every i < 60 and the table is a permutation of 0, ..., 59. So, with 60 for
`NXDN_SACCH_FEC_LENGTH_BITS` (and the frame offsets within `uint32_t`), the
interleave loop of `encode` and the deinterleave loop of `decode` both run
to their end, the deinterleave of the frame written by the interleave
returns the 60 bits of the punctured block unchanged, and the interleave
changes no frame bit outside the 60 bits from
`NXDN_FSW_LENGTH_BITS + NXDN_LICH_LENGTH_BITS` on. -/
theorem interleave_roundtrip (m : BitMacros) (hl : m.Lawful) (d : NXDNDefines)
    (hF : d.NXDN_SACCH_FEC_LENGTH_BITS = 60)
    (hoff : d.NXDN_FSW_LENGTH_BITS + d.NXDN_LICH_LENGTH_BITS + 60 ≤ 2 ^ 32)
    (puncture data : Nat → Nat) :
    (∀ i, i < 60 → INTERLEAVE_TABLE.get? i = some (5 * (i % 12) + i / 12)) ∧
    List.Perm INTERLEAVE_TABLE (List.range 60) ∧
    ∃ frame buffer, interleave m d puncture data = some frame ∧
      deinterleave m d frame = some buffer ∧
      (∀ i, i < 60 → m.READ_BIT buffer i = m.READ_BIT puncture i) ∧
      (∀ j, j < d.NXDN_FSW_LENGTH_BITS + d.NXDN_LICH_LENGTH_BITS ∨
          d.NXDN_FSW_LENGTH_BITS + d.NXDN_LICH_LENGTH_BITS + 60 ≤ j →
        m.READ_BIT frame j = m.READ_BIT data j) := by
  refine ⟨INTERLEAVE_TABLE_formula, by decide, ?_⟩
  have e1 : interleave m d puncture data = some ((List.range 60).foldl (fun x i =>
      m.WRITE_BIT x (5 * (i % 12) + i / 12 + d.NXDN_FSW_LENGTH_BITS + d.NXDN_LICH_LENGTH_BITS)
        (m.READ_BIT puncture i)) data) := by
    unfold interleave
    rw [hF]
    apply foldlM_eq_foldl
    intro a i hi
    rw [frameBit_eq d hoff i (List.mem_range.mp hi)]
  obtain ⟨r1, r2, _⟩ := read_foldl_write m hl
    (fun i => 5 * (i % 12) + i / 12 + d.NXDN_FSW_LENGTH_BITS + d.NXDN_LICH_LENGTH_BITS)
    (fun i => m.READ_BIT puncture i) (List.range 60) data
    (by
      intro a ha b hb hab
      have := List.mem_range.mp ha
      have := List.mem_range.mp hb
      simp only [] at hab
      omega)
  generalize hfr : (List.range 60).foldl (fun x i =>
      m.WRITE_BIT x (5 * (i % 12) + i / 12 + d.NXDN_FSW_LENGTH_BITS + d.NXDN_LICH_LENGTH_BITS)
        (m.READ_BIT puncture i)) data = frame at e1 r1 r2
  have e2 : deinterleave m d frame = some ((List.range 60).foldl (fun x i =>
      m.WRITE_BIT x i (m.READ_BIT frame
        (5 * (i % 12) + i / 12 + d.NXDN_FSW_LENGTH_BITS + d.NXDN_LICH_LENGTH_BITS)))
      zeroed) := by
    unfold deinterleave
    rw [hF]
    apply foldlM_eq_foldl
    intro a i hi
    rw [frameBit_eq d hoff i (List.mem_range.mp hi)]
  obtain ⟨q1, _, _⟩ := read_foldl_write m hl (fun i => i)
    (fun i => m.READ_BIT frame
      (5 * (i % 12) + i / 12 + d.NXDN_FSW_LENGTH_BITS + d.NXDN_LICH_LENGTH_BITS))
    (List.range 60) zeroed (fun a _ b _ hab => hab)
  refine ⟨frame, _, e1, e2, ?_, ?_⟩
  · intro i hi
    rw [q1 i (List.mem_range.mpr hi)]
    exact r1 i (List.mem_range.mpr hi)
  · intro j hj
    apply r2 j
    intro i hi
    have := List.mem_range.mp hi
    show 5 * (i % 12) + i / 12 + d.NXDN_FSW_LENGTH_BITS + d.NXDN_LICH_LENGTH_BITS ≠ j
    omega

theorem interleave_roundtrip_witness :
    ∃ frame buffer, interleave msbFirst scenarioDefines (fun _ => 0xA5) zeroed = some frame ∧
      deinterleave msbFirst scenarioDefines frame = some buffer ∧
      (∀ i, i < 60 → msbFirst.READ_BIT buffer i = msbFirst.READ_BIT (fun _ => 0xA5) i) ∧
      (∀ j, j < 36 ∨ 96 ≤ j → msbFirst.READ_BIT frame j = msbFirst.READ_BIT zeroed j) :=
  (interleave_roundtrip msbFirst msbFirst_lawful scenarioDefines rfl (by decide)
    (fun _ => 0xA5) zeroed).2.2

end SACCH
end channel
end nxdn

namespace nxdn
namespace channel
namespace SACCH

/-- The byte that the four assignments of `encode` leave in `m_data[0]`,
whatever it was before. -/
theorem storeHeader_value (b0 ran st : Nat) :
    ((((b0 &&& 0xC0) ||| ran) % 256) &&& 0x3F ||| ((st <<< 6) &&& 0xC0)) % 256 =
      (ran &&& 0x3F) ||| ((st &&& 0x03) <<< 6) := by
  have h3F : (0x3F : Nat) = 2 ^ 6 - 1 := by norm_num
  have hC0 : (0xC0 : Nat) = (2 ^ 8 - 1) ^^^ (2 ^ 6 - 1) := by decide
  have h03 : (0x03 : Nat) = 2 ^ 2 - 1 := by norm_num
  have h256 : (256 : Nat) = 2 ^ 8 := by norm_num
  rw [h3F, hC0, h03, h256]
  apply Nat.eq_of_testBit_eq
  intro t
  simp only [Nat.testBit_mod_two_pow, Nat.testBit_and, Nat.testBit_or, Nat.testBit_xor,
    Nat.testBit_two_pow_sub_one, Nat.testBit_shiftLeft]
  rcases Nat.lt_or_ge t 6 with h6 | h6
  · have h8 : t < 8 := by omega
    have hn : ¬ t ≥ 6 := by omega
    simp [h6, h8, hn]
  · rcases Nat.lt_or_ge t 8 with h8 | h8
    · have hn : ¬ t < 6 := by omega
      have h2 : t - 6 < 2 := by omega
      simp [h6, h8, hn, h2]
    · have hn : ¬ t < 6 := by omega
      have hn8 : ¬ t < 8 := by omega
      have h2 : ¬ t - 6 < 2 := by omega
      simp [h6, hn8, hn, h2]

theorem header_extract :
    ∀ ran, ran < 64 → ∀ st, st < 4 →
      ((ran &&& 0x3F) ||| ((st &&& 0x03) <<< 6)) &&& 0x3F = ran ∧
      ((((ran &&& 0x3F) ||| ((st &&& 0x03) <<< 6)) >>> 6) &&& 0x03) = st := by
  decide

theorem storeHeader_byte0 (s : SACCH) :
    s.storeHeader.m_data 0 = (s.m_ran &&& 0x3F) ||| ((s.m_structure &&& 0x03) <<< 6) := by
  unfold storeHeader
  simp only [Function.update_same]
  exact storeHeader_value _ _ _

end SACCH
end channel
end nxdn

namespace nxdn
namespace channel
namespace SACCH

theorem payloadBits_eq (d : NXDNDefines) (h8 : 8 ≤ d.NXDN_SACCH_LENGTH_BITS)
    (hlt : d.NXDN_SACCH_LENGTH_BITS < 2 ^ 32) :
    payloadBits d = d.NXDN_SACCH_LENGTH_BITS - 8 := by
  unfold payloadBits
  have h32 : (2 : Nat) ^ 32 = 4294967296 := by norm_num
  rw [h32] at hlt ⊢
  omega

theorem puncture_eval (m : BitMacros) (d : NXDNDefines)
    (hC : d.NXDN_SACCH_FEC_CONV_LENGTH_BITS = 72) (convolution : Nat → Nat) :
    puncture m d convolution = some ((List.range 60).foldl
      (fun p k => m.WRITE_BIT p k (m.READ_BIT convolution (k + k / 5))) zeroed) := by
  unfold puncture
  rw [hC]
  rfl

/-- The bits of `data` that `setData` stores are those that `getData` hands
back, and `setData` leaves byte 0 of `m_data` as it is. -/
theorem getData_setData (m : BitMacros) (hl : m.Lawful) (d : NXDNDefines)
    (h8 : 8 ≤ d.NXDN_SACCH_LENGTH_BITS) (hlt : d.NXDN_SACCH_LENGTH_BITS < 2 ^ 32) (s : SACCH)
    (data out : Nat → Nat) :
    (∀ i, i < d.NXDN_SACCH_LENGTH_BITS - 8 →
      m.READ_BIT (getData m d (setData m d s data) out) i = m.READ_BIT data i) ∧
    (setData m d s data).m_data 0 = s.m_data 0 := by
  have h32 : (2 : Nat) ^ 32 = 4294967296 := by norm_num
  have hoff : ∀ i, i < d.NXDN_SACCH_LENGTH_BITS - 8 → (8 + i) % 2 ^ 32 = 8 + i := by
    intro i hi
    apply Nat.mod_eq_of_lt
    rw [h32] at hlt ⊢
    omega
  obtain ⟨r1, _, r3⟩ := read_foldl_write m hl (fun i => (8 + i) % 2 ^ 32)
    (fun i => m.READ_BIT data i) (List.range (d.NXDN_SACCH_LENGTH_BITS - 8)) s.m_data
    (by
      intro a ha b hb hab
      simp only [] at hab
      rw [hoff a (List.mem_range.mp ha), hoff b (List.mem_range.mp hb)] at hab
      omega)
  have hset : (setData m d s data).m_data =
      (List.range (d.NXDN_SACCH_LENGTH_BITS - 8)).foldl
        (fun x i => m.WRITE_BIT x ((8 + i) % 2 ^ 32) (m.READ_BIT data i)) s.m_data := by
    unfold setData
    rw [payloadBits_eq d h8 hlt]
  obtain ⟨q1, _, _⟩ := read_foldl_write m hl (fun i => i)
    (fun i => m.READ_BIT (setData m d s data).m_data ((8 + i) % 2 ^ 32))
    (List.range (d.NXDN_SACCH_LENGTH_BITS - 8)) out (fun a _ b _ hab => hab)
  constructor
  · intro i hi
    have hget : getData m d (setData m d s data) out =
        (List.range (d.NXDN_SACCH_LENGTH_BITS - 8)).foldl (fun x i => m.WRITE_BIT x i
          (m.READ_BIT (setData m d s data).m_data ((8 + i) % 2 ^ 32))) out := by
      unfold getData
      rw [payloadBits_eq d h8 hlt]
    rw [hget, q1 i (List.mem_range.mpr hi), hset]
    exact r1 i (List.mem_range.mpr hi)
  · rw [hset]
    apply r3 0
    intro i hi
    show 0 ≠ (8 + i) % 2 ^ 32 / 8
    rw [hoff i (List.mem_range.mp hi)]
    omega

/-- Claim C40. `encode` (which returns, with 60 and 72 for the lengths of
the punctured block and of the convolutional stream) stores in byte 0 of
`m_data` the value `(ran & 0x3F) | ((structure & 0x03) << 6)`, whatever the
byte held before; the extraction `ran = byte & 0x3F`,
`structure = (byte >> 6) & 0x03` of `decode`, of the copy constructor and of
the assignment recovers the same `ran` and `structure` from it for every
`ran < 64` and `structure < 4`; `getData` after `setData` hands back the
`NXDN_SACCH_LENGTH_BITS - 8` payload bits that were set, and `setData`
leaves byte 0 as it is. -/
theorem encode_header (m : BitMacros) (hl : m.Lawful) (d : NXDNDefines) (lib : Edac)
    (hF : d.NXDN_SACCH_FEC_LENGTH_BITS = 60) (hC : d.NXDN_SACCH_FEC_CONV_LENGTH_BITS = 72)
    (hoff : d.NXDN_FSW_LENGTH_BITS + d.NXDN_LICH_LENGTH_BITS + 60 ≤ 2 ^ 32)
    (h8 : 8 ≤ d.NXDN_SACCH_LENGTH_BITS) (hlt : d.NXDN_SACCH_LENGTH_BITS < 2 ^ 32)
    (s : SACCH) (data out : Nat → Nat) :
    (∃ frame, encode m d lib s data = some (s.storeHeader, frame)) ∧
    s.storeHeader.m_data 0 = (s.m_ran &&& 0x3F) ||| ((s.m_structure &&& 0x03) <<< 6) ∧
    (s.m_ran < 64 → s.m_structure < 4 →
      (s.storeHeader.loadHeader.m_ran = s.m_ran ∧
        s.storeHeader.loadHeader.m_structure = s.m_structure) ∧
      ((copy s.storeHeader).m_ran = s.m_ran ∧
        (copy s.storeHeader).m_structure = s.m_structure) ∧
      ∀ x : SACCH, (x.assign s.storeHeader).m_ran = s.m_ran ∧
        (x.assign s.storeHeader).m_structure = s.m_structure) ∧
    (∀ i, i < d.NXDN_SACCH_LENGTH_BITS - 8 →
      m.READ_BIT (getData m d (setData m d s data) out) i = m.READ_BIT data i) ∧
    (setData m d s data).m_data 0 = s.m_data 0 := by
  refine ⟨?_, storeHeader_byte0 s, ?_, getData_setData m hl d h8 hlt s data out⟩
  · unfold encode
    simp only []
    rw [puncture_eval m d hC]
    simp only []
    have e1 : ∀ p x : Nat → Nat, interleave m d p x = some ((List.range 60).foldl (fun x i =>
        m.WRITE_BIT x
          (5 * (i % 12) + i / 12 + d.NXDN_FSW_LENGTH_BITS + d.NXDN_LICH_LENGTH_BITS)
          (m.READ_BIT p i)) x) := by
      intro p x
      unfold interleave
      rw [hF]
      apply foldlM_eq_foldl
      intro a i hi
      rw [frameBit_eq d hoff i (List.mem_range.mp hi)]
    rw [e1]
    exact ⟨_, rfl⟩
  · intro hr hs
    have hb := storeHeader_byte0 s
    obtain ⟨x1, x2⟩ := header_extract s.m_ran hr s.m_structure hs
    have k1 : s.storeHeader.loadHeader.m_ran = s.m_ran := by
      show s.storeHeader.m_data 0 &&& 0x3F = s.m_ran
      rw [hb]; exact x1
    have k2 : s.storeHeader.loadHeader.m_structure = s.m_structure := by
      show (s.storeHeader.m_data 0 >>> 6) &&& 0x03 = s.m_structure
      rw [hb]; exact x2
    exact ⟨⟨k1, k2⟩, ⟨k1, k2⟩, fun _ => ⟨k1, k2⟩⟩

theorem encode_header_witness :
    (SACCH.storeHeader { m_ran := 33, m_structure := 2, m_data := fun _ => 0xFF }).m_data 0 =
      161 ∧
    (SACCH.loadHeader
      (SACCH.storeHeader { m_ran := 33, m_structure := 2, m_data := fun _ => 0xFF })).m_ran =
      33 ∧
    (setData msbFirst scenarioDefines { m_ran := 33, m_structure := 2, m_data := fun _ => 0xFF }
      zeroed).m_data 0 = 0xFF :=
  ⟨(encode_header msbFirst msbFirst_lawful scenarioDefines
      { convEncode := fun b _ => b, convDecode := fun _ b _ => some b,
        addCRC6 := fun b _ => b, checkCRC6 := fun _ _ => true }
      rfl rfl (by decide) (by decide) (by decide)
      { m_ran := 33, m_structure := 2, m_data := fun _ => 0xFF } zeroed zeroed).2.1,
    ((encode_header msbFirst msbFirst_lawful scenarioDefines
      { convEncode := fun b _ => b, convDecode := fun _ b _ => some b,
        addCRC6 := fun b _ => b, checkCRC6 := fun _ _ => true }
      rfl rfl (by decide) (by decide) (by decide)
      { m_ran := 33, m_structure := 2, m_data := fun _ => 0xFF } zeroed zeroed).2.2.1
      (by decide) (by decide)).1.1,
    (encode_header msbFirst msbFirst_lawful scenarioDefines
      { convEncode := fun b _ => b, convDecode := fun _ b _ => some b,
        addCRC6 := fun b _ => b, checkCRC6 := fun _ _ => true }
      rfl rfl (by decide) (by decide) (by decide)
      { m_ran := 33, m_structure := 2, m_data := fun _ => 0xFF } zeroed zeroed).2.2.2.2⟩

end SACCH
end channel
end nxdn

theorem map_range_set {α : Type} (N : Nat) (f : Nat → α) (n : Nat) (v : α) :
    ((List.range N).map f).set n v = (List.range N).map (Function.update f n v) := by
  apply List.ext_getElem?
  intro j
  rw [List.getElem?_set, List.getElem?_map, List.getElem?_map]
  by_cases hj : j < N
  · rw [List.getElem?_range hj]
    by_cases hn : n = j
    · subst hn
      simp [hj]
    · rw [if_neg hn]
      simp [Function.update_noteq (Ne.symm hn)]
  · have h1 : (List.range N)[j]? = none :=
      List.getElem?_eq_none (by rw [List.length_range]; omega)
    rw [h1]
    by_cases hn : n = j
    · subst hn
      simp [hj]
    · rw [if_neg hn]
      rfl

namespace nxdn
namespace channel
namespace SACCH

theorem PUNCTURE_LIST_formula : ∀ e, e < 12 → PUNCTURE_LIST.get? e = some (6 * e + 5) := by
  decide

theorem length_depunctured (m : BitMacros) (buffer : Nat → Nat) (n : Nat) :
    (depunctured m buffer n).length = 90 := by
  unfold depunctured
  rw [List.length_map, List.length_range]

/-- Filling position `n` of the symbol buffer. -/
theorem depunctured_set (m : BitMacros) (buffer : Nat → Nat) (n v : Nat)
    (hv : v = if n % 6 = 5 then 1 else if m.READ_BIT buffer (n - n / 6) then 2 else 0) :
    (depunctured m buffer n).set n v = depunctured m buffer (n + 1) := by
  unfold depunctured
  rw [map_range_set]
  apply List.map_congr_left
  intro p _
  by_cases hp : p = n
  · subst hp
    rw [Function.update_same, if_pos (Nat.lt_succ_self p)]
    exact hv
  · rw [Function.update_noteq hp]
    by_cases h1 : p < n
    · rw [if_pos h1, if_pos (show p < n + 1 by omega)]
    · rw [if_neg h1, if_neg (show ¬ p < n + 1 by omega)]

/-- Writing a zero at or behind the filled positions changes nothing. -/
theorem depunctured_set_zero (m : BitMacros) (buffer : Nat → Nat) (n k : Nat) (hk : n ≤ k) :
    (depunctured m buffer n).set k 0 = depunctured m buffer n := by
  unfold depunctured
  rw [map_range_set]
  apply List.map_congr_left
  intro p _
  by_cases hp : p = k
  · subst hp
    rw [Function.update_same, if_neg (show ¬ p < n by omega)]
  · rw [Function.update_noteq hp]

/-- One pass of the loop "depuncture" from the state that `k` passes leave. -/
theorem depunctureStep_eq (m : BitMacros) (buffer : Nat → Nat) (k : Nat) (hk : k < 60) :
    depunctureStep m buffer
      (k + (k - 1) / 5, (k - 1) / 5, depunctured m buffer (k + (k - 1) / 5)) k =
      some (k + 1 + k / 5, k / 5, depunctured m buffer (k + 1 + k / 5)) := by
  unfold depunctureStep
  simp only []
  rw [PUNCTURE_LIST_formula ((k - 1) / 5) (by omega)]
  simp only []
  by_cases he : k + (k - 1) / 5 = 6 * ((k - 1) / 5) + 5
  · have s1 := depunctured_set m buffer (k + (k - 1) / 5) 1
      (by rw [if_pos (show (k + (k - 1) / 5) % 6 = 5 by omega)])
    have s2 := depunctured_set m buffer (k + (k - 1) / 5 + 1)
      (if m.READ_BIT buffer k then 2 else 0)
      (by
        rw [if_neg (show ¬ (k + (k - 1) / 5 + 1) % 6 = 5 by omega),
          show k + (k - 1) / 5 + 1 - (k + (k - 1) / 5 + 1) / 6 = k by omega])
    rw [if_pos he, if_pos (show k + (k - 1) / 5 < (depunctured m buffer
      (k + (k - 1) / 5)).length by rw [length_depunctured]; omega)]
    simp only []
    rw [List.length_set, length_depunctured, if_pos (show k + (k - 1) / 5 + 1 < 90 by omega),
      s1, s2, show k + (k - 1) / 5 + 1 + 1 = k + 1 + k / 5 by omega,
      show (k - 1) / 5 + 1 = k / 5 by omega]
  · have s2 := depunctured_set m buffer (k + (k - 1) / 5)
      (if m.READ_BIT buffer k then 2 else 0)
      (by
        rw [if_neg (show ¬ (k + (k - 1) / 5) % 6 = 5 by omega),
          show k + (k - 1) / 5 - (k + (k - 1) / 5) / 6 = k by omega])
    rw [if_neg he]
    simp only []
    rw [length_depunctured, if_pos (show k + (k - 1) / 5 < 90 by omega), s2,
      show k + (k - 1) / 5 + 1 = k + 1 + k / 5 by omega,
      show (k - 1) / 5 = k / 5 by omega]

/-- The loop "depuncture" after `k` passes. -/
theorem depuncture_loop (m : BitMacros) (buffer : Nat → Nat) :
    ∀ k, k ≤ 60 →
      (List.range k).foldlM (depunctureStep m buffer) (0, 0, List.replicate 90 0) =
        some (k + (k - 1) / 5, (k - 1) / 5, depunctured m buffer (k + (k - 1) / 5)) := by
  intro k
  induction k with
  | zero => intro _; rfl
  | succ k ih =>
    intro hk
    rw [List.range_succ, List.foldlM_append, ih (by omega)]
    show (depunctureStep m buffer _ k >>= fun x => pure x) = _
    rw [depunctureStep_eq m buffer k (by omega)]
    rfl

theorem flush_loop (L : List Nat) (hL : L.length = 90)
    (hz : ∀ k, 71 ≤ k → L.set k 0 = L) :
    ∀ (l : List Nat) (n : Nat), 71 ≤ n → n + l.length ≤ 90 →
      l.foldlM flushStep (n, L) = some (n + l.length, L) := by
  intro l
  induction l with
  | nil => intro n _ _; rfl
  | cons a l ih =>
    intro n h1 h2
    rw [List.length_cons] at h2
    rw [List.foldlM_cons]
    have hs : flushStep (n, L) a = some (n + 1, L) := by
      unfold flushStep
      simp only []
      rw [hL, if_pos (by omega), hz n h1]
    rw [hs]
    show l.foldlM flushStep (n + 1, L) = _
    rw [ih (n + 1) (by omega) (by omega), List.length_cons]
    congr 2
    omega

/-- The symbol buffer that the part "depuncture" of `decode` builds from 60
received bits: positions 0 to 70 are filled, with erasures at 5, 11, ...,
65, and every position from 71 on is zero. -/
theorem depuncture_eval (m : BitMacros) (d : NXDNDefines)
    (hF : d.NXDN_SACCH_FEC_LENGTH_BITS = 60) (buffer : Nat → Nat) :
    depuncture m d buffer = some (depunctured m buffer 71) := by
  unfold depuncture
  rw [hF, depuncture_loop m buffer 60 (Nat.le_refl _)]
  simp only []
  have e : 60 + (60 - 1) / 5 = 71 := by decide
  rw [e, flush_loop (depunctured m buffer 71) (length_depunctured m buffer 71)
    (fun k hk => depunctured_set_zero m buffer 71 k hk) (List.range 8) 71 (Nat.le_refl _)
    (by decide)]

end SACCH
end channel
end nxdn

namespace nxdn
namespace channel
namespace SACCH

theorem get?_depunctured (m : BitMacros) (buffer : Nat → Nat) (n p : Nat) (hp : p < 90) :
    (depunctured m buffer n).get? p = some (if p < n then
      if p % 6 = 5 then 1 else if m.READ_BIT buffer (p - p / 6) then 2 else 0
    else 0) := by
  unfold depunctured
  rw [List.get?_eq_getElem?, List.getElem?_map, List.getElem?_range hp]
  rfl

/-- Claim C39 on the code. The part "puncture" of `encode` keeps, in order,
the 60 bits of the 72-bit stream at the positions k + k / 5 (k < 60), the
positions that are not in `PUNCTURE_LIST`; position 71, the last entry of
the list, is dropped. The part "depuncture" of `decode` runs to its end
within the list and the 90-entry buffer, and stores the symbol of received
bit i at position i + i / 5; it marks the eleven positions 5, 11, ..., 65
with the erasure value 1, but not position 71: the buffer holds 0 there, the
first of the eight flush symbols, which the loop writes at 71, ..., 78. -/
theorem depuncture_misses_last_erasure (m : BitMacros) (hl : m.Lawful) (d : NXDNDefines)
    (hF : d.NXDN_SACCH_FEC_LENGTH_BITS = 60) (hC : d.NXDN_SACCH_FEC_CONV_LENGTH_BITS = 72)
    (convolution buffer : Nat → Nat) :
    (∃ p, puncture m d convolution = some p ∧
      ∀ k, k < 60 → m.READ_BIT p k = m.READ_BIT convolution (k + k / 5)) ∧
    (∀ k, k < 60 → k + k / 5 ∉ PUNCTURE_LIST) ∧
    PUNCTURE_LIST.get? 11 = some 71 ∧
    ∃ sym, depuncture m d buffer = some sym ∧ sym.length = 90 ∧
      (∀ i, i < 60 → sym.get? (i + i / 5) = some (if m.READ_BIT buffer i then 2 else 0)) ∧
      (∀ e, e < 11 → sym.get? (6 * e + 5) = some 1) ∧
      sym.get? 71 = some 0 ∧
      (∀ n, 71 ≤ n → n < 90 → sym.get? n = some 0) := by
  refine ⟨?_, by decide, by decide, ?_⟩
  · obtain ⟨q1, _, _⟩ := read_foldl_write m hl (fun i => i)
      (fun k => m.READ_BIT convolution (k + k / 5)) (List.range 60) zeroed
      (fun a _ b _ hab => hab)
    exact ⟨_, puncture_eval m d hC convolution, fun k hk => q1 k (List.mem_range.mpr hk)⟩
  · refine ⟨_, depuncture_eval m d hF buffer, length_depunctured m buffer 71, ?_, ?_, ?_, ?_⟩
    · intro i hi
      rw [get?_depunctured m buffer 71 _ (by omega), if_pos (show i + i / 5 < 71 by omega),
        if_neg (show ¬ (i + i / 5) % 6 = 5 by omega),
        show i + i / 5 - (i + i / 5) / 6 = i by omega]
    · intro e he
      rw [get?_depunctured m buffer 71 _ (by omega), if_pos (show 6 * e + 5 < 71 by omega),
        if_pos (show (6 * e + 5) % 6 = 5 by omega)]
    · rw [get?_depunctured m buffer 71 71 (by decide), if_neg (by decide)]
    · intro n h1 h2
      rw [get?_depunctured m buffer 71 n h2, if_neg (show ¬ n < 71 by omega)]

theorem depuncture_misses_last_erasure_witness :
    PUNCTURE_LIST.get? 11 = some 71 ∧
    ∃ sym, depuncture msbFirst scenarioDefines zeroed = some sym ∧ sym.get? 65 = some 1 ∧
      sym.get? 71 = some 0 := by
  obtain ⟨_, _, h3, sym, h4, _, _, h6, h7, _⟩ := depuncture_misses_last_erasure msbFirst
    msbFirst_lawful scenarioDefines rfl rfl zeroed zeroed
  exact ⟨h3, sym, h4, h6 10 (by decide), h7⟩

end SACCH
end channel
end nxdn

namespace p25
namespace TrunkPacket

/-! ### What reaches the modem queue -/

theorem queued_emit (s : TrunkPacket) (e : Event) :
    (s.emit e).queued = s.queued ++ (eventFrame e).toList := by
  unfold queued emit
  cases h : eventFrame e <;> simp [List.filterMap_append, List.filterMap, h]

theorem queued_queueSBF (x : TrunkPacket) (d : TSBK) (c : Bool) (hd : x.p25.duplex = true) :
    (x.queueSBF d c).queued = x.queued ++ [Frame.sbf d] := by
  unfold queueSBF
  simp only []
  cases c <;> by_cases hk : x.skipSBFPreamble = false <;>
    simp [hk, hd, eventFrame, setSkipSBFPreamble, emit, queued,
      List.filterMap_append, List.filterMap]

theorem Sends.refl (s : TrunkPacket) : Sends s s :=
  ⟨rfl, rfl, rfl, [], by simp, fun _ _ _ => by simp⟩

theorem Sends.trans {a b c : TrunkPacket} (h1 : Sends a b) (h2 : Sends b c) : Sends a c := by
  obtain ⟨d1, c1, r1, l1, e1, q1⟩ := h1
  obtain ⟨d2, c2, r2, l2, e2, q2⟩ := h2
  refine ⟨d2.trans d1, c2.trans c1, r2.trans r1, l1 ++ l2, ?_, ?_⟩
  · rw [e2, e1, List.append_assoc]
  · intro hd hc hr
    rw [q2 (d1.trans hd) (c1.trans hc) (r1.trans hr), q1 hd hc hr, List.map_append,
      List.append_assoc]

/-- A step that leaves the trace and the shaper configuration alone. -/
theorem sends_of_events {s s' : TrunkPacket} (he : s'.events = s.events)
    (hd : s'.p25.duplex = s.p25.duplex)
    (hc : s'.p25.continuousControl = s.p25.continuousControl)
    (hr : s'.p25.ccRunning = s.p25.ccRunning) : Sends s s' :=
  ⟨hd, hc, hr, [], by simp [emitted, he], fun _ _ _ => by simp [queued, he]⟩

theorem sends_of_eq {s s' : TrunkPacket} (he : s'.events = s.events) (hp : s'.p25 = s.p25) :
    Sends s s' :=
  sends_of_events he (by rw [hp]) (by rw [hp]) (by rw [hp])

/-- An effect that is neither a shaper call nor a frame for the modem. -/
theorem sends_emit (s : TrunkPacket) (e : Event) (h1 : eventTSBK e = none)
    (h2 : eventFrame e = none) : Sends s (s.emit e) :=
  ⟨rfl, rfl, rfl, [], by simp [emitted, emit, List.filterMap_append, List.filterMap, h1],
    fun _ _ _ => by rw [queued_emit, h2]; simp⟩

theorem sends_writeNetworkRF (s : TrunkPacket) (d : TSBK) (r : Bool) :
    Sends s (s.writeNetworkRF d r) := by
  unfold writeNetworkRF
  split_ifs
  · exact Sends.refl s
  · exact Sends.refl s
  · exact (sends_emit s (Event.writeP25TSDU d) rfl rfl).trans (sends_emit _ Event.resetP25 rfl rfl)
  · exact sends_emit s (Event.writeP25TSDU d) rfl rfl

theorem sends_setRfTSBK (s : TrunkPacket) (t : TSBK) : Sends s (s.setRfTSBK t) :=
  sends_of_eq rfl rfl

theorem sends_setLCO (s : TrunkPacket) (l : LCO) : Sends s (s.setLCO l) :=
  sends_of_eq rfl rfl

theorem sends_setResponse (s : TrunkPacket) (r : Response) : Sends s (s.setResponse r) :=
  sends_of_eq rfl rfl

theorem sends_setRfState (s : TrunkPacket) (st : RPT_RF_STATE) : Sends s (s.setRfState st) :=
  sends_of_events rfl rfl rfl rfl

theorem sends_checkAndReject (s : TrunkPacket) : Sends s s.checkAndReject := by
  refine sends_of_events rfl ?_ ?_ ?_ <;>
    (unfold checkAndReject Control.checkAndReject; simp only []; split_ifs <;> rfl)

/-- The single-block writer hands the RF TSBK, marked as last block, to the
shaper, and in duplex mode without a control channel running that TSBK is the
one frame it places on the modem queue. -/
theorem sends_writeRF_TSDU_SBF (s : TrunkPacket) (n c : Bool) :
    Sends s (s.writeRF_TSDU_SBF n c) := by
  have hp := p25_writeRF_TSDU_SBF s n c
  refine ⟨by rw [hp], by rw [hp], by rw [hp], [{ s.rfTSBK with lastBlock := true }],
    emitted_writeRF_TSDU_SBF s n c, ?_⟩
  intro hd hc hr
  have hnet : ∀ (x : TrunkPacket) (d : TSBK) (r : Bool), (x.writeNetworkRF d r).queued = x.queued := by
    intro x d r
    unfold writeNetworkRF
    split_ifs <;> simp [queued_emit, eventFrame]
  unfold writeRF_TSDU_SBF
  simp only []
  cases n
  · simp only [if_true]
    rw [p25_writeNetworkRF, p25_emit, p25_setLastBlock, hc, hr]
    simp only [Bool.false_eq_true, if_false]
    rw [queued_queueSBF _ _ _ (by simpa using hd), hnet, queued_emit]
    simp [eventFrame, queued]
  · simp only [Bool.true_eq_false, if_false]
    rw [p25_emit, p25_setLastBlock, hc, hr]
    simp only [Bool.false_eq_true, if_false]
    rw [queued_queueSBF _ _ _ (by simpa using hd), queued_emit]
    simp [eventFrame, queued]



/-! ### The response writers send what they hand to the shaper -/

@[simp] theorem events_setResponse (s : TrunkPacket) (r : Response) :
    (s.setResponse r).events = s.events := rfl
@[simp] theorem events_setGrpAffTable (s : TrunkPacket) (t : List (Nat × Nat)) :
    (s.setGrpAffTable t).events = s.events := rfl
@[simp] theorem events_setUnitRegTable (s : TrunkPacket) (t : List Nat) :
    (s.setUnitRegTable t).events = s.events := rfl
@[simp] theorem events_setStatus (s : TrunkPacket) (a v : Nat) :
    (s.setStatus a v).events = s.events := rfl

theorem sends_setGrpAffTable (s : TrunkPacket) (t : List (Nat × Nat)) :
    Sends s (s.setGrpAffTable t) := sends_of_eq rfl rfl

theorem sends_setUnitRegTable (s : TrunkPacket) (t : List Nat) :
    Sends s (s.setUnitRegTable t) := sends_of_eq rfl rfl

theorem sends_setStatus (s : TrunkPacket) (a v : Nat) : Sends s (s.setStatus a v) :=
  sends_of_eq rfl rfl

theorem sends_ite (s a b : TrunkPacket) (p : Prop) [Decidable p] (h1 : Sends s a)
    (h2 : Sends s b) : Sends s (if p then a else b) := by
  split_ifs
  · exact h1
  · exact h2

theorem sends_setNetTSBK (s : TrunkPacket) (t : TSBK) : Sends s (s.setNetTSBK t) :=
  sends_of_eq rfl rfl

theorem Sends.frame {s x y : TrunkPacket} (h : Sends s x) (he : y.events = x.events)
    (hp : y.p25 = x.p25) : Sends s y :=
  h.trans (sends_of_eq he hp)

theorem sends_SBF_of {s x : TrunkPacket} (he : x.events = s.events) (hp : x.p25 = s.p25)
    (n c : Bool) : Sends s (x.writeRF_TSDU_SBF n c) :=
  (sends_of_eq he hp).trans (sends_writeRF_TSDU_SBF x n c)

theorem sends_writeRF_TSDU_Deny (s : TrunkPacket) (r : Response) (v : LCO) :
    Sends s (s.writeRF_TSDU_Deny r v) := by
  unfold writeRF_TSDU_Deny
  simp only []
  exact ((sends_setRfTSBK _ _).trans (sends_writeRF_TSDU_SBF _ _ _)).trans (sends_setLCO _ _)

theorem sends_writeRF_TSDU_Queue (s : TrunkPacket) (r : Response) (v : LCO) :
    Sends s (s.writeRF_TSDU_Queue r v) := by
  unfold writeRF_TSDU_Queue
  simp only []
  exact ((sends_setRfTSBK _ _).trans (sends_writeRF_TSDU_SBF _ _ _)).trans (sends_setLCO _ _)

theorem sends_writeRF_TSDU_Call_Alrt (s : TrunkPacket) (a d : Nat) :
    Sends s (s.writeRF_TSDU_Call_Alrt a d) := by
  unfold writeRF_TSDU_Call_Alrt
  simp only []
  exact (sends_setRfTSBK _ _).trans (sends_writeRF_TSDU_SBF _ _ _)

theorem sends_writeRF_TSDU_Ext_Func (s : TrunkPacket) (f : ExtFunc) (a d : Nat) :
    Sends s (s.writeRF_TSDU_Ext_Func f a d) := by
  unfold writeRF_TSDU_Ext_Func
  simp only []
  exact ((sends_setRfTSBK _ _).trans (sends_writeRF_TSDU_SBF _ _ _)).trans (sends_setRfTSBK _ _)

theorem sends_writeRF_TSDU_Grp_Aff_Q (s : TrunkPacket) (d : Nat) :
    Sends s (s.writeRF_TSDU_Grp_Aff_Q d) := by
  unfold writeRF_TSDU_Grp_Aff_Q
  simp only []
  exact (sends_setRfTSBK _ _).trans (sends_writeRF_TSDU_SBF _ _ _)

theorem sends_writeRF_TSDU_U_Reg_Cmd (s : TrunkPacket) (d : Nat) :
    Sends s (s.writeRF_TSDU_U_Reg_Cmd d) := by
  unfold writeRF_TSDU_U_Reg_Cmd
  simp only []
  exact (sends_setRfTSBK _ _).trans (sends_writeRF_TSDU_SBF _ _ _)

theorem sends_writeRF_TSDU_UU_Ans_Req (s : TrunkPacket) (a d : Nat) :
    Sends s (s.writeRF_TSDU_UU_Ans_Req a d) := by
  unfold writeRF_TSDU_UU_Ans_Req
  simp only []
  exact ((sends_setRfTSBK _ _).trans (sends_writeRF_TSDU_SBF _ _ _)).trans (sends_setRfTSBK _ _)

theorem sends_writeRF_TSDU_ACK_FNE (s : TrunkPacket) (a : Nat) (v : LCO) (n : Bool) :
    Sends s (s.writeRF_TSDU_ACK_FNE a v n) := by
  unfold writeRF_TSDU_ACK_FNE
  simp only []
  exact ((sends_setRfTSBK _ _).trans (sends_writeRF_TSDU_SBF _ _ _)).trans (sends_setRfTSBK _ _)

theorem sends_transmitGrant (s : TrunkPacket) (grp : Bool) (l : LCO) :
    Sends s (s.transmitGrant grp l).2 := by
  unfold transmitGrant
  split_ifs <;> simp only [] <;>
    exact ((sends_setLCO _ _).trans (sends_writeRF_TSDU_SBF _ _ _)).trans (sends_setLCO _ _)

theorem sends_writeRF_TSDU_Grant (s : TrunkPacket) (grp skip : Bool) :
    Sends s (s.writeRF_TSDU_Grant grp skip).2 := by
  unfold writeRF_TSDU_Grant
  simp only []
  split_ifs <;> (try simp only []) <;>
    first
      | exact Sends.refl s
      | exact ((sends_writeRF_TSDU_Deny s _ _).trans (sends_checkAndReject _)).trans
          (sends_setLCO _ _)
      | exact sends_setLCO _ _
      | exact sends_transmitGrant _ _ _
      | (split
         · exact ((sends_writeRF_TSDU_Queue s _ _).trans (sends_checkAndReject _)).trans
             (sends_setLCO _ _)
         · refine Sends.trans ?_ (sends_transmitGrant _ _ _)
           exact sends_of_eq rfl rfl)

theorem sends_writeRF_TSDU_Grp_Aff_Rsp (acl : AccessControl) (s : TrunkPacket) (a d : Nat) :
    Sends s (writeRF_TSDU_Grp_Aff_Rsp acl s a d).2 := by
  unfold writeRF_TSDU_Grp_Aff_Rsp
  simp only []
  have h1 : Sends s (((s.setLCO LCO.TSBK_IOSP_GRP_AFF).setResponse
      Response.P25_RSP_ACCEPT).setRfTSBK
      { ((s.setLCO LCO.TSBK_IOSP_GRP_AFF).setResponse Response.P25_RSP_ACCEPT).rfTSBK with
        patchSuperGroupId :=
          ((s.setLCO LCO.TSBK_IOSP_GRP_AFF).setResponse
            Response.P25_RSP_ACCEPT).patchSuperGroup }) :=
    ((sends_setLCO _ _).trans (sends_setResponse _ _)).trans (sends_setRfTSBK _ _)
  generalize (((s.setLCO LCO.TSBK_IOSP_GRP_AFF).setResponse
      Response.P25_RSP_ACCEPT).setRfTSBK
      { ((s.setLCO LCO.TSBK_IOSP_GRP_AFF).setResponse Response.P25_RSP_ACCEPT).rfTSBK with
        patchSuperGroupId :=
          ((s.setLCO LCO.TSBK_IOSP_GRP_AFF).setResponse
            Response.P25_RSP_ACCEPT).patchSuperGroup }) = x1 at h1 ⊢
  have h2 := sends_ite s (x1.setResponse Response.P25_RSP_DENY) x1
    (acl.validateSrcId a = false) (h1.trans (sends_setResponse _ _)) h1
  generalize (if acl.validateSrcId a = false then x1.setResponse Response.P25_RSP_DENY
    else x1) = x2 at h2 ⊢
  have h3 := sends_ite s (x2.setResponse Response.P25_RSP_DENY) x2
    (x2.hasSrcIdUnitReg a = false ∧ x2.verifyReg = true) (h2.trans (sends_setResponse _ _)) h2
  generalize (if x2.hasSrcIdUnitReg a = false ∧ x2.verifyReg = true then
    x2.setResponse Response.P25_RSP_DENY else x2) = x3 at h3 ⊢
  have h4 : Sends s (if x3.rfTSBK.group = true then
      if acl.validateTGId d = false then x3.setResponse Response.P25_RSP_REFUSED else x3
      else x3) :=
    sends_ite s _ _ _ (sends_ite s _ _ _ (h3.trans (sends_setResponse _ _)) h3) h3
  generalize (if x3.rfTSBK.group = true then
      if acl.validateTGId d = false then x3.setResponse Response.P25_RSP_REFUSED else x3
      else x3) = x4 at h4 ⊢
  split_ifs
  · exact (h4.trans (sends_setGrpAffTable _ _)).trans (sends_writeRF_TSDU_SBF _ _ _)
  · exact h4.trans (sends_writeRF_TSDU_SBF _ _ _)

theorem sends_denialInhibit (acl : AccessControl) (s : TrunkPacket) (a : Nat) :
    Sends s (denialInhibit acl s a) := by
  unfold denialInhibit
  split_ifs
  · exact Sends.refl s
  · exact sends_writeRF_TSDU_Ext_Func s _ _ _
  · exact Sends.refl s

theorem sends_writeRF_TSDU_U_Reg_Rsp (acl : AccessControl) (s : TrunkPacket) (a : Nat) :
    Sends s (writeRF_TSDU_U_Reg_Rsp acl s a) := by
  unfold writeRF_TSDU_U_Reg_Rsp
  simp only []
  have h1 : Sends s ((s.setLCO LCO.TSBK_IOSP_U_REG).setResponse Response.P25_RSP_ACCEPT) :=
    (sends_setLCO _ _).trans (sends_setResponse _ _)
  generalize ((s.setLCO LCO.TSBK_IOSP_U_REG).setResponse Response.P25_RSP_ACCEPT) = x1 at h1 ⊢
  have h2 := sends_ite s (x1.setResponse Response.P25_RSP_DENY) x1
    (x1.rfTSBK.sysId ≠ x1.siteData.sysId) (h1.trans (sends_setResponse _ _)) h1
  generalize (if x1.rfTSBK.sysId ≠ x1.siteData.sysId then x1.setResponse Response.P25_RSP_DENY
    else x1) = x2 at h2 ⊢
  have h3 := sends_ite s (x2.setResponse Response.P25_RSP_DENY) x2
    (acl.validateSrcId a = false) (h2.trans (sends_setResponse _ _)) h2
  generalize (if acl.validateSrcId a = false then x2.setResponse Response.P25_RSP_DENY
    else x2) = x3 at h3 ⊢
  have h4 : Sends s (if x3.rfTSBK.response = Response.P25_RSP_ACCEPT then
      if x3.hasSrcIdUnitReg a = false then x3.setUnitRegTable (x3.unitRegTable ++ [a]) else x3
      else x3) :=
    sends_ite s _ _ _ (sends_ite s _ _ _ (h3.trans (sends_setUnitRegTable _ _)) h3) h3
  generalize (if x3.rfTSBK.response = Response.P25_RSP_ACCEPT then
      if x3.hasSrcIdUnitReg a = false then x3.setUnitRegTable (x3.unitRegTable ++ [a]) else x3
      else x3) = x4 at h4 ⊢
  have h5 := (h4.trans (sends_setRfTSBK x4 { x4.rfTSBK with srcId := a, dstId := a })).trans
    (sends_writeRF_TSDU_SBF _ true false)
  split_ifs
  · exact h5.trans (sends_denialInhibit acl _ _)
  · exact h5

theorem sends_writeRF_TSDU_U_Dereg_Ack (s : TrunkPacket) (a : Nat) :
    Sends s (s.writeRF_TSDU_U_Dereg_Ack a) := by
  unfold writeRF_TSDU_U_Dereg_Ack
  simp only []
  have h1 := sends_setLCO s LCO.TSBK_OSP_U_DEREG_ACK
  generalize s.setLCO LCO.TSBK_OSP_U_DEREG_ACK = x1 at h1 ⊢
  have h2 := sends_ite s (x1.setUnitRegTable (x1.unitRegTable.erase a)) x1
    (a ∈ x1.unitRegTable) (h1.trans (sends_setUnitRegTable _ _)) h1
  generalize (if a ∈ x1.unitRegTable then x1.setUnitRegTable (x1.unitRegTable.erase a)
    else x1) = x2 at h2 ⊢
  refine Sends.trans ?_ (sends_writeRF_TSDU_SBF _ _ _)
  split
  · exact h2.frame rfl rfl
  · exact h2.frame rfl rfl

theorem sends_resetStatusCommand (s : TrunkPacket) : Sends s s.resetStatusCommand := by
  unfold resetStatusCommand
  split_ifs
  · exact sends_of_eq rfl rfl
  · exact Sends.refl s

theorem sends_resetStatusCommandTSBK (s : TrunkPacket) (t : TSBK) :
    Sends s (s.resetStatusCommandTSBK t) := by
  unfold resetStatusCommandTSBK
  split_ifs
  · exact sends_resetStatusCommand s
  · exact Sends.refl s

theorem sends_preprocessStatusCommand (s : TrunkPacket) : Sends s s.preprocessStatusCommand := by
  unfold preprocessStatusCommand
  simp only []
  split_ifs
  · exact sends_of_eq rfl rfl
  · refine Sends.trans ?_ (sends_resetStatusCommand _)
    exact sends_of_eq rfl rfl
  · exact sends_of_eq rfl rfl
  · exact Sends.refl s

theorem sends_RF_TO_WRITE_NET (s : TrunkPacket) : Sends s s.RF_TO_WRITE_NET := by
  unfold RF_TO_WRITE_NET
  split_ifs
  · refine Sends.trans ?_ (sends_writeNetworkRF _ _ _)
    exact sends_of_eq rfl rfl
  · exact Sends.refl s

theorem sends_processStatusCommand (acl : AccessControl) (s : TrunkPacket) (a d : Nat) :
    Sends s (processStatusCommand acl s a d).2 := by
  unfold processStatusCommand
  simp only []
  split_ifs <;> simp only []
  · exact (sends_writeRF_TSDU_Ext_Func s _ _ _).trans (sends_writeRF_TSDU_ACK_FNE _ _ _ _)
  · exact (sends_writeRF_TSDU_Ext_Func s _ _ _).trans (sends_writeRF_TSDU_ACK_FNE _ _ _ _)
  · exact (sends_writeRF_TSDU_Ext_Func s _ _ _).trans (sends_writeRF_TSDU_ACK_FNE _ _ _ _)
  · refine Sends.trans ?_ (sends_writeRF_TSDU_ACK_FNE _ _ _ _)
    refine Sends.trans ?_ (sends_writeRF_TSDU_Grp_Aff_Rsp acl _ _ _)
    exact sends_setUnitRegTable _ _
  · exact (sends_writeRF_TSDU_Grp_Aff_Rsp acl _ _ _).trans (sends_writeRF_TSDU_ACK_FNE _ _ _ _)
  · exact (sends_writeRF_TSDU_U_Dereg_Ack s _).trans (sends_writeRF_TSDU_ACK_FNE _ _ _ _)
  · exact (sends_resetStatusCommand s).trans (sends_writeRF_TSDU_ACK_FNE _ _ _ _)
  · exact sends_resetStatusCommand s
  · exact sends_resetStatusCommand s

/-! ### The pre-condition macros and the cases of `process` -/

theorem sends_IS_SUPPORT_CONTROL_CHECK (s x : TrunkPacket) (l : LCO)
    (h : s.IS_SUPPORT_CONTROL_CHECK l = some x) : Sends s x := by
  unfold IS_SUPPORT_CONTROL_CHECK at h
  split_ifs at h
  · simp only [Option.some.injEq] at h
    rw [← h]
    exact (sends_writeRF_TSDU_Deny s _ _).trans (sends_checkAndReject _)

theorem sends_VALID_SRCID (acl : AccessControl) (s x : TrunkPacket) (l : LCO) (a : Nat)
    (h : VALID_SRCID acl s l a = some x) : Sends s x := by
  unfold VALID_SRCID at h
  split_ifs at h
  · simp only [Option.some.injEq] at h
    rw [← h]
    exact ((sends_writeRF_TSDU_Deny s _ _).trans (sends_denialInhibit acl _ _)).trans
      (sends_checkAndReject _)

theorem sends_VALID_DSTID (acl : AccessControl) (s x : TrunkPacket) (l : LCO) (a : Nat)
    (h : VALID_DSTID acl s l a = some x) : Sends s x := by
  unfold VALID_DSTID at h
  split_ifs at h
  · simp only [Option.some.injEq] at h
    rw [← h]
    exact (sends_writeRF_TSDU_Deny s _ _).trans (sends_checkAndReject _)

theorem sends_VALID_TGID (acl : AccessControl) (s x : TrunkPacket) (l : LCO) (a : Nat)
    (h : VALID_TGID acl s l a = some x) : Sends s x := by
  unfold VALID_TGID at h
  split_ifs at h
  · simp only [Option.some.injEq] at h
    rw [← h]
    exact (sends_writeRF_TSDU_Deny s _ _).trans (sends_checkAndReject _)

theorem sends_VERIFY_SRCID_REG (s x : TrunkPacket) (l : LCO) (a : Nat)
    (h : s.VERIFY_SRCID_REG l a = some x) : Sends s x := by
  unfold VERIFY_SRCID_REG at h
  split_ifs at h
  · simp only [Option.some.injEq] at h
    rw [← h]
    exact ((sends_writeRF_TSDU_Deny s _ _).trans (sends_writeRF_TSDU_U_Reg_Cmd _ _)).trans
      (sends_checkAndReject _)

theorem sends_VERIFY_SRCID_AFF (s x : TrunkPacket) (l : LCO) (a d : Nat)
    (h : s.VERIFY_SRCID_AFF l a d = some x) : Sends s x := by
  unfold VERIFY_SRCID_AFF at h
  split_ifs at h
  · simp only [Option.some.injEq] at h
    rw [← h]
    exact ((sends_writeRF_TSDU_Deny s _ _).trans (sends_writeRF_TSDU_U_Reg_Cmd _ _)).trans
      (sends_checkAndReject _)


theorem sends_process_GRP_VCH (acl : AccessControl) (s : TrunkPacket) (a d : Nat) :
    Sends s (process_GRP_VCH acl s a d).2 := by
  unfold process_GRP_VCH
  split
  · exact sends_IS_SUPPORT_CONTROL_CHECK _ _ _ (by assumption)
  · split
    · exact sends_VALID_SRCID acl _ _ _ _ (by assumption)
    · split
      · exact sends_VALID_TGID acl _ _ _ _ (by assumption)
      · split
        · exact sends_VERIFY_SRCID_AFF _ _ _ _ _ (by assumption)
        · exact sends_writeRF_TSDU_Grant s true false

theorem sends_process_UU_VCH (acl : AccessControl) (s : TrunkPacket) (a d : Nat) :
    Sends s (process_UU_VCH acl s a d).2 := by
  unfold process_UU_VCH
  split
  · exact sends_IS_SUPPORT_CONTROL_CHECK _ _ _ (by assumption)
  · split
    · exact sends_VALID_SRCID acl _ _ _ _ (by assumption)
    · split
      · exact sends_VALID_DSTID acl _ _ _ _ (by assumption)
      · split
        · exact sends_VERIFY_SRCID_REG _ _ _ _ (by assumption)
        · exact sends_writeRF_TSDU_UU_Ans_Req s a d

theorem sends_process_UU_ANS (acl : AccessControl) (s : TrunkPacket) (a d : Nat) :
    Sends s (process_UU_ANS acl s a d).2 := by
  unfold process_UU_ANS
  split
  · exact sends_IS_SUPPORT_CONTROL_CHECK _ _ _ (by assumption)
  · split
    · exact sends_VALID_SRCID acl _ _ _ _ (by assumption)
    · split
      · exact sends_VALID_DSTID acl _ _ _ _ (by assumption)
      · simp only []
        split_ifs <;> simp only []
        · exact (sends_writeRF_TSDU_ACK_FNE s _ _ _).trans (sends_writeRF_TSDU_Grant _ _ _)
        · exact (sends_writeRF_TSDU_ACK_FNE s _ _ _).trans (sends_writeRF_TSDU_Deny _ _ _)
        · exact (sends_writeRF_TSDU_ACK_FNE s _ _ _).trans (sends_writeRF_TSDU_Queue _ _ _)
        · exact sends_writeRF_TSDU_ACK_FNE s _ _ _

theorem sends_process_TELE_INT_ANS (acl : AccessControl) (s : TrunkPacket) (a : Nat) :
    Sends s (process_TELE_INT_ANS acl s a).2 := by
  unfold process_TELE_INT_ANS
  split
  · exact sends_IS_SUPPORT_CONTROL_CHECK _ _ _ (by assumption)
  · split
    · exact sends_VALID_SRCID acl _ _ _ _ (by assumption)
    · simp only []
      split_ifs <;> simp only []
      · exact (sends_writeRF_TSDU_ACK_FNE s _ _ _).trans (sends_writeRF_TSDU_Deny _ _ _)
      · exact (sends_writeRF_TSDU_ACK_FNE s _ _ _).trans (sends_writeRF_TSDU_ACK_FNE _ _ _ _)
      · exact (sends_writeRF_TSDU_ACK_FNE s _ _ _).trans (sends_writeRF_TSDU_Queue _ _ _)
      · exact sends_writeRF_TSDU_ACK_FNE s _ _ _

theorem sends_process_STS_UPDT (acl : AccessControl) (s : TrunkPacket) (a : Nat) :
    Sends s (process_STS_UPDT acl s a).2 := by
  unfold process_STS_UPDT
  split
  · exact sends_VALID_SRCID acl _ _ _ _ (by assumption)
  · simp only []
    have h1 : Sends s (if s.statusSrcId = 0 ∧ s.statusValue = 0 then s.RF_TO_WRITE_NET else s) := by
      split_ifs
      · exact sends_RF_TO_WRITE_NET s
      · exact Sends.refl s
    generalize (if s.statusSrcId = 0 ∧ s.statusValue = 0 then s.RF_TO_WRITE_NET else s) = x at h1 ⊢
    have h2 : Sends x (if x.noStatusAck = false then
        x.writeRF_TSDU_ACK_FNE a LCO.TSBK_IOSP_STS_UPDT false else x) := by
      split_ifs
      · exact sends_writeRF_TSDU_ACK_FNE x _ _ _
      · exact Sends.refl x
    generalize (if x.noStatusAck = false then
        x.writeRF_TSDU_ACK_FNE a LCO.TSBK_IOSP_STS_UPDT false else x) = y at h2 ⊢
    split_ifs
    · exact (h1.trans h2).trans (sends_preprocessStatusCommand y)
    · exact h1.trans h2

theorem sends_process_MSG_UPDT (acl : AccessControl) (s : TrunkPacket) (a : Nat) :
    Sends s (process_MSG_UPDT acl s a).2 := by
  unfold process_MSG_UPDT
  split
  · exact sends_VALID_SRCID acl _ _ _ _ (by assumption)
  · simp only []
    split_ifs
    · exact (sends_RF_TO_WRITE_NET s).trans (sends_writeRF_TSDU_ACK_FNE _ _ _ _)
    · exact sends_RF_TO_WRITE_NET s

theorem sends_callAlert (acl : AccessControl) (s : TrunkPacket) (a d : Nat) :
    Sends s (callAlert acl s a d).2 := by
  unfold callAlert
  split
  · exact sends_VALID_DSTID acl _ _ _ _ (by assumption)
  · exact sends_writeRF_TSDU_Call_Alrt s a d

theorem sends_process_CALL_ALRT (acl : AccessControl) (s : TrunkPacket) (a d : Nat)
    (p : RPT_RF_STATE) : Sends s (process_CALL_ALRT acl s a d p).2 := by
  unfold process_CALL_ALRT
  split
  · exact sends_VALID_SRCID acl _ _ _ _ (by assumption)
  · split_ifs
    · have h := sends_processStatusCommand acl s a d
      split
      · rename_i x hx
        rw [hx] at h
        exact h.trans (sends_setRfState _ _)
      · rename_i x hx
        rw [hx] at h
        exact (h.trans (sends_resetStatusCommand _)).trans (sends_callAlert acl _ _ _)
    · exact sends_callAlert acl s a d

theorem sends_process_ACK_RSP (acl : AccessControl) (s : TrunkPacket) (a d : Nat) :
    Sends s (process_ACK_RSP acl s a d).2 := by
  unfold process_ACK_RSP
  split
  · exact sends_VALID_SRCID acl _ _ _ _ (by assumption)
  · split
    · exact sends_VALID_DSTID acl _ _ _ _ (by assumption)
    · simp only []
      refine Sends.trans ?_ (sends_writeRF_TSDU_SBF _ _ _)
      exact sends_ite s _ _ _ (sends_setRfTSBK _ _) (Sends.refl s)

theorem sends_process_EXT_FNCT (s : TrunkPacket) : Sends s s.process_EXT_FNCT.2 := by
  unfold process_EXT_FNCT
  simp only []
  refine Sends.trans ?_ (sends_resetStatusCommand _)
  refine Sends.trans ?_ (sends_writeRF_TSDU_SBF _ _ _)
  exact sends_ite s _ _ _ (sends_setRfTSBK _ _) (Sends.refl s)

theorem sends_process_GRP_AFF (acl : AccessControl) (s : TrunkPacket) (a d : Nat) :
    Sends s (process_GRP_AFF acl s a d).2 := by
  unfold process_GRP_AFF
  split
  · exact sends_IS_SUPPORT_CONTROL_CHECK _ _ _ (by assumption)
  · exact (sends_writeRF_TSDU_ACK_FNE s _ _ _).trans (sends_writeRF_TSDU_Grp_Aff_Rsp acl _ _ _)

theorem sends_process_GRP_AFF_Q_RSP (s : TrunkPacket) : Sends s s.process_GRP_AFF_Q_RSP.2 := by
  unfold process_GRP_AFF_Q_RSP
  split
  · exact sends_IS_SUPPORT_CONTROL_CHECK _ _ _ (by assumption)
  · exact Sends.refl s

theorem sends_process_U_DEREG_REQ (acl : AccessControl) (s : TrunkPacket) (a : Nat) :
    Sends s (process_U_DEREG_REQ acl s a).2 := by
  unfold process_U_DEREG_REQ
  split
  · exact sends_IS_SUPPORT_CONTROL_CHECK _ _ _ (by assumption)
  · split
    · exact sends_VALID_SRCID acl _ _ _ _ (by assumption)
    · exact (sends_writeRF_TSDU_ACK_FNE s _ _ _).trans (sends_writeRF_TSDU_U_Dereg_Ack _ _)

theorem sends_process_U_REG (acl : AccessControl) (s : TrunkPacket) (a : Nat) :
    Sends s (process_U_REG acl s a).2 := by
  unfold process_U_REG
  split
  · exact sends_IS_SUPPORT_CONTROL_CHECK _ _ _ (by assumption)
  · exact (sends_writeRF_TSDU_ACK_FNE s _ _ _).trans (sends_writeRF_TSDU_U_Reg_Rsp acl _ _)

theorem sends_process_LOC_REG_REQ (s : TrunkPacket) (a : Nat) :
    Sends s (s.process_LOC_REG_REQ a).2 := by
  unfold process_LOC_REG_REQ
  split
  · exact sends_IS_SUPPORT_CONTROL_CHECK _ _ _ (by assumption)
  · exact sends_writeRF_TSDU_U_Reg_Cmd s a

theorem sends_processLCO (acl : AccessControl) (s : TrunkPacket) (a d : Nat)
    (p : RPT_RF_STATE) : Sends s (processLCO acl s a d p).2 := by
  unfold processLCO
  split
  · exact sends_process_GRP_VCH acl s a d
  · exact sends_process_UU_VCH acl s a d
  · exact sends_process_UU_ANS acl s a d
  · exact sends_process_TELE_INT_ANS acl s a
  · exact sends_process_STS_UPDT acl s a
  · exact sends_process_MSG_UPDT acl s a
  · exact sends_process_CALL_ALRT acl s a d p
  · exact sends_process_ACK_RSP acl s a d
  · exact sends_writeRF_TSDU_ACK_FNE s a LCO.TSBK_ISP_CAN_SRV_REQ true
  · exact sends_process_EXT_FNCT s
  · exact sends_process_GRP_AFF acl s a d
  · exact sends_process_GRP_AFF_Q_RSP s
  · exact sends_process_U_DEREG_REQ acl s a
  · exact sends_process_U_REG acl s a
  · exact sends_process_LOC_REG_REQ s a
  · exact Sends.refl s

theorem sends_switchEntry (s : TrunkPacket) (f : RFFrame) : Sends s (s.switchEntry f) := by
  unfold switchEntry
  simp only []
  have h1 := sends_ite s (s.setRfState RPT_RF_STATE.RS_RF_DATA) s
    (s.p25.rfState ≠ RPT_RF_STATE.RS_RF_DATA) (sends_setRfState s _) (Sends.refl s)
  generalize (if s.p25.rfState ≠ RPT_RF_STATE.RS_RF_DATA then
      s.setRfState RPT_RF_STATE.RS_RF_DATA else s) = x at h1 ⊢
  refine Sends.trans ?_ (sends_emit _ Event.writeRF_Preamble rfl rfl)
  refine Sends.trans ?_ (sends_resetStatusCommandTSBK _ _)
  refine Sends.trans ?_ (sends_setNetTSBK _ _)
  refine Sends.trans ?_ (sends_setRfTSBK _ _)
  exact h1.trans (sends_emit x Event.clearQueue rfl rfl)

theorem sends_switchExit (s : TrunkPacket) (p : RPT_RF_STATE) : Sends s (s.switchExit p) := by
  unfold switchExit
  simp only []
  split_ifs
  · exact (sends_emit s Event.writeRF_Nulls rfl rfl).trans (sends_setRfState _ _)
  · exact sends_setRfState _ _

/-- Whatever the frame, every TSBK that `process` hands to the single-block
writer is placed on the modem queue in duplex mode without a control channel
running, and no other frame is. -/
theorem sends_process (acl : AccessControl) (s : TrunkPacket) (f : RFFrame) :
    Sends s (process acl s f).2 := by
  by_cases hd : Dispatched s f
  · rw [process_dispatched acl s f hd]
    have hl := sends_processLCO acl (s.switchEntry f) f.tsbk.srcId f.tsbk.dstId s.p25.rfState
    split
    · rename_i ret s1 heq
      rw [heq] at hl
      exact (sends_switchEntry s f).trans hl
    · rename_i s1 heq
      rw [heq] at hl
      exact ((sends_switchEntry s f).trans hl).trans (sends_switchExit _ _)
  · unfold process
    unfold Dispatched at hd
    have h1 := sends_ite s (s.setRfState RPT_RF_STATE.RS_RF_DATA) s
      (s.p25.rfState ≠ RPT_RF_STATE.RS_RF_DATA) (sends_setRfState s _) (Sends.refl s)
    by_cases hn : s.p25.rfState = RPT_RF_STATE.RS_RF_LISTENING ∧ f.nidValid = false
    · rw [if_pos hn]
      exact Sends.refl s
    · rw [if_neg hn]
      simp only []
      by_cases hu : f.duid = DUID.P25_DUID_TSDU
      · rw [if_pos hu]
        have hdec : f.decoded = false := by
          by_contra hx
          exact hd ⟨hn, hu, by simpa using hx⟩
        generalize (if s.p25.rfState ≠ RPT_RF_STATE.RS_RF_DATA then
          s.setRfState RPT_RF_STATE.RS_RF_DATA else s) = x at h1 ⊢
        rw [if_pos hdec]
        refine Sends.trans ?_ (sends_setRfState _ _)
        refine Sends.trans ?_ (sends_setNetTSBK _ _)
        refine Sends.trans ?_ (sends_setRfTSBK _ _)
        exact h1.trans (sends_emit x Event.clearQueue rfl rfl)
      · rw [if_neg hu]
        exact Sends.refl s

theorem sends_processAll (acl : AccessControl) (frames : List RFFrame) (s : TrunkPacket) :
    Sends s (processAll acl s frames) := by
  induction frames generalizing s with
  | nil => exact Sends.refl s
  | cons f fs ih => exact (sends_process acl s f).trans (ih _)

/-- What a run of the engine placed on the modem queue, read off what it
handed to the single-block writer. -/
theorem Sends.queued_eq {s x : TrunkPacket} (h : Sends s x) (l : List TSBK)
    (he : x.emitted = s.emitted ++ l) (hd : s.p25.duplex = true)
    (hc : s.p25.continuousControl = false) (hr : s.p25.ccRunning = false) :
    x.queued = s.queued ++ l.map Frame.sbf := by
  obtain ⟨_, _, _, l', hl, hq⟩ := h
  rw [hl] at he
  rw [hq hd hc hr, List.append_cancel_left he]

end TrunkPacket
end p25

namespace p25
namespace TrunkPacket

/-! ### Responses of the engine and the frames they place on the modem queue -/

/-- Reading any member but `m_control` after the flag is set. -/
theorem setControlFlag_fields (s : TrunkPacket) (b : Bool) :
    (s.setControlFlag b).network = s.network ∧
    (s.setControlFlag b).rfTSBK = s.rfTSBK ∧
    (s.setControlFlag b).netTSBK = s.netTSBK ∧
    (s.setControlFlag b).rfMBF = s.rfMBF ∧
    (s.setControlFlag b).mbfCnt = s.mbfCnt ∧
    (s.setControlFlag b).voiceChTable = s.voiceChTable ∧
    (s.setControlFlag b).adjSiteTable = s.adjSiteTable ∧
    (s.setControlFlag b).adjSiteUpdateCnt = s.adjSiteUpdateCnt ∧
    (s.setControlFlag b).grantChTable = s.grantChTable ∧
    (s.setControlFlag b).grantTimers = s.grantTimers ∧
    (s.setControlFlag b).voiceChCnt = s.voiceChCnt ∧
    (s.setControlFlag b).voiceGrantChCnt = s.voiceGrantChCnt ∧
    (s.setControlFlag b).adjSiteUpdateTimer = s.adjSiteUpdateTimer ∧
    (s.setControlFlag b).adjSiteUpdateInterval = s.adjSiteUpdateInterval ∧
    (s.setControlFlag b).skipSBFPreamble = s.skipSBFPreamble ∧
    (s.setControlFlag b).events = s.events ∧
    (s.setControlFlag b).patchSuperGroup = s.patchSuperGroup ∧
    (s.setControlFlag b).verifyAff = s.verifyAff ∧
    (s.setControlFlag b).verifyReg = s.verifyReg ∧
    (s.setControlFlag b).unitRegTable = s.unitRegTable ∧
    (s.setControlFlag b).grpAffTable = s.grpAffTable ∧
    (s.setControlFlag b).noStatusAck = s.noStatusAck ∧
    (s.setControlFlag b).noMessageAck = s.noMessageAck ∧
    (s.setControlFlag b).statusCmdEnable = s.statusCmdEnable ∧
    (s.setControlFlag b).statusRadioCheck = s.statusRadioCheck ∧
    (s.setControlFlag b).statusRadioInhibit = s.statusRadioInhibit ∧
    (s.setControlFlag b).statusRadioUninhibit = s.statusRadioUninhibit ∧
    (s.setControlFlag b).statusRadioForceReg = s.statusRadioForceReg ∧
    (s.setControlFlag b).statusRadioForceDereg = s.statusRadioForceDereg ∧
    (s.setControlFlag b).statusSrcId = s.statusSrcId ∧
    (s.setControlFlag b).statusValue = s.statusValue ∧
    (s.setControlFlag b).siteData = s.siteData ∧
    (s.setControlFlag b).mbfIdenCnt = s.mbfIdenCnt ∧
    (s.setControlFlag b).mbfAdjSSCnt = s.mbfAdjSSCnt ∧
    (s.setControlFlag b).p25.duplex = s.p25.duplex ∧
    (s.setControlFlag b).p25.continuousControl = s.p25.continuousControl ∧
    (s.setControlFlag b).p25.ccRunning = s.p25.ccRunning ∧
    (s.setControlFlag b).p25.rfState = s.p25.rfState ∧
    (s.setControlFlag b).p25.netState = s.p25.netState ∧
    (s.setControlFlag b).p25.rfLastDstId = s.p25.rfLastDstId ∧
    (s.setControlFlag b).p25.netLastDstId = s.p25.netLastDstId ∧
    (s.setControlFlag b).p25.networkTGHang = s.p25.networkTGHang ∧
    (s.setControlFlag b).p25.rfTimeout = s.p25.rfTimeout ∧
    (s.setControlFlag b).p25.inhibitIllegal = s.p25.inhibitIllegal ∧
    (s.setControlFlag b).p25.idenTable = s.p25.idenTable :=
  ⟨rfl, rfl, rfl, rfl, rfl, rfl, rfl, rfl, rfl, rfl, rfl, rfl, rfl, rfl, rfl, rfl, rfl, rfl, rfl, rfl, rfl, rfl, rfl, rfl, rfl, rfl, rfl, rfl, rfl, rfl, rfl, rfl, rfl, rfl, rfl, rfl, rfl, rfl, rfl, rfl, rfl, rfl, rfl, rfl, rfl⟩

@[simp] theorem control_setControlFlag (s : TrunkPacket) (b : Bool) :
    (s.setControlFlag b).p25.control = b := rfl
theorem setControlFlag_setControlFlag (s : TrunkPacket) (a b : Bool) :
    (s.setControlFlag a).setControlFlag b = s.setControlFlag b := rfl
theorem setControlFlag_self (s : TrunkPacket) : s.setControlFlag s.p25.control = s := rfl

theorem ctl_emit (s : TrunkPacket) (b : Bool) (e : Event) :
    (s.setControlFlag b).emit e = (s.emit e).setControlFlag b := rfl
theorem ctl_setRfTSBK (s : TrunkPacket) (b : Bool) (t : TSBK) :
    (s.setControlFlag b).setRfTSBK t = (s.setRfTSBK t).setControlFlag b := rfl
theorem ctl_setNetTSBK (s : TrunkPacket) (b : Bool) (t : TSBK) :
    (s.setControlFlag b).setNetTSBK t = (s.setNetTSBK t).setControlFlag b := rfl
theorem ctl_setLCO (s : TrunkPacket) (b : Bool) (l : LCO) :
    (s.setControlFlag b).setLCO l = (s.setLCO l).setControlFlag b := rfl
theorem ctl_setLastBlock (s : TrunkPacket) (b : Bool) (l : Bool) :
    (s.setControlFlag b).setLastBlock l = (s.setLastBlock l).setControlFlag b := rfl
theorem ctl_setResponse (s : TrunkPacket) (b : Bool) (r : Response) :
    (s.setControlFlag b).setResponse r = (s.setResponse r).setControlFlag b := rfl
theorem ctl_setMBF (s : TrunkPacket) (b : Bool) (m : List (Nat × TSBK)) (c : Nat) :
    (s.setControlFlag b).setMBF m c = (s.setMBF m c).setControlFlag b := rfl
theorem ctl_setSkipSBFPreamble (s : TrunkPacket) (b : Bool) (k : Bool) :
    (s.setControlFlag b).setSkipSBFPreamble k = (s.setSkipSBFPreamble k).setControlFlag b := rfl
theorem ctl_setRfState (s : TrunkPacket) (b : Bool) (st : RPT_RF_STATE) :
    (s.setControlFlag b).setRfState st = (s.setRfState st).setControlFlag b := rfl
theorem ctl_setStatus (s : TrunkPacket) (b : Bool) (a v : Nat) :
    (s.setControlFlag b).setStatus a v = (s.setStatus a v).setControlFlag b := rfl
theorem ctl_setUnitRegTable (s : TrunkPacket) (b : Bool) (t : List Nat) :
    (s.setControlFlag b).setUnitRegTable t = (s.setUnitRegTable t).setControlFlag b := rfl
theorem ctl_setGrpAffTable (s : TrunkPacket) (b : Bool) (t : List (Nat × Nat)) :
    (s.setControlFlag b).setGrpAffTable t = (s.setGrpAffTable t).setControlFlag b := rfl

theorem ctl_checkAndReject (s : TrunkPacket) (b : Bool) :
    (s.setControlFlag b).checkAndReject = s.checkAndReject.setControlFlag b := by
  unfold checkAndReject Control.checkAndReject setControlFlag
  simp only []
  split_ifs <;> rfl

theorem ctl_ite (p : Prop) [Decidable p] (x y : TrunkPacket) (b : Bool) :
    (if p then x.setControlFlag b else y.setControlFlag b) =
      (if p then x else y).setControlFlag b := by
  split_ifs <;> rfl

theorem ctl_ite_pair {α : Type} (p : Prop) [Decidable p] (u v : α) (x y : TrunkPacket)
    (b : Bool) :
    (if p then (u, x.setControlFlag b) else (v, y.setControlFlag b)) =
      ((if p then (u, x) else (v, y)).1, (if p then (u, x) else (v, y)).2.setControlFlag b) := by
  split_ifs <;> rfl

theorem ctl_writeNetworkRF (s : TrunkPacket) (b : Bool) (d : TSBK) (r : Bool) :
    (s.setControlFlag b).writeNetworkRF d r = (s.writeNetworkRF d r).setControlFlag b := by
  unfold writeNetworkRF
  simp only [setControlFlag_fields, ctl_emit, ctl_ite]

theorem ctl_writeRF_TSDU_MBF (s : TrunkPacket) (b : Bool) (c : Bool) :
    (s.setControlFlag b).writeRF_TSDU_MBF c = (s.writeRF_TSDU_MBF c).setControlFlag b := by
  unfold writeRF_TSDU_MBF
  simp only [setControlFlag_fields, ctl_emit, ctl_ite, ctl_setMBF, ctl_setLastBlock]

theorem ctl_queueSBF (s : TrunkPacket) (b : Bool) (d : TSBK) (c : Bool) :
    (s.setControlFlag b).queueSBF d c = (s.queueSBF d c).setControlFlag b := by
  unfold queueSBF
  simp only [setControlFlag_fields, ctl_emit, ctl_ite, ctl_setSkipSBFPreamble]

theorem ctl_writeRF_TSDU_SBF (s : TrunkPacket) (b : Bool) (n c : Bool) :
    (s.setControlFlag b).writeRF_TSDU_SBF n c = (s.writeRF_TSDU_SBF n c).setControlFlag b := by
  unfold writeRF_TSDU_SBF
  simp only [setControlFlag_fields, ctl_emit, ctl_ite, ctl_setLastBlock, ctl_writeNetworkRF,
    ctl_writeRF_TSDU_MBF, ctl_queueSBF]

theorem ctl_writeRF_TSDU_Deny (s : TrunkPacket) (b : Bool) (r : Response) (v : LCO) :
    (s.setControlFlag b).writeRF_TSDU_Deny r v = (s.writeRF_TSDU_Deny r v).setControlFlag b := by
  unfold writeRF_TSDU_Deny
  simp only [setControlFlag_fields, ctl_setRfTSBK, ctl_writeRF_TSDU_SBF, ctl_setLCO]

theorem ctl_writeRF_TSDU_Call_Alrt (s : TrunkPacket) (b : Bool) (a d : Nat) :
    (s.setControlFlag b).writeRF_TSDU_Call_Alrt a d =
      (s.writeRF_TSDU_Call_Alrt a d).setControlFlag b := by
  unfold writeRF_TSDU_Call_Alrt
  simp only [setControlFlag_fields, ctl_setRfTSBK, ctl_writeRF_TSDU_SBF]

theorem ctl_writeRF_TSDU_Ext_Func (s : TrunkPacket) (b : Bool) (f : ExtFunc) (a d : Nat) :
    (s.setControlFlag b).writeRF_TSDU_Ext_Func f a d =
      (s.writeRF_TSDU_Ext_Func f a d).setControlFlag b := by
  unfold writeRF_TSDU_Ext_Func
  simp only [setControlFlag_fields, ctl_setRfTSBK, ctl_writeRF_TSDU_SBF]

theorem ctl_writeRF_TSDU_ACK_FNE (s : TrunkPacket) (b : Bool) (a : Nat) (v : LCO) (n : Bool) :
    (s.setControlFlag b).writeRF_TSDU_ACK_FNE a v n =
      (s.writeRF_TSDU_ACK_FNE a v n).setControlFlag b := by
  unfold writeRF_TSDU_ACK_FNE
  simp only [setControlFlag_fields, ctl_setRfTSBK, ctl_writeRF_TSDU_SBF]

theorem hasSrcIdUnitReg_setControlFlag (s : TrunkPacket) (b : Bool) (a : Nat) :
    (s.setControlFlag b).hasSrcIdUnitReg a = s.hasSrcIdUnitReg a := rfl

theorem ctl_writeRF_TSDU_Grp_Aff_Rsp (acl : AccessControl) (s : TrunkPacket) (b : Bool)
    (a d : Nat) :
    writeRF_TSDU_Grp_Aff_Rsp acl (s.setControlFlag b) a d =
      ((writeRF_TSDU_Grp_Aff_Rsp acl s a d).1,
        (writeRF_TSDU_Grp_Aff_Rsp acl s a d).2.setControlFlag b) := by
  unfold writeRF_TSDU_Grp_Aff_Rsp
  simp only [setControlFlag_fields, ctl_setRfTSBK, ctl_writeRF_TSDU_SBF, ctl_setLCO,
    ctl_setResponse, ctl_ite, hasSrcIdUnitReg_setControlFlag, ctl_setGrpAffTable]
  split_ifs <;> rfl

theorem ctl_denialInhibit (acl : AccessControl) (s : TrunkPacket) (b : Bool) (a : Nat) :
    denialInhibit acl (s.setControlFlag b) a = (denialInhibit acl s a).setControlFlag b := by
  unfold denialInhibit
  simp only [setControlFlag_fields, ctl_writeRF_TSDU_Ext_Func, ctl_ite]

theorem ctl_writeRF_TSDU_U_Dereg_Ack (s : TrunkPacket) (b : Bool) (a : Nat) :
    (s.setControlFlag b).writeRF_TSDU_U_Dereg_Ack a =
      (s.writeRF_TSDU_U_Dereg_Ack a).setControlFlag b := by
  unfold writeRF_TSDU_U_Dereg_Ack
  simp only [setControlFlag_fields, ctl_setRfTSBK, ctl_writeRF_TSDU_SBF, ctl_setLCO, ctl_ite,
    ctl_setUnitRegTable]
  split <;> simp only [setControlFlag_fields, ctl_setRfTSBK, ctl_writeRF_TSDU_SBF,
    ctl_setGrpAffTable]

theorem ctl_resetStatusCommand (s : TrunkPacket) (b : Bool) :
    (s.setControlFlag b).resetStatusCommand = s.resetStatusCommand.setControlFlag b := by
  unfold resetStatusCommand
  simp only [setControlFlag_fields, ctl_setStatus, ctl_ite]

theorem ctl_resetStatusCommandTSBK (s : TrunkPacket) (b : Bool) (t : TSBK) :
    (s.setControlFlag b).resetStatusCommandTSBK t =
      (s.resetStatusCommandTSBK t).setControlFlag b := by
  unfold resetStatusCommandTSBK
  simp only [setControlFlag_fields, ctl_resetStatusCommand, ctl_ite]

theorem ctl_preprocessStatusCommand (s : TrunkPacket) (b : Bool) :
    (s.setControlFlag b).preprocessStatusCommand =
      s.preprocessStatusCommand.setControlFlag b := by
  unfold preprocessStatusCommand
  simp only [setControlFlag_fields, ctl_resetStatusCommand, ctl_setStatus, ctl_ite]

theorem ctl_RF_TO_WRITE_NET (s : TrunkPacket) (b : Bool) :
    (s.setControlFlag b).RF_TO_WRITE_NET = s.RF_TO_WRITE_NET.setControlFlag b := by
  unfold RF_TO_WRITE_NET
  simp only [setControlFlag_fields, ctl_setLastBlock, ctl_writeNetworkRF, ctl_ite]

theorem ctl_processStatusCommand (acl : AccessControl) (s : TrunkPacket) (b : Bool)
    (a d : Nat) :
    processStatusCommand acl (s.setControlFlag b) a d =
      ((processStatusCommand acl s a d).1,
        (processStatusCommand acl s a d).2.setControlFlag b) := by
  unfold processStatusCommand
  simp only [setControlFlag_fields, ctl_writeRF_TSDU_Ext_Func, ctl_writeRF_TSDU_ACK_FNE,
    ctl_writeRF_TSDU_U_Dereg_Ack, ctl_resetStatusCommand, ctl_setUnitRegTable, ctl_ite,
    hasSrcIdUnitReg_setControlFlag, ctl_writeRF_TSDU_Grp_Aff_Rsp]
  split_ifs <;> rfl

theorem ctl_VALID_SRCID (acl : AccessControl) (s : TrunkPacket) (b : Bool) (l : LCO)
    (a : Nat) :
    VALID_SRCID acl (s.setControlFlag b) l a =
      (VALID_SRCID acl s l a).map (fun x => x.setControlFlag b) := by
  unfold VALID_SRCID
  simp only [ctl_writeRF_TSDU_Deny, ctl_denialInhibit, ctl_checkAndReject]
  split_ifs <;> rfl

theorem ctl_VALID_DSTID (acl : AccessControl) (s : TrunkPacket) (b : Bool) (l : LCO)
    (a : Nat) :
    VALID_DSTID acl (s.setControlFlag b) l a =
      (VALID_DSTID acl s l a).map (fun x => x.setControlFlag b) := by
  unfold VALID_DSTID
  simp only [ctl_writeRF_TSDU_Deny, ctl_checkAndReject]
  split_ifs <;> rfl

theorem ctl_process_STS_UPDT (acl : AccessControl) (s : TrunkPacket) (b : Bool) (a : Nat) :
    process_STS_UPDT acl (s.setControlFlag b) a =
      ((process_STS_UPDT acl s a).1, (process_STS_UPDT acl s a).2.setControlFlag b) := by
  unfold process_STS_UPDT
  rw [ctl_VALID_SRCID]
  cases VALID_SRCID acl s LCO.TSBK_IOSP_STS_UPDT a with
  | some x => rfl
  | none =>
    simp only [Option.map, setControlFlag_fields, ctl_RF_TO_WRITE_NET,
      ctl_writeRF_TSDU_ACK_FNE, ctl_preprocessStatusCommand, ctl_ite]

theorem ctl_process_MSG_UPDT (acl : AccessControl) (s : TrunkPacket) (b : Bool) (a : Nat) :
    process_MSG_UPDT acl (s.setControlFlag b) a =
      ((process_MSG_UPDT acl s a).1, (process_MSG_UPDT acl s a).2.setControlFlag b) := by
  unfold process_MSG_UPDT
  rw [ctl_VALID_SRCID]
  cases VALID_SRCID acl s LCO.TSBK_IOSP_MSG_UPDT a with
  | some x => rfl
  | none =>
    simp only [Option.map, setControlFlag_fields, ctl_RF_TO_WRITE_NET,
      ctl_writeRF_TSDU_ACK_FNE, ctl_ite]

theorem ctl_callAlert (acl : AccessControl) (s : TrunkPacket) (b : Bool) (a d : Nat) :
    callAlert acl (s.setControlFlag b) a d =
      ((callAlert acl s a d).1, (callAlert acl s a d).2.setControlFlag b) := by
  unfold callAlert
  rw [ctl_VALID_DSTID]
  cases VALID_DSTID acl s LCO.TSBK_IOSP_CALL_ALRT d with
  | some x => rfl
  | none => simp only [Option.map, ctl_writeRF_TSDU_Call_Alrt]

theorem ctl_process_CALL_ALRT (acl : AccessControl) (s : TrunkPacket) (b : Bool) (a d : Nat)
    (p : RPT_RF_STATE) :
    process_CALL_ALRT acl (s.setControlFlag b) a d p =
      ((process_CALL_ALRT acl s a d p).1,
        (process_CALL_ALRT acl s a d p).2.setControlFlag b) := by
  unfold process_CALL_ALRT
  rw [ctl_VALID_SRCID, ctl_processStatusCommand, ctl_callAlert]
  cases VALID_SRCID acl s LCO.TSBK_IOSP_CALL_ALRT a with
  | some x => rfl
  | none =>
    simp only [Option.map, setControlFlag_fields]
    split_ifs
    · rcases processStatusCommand acl s a d with ⟨r, y⟩
      cases r
      · simp only [ctl_resetStatusCommand, ctl_callAlert]
      · rfl
    · rfl

theorem ctl_process_ACK_RSP (acl : AccessControl) (s : TrunkPacket) (b : Bool) (a d : Nat) :
    process_ACK_RSP acl (s.setControlFlag b) a d =
      ((process_ACK_RSP acl s a d).1, (process_ACK_RSP acl s a d).2.setControlFlag b) := by
  unfold process_ACK_RSP
  rw [ctl_VALID_SRCID, ctl_VALID_DSTID]
  cases VALID_SRCID acl s LCO.TSBK_IOSP_ACK_RSP a with
  | some x => rfl
  | none =>
    cases VALID_DSTID acl s LCO.TSBK_IOSP_ACK_RSP d with
    | some x => rfl
    | none =>
      simp only [Option.map, setControlFlag_fields, ctl_setRfTSBK, ctl_ite,
        ctl_writeRF_TSDU_SBF]

theorem ctl_process_EXT_FNCT (s : TrunkPacket) (b : Bool) :
    (s.setControlFlag b).process_EXT_FNCT =
      (s.process_EXT_FNCT.1, s.process_EXT_FNCT.2.setControlFlag b) := by
  unfold process_EXT_FNCT
  simp only [setControlFlag_fields, ctl_setRfTSBK, ctl_ite, ctl_writeRF_TSDU_SBF,
    ctl_resetStatusCommand]

/-- The switch of `process` on an opcode whose case has no control check. -/
theorem ctl_processLCO (acl : AccessControl) (s : TrunkPacket) (b : Bool) (a d : Nat)
    (p : RPT_RF_STATE) (hl : s.rfTSBK.lco ∉ controlCheckedLCOs) :
    processLCO acl (s.setControlFlag b) a d p =
      ((processLCO acl s a d p).1, (processLCO acl s a d p).2.setControlFlag b) := by
  have key : ∀ l, s.rfTSBK.lco = l → l ∉ controlCheckedLCOs →
      processLCO acl (s.setControlFlag b) a d p =
        ((processLCO acl s a d p).1, (processLCO acl s a d p).2.setControlFlag b) := by
    intro l hx hn
    unfold processLCO
    simp only [setControlFlag_fields, hx]
    cases l <;> simp only [] <;>
      first
        | exact ctl_process_STS_UPDT acl s b a
        | exact ctl_process_MSG_UPDT acl s b a
        | exact ctl_process_CALL_ALRT acl s b a d p
        | exact ctl_process_ACK_RSP acl s b a d
        | exact ctl_process_EXT_FNCT s b
        | (simp only [ctl_writeRF_TSDU_ACK_FNE])
        | (exfalso; revert hn; decide)
  exact key _ rfl hl

theorem ctl_switchEntry (s : TrunkPacket) (b : Bool) (f : RFFrame) :
    (s.setControlFlag b).switchEntry f = (s.switchEntry f).setControlFlag b := by
  unfold switchEntry
  simp only [setControlFlag_fields, ctl_setRfState, ctl_ite, ctl_emit, ctl_setRfTSBK,
    ctl_setNetTSBK, ctl_resetStatusCommandTSBK]

theorem ctl_switchExit (s : TrunkPacket) (b : Bool) (p : RPT_RF_STATE) :
    (s.setControlFlag b).switchExit p = (s.switchExit p).setControlFlag b := by
  unfold switchExit
  simp only [setControlFlag_fields, ctl_setRfState, ctl_ite, ctl_emit]

/-- A frame whose opcode has no control check in its case is processed the
same way whatever `m_control` is: the result is the same and the states
differ in that flag only. -/
theorem ctl_process (acl : AccessControl) (s : TrunkPacket) (b : Bool) (f : RFFrame)
    (hl : f.tsbk.lco ∉ controlCheckedLCOs) :
    process acl (s.setControlFlag b) f =
      ((process acl s f).1, (process acl s f).2.setControlFlag b) := by
  by_cases hd : Dispatched s f
  · have hd' : Dispatched (s.setControlFlag b) f := hd
    rw [process_dispatched acl s f hd, process_dispatched acl _ f hd', ctl_switchEntry,
      ctl_processLCO acl _ b _ _ _ (by rw [rfTSBK_switchEntry]; exact hl)]
    simp only [setControlFlag_fields]
    rcases processLCO acl (s.switchEntry f) f.tsbk.srcId f.tsbk.dstId s.p25.rfState with
      ⟨r, y⟩
    cases r
    · simp only [ctl_switchExit]
    · rfl
  · unfold process
    unfold Dispatched at hd
    simp only [setControlFlag_fields, ctl_setRfState, ctl_ite, ctl_emit, ctl_setRfTSBK,
      ctl_setNetTSBK]
    split_ifs
    all_goals first
      | rfl
      | (exfalso; exact hd ⟨by assumption, by assumption, by simpa using ‹¬ f.decoded = false›⟩)

/-- Claim C13 as stated fails: on a site without control support an inbound
STS_UPDT from 1001 is not rejected; `process` returns true, the only TSBK
written, and the only frame placed on the modem queue, is the acknowledgement
ACK_RSP for STS_UPDT, and no DENY_RSP. -/
theorem process_no_control_counterexample :
    scenarioNoControl.p25.control = false ∧
    (rfTSDU (stsUpdtRequest 1001 0)).decoded = true ∧
    (process aclAcceptAll scenarioNoControl (rfTSDU (stsUpdtRequest 1001 0))).1 = true ∧
    (process aclAcceptAll scenarioNoControl (rfTSDU (stsUpdtRequest 1001 0))).2.emitted.map
      (fun t => (t.lco, t.service)) = [(LCO.TSBK_IOSP_ACK_RSP, LCO.TSBK_IOSP_STS_UPDT)] ∧
    (process aclAcceptAll scenarioNoControl (rfTSDU (stsUpdtRequest 1001 0))).2.queued.map
      (fun f => f.single.map (fun t => (t.lco, t.service))) =
      [some (LCO.TSBK_IOSP_ACK_RSP, LCO.TSBK_IOSP_STS_UPDT)] := by
  decide

/-- Claim C13, amended: when control is not supported, an inbound RF TSBK that
reaches the switch with one of the opcodes GRP_VCH, UU_VCH, UU_ANS,
TELE_INT_ANS, GRP_AFF, GRP_AFF_Q_RSP, U_DEREG_REQ, U_REG or LOC_REG_REQ is
rejected: `process` returns false, the one TSBK written is DENY_RSP with reason
SYS_UNSUPPORTED_SVC for that opcode (in duplex mode without a control channel
running it is the one frame placed on the modem queue), the voice-channel
pool and both registries are unchanged, and the status command is as after
the reset that precedes the switch for every such opcode. A TSBK with any
other opcode (STS_UPDT, MSG_UPDT, CALL_ALRT, ACK_RSP, CAN_SRV_REQ and EXT_FNCT
are the ones with a case of their own) is processed as when control is
supported: the result and the state are those `process` gives from the same
state with `m_control` set, but for that flag. -/
theorem process_no_control_denied (acl : AccessControl) (s : TrunkPacket) (f : RFFrame)
    (hd : Dispatched s f) (hc : s.p25.control = false) :
    (f.tsbk.lco ∈ controlCheckedLCOs →
      (process acl s f).1 = false ∧
      (process acl s f).2.emitted = s.emitted ++ [{ f.tsbk with
        lco := LCO.TSBK_OSP_DENY_RSP, service := f.tsbk.lco,
        response := Response.P25_DENY_RSN_SYS_UNSUPPORTED_SVC, lastBlock := true }] ∧
      (s.p25.duplex = true → s.p25.continuousControl = false → s.p25.ccRunning = false →
        (process acl s f).2.queued = s.queued ++ [Frame.sbf { f.tsbk with
          lco := LCO.TSBK_OSP_DENY_RSP, service := f.tsbk.lco,
          response := Response.P25_DENY_RSN_SYS_UNSUPPORTED_SVC, lastBlock := true }]) ∧
      (process acl s f).2.pool = s.pool ∧
      (process acl s f).2.unitRegTable = s.unitRegTable ∧
      (process acl s f).2.grpAffTable = s.grpAffTable ∧
      (process acl s f).2.statusSrcId = s.resetStatusCommand.statusSrcId ∧
      (process acl s f).2.statusValue = s.resetStatusCommand.statusValue) ∧
    (f.tsbk.lco ∉ controlCheckedLCOs →
      process acl s f =
        ((process acl (s.setControlFlag true) f).1,
          (process acl (s.setControlFlag true) f).2.setControlFlag false)) := by
  constructor
  · intro hl
    have hs := sends_process acl s f
    have hp := process_dispatched acl s f hd
    rw [processLCO_unsupported acl _ _ _ _ (by simpa using hc) (by simpa using hl)] at hp
    simp only [] at hp
    rw [hp] at hs ⊢
    simp only [rfTSBK_switchEntry] at hs ⊢
    have hne : f.tsbk.lco ≠ LCO.TSBK_IOSP_CALL_ALRT ∧ f.tsbk.lco ≠ LCO.TSBK_IOSP_EXT_FNCT := by
      constructor <;> intro h <;> rw [h] at hl <;> revert hl <;> decide
    have hreg : (s.switchEntry f).reg = s.resetStatusCommand.reg := by
      rw [reg_switchEntry, reg_resetStatusCommand]
      by_cases he : s.statusCmdEnable = true
      · rw [if_pos ⟨he, hne⟩, if_pos he]
      · rw [if_neg (fun h => he h.1), if_neg he]
    have he : ((s.switchEntry f).writeRF_TSDU_Deny Response.P25_DENY_RSN_SYS_UNSUPPORTED_SVC
        f.tsbk.lco).checkAndReject.emitted = s.emitted ++ [{ f.tsbk with
        lco := LCO.TSBK_OSP_DENY_RSP, service := f.tsbk.lco,
        response := Response.P25_DENY_RSN_SYS_UNSUPPORTED_SVC, lastBlock := true }] := by
      simp [emitted_writeRF_TSDU_Deny]
    refine ⟨trivial, he, fun h1 h2 h3 => hs.queued_eq _ he h1 h2 h3, ?_, ?_, ?_, ?_, ?_⟩
    · simp
    · simp
    · simp
    · exact (statusSrcId_of_reg (by simp)).trans (statusSrcId_of_reg hreg)
    · exact (statusValue_of_reg (by simp)).trans (statusValue_of_reg hreg)
  · intro hl
    have h := ctl_process acl (s.setControlFlag true) false f hl
    have hself : (s.setControlFlag true).setControlFlag false = s := by
      rw [setControlFlag_setControlFlag, ← hc]
      exact setControlFlag_self s
    rw [hself] at h
    exact h

/-- The amended claim C13 at concrete states: on a site without control
support an inbound GRP_VCH request from 1001 for talkgroup 5000 makes
`process` return false and write one DENY_RSP (SYS_UNSUPPORTED_SVC) for
GRP_VCH, the one frame on the modem queue; an inbound STS_UPDT from 1001 is
processed as on a site with control support. -/
theorem process_no_control_denied_witness :
    (process aclAcceptAll scenarioNoControl (rfTSDU (grpVchRequest 1001 5000))).1 = false ∧
    (process aclAcceptAll scenarioNoControl (rfTSDU (grpVchRequest 1001 5000))).2.emitted.map
      (fun t => (t.lco, t.service, t.response, t.srcId, t.dstId)) =
      [(LCO.TSBK_OSP_DENY_RSP, LCO.TSBK_IOSP_GRP_VCH,
        Response.P25_DENY_RSN_SYS_UNSUPPORTED_SVC, 1001, 5000)] ∧
    (process aclAcceptAll scenarioNoControl (rfTSDU (grpVchRequest 1001 5000))).2.queued.map
      (fun f => f.single.map (fun t => (t.lco, t.service, t.response, t.srcId, t.dstId))) =
      [some (LCO.TSBK_OSP_DENY_RSP, LCO.TSBK_IOSP_GRP_VCH,
        Response.P25_DENY_RSN_SYS_UNSUPPORTED_SVC, 1001, 5000)] ∧
    process aclAcceptAll scenarioNoControl (rfTSDU (stsUpdtRequest 1001 0)) =
      ((process aclAcceptAll (scenarioNoControl.setControlFlag true)
          (rfTSDU (stsUpdtRequest 1001 0))).1,
        (process aclAcceptAll (scenarioNoControl.setControlFlag true)
          (rfTSDU (stsUpdtRequest 1001 0))).2.setControlFlag false) ∧
    (process aclAcceptAll (scenarioNoControl.setControlFlag true)
      (rfTSDU (stsUpdtRequest 1001 0))).2.emitted.map (fun t => (t.lco, t.service)) =
      [(LCO.TSBK_IOSP_ACK_RSP, LCO.TSBK_IOSP_STS_UPDT)] :=
  have h := (process_no_control_denied aclAcceptAll scenarioNoControl
    (rfTSDU (grpVchRequest 1001 5000)) ⟨by decide, rfl, rfl⟩ rfl).1 (by decide)
  have h' := (process_no_control_denied aclAcceptAll scenarioNoControl
    (rfTSDU (stsUpdtRequest 1001 0)) ⟨by decide, rfl, rfl⟩ rfl).2 (by decide)
  ⟨h.1, (congrArg (List.map (fun t => (t.lco, t.service, t.response, t.srcId, t.dstId)))
    h.2.1).trans (by decide),
    (congrArg (List.map (fun f => f.single.map
      (fun t => (t.lco, t.service, t.response, t.srcId, t.dstId))))
      (h.2.2.1 rfl rfl rfl)).trans (by decide), h', by decide⟩

/-! ### The status command under network traffic -/

/-- Claim C37 as stated fails in its last part: in `processNetwork` the
decision to disarm the status command depends on the opcode of the network
TSBK. From the same armed state and with the same RF TSBK, an adjacent site
broadcast leaves the command armed where a call alert disarms it
(`processNetwork` returns from the adjacent site case before the reset); and
when the opcode of the RF TSBK keeps the command through the reset, a network
extended function disarms it where a network call alert does not (the case
EXT_FNCT resets the command itself). -/
theorem processNetwork_disarm_counterexample :
    (scenarioArmed 0x42).statusCmdEnable = true ∧
    (scenarioArmed 0x42).statusValue = 0x42 ∧
    (netTSDU adjStsBcast).rfTSBK = (netTSDU (callAlrtRequest 1001 1002)).rfTSBK ∧
    (processNetwork aclAcceptAll (scenarioArmed 0x42) (netTSDU adjStsBcast)).2.statusValue =
      0x42 ∧
    (processNetwork aclAcceptAll (scenarioArmed 0x42)
      (netTSDU (callAlrtRequest 1001 1002))).2.statusValue = 0 ∧
    (processNetwork aclAcceptAll (scenarioArmed 0x42)
      { tsbk := callAlrtRequest 1001 1002,
        rfTSBK := { lco := LCO.TSBK_IOSP_CALL_ALRT } }).2.statusValue = 0x42 ∧
    (processNetwork aclAcceptAll (scenarioArmed 0x42)
      { tsbk := { lco := LCO.TSBK_IOSP_EXT_FNCT, srcId := 1001, dstId := 1002 },
        rfTSBK := { lco := LCO.TSBK_IOSP_CALL_ALRT } }).2.statusValue = 0 := by
  decide

/-- Claim C37, amended. The overload `resetStatusCommand(tsbk)` does not read
its argument: for every engine state and any two TSBKs the resulting states
are equal, and the status command is disarmed exactly when `statusCmdEnable`
is set and the opcode of the RF TSBK of the engine (`m_rfTSBK`) is neither
CALL_ALRT nor EXT_FNCT, the state being unchanged otherwise. So in
`processNetwork`, for a decoded network TSDU taken from RF listening and
network idle with status commands enabled, the decision taken at that call
does not depend on the opcode of the network TSBK: the command is disarmed
on return when the opcode of the RF TSBK just reset is neither CALL_ALRT nor
EXT_FNCT, and it is as before when that opcode is one of the two. Two
network opcodes decide for themselves: ADJ_STS_BCAST never reaches the call
and leaves the command as it is, and EXT_FNCT with a target the ACL accepts
always disarms it. -/
theorem resetStatusCommandTSBK_ignores_argument (s : TrunkPacket) (t1 t2 : TSBK) :
    s.resetStatusCommandTSBK t1 = s.resetStatusCommandTSBK t2 ∧
    s.resetStatusCommandTSBK t1 =
      (if s.statusCmdEnable = true ∧ s.rfTSBK.lco ≠ LCO.TSBK_IOSP_CALL_ALRT ∧
          s.rfTSBK.lco ≠ LCO.TSBK_IOSP_EXT_FNCT then s.setStatus 0 0 else s) ∧
    (∀ (acl : AccessControl) (f : NetFrame),
      s.p25.netState = RPT_NET_STATE.RS_NET_IDLE →
      s.p25.rfState = RPT_RF_STATE.RS_RF_LISTENING →
      f.duid = DUID.P25_DUID_TSDU → f.decoded = true →
      f.tsbk.lco ≠ LCO.TSBK_OSP_ADJ_STS_BCAST → s.statusCmdEnable = true →
      ((f.rfTSBK.lco ≠ LCO.TSBK_IOSP_CALL_ALRT ∧ f.rfTSBK.lco ≠ LCO.TSBK_IOSP_EXT_FNCT →
        (processNetwork acl s f).2.statusSrcId = 0 ∧
        (processNetwork acl s f).2.statusValue = 0) ∧
       (f.rfTSBK.lco = LCO.TSBK_IOSP_CALL_ALRT ∨ f.rfTSBK.lco = LCO.TSBK_IOSP_EXT_FNCT →
        f.tsbk.lco ≠ LCO.TSBK_IOSP_EXT_FNCT →
        (processNetwork acl s f).2.statusSrcId = s.statusSrcId ∧
        (processNetwork acl s f).2.statusValue = s.statusValue) ∧
       (f.tsbk.lco = LCO.TSBK_IOSP_EXT_FNCT → acl.validateSrcId f.tsbk.dstId = true →
        (processNetwork acl s f).2.statusSrcId = 0 ∧
        (processNetwork acl s f).2.statusValue = 0))) ∧
    (∀ (acl : AccessControl) (f : NetFrame), f.tsbk.lco = LCO.TSBK_OSP_ADJ_STS_BCAST →
      (processNetwork acl s f).2.statusSrcId = s.statusSrcId ∧
      (processNetwork acl s f).2.statusValue = s.statusValue) := by
  refine ⟨rfl, ?_, ?_, ?_⟩
  · unfold resetStatusCommandTSBK resetStatusCommand
    by_cases h : s.statusCmdEnable = true ∧ s.rfTSBK.lco ≠ LCO.TSBK_IOSP_CALL_ALRT ∧
        s.rfTSBK.lco ≠ LCO.TSBK_IOSP_EXT_FNCT
    · rw [if_pos h, if_pos h, if_pos h.1]
    · rw [if_neg h, if_neg h]
  · intro acl f hn hr hd hdec hl hen
    have hreg := reg_processNetwork acl s f hn hr hd hdec hl
    rw [reg_resetStatusCommand, reg_resetStatusCommandTSBK] at hreg
    simp only [reg_setNetTSBK, reg_setRfTSBK, rfTSBK_setNetTSBK, rfTSBK_setRfTSBK] at hreg
    have hen' : s.reg.statusCmdEnable = true := hen
    refine ⟨?_, ?_, ?_⟩
    · intro hk
      rw [if_pos ⟨hen', hk⟩] at hreg
      rcases hreg with h | ⟨_, h⟩
      · exact ⟨congrArg Registry.statusSrcId h, congrArg Registry.statusValue h⟩
      · have h' := h
        unfold resetStatusCommandTSBK at h'
        split_ifs at h' <;>
          exact ⟨congrArg Registry.statusSrcId h', congrArg Registry.statusValue h'⟩
    · intro hk hne
      have hnk : ¬ (s.reg.statusCmdEnable = true ∧ (f.rfTSBK.lco ≠ LCO.TSBK_IOSP_CALL_ALRT ∧
          f.rfTSBK.lco ≠ LCO.TSBK_IOSP_EXT_FNCT)) := by
        rintro ⟨_, h1, h2⟩
        rcases hk with h | h
        · exact h1 h
        · exact h2 h
      rw [if_neg hnk] at hreg
      rcases hreg with h | ⟨h0, _⟩
      · exact ⟨congrArg Registry.statusSrcId h, congrArg Registry.statusValue h⟩
      · exact absurd h0 hne
    · intro hx hv
      unfold processNetwork
      rw [if_neg (fun h => h.1 hr), if_pos hd, if_pos hn]
      simp only [netTSBK_setNetTSBK]
      rw [if_neg (by simp [hdec]), if_neg hl]
      generalize hy : ((s.setRfTSBK f.rfTSBK).setNetTSBK f.tsbk).resetStatusCommandTSBK
        f.tsbk = y
      have hyl : y.netTSBK.lco = LCO.TSBK_IOSP_EXT_FNCT := by
        rw [← hy, ← hx]
        unfold resetStatusCommandTSBK resetStatusCommand
        split_ifs <;> rfl
      have hye : y.statusCmdEnable = true := by
        rw [← hy, ← hen]
        unfold resetStatusCommandTSBK resetStatusCommand
        split_ifs <;> rfl
      have hp : processNetworkLCO acl y f.tsbk.srcId f.tsbk.dstId =
          (none, y.resetStatusCommand) := by
        unfold processNetworkLCO
        simp only [hyl]
        unfold processNetwork_EXT_FNCT VALID_DSTID_NET
        rw [if_neg (by simp [hv])]
      rw [hp]
      simp only []
      have hr0 : y.resetStatusCommand = y.setStatus 0 0 := by
        unfold resetStatusCommand
        rw [if_pos hye]
      rw [hr0]
      unfold writeNet_TSDU
      simp only []
      split_ifs <;> exact ⟨rfl, rfl⟩
  · intro acl f hx
    unfold processNetwork
    simp only [netTSBK_setNetTSBK, hx]
    unfold updateAdjSite
    split_ifs <;> exact ⟨rfl, rfl⟩

/-- The amended claim C37 at concrete states: a network call alert disarms
the status command armed with code 0x42, and a network adjacent site
broadcast leaves it armed. -/
theorem resetStatusCommandTSBK_ignores_argument_witness :
    (scenarioArmed 0x42).statusValue = 0x42 ∧
    ((processNetwork aclAcceptAll (scenarioArmed 0x42)
      (netTSDU (callAlrtRequest 1001 1002))).2.statusSrcId = 0 ∧
    (processNetwork aclAcceptAll (scenarioArmed 0x42)
      (netTSDU (callAlrtRequest 1001 1002))).2.statusValue = 0) ∧
    ((processNetwork aclAcceptAll (scenarioArmed 0x42) (netTSDU adjStsBcast)).2.statusSrcId =
      1001 ∧
    (processNetwork aclAcceptAll (scenarioArmed 0x42) (netTSDU adjStsBcast)).2.statusValue =
      0x42) :=
  ⟨rfl, ((resetStatusCommandTSBK_ignores_argument (scenarioArmed 0x42) {} {}).2.2.1 aclAcceptAll
    (netTSDU (callAlrtRequest 1001 1002)) rfl rfl rfl rfl (by decide) rfl).1
    ⟨by decide, by decide⟩,
    (resetStatusCommandTSBK_ignores_argument (scenarioArmed 0x42) {} {}).2.2.2 aclAcceptAll
      (netTSDU adjStsBcast) rfl⟩

/-! ### The control channel broadcasts -/

/-- What `ctrlTSBK` leaves alone: the owning control, the adjacent site
table, the trace, the multi-block buffer and its cursor. -/
theorem ctrlTSBK_frame (walk : AdjSiteWalk) (s : TrunkPacket) (l : LCO) :
    (s.ctrlTSBK walk l).2.p25 = s.p25 ∧ (s.ctrlTSBK walk l).2.adjSiteTable = s.adjSiteTable ∧
    (s.ctrlTSBK walk l).2.events = s.events ∧ (s.ctrlTSBK walk l).2.rfMBF = s.rfMBF ∧
    (s.ctrlTSBK walk l).2.mbfCnt = s.mbfCnt := by
  unfold ctrlTSBK
  cases l <;> (try exact ⟨rfl, rfl, rfl, rfl, rfl⟩) <;> simp only []
  · split_ifs
    · cases s.p25.idenTable.get? (s.setMbfIdenCnt 0).mbfIdenCnt with
      | none => exact ⟨rfl, rfl, rfl, rfl, rfl⟩
      | some e => simp only []; split_ifs <;> exact ⟨rfl, rfl, rfl, rfl, rfl⟩
    · cases s.p25.idenTable.get? s.mbfIdenCnt with
      | none => exact ⟨rfl, rfl, rfl, rfl, rfl⟩
      | some e => simp only []; split_ifs <;> exact ⟨rfl, rfl, rfl, rfl, rfl⟩
  · split_ifs
    · rcases h : (walk (s.setMbfAdjSSCnt 0).adjSiteTable).get? (s.setMbfAdjSSCnt 0).mbfAdjSSCnt with
        _ | ⟨k, site⟩
      · exact ⟨rfl, rfl, rfl, rfl, rfl⟩
      · simp only []
        cases tblAt (s.setMbfAdjSSCnt 0).adjSiteUpdateCnt site.siteId <;>
          exact ⟨rfl, rfl, rfl, rfl, rfl⟩
    · rcases h : (walk s.adjSiteTable).get? s.mbfAdjSSCnt with _ | ⟨k, site⟩
      · exact ⟨rfl, rfl, rfl, rfl, rfl⟩
      · simp only []
        cases tblAt s.adjSiteUpdateCnt site.siteId <;> exact ⟨rfl, rfl, rfl, rfl, rfl⟩
    · exact ⟨rfl, rfl, rfl, rfl, rfl⟩

/-- What `writeRF_TSDU_MBF` leaves alone. -/
theorem writeRF_TSDU_MBF_frame (s : TrunkPacket) (c : Bool) :
    (s.writeRF_TSDU_MBF c).p25 = s.p25 ∧
    (s.writeRF_TSDU_MBF c).adjSiteTable = s.adjSiteTable ∧
    (s.writeRF_TSDU_MBF c).mbfIdenCnt = s.mbfIdenCnt ∧
    (s.writeRF_TSDU_MBF c).mbfAdjSSCnt = s.mbfAdjSSCnt ∧
    (s.writeRF_TSDU_MBF c).adjSiteUpdateCnt = s.adjSiteUpdateCnt := by
  unfold writeRF_TSDU_MBF
  simp only []
  split_ifs <;> exact ⟨rfl, rfl, rfl, rfl, rfl⟩

theorem mbfBlocks_tblSet_succ (m : List (Nat × TSBK)) (c : Nat) (t : TSBK) :
    mbfBlocks (tblSet m c t) (c + 1) = mbfBlocks m c ++ [some t] := by
  unfold mbfBlocks
  rw [List.range_succ, List.map_append]
  simp only [List.map_cons, List.map_nil, tblAt_tblSet_self]
  congr 1
  apply List.map_congr_left
  intro i hi
  exact tblAt_tblSet_ne _ _ _ _ (Nat.ne_of_lt (List.mem_range.mp hi)).symm

theorem staged_setRfTSBK {s0 r : TrunkPacket} {done : List (List TSBK)} {P : List TSBK}
    (h : Staged s0 r done P) (t : TSBK) : Staged s0 (r.setRfTSBK t) done P := h

theorem staged_start (s : TrunkPacket) (h : s.mbfCnt = 0) : Staged s s [] [] :=
  ⟨rfl, rfl, by simp, h, by decide, rfl⟩

/-- A call of `queueRF_TSBK_Ctrl_MBF` whose broadcast is not built (the
adjacent site broadcast with an empty site table) stages nothing. -/
theorem staged_skip {walk : AdjSiteWalk} {reset : TSBK → TSBK} {s0 r y : TrunkPacket} {done : List (List TSBK)}
    {P : List TSBK} {l : LCO} (h : Staged s0 r done P)
    (hy : (r.setRfTSBK (reset r.rfTSBK)).ctrlTSBK walk l = (false, y)) :
    Staged s0 (queueRF_TSBK_Ctrl_MBF reset walk r l) done P := by
  obtain ⟨f1, f2, f3, f4, f5⟩ := ctrlTSBK_frame walk (r.setRfTSBK (reset r.rfTSBK)) l
  rw [hy] at f1 f2 f3 f4 f5
  simp only [] at f1 f2 f3 f4 f5
  unfold queueRF_TSBK_Ctrl_MBF
  simp only []
  rw [hy]
  simp only []
  obtain ⟨h1, h2, h3, h4, h5, h6⟩ := h
  exact ⟨f1.trans h1, f2.trans h2, f3.trans h3, f5.trans h4, h5, by rw [f4]; exact h6⟩

/-- A call of `queueRF_TSBK_Ctrl_MBF` in duplex mode whose broadcast is
built: the TSBK is staged behind the pending ones, and the third of a burst
queues the triple frame. -/
theorem staged_queue {walk : AdjSiteWalk} {reset : TSBK → TSBK} {s0 r y : TrunkPacket} {done : List (List TSBK)}
    {P : List TSBK} {l : LCO} (hd : s0.p25.duplex = true) (h : Staged s0 r done P)
    (hy : (r.setRfTSBK (reset r.rfTSBK)).ctrlTSBK walk l = (true, y)) :
    ∃ t : TSBK, t.lco = y.rfTSBK.lco ∧
      Staged s0 (queueRF_TSBK_Ctrl_MBF reset walk r l)
        (if P.length + 1 = TSBK_MBF_CNT then done ++ [P ++ [t]] else done)
        (if P.length + 1 = TSBK_MBF_CNT then [] else P ++ [t]) := by
  obtain ⟨f1, f2, f3, f4, f5⟩ := ctrlTSBK_frame walk (r.setRfTSBK (reset r.rfTSBK)) l
  rw [hy] at f1 f2 f3 f4 f5
  simp only [] at f1 f2 f3 f4 f5
  obtain ⟨h1, h2, h3, h4, h5, h6⟩ := h
  have g1 : y.p25 = s0.p25 := f1.trans h1
  have g2 : y.adjSiteTable = s0.adjSiteTable := f2.trans h2
  have g3 := f3.trans h3
  have g4 : y.mbfCnt = P.length := f5.trans h4
  have g6 : mbfBlocks y.rfMBF P.length = P.map some := by rw [f4]; exact h6
  unfold queueRF_TSBK_Ctrl_MBF
  simp only []
  rw [hy]
  simp only []
  generalize hx : y.setLastBlock true = x
  have x1 : x.p25 = s0.p25 := by rw [← hx]; exact g1
  have x2 : x.adjSiteTable = s0.adjSiteTable := by rw [← hx]; exact g2
  have x3 := (show x.events = y.events by rw [← hx]; rfl).trans g3
  have x4 : x.mbfCnt = P.length := by rw [← hx]; exact g4
  have x6 : mbfBlocks x.rfMBF P.length = P.map some := by rw [← hx]; exact g6
  have x7 : x.rfTSBK.lco = y.rfTSBK.lco := by rw [← hx]; rfl
  have xd : x.p25.duplex = true := by rw [x1]; exact hd
  obtain ⟨w1, w2, _, _, _⟩ := writeRF_TSDU_MBF_frame x false
  by_cases hn : P.length + 1 = TSBK_MBF_CNT
  · simp only [if_pos hn]
    obtain ⟨_, e2, e3, e4⟩ := writeRF_TSDU_MBF_flush x false xd (by rw [x4]; exact hn)
    refine ⟨{ x.rfTSBK with lastBlock := true }, x7, w1.trans x1, w2.trans x2, ?_, e4,
      by decide, ?_⟩
    · rw [e2, x3, x4, ← hn, mbfBlocks_tblSet_succ, x6]
      simp
    · rw [e3]; rfl
  · simp only [if_neg hn]
    obtain ⟨_, e2, e3, _, e5⟩ := writeRF_TSDU_MBF_stage_facts x false xd (by rw [x4]; exact hn)
    have hlt : (P ++ [{ x.rfTSBK with lastBlock := false }]).length < TSBK_MBF_CNT := by
      rw [List.length_append, List.length_singleton]
      unfold TSBK_MBF_CNT at h5 hn ⊢
      omega
    refine ⟨{ x.rfTSBK with lastBlock := false }, x7, w1.trans x1, w2.trans x2,
      e2.trans x3, ?_, hlt, ?_⟩
    · rw [e3, x4, List.length_append, List.length_singleton]
    · rw [e5, x4, List.length_append, List.length_singleton, mbfBlocks_tblSet_succ,
        List.map_append]
      congr 1
      by_cases h0 : P.length = 0
      · rw [if_pos h0, h0]
        rw [List.length_eq_zero.mp h0]
        rfl
      · rw [if_neg h0]; exact x6

theorem cursorEntry_lt {n c : Nat} (h : 0 < n) : cursorEntry n c < n := by
  unfold cursorEntry
  split_ifs <;> omega

/-- The identity update built by `ctrlTSBK`: the entry under the cursor
`mbfIdenCnt`, which then moves on by one (a `uint8_t`). -/
theorem ctrlTSBK_IDEN_UP (walk : AdjSiteWalk) (x : TrunkPacket) (e : IdenTable)
    (hget : x.p25.idenTable.get? (cursorEntry x.p25.idenTable.length x.mbfIdenCnt) = some e) :
    ∃ y, x.ctrlTSBK walk LCO.TSBK_OSP_IDEN_UP = (true, y) ∧
      y.mbfIdenCnt = (cursorEntry x.p25.idenTable.length x.mbfIdenCnt + 1) % 256 ∧
      y.rfTSBK = { x.rfTSBK with
        siteIdenEntry := e,
        lco := if e.baseFrequency ≥ 762000000 then LCO.TSBK_OSP_IDEN_UP
          else LCO.TSBK_OSP_IDEN_UP_VU } := by
  unfold cursorEntry at hget ⊢
  unfold ctrlTSBK
  simp only []
  by_cases hc : x.mbfIdenCnt ≥ x.p25.idenTable.length
  · rw [if_pos hc] at hget ⊢
    rw [if_pos hc]
    have hg' : x.p25.idenTable.get? (x.setMbfIdenCnt 0).mbfIdenCnt = some e := hget
    simp only [hg']
    refine ⟨_, rfl, ?_, ?_⟩
    · split_ifs <;> rfl
    · split_ifs <;> rfl
  · rw [if_neg hc] at hget ⊢
    rw [if_neg hc]
    simp only [hget]
    refine ⟨_, rfl, ?_, ?_⟩
    · split_ifs <;> rfl
    · split_ifs <;> rfl

/-- The adjacent site broadcast built by `ctrlTSBK`: the identity of the
entry under the cursor `mbfAdjSSCnt`, which then moves on by one (a
`uint8_t`). -/
theorem ctrlTSBK_ADJ_STS_BCAST (walk : AdjSiteWalk) (x : TrunkPacket) (key : Nat)
    (site : SiteData) (hw : AdjSiteWalk.Lawful walk)
    (hget : (walk x.adjSiteTable).get? (cursorEntry x.adjSiteTable.length x.mbfAdjSSCnt) =
      some (key, site)) :
    ∃ y, x.ctrlTSBK walk LCO.TSBK_OSP_ADJ_STS_BCAST = (true, y) ∧
      y.mbfAdjSSCnt = (cursorEntry x.adjSiteTable.length x.mbfAdjSSCnt + 1) % 256 ∧
      y.rfTSBK.lco = LCO.TSBK_OSP_ADJ_STS_BCAST ∧
      y.rfTSBK.adjSiteSysId = site.sysId ∧ y.rfTSBK.adjSiteRFSSId = site.rfssId ∧
      y.rfTSBK.adjSiteId = site.siteId ∧ y.rfTSBK.adjSiteChnId = site.channelId ∧
      y.rfTSBK.adjSiteChnNo = site.channelNo := by
  have hpos : x.adjSiteTable.length > 0 := by
    rw [← (hw x.adjSiteTable).length_eq]
    by_contra hh
    have h0 : walk x.adjSiteTable = [] := List.length_eq_zero.mp (by omega)
    rw [h0] at hget
    exact Option.noConfusion hget
  unfold cursorEntry at hget ⊢
  unfold ctrlTSBK
  simp only []
  rw [if_pos hpos]
  have hcases : tblAt x.adjSiteUpdateCnt site.siteId = none ∨
      ∃ c, tblAt x.adjSiteUpdateCnt site.siteId = some c := by
    cases tblAt x.adjSiteUpdateCnt site.siteId with
    | none => exact Or.inl rfl
    | some c => exact Or.inr ⟨c, rfl⟩
  by_cases hc : x.mbfAdjSSCnt ≥ x.adjSiteTable.length
  · rw [if_pos hc] at hget ⊢
    rw [if_pos hc]
    have hg' : (walk (x.setMbfAdjSSCnt 0).adjSiteTable).get? (x.setMbfAdjSSCnt 0).mbfAdjSSCnt =
        some (key, site) := hget
    simp only [hg', adjSiteUpdateCnt_setMbfAdjSSCnt]
    rcases hcases with hq | ⟨c, hq⟩
    · simp only [hq]
      exact ⟨_, rfl, rfl, rfl, rfl, rfl, rfl, rfl, rfl⟩
    · simp only [hq]
      exact ⟨_, rfl, rfl, rfl, rfl, rfl, rfl, rfl, rfl⟩
  · rw [if_neg hc] at hget ⊢
    rw [if_neg hc]
    simp only [hget]
    rcases hcases with hq | ⟨c, hq⟩
    · simp only [hq]
      exact ⟨_, rfl, rfl, rfl, rfl, rfl, rfl, rfl, rfl⟩
    · simp only [hq]
      exact ⟨_, rfl, rfl, rfl, rfl, rfl, rfl, rfl, rfl⟩

theorem ctrlTSBK_ADJ_STS_BCAST_empty (walk : AdjSiteWalk) (x : TrunkPacket) (h : x.adjSiteTable = []) :
    x.ctrlTSBK walk LCO.TSBK_OSP_ADJ_STS_BCAST = (false, x) := by
  unfold ctrlTSBK
  simp only []
  rw [if_neg (by rw [h]; decide)]

theorem exists_get_cursorEntry {α : Type} (T : List α) (c : Nat) (h : T ≠ []) :
    ∃ e, T.get? (cursorEntry T.length c) = some e := by
  have hlt : cursorEntry T.length c < T.length :=
    cursorEntry_lt (List.length_pos.mpr h)
  exact ⟨T.get ⟨_, hlt⟩, List.get?_eq_get hlt⟩

theorem staged_resetRfTSBK {s0 r : TrunkPacket} {done : List (List TSBK)} {P : List TSBK}
    (h : Staged s0 r done P) (reset : TSBK → TSBK) : Staged s0 (r.resetRfTSBK reset) done P := h

theorem staged_queue0 (reset : TSBK → TSBK) (walk : AdjSiteWalk) (l : LCO) {s0 r y : TrunkPacket}
    {done : List (List TSBK)}
    (hd : s0.p25.duplex = true) (h : Staged s0 r done [])
    (hy : (r.setRfTSBK (reset r.rfTSBK)).ctrlTSBK walk l = (true, y)) :
    ∃ t : TSBK, t.lco = y.rfTSBK.lco ∧
      Staged s0 (queueRF_TSBK_Ctrl_MBF reset walk r l) done [t] := by
  obtain ⟨t, ht, hS⟩ := staged_queue hd h hy
  rw [if_neg (by simp [TSBK_MBF_CNT]), if_neg (by simp [TSBK_MBF_CNT])] at hS
  exact ⟨t, ht, hS⟩

theorem staged_queue1 (reset : TSBK → TSBK) (walk : AdjSiteWalk) (l : LCO) {s0 r y : TrunkPacket}
    {done : List (List TSBK)}
    {a : TSBK} (hd : s0.p25.duplex = true) (h : Staged s0 r done [a])
    (hy : (r.setRfTSBK (reset r.rfTSBK)).ctrlTSBK walk l = (true, y)) :
    ∃ t : TSBK, t.lco = y.rfTSBK.lco ∧
      Staged s0 (queueRF_TSBK_Ctrl_MBF reset walk r l) done [a, t] := by
  obtain ⟨t, ht, hS⟩ := staged_queue hd h hy
  rw [if_neg (by simp [TSBK_MBF_CNT]), if_neg (by simp [TSBK_MBF_CNT])] at hS
  exact ⟨t, ht, hS⟩

theorem staged_queue2 (reset : TSBK → TSBK) (walk : AdjSiteWalk) (l : LCO) {s0 r y : TrunkPacket}
    {done : List (List TSBK)}
    {a b : TSBK} (hd : s0.p25.duplex = true) (h : Staged s0 r done [a, b])
    (hy : (r.setRfTSBK (reset r.rfTSBK)).ctrlTSBK walk l = (true, y)) :
    ∃ t : TSBK, t.lco = y.rfTSBK.lco ∧
      Staged s0 (queueRF_TSBK_Ctrl_MBF reset walk r l) (done ++ [[a, b, t]]) [] := by
  obtain ⟨t, ht, hS⟩ := staged_queue hd h hy
  rw [if_pos (by simp [TSBK_MBF_CNT]), if_pos (by simp [TSBK_MBF_CNT])] at hS
  exact ⟨t, ht, hS⟩

/-- The identity update staged from a state of a run: its opcode is IDEN_UP
or IDEN_UP_VU. -/
theorem ctrlTSBK_IDEN_UP_staged (walk : AdjSiteWalk) {s0 r : TrunkPacket} {done : List (List TSBK)} {P : List TSBK}
    (h : Staged s0 r done P) (hi : s0.p25.idenTable ≠ []) (t : TSBK) :
    ∃ y, (r.setRfTSBK t).ctrlTSBK walk LCO.TSBK_OSP_IDEN_UP = (true, y) ∧
      (y.rfTSBK.lco = LCO.TSBK_OSP_IDEN_UP ∨ y.rfTSBK.lco = LCO.TSBK_OSP_IDEN_UP_VU) := by
  have hp : (r.setRfTSBK t).p25 = s0.p25 := h.1
  obtain ⟨e, he⟩ := exists_get_cursorEntry (r.setRfTSBK t).p25.idenTable
    (r.setRfTSBK t).mbfIdenCnt (by rw [hp]; exact hi)
  obtain ⟨y, hy, _, hr⟩ := ctrlTSBK_IDEN_UP walk (r.setRfTSBK t) e he
  refine ⟨y, hy, ?_⟩
  rw [hr]
  by_cases hf : e.baseFrequency ≥ 762000000
  · left; exact if_pos hf
  · right; exact if_neg hf

theorem ctrlTSBK_ADJ_staged (walk : AdjSiteWalk) (hw : AdjSiteWalk.Lawful walk)
    {s0 r : TrunkPacket} {done : List (List TSBK)} {P : List TSBK}
    (h : Staged s0 r done P) (hi : s0.adjSiteTable ≠ []) (t : TSBK) :
    ∃ y, (r.setRfTSBK t).ctrlTSBK walk LCO.TSBK_OSP_ADJ_STS_BCAST = (true, y) ∧
      y.rfTSBK.lco = LCO.TSBK_OSP_ADJ_STS_BCAST := by
  have hp : (r.setRfTSBK t).adjSiteTable = s0.adjSiteTable := h.2.1
  obtain ⟨⟨k, e⟩, he⟩ := exists_get_cursorEntry (walk (r.setRfTSBK t).adjSiteTable)
    (r.setRfTSBK t).mbfAdjSSCnt (by
      intro h0
      have hl := (hw (r.setRfTSBK t).adjSiteTable).length_eq
      rw [h0, hp] at hl
      exact hi (List.length_eq_zero.mp hl.symm))
  rw [(hw (r.setRfTSBK t).adjSiteTable).length_eq] at he
  obtain ⟨y, hy, _, hr, _⟩ := ctrlTSBK_ADJ_STS_BCAST walk (r.setRfTSBK t) k e hw he
  exact ⟨y, hy, hr⟩

theorem writeRF_ControlData_all (reset : TSBK → TSBK) (walk : AdjSiteWalk) (s : TrunkPacket) (adjSS : Bool)
    (hc : s.p25.control = true) :
    writeRF_ControlData reset walk s 255 0 adjSS =
      controlDataPad reset walk (queueRF_TSBK_Ctrl_MBF reset walk
        (resetRfTSBK reset (resetRfTSBK reset
          (if adjSS = true then
            queueRF_TSBK_Ctrl_MBF reset walk
              (resetRfTSBK reset (queueRF_TSBK_Ctrl_MBF reset walk
                (resetRfTSBK reset (queueRF_TSBK_Ctrl_MBF reset walk
                  (resetRfTSBK reset (queueRF_TSBK_Ctrl_MBF reset walk
                    (resetRfTSBK reset (queueRF_TSBK_Ctrl_MBF reset walk (resetRfTSBK reset s)
                      LCO.TSBK_OSP_IDEN_UP))
                    LCO.TSBK_OSP_RFSS_STS_BCAST))
                  LCO.TSBK_OSP_NET_STS_BCAST))
                LCO.TSBK_OSP_SNDCP_CH_ANN))
              LCO.TSBK_OSP_ADJ_STS_BCAST
          else
            resetRfTSBK reset (queueRF_TSBK_Ctrl_MBF reset walk
                (resetRfTSBK reset (queueRF_TSBK_Ctrl_MBF reset walk
                  (resetRfTSBK reset (queueRF_TSBK_Ctrl_MBF reset walk
                    (resetRfTSBK reset (queueRF_TSBK_Ctrl_MBF reset walk (resetRfTSBK reset s)
                      LCO.TSBK_OSP_IDEN_UP))
                    LCO.TSBK_OSP_RFSS_STS_BCAST))
                  LCO.TSBK_OSP_NET_STS_BCAST))
                LCO.TSBK_OSP_SNDCP_CH_ANN))))
        LCO.TSBK_OSP_MOT_CC_BSI) := by
  unfold writeRF_ControlData
  rw [if_neg (by rw [hc]; decide)]
  rfl

theorem controlDataPad_eq0 (reset : TSBK → TSBK) (walk : AdjSiteWalk) (r : TrunkPacket) (hm : r.mbfCnt = 0) :
    controlDataPad reset walk r = r.setMBF r.rfMBF 0 := by
  unfold controlDataPad
  simp [hm]

theorem controlDataPad_eq1 (reset : TSBK → TSBK) (walk : AdjSiteWalk) (r : TrunkPacket) (hm : r.mbfCnt = 1)
    (hm2 : (queueRF_TSBK_Ctrl_MBF reset walk
      (queueRF_TSBK_Ctrl_MBF reset walk r LCO.TSBK_OSP_RFSS_STS_BCAST)
      LCO.TSBK_OSP_NET_STS_BCAST).mbfCnt = 0) :
    controlDataPad reset walk r =
      (queueRF_TSBK_Ctrl_MBF reset walk (queueRF_TSBK_Ctrl_MBF reset walk r LCO.TSBK_OSP_RFSS_STS_BCAST)
        LCO.TSBK_OSP_NET_STS_BCAST).setMBF
        (queueRF_TSBK_Ctrl_MBF reset walk (queueRF_TSBK_Ctrl_MBF reset walk r LCO.TSBK_OSP_RFSS_STS_BCAST)
          LCO.TSBK_OSP_NET_STS_BCAST).rfMBF 0 := by
  unfold controlDataPad
  simp [hm, hm2]

theorem controlDataPad_eq2 (reset : TSBK → TSBK) (walk : AdjSiteWalk) (r : TrunkPacket) (hm : r.mbfCnt = 2) :
    controlDataPad reset walk r =
      (if r.p25.idenTable.length > 1 then queueRF_TSBK_Ctrl_MBF reset walk r LCO.TSBK_OSP_IDEN_UP
        else queueRF_TSBK_Ctrl_MBF reset walk r LCO.TSBK_OSP_RFSS_STS_BCAST).setMBF
        (if r.p25.idenTable.length > 1 then queueRF_TSBK_Ctrl_MBF reset walk r LCO.TSBK_OSP_IDEN_UP
          else queueRF_TSBK_Ctrl_MBF reset walk r LCO.TSBK_OSP_RFSS_STS_BCAST).rfMBF 0 := by
  unfold controlDataPad
  simp [hm]

theorem controlDataPad_zero {s0 r : TrunkPacket} {done : List (List TSBK)}
    (reset : TSBK → TSBK) (walk : AdjSiteWalk) (h : Staged s0 r done []) :
    Staged s0 (controlDataPad reset walk r) done [] := by
  rw [controlDataPad_eq0 reset walk r h.2.2.2.1]
  exact ⟨h.1, h.2.1, h.2.2.1, rfl, by decide, rfl⟩

/-- Padding with one TSBK pending: RFSS_STS_BCAST and NET_STS_BCAST complete
the burst. -/
theorem controlDataPad_one {s0 r : TrunkPacket} {done : List (List TSBK)} {a : TSBK}
    (reset : TSBK → TSBK) (walk : AdjSiteWalk) (hd : s0.p25.duplex = true) (h : Staged s0 r done [a]) :
    ∃ t u : TSBK, t.lco = LCO.TSBK_OSP_RFSS_STS_BCAST ∧ u.lco = LCO.TSBK_OSP_NET_STS_BCAST ∧
      Staged s0 (controlDataPad reset walk r) (done ++ [[a, t, u]]) [] := by
  have hm : r.mbfCnt = 1 := h.2.2.2.1
  obtain ⟨t, e1, S1⟩ := staged_queue1 reset walk LCO.TSBK_OSP_RFSS_STS_BCAST hd h rfl
  obtain ⟨u, e2, S2⟩ := staged_queue2 reset walk LCO.TSBK_OSP_NET_STS_BCAST hd S1 rfl
  have hm2 : (queueRF_TSBK_Ctrl_MBF reset walk
      (queueRF_TSBK_Ctrl_MBF reset walk r LCO.TSBK_OSP_RFSS_STS_BCAST)
      LCO.TSBK_OSP_NET_STS_BCAST).mbfCnt = 0 := S2.2.2.2.1
  rw [controlDataPad_eq1 reset walk r hm hm2]
  exact ⟨t, u, e1, e2, S2.1, S2.2.1, S2.2.2.1, rfl, by decide, rfl⟩

/-- Padding with two TSBKs pending: an identity update when more than one
identity exists, RFSS_STS_BCAST if not, completes the burst. -/
theorem controlDataPad_two {s0 r : TrunkPacket} {done : List (List TSBK)} {a b : TSBK}
    (reset : TSBK → TSBK) (walk : AdjSiteWalk) (hd : s0.p25.duplex = true) (h : Staged s0 r done [a, b]) :
    ∃ t : TSBK,
      (if s0.p25.idenTable.length > 1 then
        t.lco = LCO.TSBK_OSP_IDEN_UP ∨ t.lco = LCO.TSBK_OSP_IDEN_UP_VU
      else t.lco = LCO.TSBK_OSP_RFSS_STS_BCAST) ∧
      Staged s0 (controlDataPad reset walk r) (done ++ [[a, b, t]]) [] := by
  have hm : r.mbfCnt = 2 := h.2.2.2.1
  have hp : r.p25 = s0.p25 := h.1
  rw [controlDataPad_eq2 reset walk r hm, hp]
  by_cases hi : s0.p25.idenTable.length > 1
  · simp only [if_pos hi]
    have hne : s0.p25.idenTable ≠ [] := by
      intro h0; rw [h0] at hi; exact absurd hi (by decide)
    obtain ⟨y, hy, hl⟩ := ctrlTSBK_IDEN_UP_staged walk h hne (reset r.rfTSBK)
    obtain ⟨t, e, S⟩ := staged_queue2 reset walk LCO.TSBK_OSP_IDEN_UP hd h hy
    exact ⟨t, by rw [e]; exact hl, S.1, S.2.1, S.2.2.1, rfl, by decide, rfl⟩
  · simp only [if_neg hi]
    obtain ⟨t, e, S⟩ := staged_queue2 reset walk LCO.TSBK_OSP_RFSS_STS_BCAST hd h rfl
    exact ⟨t, e, S.1, S.2.1, S.2.2.1, rfl, by decide, rfl⟩

/-- The first four broadcasts of the sequence. -/
theorem controlData_first_four (reset : TSBK → TSBK) (walk : AdjSiteWalk) (s : TrunkPacket)
    (hd : s.p25.duplex = true) (hm : s.mbfCnt = 0) (hi : s.p25.idenTable ≠ []) :
    ∃ t1 t2 t3 t4 : TSBK,
      (t1.lco = LCO.TSBK_OSP_IDEN_UP ∨ t1.lco = LCO.TSBK_OSP_IDEN_UP_VU) ∧
      t2.lco = LCO.TSBK_OSP_RFSS_STS_BCAST ∧ t3.lco = LCO.TSBK_OSP_NET_STS_BCAST ∧
      t4.lco = LCO.TSBK_OSP_SNDCP_CH_ANN ∧
      Staged s (queueRF_TSBK_Ctrl_MBF reset walk
          (resetRfTSBK reset (queueRF_TSBK_Ctrl_MBF reset walk
            (resetRfTSBK reset (queueRF_TSBK_Ctrl_MBF reset walk
              (resetRfTSBK reset (queueRF_TSBK_Ctrl_MBF reset walk (resetRfTSBK reset s)
                LCO.TSBK_OSP_IDEN_UP))
              LCO.TSBK_OSP_RFSS_STS_BCAST))
            LCO.TSBK_OSP_NET_STS_BCAST))
          LCO.TSBK_OSP_SNDCP_CH_ANN) [[t1, t2, t3]] [t4] := by
  have S0 := staged_resetRfTSBK (staged_start s hm) reset
  obtain ⟨y1, hy1, hl1⟩ := ctrlTSBK_IDEN_UP_staged walk S0 hi (reset (s.resetRfTSBK reset).rfTSBK)
  obtain ⟨t1, e1, S1⟩ := staged_queue0 reset walk LCO.TSBK_OSP_IDEN_UP hd S0 hy1
  obtain ⟨t2, e2, S2⟩ := staged_queue1 reset walk LCO.TSBK_OSP_RFSS_STS_BCAST hd
    (staged_resetRfTSBK S1 reset) rfl
  obtain ⟨t3, e3, S3⟩ := staged_queue2 reset walk LCO.TSBK_OSP_NET_STS_BCAST hd
    (staged_resetRfTSBK S2 reset) rfl
  obtain ⟨t4, e4, S4⟩ := staged_queue0 reset walk LCO.TSBK_OSP_SNDCP_CH_ANN hd
    (staged_resetRfTSBK S3 reset) rfl
  exact ⟨t1, t2, t3, t4, by rw [e1]; exact hl1, e2, e3, e4, S4⟩

/-- The first four broadcasts of the sequence when two TSBKs are staged at
the start: the identity update completes their triple frame. -/
theorem controlData_first_four_staged (reset : TSBK → TSBK) (walk : AdjSiteWalk)
    (s : TrunkPacket) (p q : TSBK)
    (hd : s.p25.duplex = true) (hS : Staged s s [] [p, q]) (hi : s.p25.idenTable ≠ []) :
    ∃ t1 t2 t3 t4 : TSBK,
      (t1.lco = LCO.TSBK_OSP_IDEN_UP ∨ t1.lco = LCO.TSBK_OSP_IDEN_UP_VU) ∧
      t2.lco = LCO.TSBK_OSP_RFSS_STS_BCAST ∧ t3.lco = LCO.TSBK_OSP_NET_STS_BCAST ∧
      t4.lco = LCO.TSBK_OSP_SNDCP_CH_ANN ∧
      Staged s (queueRF_TSBK_Ctrl_MBF reset walk
          (resetRfTSBK reset (queueRF_TSBK_Ctrl_MBF reset walk
            (resetRfTSBK reset (queueRF_TSBK_Ctrl_MBF reset walk
              (resetRfTSBK reset (queueRF_TSBK_Ctrl_MBF reset walk (resetRfTSBK reset s)
                LCO.TSBK_OSP_IDEN_UP))
              LCO.TSBK_OSP_RFSS_STS_BCAST))
            LCO.TSBK_OSP_NET_STS_BCAST))
          LCO.TSBK_OSP_SNDCP_CH_ANN) [[p, q, t1], [t2, t3, t4]] [] := by
  have S0 := staged_resetRfTSBK hS reset
  obtain ⟨y1, hy1, hl1⟩ := ctrlTSBK_IDEN_UP_staged walk S0 hi (reset (s.resetRfTSBK reset).rfTSBK)
  obtain ⟨t1, e1, S1⟩ := staged_queue2 reset walk LCO.TSBK_OSP_IDEN_UP hd S0 hy1
  obtain ⟨t2, e2, S2⟩ := staged_queue0 reset walk LCO.TSBK_OSP_RFSS_STS_BCAST hd
    (staged_resetRfTSBK S1 reset) rfl
  obtain ⟨t3, e3, S3⟩ := staged_queue1 reset walk LCO.TSBK_OSP_NET_STS_BCAST hd
    (staged_resetRfTSBK S2 reset) rfl
  obtain ⟨t4, e4, S4⟩ := staged_queue2 reset walk LCO.TSBK_OSP_SNDCP_CH_ANN hd
    (staged_resetRfTSBK S3 reset) rfl
  exact ⟨t1, t2, t3, t4, by rw [e1]; exact hl1, e2, e3, e4, S4⟩

/-- Claim C31 as stated fails when the identity table is empty: the loop of
`queueRF_TSBK_Ctrl_MBF(IDEN_UP)` over the entries does not run, the opcode of
the RF TSBK stays the one `reset()` left and the TSBK is written all the
same. On a control channel site in duplex mode without channel identities,
from `mbfCnt = 0`, the first TSBK queued by `writeRF_ControlData(255, 0,
false)` has the opcode of a reset TSBK, neither IDEN_UP nor IDEN_UP_VU. -/
theorem writeRF_ControlData_sequence_counterexample :
    scenarioControl.p25.control = true ∧ scenarioControl.p25.duplex = true ∧
    scenarioControl.mbfCnt = 0 ∧ scenarioControl.p25.idenTable = [] ∧
    ((writeRF_ControlData (fun _ => {}) newestFirst scenarioControl 255 0 false).events.map
      (fun e => match e with
        | Event.writeQueueRF (Frame.mbf bl) => bl.map (fun t => t.map (fun b => b.lco))
        | _ => [])) =
      [[some LCO.TSBK_IOSP_GRP_VCH, some LCO.TSBK_OSP_RFSS_STS_BCAST,
        some LCO.TSBK_OSP_NET_STS_BCAST],
       [some LCO.TSBK_OSP_SNDCP_CH_ANN, some LCO.TSBK_OSP_MOT_CC_BSI,
        some LCO.TSBK_OSP_RFSS_STS_BCAST]] := by
  decide

/-- Claim C31, amended. `writeRF_ControlData(255, 0, adjSS)` on a control
channel site in duplex mode with at least one channel identity configured,
from `mbfCnt = 0`, queues exactly two triple frames, that is six TSBKs, in
this order: IDEN_UP or IDEN_UP_VU, RFSS_STS_BCAST, NET_STS_BCAST,
SNDCP_CH_ANN, then ADJ_STS_BCAST and MOT_CC_BSI when `adjSS` is set and the
adjacent site table is not empty, and otherwise MOT_CC_BSI and one TSBK of
padding (two were pending): an identity update when more than one identity
exists, RFSS_STS_BCAST if not. It ends with `mbfCnt = 0`. From `mbfCnt = 0`
one pending TSBK does not arise; the padding for one pending TSBK is shown on
the call that starts with two TSBKs staged and queues no adjacent site
broadcast: MOT_CC_BSI is then pending alone and RFSS_STS_BCAST and
NET_STS_BCAST are queued behind it, which completes the third triple frame.
The same padding holds from every state in duplex mode with one TSBK
staged. The order in which the adjacent site table is walked is a parameter. -/
theorem writeRF_ControlData_sequence (reset : TSBK → TSBK) (walk : AdjSiteWalk)
    (hw : AdjSiteWalk.Lawful walk) (s : TrunkPacket) (adjSS : Bool)
    (hc : s.p25.control = true) (hd : s.p25.duplex = true) (hi : s.p25.idenTable ≠ []) :
    (s.mbfCnt = 0 →
      ∃ t1 t2 t3 t4 t5 t6 : TSBK,
        (writeRF_ControlData reset walk s 255 0 adjSS).events = s.events ++
          [Event.writeQueueRF (Frame.mbf [some t1, some t2, some t3]),
           Event.writeQueueRF (Frame.mbf [some t4, some t5, some t6])] ∧
        (writeRF_ControlData reset walk s 255 0 adjSS).mbfCnt = 0 ∧
        (t1.lco = LCO.TSBK_OSP_IDEN_UP ∨ t1.lco = LCO.TSBK_OSP_IDEN_UP_VU) ∧
        t2.lco = LCO.TSBK_OSP_RFSS_STS_BCAST ∧ t3.lco = LCO.TSBK_OSP_NET_STS_BCAST ∧
        t4.lco = LCO.TSBK_OSP_SNDCP_CH_ANN ∧
        (if adjSS = true ∧ s.adjSiteTable ≠ [] then
          t5.lco = LCO.TSBK_OSP_ADJ_STS_BCAST ∧ t6.lco = LCO.TSBK_OSP_MOT_CC_BSI
        else
          t5.lco = LCO.TSBK_OSP_MOT_CC_BSI ∧
          (if s.p25.idenTable.length > 1 then
            t6.lco = LCO.TSBK_OSP_IDEN_UP ∨ t6.lco = LCO.TSBK_OSP_IDEN_UP_VU
          else t6.lco = LCO.TSBK_OSP_RFSS_STS_BCAST))) ∧
    (∀ p q : TSBK, s.mbfCnt = 2 → tblAt s.rfMBF 0 = some p → tblAt s.rfMBF 1 = some q →
      ¬ (adjSS = true ∧ s.adjSiteTable ≠ []) →
      ∃ t1 t2 t3 t4 t5 a b : TSBK,
        (writeRF_ControlData reset walk s 255 0 adjSS).events = s.events ++
          [Event.writeQueueRF (Frame.mbf [some p, some q, some t1]),
           Event.writeQueueRF (Frame.mbf [some t2, some t3, some t4]),
           Event.writeQueueRF (Frame.mbf [some t5, some a, some b])] ∧
        (writeRF_ControlData reset walk s 255 0 adjSS).mbfCnt = 0 ∧
        (t1.lco = LCO.TSBK_OSP_IDEN_UP ∨ t1.lco = LCO.TSBK_OSP_IDEN_UP_VU) ∧
        t2.lco = LCO.TSBK_OSP_RFSS_STS_BCAST ∧ t3.lco = LCO.TSBK_OSP_NET_STS_BCAST ∧
        t4.lco = LCO.TSBK_OSP_SNDCP_CH_ANN ∧ t5.lco = LCO.TSBK_OSP_MOT_CC_BSI ∧
        a.lco = LCO.TSBK_OSP_RFSS_STS_BCAST ∧ b.lco = LCO.TSBK_OSP_NET_STS_BCAST) ∧
    (∀ (r : TrunkPacket) (p : TSBK), r.p25.duplex = true → r.mbfCnt = 1 →
      tblAt r.rfMBF 0 = some p →
      ∃ a b : TSBK, a.lco = LCO.TSBK_OSP_RFSS_STS_BCAST ∧ b.lco = LCO.TSBK_OSP_NET_STS_BCAST ∧
        (controlDataPad reset walk r).events = r.events ++
          [Event.writeQueueRF (Frame.mbf [some p, some a, some b])] ∧
        (controlDataPad reset walk r).mbfCnt = 0) := by
  refine ⟨?_, ?_, ?_⟩
  · intro hm
    rw [writeRF_ControlData_all reset walk s adjSS hc]
    obtain ⟨t1, t2, t3, t4, e1, e2, e3, e4, S4⟩ := controlData_first_four reset walk s hd hm hi
    generalize queueRF_TSBK_Ctrl_MBF reset walk
      (resetRfTSBK reset (queueRF_TSBK_Ctrl_MBF reset walk
        (resetRfTSBK reset (queueRF_TSBK_Ctrl_MBF reset walk
          (resetRfTSBK reset (queueRF_TSBK_Ctrl_MBF reset walk (resetRfTSBK reset s)
            LCO.TSBK_OSP_IDEN_UP))
          LCO.TSBK_OSP_RFSS_STS_BCAST))
        LCO.TSBK_OSP_NET_STS_BCAST))
      LCO.TSBK_OSP_SNDCP_CH_ANN = s4 at S4 ⊢
    have S4' := staged_resetRfTSBK S4 reset
    by_cases hA : adjSS = true ∧ s.adjSiteTable ≠ []
    · obtain ⟨ha1, ha2⟩ := hA
      rw [if_pos ha1]
      obtain ⟨y5, hy5, hl5⟩ := ctrlTSBK_ADJ_staged walk hw S4' ha2
        (reset (s4.resetRfTSBK reset).rfTSBK)
      obtain ⟨t5, e5, S5⟩ := staged_queue1 reset walk LCO.TSBK_OSP_ADJ_STS_BCAST hd S4' hy5
      obtain ⟨t6, e6, S6⟩ := staged_queue2 reset walk LCO.TSBK_OSP_MOT_CC_BSI hd
        (staged_resetRfTSBK (staged_resetRfTSBK S5 reset) reset) rfl
      have S7 := controlDataPad_zero reset walk S6
      refine ⟨t1, t2, t3, t4, t5, t6, S7.2.2.1, S7.2.2.2.1, e1, e2, e3, e4, ?_⟩
      rw [if_pos ⟨ha1, ha2⟩]
      exact ⟨e5.trans hl5, e6⟩
    · have S5 : Staged s (if adjSS = true then
          queueRF_TSBK_Ctrl_MBF reset walk (resetRfTSBK reset s4) LCO.TSBK_OSP_ADJ_STS_BCAST
          else resetRfTSBK reset s4) [[t1, t2, t3]] [t4] := by
        by_cases ha1 : adjSS = true
        · rw [if_pos ha1]
          have ha2 : s.adjSiteTable = [] := by
            by_contra hne
            exact hA ⟨ha1, hne⟩
          exact staged_skip S4' (ctrlTSBK_ADJ_STS_BCAST_empty walk _ (S4'.2.1.trans ha2))
        · rw [if_neg ha1]
          exact S4'
      generalize (if adjSS = true then
          queueRF_TSBK_Ctrl_MBF reset walk (resetRfTSBK reset s4) LCO.TSBK_OSP_ADJ_STS_BCAST
          else resetRfTSBK reset s4) = s5 at S5 ⊢
      obtain ⟨t5, e5, S6⟩ := staged_queue1 reset walk LCO.TSBK_OSP_MOT_CC_BSI hd
        (staged_resetRfTSBK (staged_resetRfTSBK S5 reset) reset) rfl
      obtain ⟨t6, e6, S7⟩ := controlDataPad_two reset walk hd S6
      refine ⟨t1, t2, t3, t4, t5, t6, S7.2.2.1, S7.2.2.2.1, e1, e2, e3, e4, ?_⟩
      rw [if_neg hA]
      exact ⟨e5, e6⟩
  · intro p q hm hp hq hA
    have hS : Staged s s [] [p, q] := by
      refine ⟨rfl, rfl, by simp, hm, by simp [TSBK_MBF_CNT], ?_⟩
      show List.map _ (List.range 2) = _
      rw [show List.range 2 = [0, 1] from rfl]
      simp only [List.map, hp, hq]
    rw [writeRF_ControlData_all reset walk s adjSS hc]
    obtain ⟨t1, t2, t3, t4, e1, e2, e3, e4, S4⟩ :=
      controlData_first_four_staged reset walk s p q hd hS hi
    generalize queueRF_TSBK_Ctrl_MBF reset walk
      (resetRfTSBK reset (queueRF_TSBK_Ctrl_MBF reset walk
        (resetRfTSBK reset (queueRF_TSBK_Ctrl_MBF reset walk
          (resetRfTSBK reset (queueRF_TSBK_Ctrl_MBF reset walk (resetRfTSBK reset s)
            LCO.TSBK_OSP_IDEN_UP))
          LCO.TSBK_OSP_RFSS_STS_BCAST))
        LCO.TSBK_OSP_NET_STS_BCAST))
      LCO.TSBK_OSP_SNDCP_CH_ANN = s4 at S4 ⊢
    have S4' := staged_resetRfTSBK S4 reset
    have S5 : Staged s (if adjSS = true then
        queueRF_TSBK_Ctrl_MBF reset walk (resetRfTSBK reset s4) LCO.TSBK_OSP_ADJ_STS_BCAST
        else resetRfTSBK reset s4) [[p, q, t1], [t2, t3, t4]] [] := by
      by_cases ha1 : adjSS = true
      · rw [if_pos ha1]
        have ha2 : s.adjSiteTable = [] := by
          by_contra hne
          exact hA ⟨ha1, hne⟩
        exact staged_skip S4' (ctrlTSBK_ADJ_STS_BCAST_empty walk _ (S4'.2.1.trans ha2))
      · rw [if_neg ha1]
        exact S4'
    generalize (if adjSS = true then
        queueRF_TSBK_Ctrl_MBF reset walk (resetRfTSBK reset s4) LCO.TSBK_OSP_ADJ_STS_BCAST
        else resetRfTSBK reset s4) = s5 at S5 ⊢
    obtain ⟨t5, e5, S6⟩ := staged_queue0 reset walk LCO.TSBK_OSP_MOT_CC_BSI hd
      (staged_resetRfTSBK (staged_resetRfTSBK S5 reset) reset) rfl
    obtain ⟨a, b, ea, eb, S7⟩ := controlDataPad_one reset walk hd S6
    exact ⟨t1, t2, t3, t4, t5, a, b, S7.2.2.1, S7.2.2.2.1, e1, e2, e3, e4, e5, ea, eb⟩
  · intro r p hdr hmr hp
    have S : Staged r r [] [p] := by
      refine ⟨rfl, rfl, by simp, hmr, by simp [TSBK_MBF_CNT], ?_⟩
      show List.map _ (List.range 1) = _
      rw [show List.range 1 = [0] from rfl]
      simp only [List.map, hp]
    obtain ⟨a, b, ea, eb, S2⟩ := controlDataPad_one reset walk hdr S
    exact ⟨a, b, ea, eb, S2.2.2.1, S2.2.2.2.1⟩

/-- The amended claim C31 on the site with one channel identity and the
adjacent sites 2 and 3: the call queues the six broadcasts in two triple
frames and ends with `mbfCnt = 0`. -/
theorem writeRF_ControlData_sequence_witness :
    (writeRF_ControlData (fun _ => {}) newestFirst scenarioBroadcast 255 0 true).mbfCnt = 0 ∧
    ((writeRF_ControlData (fun _ => {}) newestFirst scenarioBroadcast 255 0 true).events.map
      (fun e => match e with
        | Event.writeQueueRF (Frame.mbf bl) => bl.map (fun t => t.map (fun b => b.lco))
        | _ => [])) =
      [[some LCO.TSBK_OSP_IDEN_UP, some LCO.TSBK_OSP_RFSS_STS_BCAST,
        some LCO.TSBK_OSP_NET_STS_BCAST],
       [some LCO.TSBK_OSP_SNDCP_CH_ANN, some LCO.TSBK_OSP_ADJ_STS_BCAST,
        some LCO.TSBK_OSP_MOT_CC_BSI]] := by
  obtain ⟨_, _, _, _, _, _, _, hm, _⟩ :=
    (writeRF_ControlData_sequence (fun _ => {}) newestFirst newestFirst_lawful
      scenarioBroadcast true rfl rfl (by decide)).1 rfl
  exact ⟨hm, by decide⟩

/-- A lawful walk of a table that is not empty has an entry under the
cursor. -/
theorem exists_get_walk (walk : AdjSiteWalk) (hw : AdjSiteWalk.Lawful walk)
    (T : List (Nat × SiteData)) (c : Nat) (h : T ≠ []) :
    ∃ e, (walk T).get? (cursorEntry T.length c) = some e := by
  have hl := (hw T).length_eq
  have hne : walk T ≠ [] := by
    intro h0
    rw [h0] at hl
    exact h (List.length_eq_zero.mp hl.symm)
  obtain ⟨e, he⟩ := exists_get_cursorEntry (walk T) c hne
  rw [hl] at he
  exact ⟨e, he⟩

/-- A call of `queueRF_TSBK_Ctrl_MBF` in duplex mode whose broadcast is
built places the RF TSBK it leaves into the multi-block buffer. -/
theorem placed_queueRF_TSBK_Ctrl_MBF (reset : TSBK → TSBK) (walk : AdjSiteWalk)
    (x y : TrunkPacket) (l : LCO) (hd : x.p25.duplex = true)
    (hy : (x.setRfTSBK (reset x.rfTSBK)).ctrlTSBK walk l = (true, y)) :
    Placed x (queueRF_TSBK_Ctrl_MBF reset walk x l) := by
  obtain ⟨f1, _, f3, f4, f5⟩ := ctrlTSBK_frame walk (x.setRfTSBK (reset x.rfTSBK)) l
  rw [hy] at f1 f3 f4 f5
  simp only [] at f1 f3 f4 f5
  unfold queueRF_TSBK_Ctrl_MBF
  simp only []
  rw [hy]
  simp only []
  generalize hz : y.setLastBlock true = z
  have z1 : z.p25.duplex = true := by
    rw [← hz]
    show y.p25.duplex = true
    rw [f1]
    exact hd
  have z3 : z.events = x.events := by rw [← hz]; exact f3
  have z4 : z.rfMBF = x.rfMBF := by rw [← hz]; exact f4
  have z5 : z.mbfCnt = x.mbfCnt := by rw [← hz]; exact f5
  constructor
  · intro hn
    obtain ⟨e1, e2, _, e4⟩ := writeRF_TSDU_MBF_flush z false z1 (by rw [z5]; exact hn)
    refine ⟨e4, ?_⟩
    rw [e2, e1, ← hn, ← z5, mbfBlocks_tblSet_succ, z3, z4]
    simp
  · intro hn
    obtain ⟨e1, e2, e3, _, e5⟩ := writeRF_TSDU_MBF_stage_facts z false z1 (by rw [z5]; exact hn)
    refine ⟨by rw [e3, z5], e2.trans z3, ?_⟩
    rw [e5, e1, ← z5]
    exact tblAt_tblSet_self _ _ _

/-- A walk by ascending key is the table sorted by key. -/
theorem keyOrder_eq_of_sorted (L t : List (Nat × SiteData)) (hp : L.Perm t)
    (hs : L.Pairwise (fun a b => a.1 < b.1)) : keyOrder t = L := by
  haveI : IsTotal (Nat × SiteData) (fun a b => a.1 ≤ b.1) := ⟨fun a b => Nat.le_total a.1 b.1⟩
  haveI : IsTrans (Nat × SiteData) (fun a b => a.1 ≤ b.1) :=
    ⟨fun _ _ _ h1 h2 => Nat.le_trans h1 h2⟩
  haveI : IsAntisymm (Nat × SiteData) (fun a b => a.1 < b.1) :=
    ⟨fun _ _ h1 h2 => absurd h1 (Nat.lt_asymm h2)⟩
  have hsorted : (keyOrder t).Pairwise (fun a b => a.1 ≤ b.1) :=
    List.sorted_insertionSort (fun a b : Nat × SiteData => a.1 ≤ b.1) t
  have hperm : (keyOrder t).Perm L := (List.perm_insertionSort _ t).trans hp.symm
  have hne : (keyOrder t).Pairwise (fun a b => a.1 ≠ b.1) :=
    (hperm.pairwise_iff (fun h => Ne.symm h)).mpr (hs.imp (fun h => Nat.ne_of_lt h))
  have hlt : (keyOrder t).Pairwise (fun a b => a.1 < b.1) :=
    (hsorted.and hne).imp (fun h => Nat.lt_of_le_of_ne h.1 h.2)
  exact List.eq_of_perm_of_sorted hperm hlt hs

theorem mbfRun_replicate_succ (s : TrunkPacket) (op : MbfOp) (n : Nat) :
    s.mbfRun (List.replicate (n + 1) op) = (s.mbfRun (List.replicate n op)).mbfStep op := by
  unfold mbfRun
  rw [List.replicate_succ', List.foldl_append]
  rfl

/-- The cursor after a broadcast stands on the next position of the round
robin, for a table of at most 256 entries. -/
theorem cursorEntry_next (k c j : Nat) (hk : 0 < k) (hk2 : k ≤ 256)
    (h : cursorEntry k c = j % k) :
    (cursorEntry k c + 1) % 256 ≤ k ∧
    cursorEntry k ((cursorEntry k c + 1) % 256) = (j + 1) % k := by
  have hm : j % k < k := Nat.mod_lt _ hk
  have h1 : (j + 1) % k = (j % k + 1) % k := (Nat.mod_add_mod j k 1).symm
  rw [h, h1]
  generalize j % k = m at hm
  rcases Nat.lt_or_ge (m + 1) k with hlt | hge
  · rw [Nat.mod_eq_of_lt hlt]
    unfold cursorEntry
    split_ifs <;> omega
  · have he : m + 1 = k := by omega
    rw [he, Nat.mod_self]
    unfold cursorEntry
    split_ifs <;> omega

/-- One adjacent site broadcast of `queueRF_TSBK_Ctrl_MBF`: the entry under
the cursor is broadcast, the cursor moves on and the table is as before. -/
theorem queueRF_ADJ_STS_BCAST_cursor (reset : TSBK → TSBK) (walk : AdjSiteWalk) (x : TrunkPacket) (key : Nat)
    (site : SiteData) (hw : AdjSiteWalk.Lawful walk)
    (hget : (walk x.adjSiteTable).get? (cursorEntry x.adjSiteTable.length x.mbfAdjSSCnt) =
      some (key, site)) :
    (queueRF_TSBK_Ctrl_MBF reset walk x LCO.TSBK_OSP_ADJ_STS_BCAST).mbfAdjSSCnt =
      (cursorEntry x.adjSiteTable.length x.mbfAdjSSCnt + 1) % 256 ∧
    (queueRF_TSBK_Ctrl_MBF reset walk x LCO.TSBK_OSP_ADJ_STS_BCAST).adjSiteTable = x.adjSiteTable ∧
    (queueRF_TSBK_Ctrl_MBF reset walk x LCO.TSBK_OSP_ADJ_STS_BCAST).rfTSBK.lco =
      LCO.TSBK_OSP_ADJ_STS_BCAST ∧
    (queueRF_TSBK_Ctrl_MBF reset walk x LCO.TSBK_OSP_ADJ_STS_BCAST).rfTSBK.adjSiteSysId =
      site.sysId ∧
    (queueRF_TSBK_Ctrl_MBF reset walk x LCO.TSBK_OSP_ADJ_STS_BCAST).rfTSBK.adjSiteRFSSId =
      site.rfssId ∧
    (queueRF_TSBK_Ctrl_MBF reset walk x LCO.TSBK_OSP_ADJ_STS_BCAST).rfTSBK.adjSiteId =
      site.siteId ∧
    (queueRF_TSBK_Ctrl_MBF reset walk x LCO.TSBK_OSP_ADJ_STS_BCAST).rfTSBK.adjSiteChnId =
      site.channelId ∧
    (queueRF_TSBK_Ctrl_MBF reset walk x LCO.TSBK_OSP_ADJ_STS_BCAST).rfTSBK.adjSiteChnNo =
      site.channelNo := by
  obtain ⟨y, hy, c1, c2, c3, c4, c5, c6, c7⟩ :=
    ctrlTSBK_ADJ_STS_BCAST walk (x.setRfTSBK (reset x.rfTSBK)) key site hw hget
  have hf := (ctrlTSBK_frame walk (x.setRfTSBK (reset x.rfTSBK)) LCO.TSBK_OSP_ADJ_STS_BCAST).2.1
  rw [hy] at hf
  simp only [adjSiteTable_setRfTSBK] at hf
  unfold queueRF_TSBK_Ctrl_MBF
  simp only []
  rw [hy]
  simp only []
  obtain ⟨_, w2, _, w4, _⟩ := writeRF_TSDU_MBF_frame (y.setLastBlock true) false
  obtain ⟨b, hb⟩ := rfTSBK_writeRF_TSDU_MBF (y.setLastBlock true) false
  rw [hb, w2, w4]
  exact ⟨c1, hf, c2, c3, c4, c5, c6, c7⟩

/-- One identity update of `queueRF_TSBK_Ctrl_MBF`: the entry under the
cursor is broadcast, the cursor moves on and the owning control is as
before. -/
theorem queueRF_IDEN_UP_cursor (reset : TSBK → TSBK) (walk : AdjSiteWalk) (x : TrunkPacket) (e : IdenTable)
    (hget : x.p25.idenTable.get? (cursorEntry x.p25.idenTable.length x.mbfIdenCnt) = some e) :
    (queueRF_TSBK_Ctrl_MBF reset walk x LCO.TSBK_OSP_IDEN_UP).mbfIdenCnt =
      (cursorEntry x.p25.idenTable.length x.mbfIdenCnt + 1) % 256 ∧
    (queueRF_TSBK_Ctrl_MBF reset walk x LCO.TSBK_OSP_IDEN_UP).p25 = x.p25 ∧
    (queueRF_TSBK_Ctrl_MBF reset walk x LCO.TSBK_OSP_IDEN_UP).rfTSBK.siteIdenEntry = e ∧
    ((queueRF_TSBK_Ctrl_MBF reset walk x LCO.TSBK_OSP_IDEN_UP).rfTSBK.lco = LCO.TSBK_OSP_IDEN_UP ∨
      (queueRF_TSBK_Ctrl_MBF reset walk x LCO.TSBK_OSP_IDEN_UP).rfTSBK.lco =
        LCO.TSBK_OSP_IDEN_UP_VU) := by
  obtain ⟨y, hy, c1, c2⟩ := ctrlTSBK_IDEN_UP walk (x.setRfTSBK (reset x.rfTSBK)) e hget
  have hf := (ctrlTSBK_frame walk (x.setRfTSBK (reset x.rfTSBK)) LCO.TSBK_OSP_IDEN_UP).1
  rw [hy] at hf
  unfold queueRF_TSBK_Ctrl_MBF
  simp only []
  rw [hy]
  simp only []
  obtain ⟨w1, _, w3, _, _⟩ := writeRF_TSDU_MBF_frame (y.setLastBlock true) false
  obtain ⟨b, hb⟩ := rfTSBK_writeRF_TSDU_MBF (y.setLastBlock true) false
  rw [hb, w1, w3]
  refine ⟨c1, hf, ?_, ?_⟩
  · show y.rfTSBK.siteIdenEntry = e
    rw [c2]
  · show y.rfTSBK.lco = _ ∨ y.rfTSBK.lco = _
    rw [c2]
    by_cases hfq : e.baseFrequency ≥ 762000000
    · left; exact if_pos hfq
    · right; exact if_neg hfq

/-- The adjacent site cursor after `n` consecutive broadcasts from cursor
zero. -/
theorem adj_round_robin_inv (reset : TSBK → TSBK) (walk : AdjSiteWalk)
    (hw : AdjSiteWalk.Lawful walk) (s : TrunkPacket)
    (hne : s.adjSiteTable ≠ []) (hk2 : s.adjSiteTable.length ≤ 256) (hc : s.mbfAdjSSCnt = 0)
    (n : Nat) :
    (s.mbfRun (List.replicate n (MbfOp.ctrl reset walk LCO.TSBK_OSP_ADJ_STS_BCAST))).adjSiteTable =
      s.adjSiteTable ∧
    cursorEntry s.adjSiteTable.length
      (s.mbfRun (List.replicate n
        (MbfOp.ctrl reset walk LCO.TSBK_OSP_ADJ_STS_BCAST))).mbfAdjSSCnt =
      n % s.adjSiteTable.length := by
  have hk : 0 < s.adjSiteTable.length := List.length_pos.mpr hne
  induction n with
  | zero =>
    refine ⟨rfl, ?_⟩
    show cursorEntry _ s.mbfAdjSSCnt = _
    rw [hc, Nat.zero_mod]
    unfold cursorEntry
    rw [if_neg (by omega)]
  | succ n ih =>
    obtain ⟨i1, i2⟩ := ih
    rw [mbfRun_replicate_succ]
    generalize s.mbfRun (List.replicate n (MbfOp.ctrl reset walk LCO.TSBK_OSP_ADJ_STS_BCAST)) = r
      at i1 i2 ⊢
    show (queueRF_TSBK_Ctrl_MBF reset walk r _).adjSiteTable = _ ∧
      cursorEntry _ (queueRF_TSBK_Ctrl_MBF reset walk r _).mbfAdjSSCnt = _
    obtain ⟨⟨key, site⟩, he⟩ := exists_get_walk walk hw r.adjSiteTable r.mbfAdjSSCnt
      (by rw [i1]; exact hne)
    obtain ⟨q1, q2, _⟩ := queueRF_ADJ_STS_BCAST_cursor reset walk r key site hw he
    rw [q1, q2, i1]
    exact ⟨rfl, (cursorEntry_next _ _ n hk hk2 i2).2⟩

/-- The identity cursor after `n` consecutive identity updates from cursor
zero. -/
theorem iden_round_robin_inv (reset : TSBK → TSBK) (walk : AdjSiteWalk) (s : TrunkPacket)
    (hne : s.p25.idenTable ≠ []) (hk2 : s.p25.idenTable.length ≤ 256) (hc : s.mbfIdenCnt = 0)
    (n : Nat) :
    (s.mbfRun (List.replicate n (MbfOp.ctrl reset walk LCO.TSBK_OSP_IDEN_UP))).p25 = s.p25 ∧
    cursorEntry s.p25.idenTable.length
      (s.mbfRun (List.replicate n (MbfOp.ctrl reset walk LCO.TSBK_OSP_IDEN_UP))).mbfIdenCnt =
      n % s.p25.idenTable.length := by
  have hk : 0 < s.p25.idenTable.length := List.length_pos.mpr hne
  induction n with
  | zero =>
    refine ⟨rfl, ?_⟩
    show cursorEntry _ s.mbfIdenCnt = _
    rw [hc, Nat.zero_mod]
    unfold cursorEntry
    rw [if_neg (by omega)]
  | succ n ih =>
    obtain ⟨i1, i2⟩ := ih
    rw [mbfRun_replicate_succ]
    generalize s.mbfRun (List.replicate n (MbfOp.ctrl reset walk LCO.TSBK_OSP_IDEN_UP)) = r
      at i1 i2 ⊢
    show (queueRF_TSBK_Ctrl_MBF reset walk r _).p25 = _ ∧
      cursorEntry _ (queueRF_TSBK_Ctrl_MBF reset walk r _).mbfIdenCnt = _
    obtain ⟨e, he⟩ := exists_get_cursorEntry r.p25.idenTable r.mbfIdenCnt
      (by rw [i1]; exact hne)
    obtain ⟨q1, q2, _⟩ := queueRF_IDEN_UP_cursor reset walk r e he
    rw [q1, q2, i1]
    exact ⟨rfl, (cursorEntry_next _ _ n hk hk2 i2).2⟩

end TrunkPacket
/-- The values read round robin from position `j` of a list, once around,
are the list rotated by `j`. -/
theorem map_range_round_robin {α β : Type} (T : List α) (g : α → β) (f : Nat → β) (j : Nat)
    (hf : ∀ i, (T.get? ((j + i) % T.length)).map g = some (f i)) :
    (List.range T.length).map f = (T.rotate j).map g := by
  simp only [List.get?_eq_getElem?] at hf
  apply List.ext_getElem?
  intro n
  rw [List.getElem?_map, List.getElem?_map]
  by_cases hn : n < T.length
  · rw [List.getElem?_rotate hn, Nat.add_comm n j, hf n, List.getElem?_range hn]
    rfl
  · have h1 : (List.range T.length)[n]? = none :=
      List.getElem?_eq_none (by rw [List.length_range]; omega)
    have h2 : (T.rotate j)[n]? = none :=
      List.getElem?_eq_none (by rw [List.length_rotate]; omega)
    rw [h1, h2]
    rfl

namespace TrunkPacket

theorem p25_queueRF_TSBK_Ctrl_MBF (reset : TSBK → TSBK) (walk : AdjSiteWalk) (x : TrunkPacket)
    (l : LCO) : (queueRF_TSBK_Ctrl_MBF reset walk x l).p25 = x.p25 := by
  have hf := (ctrlTSBK_frame walk (x.setRfTSBK (reset x.rfTSBK)) l).1
  unfold queueRF_TSBK_Ctrl_MBF
  simp only []
  rcases h : (x.setRfTSBK (reset x.rfTSBK)).ctrlTSBK walk l with ⟨b, y⟩
  rw [h] at hf
  cases b
  · exact hf
  · simp only []
    rw [(writeRF_TSDU_MBF_frame _ false).1]
    exact hf

theorem p25_ctrl_calls (reset : TSBK → TSBK) (walk : AdjSiteWalk) (s : TrunkPacket) (l : LCO)
    (n : Nat) : (s.mbfRun (List.replicate n (MbfOp.ctrl reset walk l))).p25 = s.p25 := by
  induction n with
  | zero => rfl
  | succ n ih =>
    rw [mbfRun_replicate_succ]
    exact (p25_queueRF_TSBK_Ctrl_MBF reset walk _ l).trans ih

end TrunkPacket

end p25
